import Mathlib

/- A verification development for the denodev/typedoc repository: the two
   declaration files (the bilingual annotated source and the published
   Chinese-only file) and the README are embedded line by line, and the
   structural and textual properties of the repository are stated and proved
   over decidable scanners written against that embedding. -/

set_option maxRecDepth 100000
set_option maxHeartbeats 4000000

def bilingualLinesC0 : List String := [
  "// Copyright 2018-2020 the Deno authors. All rights reserved. MIT license.",
  "",
  "/// <reference no-default-lib=\"true\" />",
  "/// <reference lib=\"esnext\" />",
  "",
  "declare namespace Deno \x7b",
  "  /** The current process id of the runtime.",
  "   * @i18n 当前正在运行的进程 ID。 */",
  "  export let pid: number;",
  "",
  "  /** Reflects the \x60NO_COLOR\x60 environment variable.",
  "   * @i18n 显示环境变量 \x60NO_COLOR\x60 的值。",
  "   *",
  "   * See: https://no-color.org/",
  "   * @i18n 参见：https://no-color.org/*/",
  "  export let noColor: boolean;",
  "",
  "  export interface TestDefinition \x7b",
  "    fn: () => void | Promise<void>;",
  "    name: string;",
  "    ignore?: boolean;",
  "    disableOpSanitizer?: boolean;",
  "    disableResourceSanitizer?: boolean;",
  "  \x7d",
  "",
  "  /** Register a test which will be run when \x60deno test\x60 is used on the command",
  "   * line and the containing module looks like a test module, or explicitly",
  "   * when \x60Deno.runTests\x60 is used.  \x60fn\x60 can be async if required.",
  "   *",
  "   * @i18n 注册一个测试，它将在命令行执行 \x60deno test\x60 操作并且包含的模块看起来像一个测试模块时运行，",
  "   * 或者在使用 \x60Deno.runTests\x60 时显式运行。如果需要， \x60fn\x60 可以是异步的。",
  "   *",
  "   *          import \x7bassert, fail, assertEquals\x7d from \"https://deno.land/std/testing/asserts.ts\";",
  "   *",
  "   *          Deno.test(\x7b",
  "   *            name: \"example test\",",
  "   *            fn(): void \x7b",
  "   *              assertEquals(\"world\", \"world\");",
  "   *            \x7d,",
  "   *          \x7d);",
  "   *",
  "   *          Deno.test(\x7b",
  "   *            name: \"example ignored test\",",
  "   *            ignore: Deno.build.os === \"win\"",
  "   *            fn(): void \x7b",
  "   *              // 仅在 Windows 机器上忽略这个测试。",
  "   *            \x7d,",
  "   *          \x7d);",
  "   *",
  "   *          Deno.test(\x7b",
  "   *            name: \"example async test\",",
  "   *            async fn() \x7b",
  "   *              const decoder = new TextDecoder(\"utf-8\");",
  "   *              const data = await Deno.readFile(\"hello_world.txt\");",
  "   *              assertEquals(decoder.decode(data), \"Hello world\")",
  "   *            \x7d",
  "   *          \x7d);",
  "   */",
  "  export function test(t: TestDefinition): void;",
  "",
  "  /** Register a test which will be run when \x60deno test\x60 is used on the command",
  "   * line and the containing module looks like a test module, or explicitly",
  "   * when \x60Deno.runTests\x60 is used",
  "   *",
  "   * @i18n 注册一个测试，它将在命令行执行 \x60deno test\x60 操作并且包含的模块看起来像一个测试模块时运行，",
  "   * 或者在使用 \x60Deno.runTests\x60 时显式运行。",
  "   *",
  "   *        import \x7bassert, fail, assertEquals\x7d from \"https://deno.land/std/testing/asserts.ts\";",
  "   *",
  "   *        Deno.test(function myTestFunction():void \x7b",
  "   *          assertEquals(\"hello\", \"hello\");",
  "   *        \x7d);",
  "   *",
  "   *        Deno.test(async function myAsyncTestFunction():Promise<void> \x7b",
  "   *          const decoder = new TextDecoder(\"utf-8\");",
  "   *          const data = await Deno.readFile(\"hello_world.txt\");",
  "   *          assertEquals(decoder.decode(data), \"Hello world\")",
  "   *        \x7d);",
  "   **/",
  "  export function test(fn: () => void | Promise<void>): void;",
  "",
  "  /** Register a test which will be run when \x60deno test\x60 is used on the command",
  "   * line and the containing module looks like a test module, or explicitly",
  "   * when \x60Deno.runTests\x60 is used",
  "   *",
  "   * @i18n 注册一个测试，它将在命令行执行 \x60deno test\x60 操作并且包含的模块看起来像一个测试模块时运行，",
  "   * 或者在使用 \x60Deno.runTests\x60 时显式运行。",
  "   *",
  "   *        import \x7bassert, fail, assertEquals\x7d from \"https://deno.land/std/testing/asserts.ts\";",
  "   *",
  "   *        Deno.test(\"My test description\", ():void => \x7b",
  "   *          assertEquals(\"hello\", \"hello\");",
  "   *        \x7d);",
  "   *",
  "   *        Deno.test(\"My async test description\", async ():Promise<void> => \x7b",
  "   *          const decoder = new TextDecoder(\"utf-8\");",
  "   *          const data = await Deno.readFile(\"hello_world.txt\");",
  "   *          assertEquals(decoder.decode(data), \"Hello world\")",
  "   *        \x7d);",
  "   * */",
  "  export function test(name: string, fn: () => void | Promise<void>): void;",
  "",
  "  export interface TestMessage \x7b",
  "    start?: \x7b",
  "      tests: TestDefinition[];",
  "    \x7d;",
  "    testStart?: \x7b",
  "      [P in keyof TestDefinition]: TestDefinition[P];",
  "    \x7d;",
  "    testEnd?: \x7b",
  "      name: string;",
  "      status: \"passed\" | \"failed\" | \"ignored\";",
  "      duration: number;",
  "      error?: Error;",
  "    \x7d;",
  "    end?: \x7b",
  "      filtered: number;",
  "      ignored: number;",
  "      measured: number;",
  "      passed: number;",
  "      failed: number;",
  "      duration: number;",
  "      results: Array<TestMessage[\"testEnd\"] & \x7b\x7d>;",
  "    \x7d;",
  "  \x7d",
  "",
  "  export interface RunTestsOptions \x7b",
  "    /** If \x60true\x60, Deno will exit with status code 1 if there was",
  "     * test failure. Defaults to \x60true\x60.",
  "     * @i18n 如果为 \x60true\x60，当测试失败时 Deno 将以状态码 1 退出。默认为 \x60true\x60。*/",
  "    exitOnFail?: boolean;",
  "    /** If \x60true\x60, Deno will exit upon first test failure. Defaults to \x60false\x60.",
  "     * @i18n 如果为 \x60true\x60，Deno 将在第一次测试失败后退出。默认值为 \x60false\x60。*/",
  "    failFast?: boolean;",
  "    /** String or RegExp used to filter test to run. Only test with names",
  "     * matching provided \x60String\x60 or \x60RegExp\x60 will be run.",
  "     * @i18n 用于筛选要运行的测试的字符串或正则表达式。只有当测试名称与提供的 \x60String\x60 或 \x60RegExp\x60 相匹配时才会运行。*/",
  "    filter?: string | RegExp;",
  "    /** String or RegExp used to skip tests to run. Tests with names",
  "     * matching provided \x60String\x60 or \x60RegExp\x60 will not be run.",
  "     * @i18n 用于跳过要运行的测试的字符串或正则表达式。当测试名称与提供的 \x60String\x60 或 \x60RegExp\x60 相匹配时将不会运行。*/",
  "    skip?: string | RegExp;",
  "    /** Disable logging of the results. Defaults to \x60false\x60.",
  "     * @i18n 禁用记录结果. 默认值为 \x60false\x60。*/",
  "    disableLog?: boolean;",
  "    /** If true, report results to the console as is done for \x60deno test\x60. Defaults to \x60true\x60.",
  "     * @i18n 如果为 \x60true\x60，将 \x60deno test\x60 完成的结果输出到控制台。默认值为 \x60true\x60。*/",
  "    reportToConsole?: boolean;",
  "    /** Called for each message received from the test run.",
  "     * @i18n 回调从测试运行收到的每个消息。*/",
  "    onMessage?: (message: TestMessage) => void | Promise<void>;",
  "  \x7d",
  "",
  "  /** Run any tests which have been registered via \x60Deno.test()\x60. Always resolves",
  "   * asynchronously.",
  "   *",
  "   * @i18n 运行所有通过 \x60Deno.test()\x60 注册的测试。始终异步 resolve。",
  "   *",
  "   *        // 注册一个测试。",
  "   *        Deno.test(\x7b",
  "   *          name: \"example test\",",
  "   *          fn(): void \x7b",
  "   *            assertEquals(\"world\", \"world\");",
  "   *            assertEquals(\x7b hello: \"world\" \x7d, \x7b hello: \"world\" \x7d);",
  "   *          \x7d,",
  "   *        \x7d);",
  "   *",
  "   *        // 运行所有已经注册过的测试。",
  "   *        const runInfo = await Deno.runTests();",
  "   *        console.log(runInfo.duration);  // all tests duration, e.g. \"5\" (in ms)",
  "   *        console.log(runInfo.stats.passed);  //e.g. 1",
  "   *        console.log(runInfo.results[0].name);  //e.g. \"example test\"",
  "   */",
  "  export function runTests(",
  "    opts?: RunTestsOptions",
  "  ): Promise<TestMessage[\"end\"]> & \x7b\x7d;",
  "",
  "  /** Returns an array containing the 1, 5, and 15 minute load averages. The",
  "   * load average is a measure of CPU and IO utilization of the last one, five,",
  "   * and 15 minute periods expressed as a fractional number.  Zero means there",
  "   * is no load. On Windows, the three values are always the same and represent",
  "   * the current load, not the 1, 5 and 15 minute load averages.",
  "   *",
  "   * @i18n 返回 1 分钟、5 分钟和 15 分钟平均负载的数组。",
  "   * 平均负载是对最后 1 分钟、5 分钟和 15 分钟的 CPU 以及 IO 利用率的度量，以分数表示。",
  "   * \x600\x60 表示没有负载。",
  "   * 在 Windows 上，这 3 个值始终相同，代表当前负载，而不是 1 分钟、5 分钟和 15 分钟的平均负载。",
  "   *",
  "   *       console.log(Deno.loadavg());  //e.g. [ 0.71, 0.44, 0.44 ]",
  "   *",
  "   * Requires \x60allow-env\x60 permission.",
  "   * @i18n 需要 \x60allow-env\x60 权限。",
  "   */",
  "  export function loadavg(): number[];",
  "",
  "  /** Get the \x60hostname\x60 of the machine the Deno process is running on.",
  "   * @i18n 获取 Deno 进程所在的计算机主机名(\x60hostname\x60)。",
  "   *",
  "   *       console.log(Deno.hostname());",
  "   *",
  "   *  Requires \x60allow-env\x60 permission.",
  "   * @i18n 需要 \x60allow-env\x60 权限。",
  "   */"
]

def bilingualLinesC1 : List String := [
  "  export function hostname(): string;",
  "",
  "  /** Returns the release version of the Operating System.",
  "   * @i18n 返回操作系统的发行版本。",
  "   *",
  "   *       console.log(Deno.osRelease());",
  "   *",
  "   * Requires \x60allow-env\x60 permission.",
  "   * @i18n 需要 \x60allow-env\x60 权限。",
  "   */",
  "  export function osRelease(): string;",
  "",
  "  /** Exit the Deno process with optional exit code. If no exit code is supplied",
  "   * then Deno will exit with return code of 0.",
  "   * @i18n 退出 Deno 进程，可以指定退出码，若无则为 0。",
  "   *",
  "   *       Deno.exit(5);",
  "   */",
  "  export function exit(code?: number): never;",
  "",
  "  /** Returns a snapshot of the environment variables at invocation. Changing a",
  "   * property in the object will set that variable in the environment for the",
  "   * process. The environment object will only accept \x60string\x60s as values.",
  "   * @i18n 返回调用时环境变量的快照。如果更改环境变量对象的属性，则会在进程的环境中设置该属性。",
  "   * 环境变量对象只接受 \x60string\x60 类型的值。",
  "   *",
  "   *       const myEnv = Deno.env();",
  "   *       console.log(myEnv.SHELL);",
  "   *       myEnv.TEST_VAR = \"HELLO\";",
  "   *       const newEnv = Deno.env();",
  "   *       console.log(myEnv.TEST_VAR === newEnv.TEST_VAR);  //outputs \"true\"",
  "   *",
  "   * Requires \x60allow-env\x60 permission.",
  "   * @i18n 需要 \x60allow-env\x60 权限。*/",
  "  export function env(): \x7b",
  "    [index: string]: string;",
  "  \x7d;",
  "",
  "  /** Retrieve the value of an environment variable. Returns undefined if that",
  "   * key doesn\x27t exist.",
  "   * @i18n 获取环境变量的值。如果 \x60key\x60 不存在，则返回 \x60undefined\x60。",
  "   *",
  "   *       console.log(Deno.env(\"HOME\"));  //e.g. outputs \"/home/alice\"",
  "   *       console.log(Deno.env(\"MADE_UP_VAR\"));  //outputs \"Undefined\"",
  "   *",
  "   * Requires \x60allow-env\x60 permission.",
  "   * @i18n 需要 \x60allow-env\x60 权限。*/",
  "  export function env(key: string): string | undefined;",
  "",
  "  /** **UNSTABLE** */",
  "  export type DirKind =",
  "    | \"home\"",
  "    | \"cache\"",
  "    | \"config\"",
  "    | \"executable\"",
  "    | \"data\"",
  "    | \"data_local\"",
  "    | \"audio\"",
  "    | \"desktop\"",
  "    | \"document\"",
  "    | \"download\"",
  "    | \"font\"",
  "    | \"picture\"",
  "    | \"public\"",
  "    | \"template\"",
  "    | \"tmp\"",
  "    | \"video\";",
  "",
  "  /**",
  "   * **UNSTABLE**: Currently under evaluation to decide if method name \x60dir\x60 and",
  "   * parameter type alias name \x60DirKind\x60 should be renamed.",
  "   * @i18n **不稳定**: 当前正在评估中，以确定是否应重命名方法名 \x60dir\x60 和参数类型 \x60DirKind\x60。",
  "   *",
  "   * Returns the user and platform specific directories.",
  "   * @i18n 返回特定于用户和平台的目录。",
  "   *",
  "   *       const homeDirectory = Deno.dir(\"home\");",
  "   *",
  "   * Requires \x60allow-env\x60 permission.",
  "   * @i18n 需要 \x60allow-env\x60 权限。",
  "   *",
  "   * Returns \x60null\x60 if there is no applicable directory or if any other error",
  "   * occurs.",
  "   * @i18n 如果没有适用的目录或发生任何其他错误，则返回 \x60null\x60。",
  "   *",
  "   * Argument values: \x60\"home\"\x60, \x60\"cache\"\x60, \x60\"config\"\x60, \x60\"executable\"\x60, \x60\"data\"\x60,",
  "   * \x60\"data_local\"\x60, \x60\"audio\"\x60, \x60\"desktop\"\x60, \x60\"document\"\x60, \x60\"download\"\x60,",
  "   * \x60\"font\"\x60, \x60\"picture\"\x60, \x60\"public\"\x60, \x60\"template\"\x60, \x60\"tmp\"\x60, \x60\"video\"\x60",
  "   * @i18n 参数值包含：\x60\"home\"\x60, \x60\"cache\"\x60, \x60\"config\"\x60, \x60\"executable\"\x60, \x60\"data\"\x60,",
  "   * \x60\"data_local\"\x60, \x60\"audio\"\x60, \x60\"desktop\"\x60, \x60\"document\"\x60, \x60\"download\"\x60,",
  "   * \x60\"font\"\x60, \x60\"picture\"\x60, \x60\"public\"\x60, \x60\"template\"\x60, \x60\"tmp\"\x60, \x60\"video\"\x60",
  "   *",
  "   * \x60\"home\"\x60",
  "   *",
  "   * |平台      | 值                                       | 示例                    |",
  "   * | ------- | -----------------------------------------| -----------------------|",
  "   * | Linux   | \x60$HOME\x60                                  | /home/alice            |",
  "   * | macOS   | \x60$HOME\x60                                  | /Users/alice           |",
  "   * | Windows | \x60\x7bFOLDERID_Profile\x7d\x60                     | C:\\Users\\Alice         |",
  "   *",
  "   * \x60\"cache\"\x60",
  "   *",
  "   * |平台      | 值                                  | 示例                          |",
  "   * | ------- | ----------------------------------- | ---------------------------- |",
  "   * | Linux   | \x60$XDG_CACHE_HOME\x60 or \x60$HOME\x60/.cache | /home/alice/.cache           |",
  "   * | macOS   | \x60$HOME\x60/Library/Caches              | /Users/Alice/Library/Caches  |",
  "   * | Windows | \x60\x7bFOLDERID_LocalAppData\x7d\x60           | C:\\Users\\Alice\\AppData\\Local |",
  "   *",
  "   * \x60\"config\"\x60",
  "   *",
  "   * |平台      | 值                                    | 示例                              |",
  "   * | ------- | ------------------------------------- | -------------------------------- |",
  "   * | Linux   | \x60$XDG_CONFIG_HOME\x60 or \x60$HOME\x60/.config | /home/alice/.config              |",
  "   * | macOS   | \x60$HOME\x60/Library/Preferences           | /Users/Alice/Library/Preferences |",
  "   * | Windows | \x60\x7bFOLDERID_RoamingAppData\x7d\x60           | C:\\Users\\Alice\\AppData\\Roaming   |",
  "   *",
  "   * \x60\"executable\"\x60",
  "   *",
  "   * |平台      | 值                                                              | 示例                    |",
  "   * | ------- | --------------------------------------------------------------- | -----------------------|",
  "   * | Linux   | \x60XDG_BIN_HOME\x60 or \x60$XDG_DATA_HOME\x60/../bin or \x60$HOME\x60/.local/bin | /home/alice/.local/bin |",
  "   * | macOS   | -                                                               | -                      |",
  "   * | Windows | -                                                               | -                      |",
  "   *",
  "   * \x60\"data\"\x60",
  "   *",
  "   * |平台      | 值                                       | 示例                                      |",
  "   * | ------- | ---------------------------------------- | ---------------------------------------- |",
  "   * | Linux   | \x60$XDG_DATA_HOME\x60 or \x60$HOME\x60/.local/share | /home/alice/.local/share                 |",
  "   * | macOS   | \x60$HOME\x60/Library/Application Support      | /Users/Alice/Library/Application Support |",
  "   * | Windows | \x60\x7bFOLDERID_RoamingAppData\x7d\x60              | C:\\Users\\Alice\\AppData\\Roaming           |",
  "   *",
  "   * \x60\"data_local\"\x60",
  "   *",
  "   * |平台      | 值                                       | 示例                                      |",
  "   * | ------- | ---------------------------------------- | ---------------------------------------- |",
  "   * | Linux   | \x60$XDG_DATA_HOME\x60 or \x60$HOME\x60/.local/share | /home/alice/.local/share                 |",
  "   * | macOS   | \x60$HOME\x60/Library/Application Support      | /Users/Alice/Library/Application Support |",
  "   * | Windows | \x60\x7bFOLDERID_LocalAppData\x7d\x60                | C:\\Users\\Alice\\AppData\\Local             |",
  "   *",
  "   * \x60\"audio\"\x60",
  "   *",
  "   * |平台      | 值                 | 示例                  |",
  "   * | ------- | ------------------ | -------------------- |",
  "   * | Linux   | \x60XDG_MUSIC_DIR\x60    | /home/alice/Music    |",
  "   * | macOS   | \x60$HOME\x60/Music      | /Users/Alice/Music   |",
  "   * | Windows | \x60\x7bFOLDERID_Music\x7d\x60 | C:\\Users\\Alice\\Music |",
  "   *",
  "   * \x60\"desktop\"\x60",
  "   *",
  "   * |平台      | 值                   | 示例                    |",
  "   * | ------- | -------------------- | ---------------------- |",
  "   * | Linux   | \x60XDG_DESKTOP_DIR\x60    | /home/alice/Desktop    |",
  "   * | macOS   | \x60$HOME\x60/Desktop      | /Users/Alice/Desktop   |",
  "   * | Windows | \x60\x7bFOLDERID_Desktop\x7d\x60 | C:\\Users\\Alice\\Desktop |",
  "   *",
  "   * \x60\"document\"\x60",
  "   *",
  "   * |平台      | 值                     | 示例                      |",
  "   * | ------- | ---------------------- | ------------------------ |",
  "   * | Linux   | \x60XDG_DOCUMENTS_DIR\x60    | /home/alice/Documents    |",
  "   * | macOS   | \x60$HOME\x60/Documents      | /Users/Alice/Documents   |",
  "   * | Windows | \x60\x7bFOLDERID_Documents\x7d\x60 | C:\\Users\\Alice\\Documents |",
  "   *",
  "   * \x60\"download\"\x60",
  "   *",
  "   * |平台      | 值                     | 示例                      |",
  "   * | ------- | ---------------------- | ------------------------ |",
  "   * | Linux   | \x60XDG_DOWNLOAD_DIR\x60     | /home/alice/Downloads    |",
  "   * | macOS   | \x60$HOME\x60/Downloads      | /Users/Alice/Downloads   |",
  "   * | Windows | \x60\x7bFOLDERID_Downloads\x7d\x60 | C:\\Users\\Alice\\Downloads |",
  "   *",
  "   * \x60\"font\"\x60",
  "   *",
  "   * |平台      | 值                                                   | 示例                           |",
  "   * | ------- | ---------------------------------------------------- | ------------------------------ |",
  "   * | Linux   | \x60$XDG_DATA_HOME\x60/fonts or \x60$HOME\x60/.local/share/fonts | /home/alice/.local/share/fonts |",
  "   * | macOS   | \x60$HOME/Library/Fonts\x60                                | /Users/Alice/Library/Fonts     |",
  "   * | Windows | –                                                    | –                              |",
  "   *",
  "   * \x60\"picture\"\x60",
  "   *",
  "   * |平台      | 值                    | 示例                     |",
  "   * | ------- | --------------------- | ----------------------- |",
  "   * | Linux   | \x60XDG_PICTURES_DIR\x60    | /home/alice/Pictures    |",
  "   * | macOS   | \x60$HOME\x60/Pictures      | /Users/Alice/Pictures   |",
  "   * | Windows | \x60\x7bFOLDERID_Pictures\x7d\x60 | C:\\Users\\Alice\\Pictures |",
  "   *",
  "   * \x60\"public\"\x60",
  "   *",
  "   * |平台      | 值                    | 示例                 |",
  "   * | ------- | --------------------- | ------------------- |",
  "   * | Linux   | \x60XDG_PUBLICSHARE_DIR\x60 | /home/alice/Public  |",
  "   * | macOS   | \x60$HOME\x60/Public        | /Users/Alice/Public |",
  "   * | Windows | \x60\x7bFOLDERID_Public\x7d\x60   | C:\\Users\\Public     |",
  "   *",
  "   * \x60\"template\"\x60",
  "   *",
  "   * |平台      | 值                     | 示例                                                       |",
  "   * | ------- | ---------------------- | ---------------------------------------------------------- |",
  "   * | Linux   | \x60XDG_TEMPLATES_DIR\x60    | /home/alice/Templates                                      |",
  "   * | macOS   | –                      | –                                                          |",
  "   * | Windows | \x60\x7bFOLDERID_Templates\x7d\x60 | C:\\Users\\Alice\\AppData\\Roaming\\Microsoft\\Windows\\Templates |",
  "   *",
  "   * \x60\"tmp\"\x60",
  "   *",
  "   * |平台      | 值                     | 示例                                                        |",
  "   * | ------- | ---------------------- | ---------------------------------------------------------- |",
  "   * | Linux   | \x60TMPDIR\x60               | /tmp                                                       |",
  "   * | macOS   | \x60TMPDIR\x60               | /tmp                                                       |",
  "   * | Windows | \x60\x7bTMP\x7d\x60                | C:\\Users\\Alice\\AppData\\Local\\Temp                          |",
  "   *",
  "   * \x60\"video\"\x60",
  "   *",
  "   * |平台      | 值                  | 示例                   |",
  "   * | ------- | ------------------- | --------------------- |",
  "   * | Linux   | \x60XDG_VIDEOS_DIR\x60    | /home/alice/Videos    |",
  "   * | macOS   | \x60$HOME\x60/Movies      | /Users/Alice/Movies   |",
  "   * | Windows | \x60\x7bFOLDERID_Videos\x7d\x60 | C:\\Users\\Alice\\Videos |",
  "   *",
  "   */"
]

def bilingualLinesC2 : List String := [
  "  export function dir(kind: DirKind): string | null;",
  "",
  "  /**",
  "   * Returns the path to the current deno executable.",
  "   * @i18n 返回当前 deno 可执行文件的路径。",
  "   *",
  "   *       console.log(Deno.execPath());  //e.g. \"/home/alice/.local/bin/deno\"",
  "   *",
  "   * Requires \x60allow-env\x60 permission.",
  "   * @i18n 需要 \x60allow-env\x60 权限。",
  "   */",
  "  export function execPath(): string;",
  "",
  "  /**",
  "   * **UNSTABLE**: Currently under evaluation to decide if explicit permission is",
  "   * required to get the value of the current working directory.",
  "   * @i18n **不稳定**: 获取当前工作目录是否需要明确的权限，目前正在评估中。",
  "   *",
  "   * Return a string representing the current working directory.",
  "   * @i18n 返回当前工作目录的字符串。",
  "   *",
  "   * If the current directory can be reached via multiple paths (due to symbolic",
  "   * links), \x60cwd()\x60 may return any one of them.",
  "   * @i18n 如果当前目录可以通过多个路径访问（由于符号链接导致），可能会返回其中任意一个。",
  "   *",
  "   *       const currentWorkingDirectory = Deno.cwd();",
  "   *",
  "   * Throws \x60Deno.errors.NotFound\x60 if directory not available.",
  "   * @i18n 如果目录不存在，则抛出 \x60Deno.errors.NotFound\x60。",
  "   */",
  "  export function cwd(): string;",
  "",
  "  /**",
  "   * **UNSTABLE**: Currently under evaluation to decide if explicit permission is",
  "   * required to change the current working directory.",
  "   * @i18n **不稳定**: 更改当前工作目录是否需要明确的权限，目前正在评估中。",
  "   *",
  "   * Change the current working directory to the specified path.",
  "   * @i18n 将当前工作目录更改为指定路径。",
  "   *",
  "   *       Deno.chdir(\"/home/userA\");",
  "   *       Deno.chdir(\"../userB\");",
  "   *       Deno.chdir(\"C:\\\\Program Files (x86)\\\\Java\");",
  "   *",
  "   * Throws \x60Deno.errors.NotFound\x60 if directory not found.",
  "   * Throws \x60Deno.errors.PermissionDenied\x60 if the user does not have access",
  "   * rights",
  "   * @i18n 如果目录未被找到，则抛出 \x60Deno.errors.NotFound\x60 。",
  "   * 如果用户没有访问权限，则抛出 \x60Deno.errors.PermissionDenied\x60 。",
  "   */",
  "  export function chdir(directory: string): void;",
  "",
  "  /**",
  "   * **UNSTABLE**: New API, yet to be vetted.  This API is under consideration to",
  "   * determine if permissions are required to call it.",
  "   * @i18n **不稳定**: 新 API，没有经过审查。正在考虑调用此 API 时，是否需要申请权限。",
  "   *",
  "   * Retrieve the process umask.  If \x60mask\x60 is provided, sets the process umask.",
  "   * This call always returns what the umask was before the call.",
  "   * @i18n 获取进程权限掩码。如果提供 \x60mask\x60，则设置进程权限掩码。",
  "   * 此函数始终返回调用前的权限掩码。",
  "   *",
  "   *        console.log(Deno.umask());  //e.g. 18 (0o022)",
  "   *        const prevUmaskValue = Deno.umask(0o077);  //e.g. 18 (0o022)",
  "   *        console.log(Deno.umask());  //e.g. 63 (0o077)",
  "   *",
  "   * NOTE:  This API is not implemented on Windows",
  "   * @i18n 注意: 此 API 未在 Windows 平台实现。",
  "   */",
  "  export function umask(mask?: number): number;",
  "",
  "  /** **UNSTABLE**: might move to \x60Deno.symbols\x60.",
  "   * @i18n **不稳定**: 可能会移动到 \x60Deno.symbols\x60。*/",
  "  export const EOF: unique symbol;",
  "  export type EOF = typeof EOF;",
  "",
  "  /** **UNSTABLE**: might remove \x60\"SEEK_\"\x60 prefix. Might not use all-caps.",
  "   * @i18n **不稳定**: 可能会移除 \x60\"SEEK_\"\x60 前缀。可能不使用全大写。*/",
  "  export enum SeekMode \x7b",
  "    SEEK_START = 0,",
  "    SEEK_CURRENT = 1,",
  "    SEEK_END = 2,",
  "  \x7d",
  "",
  "  /** **UNSTABLE**: might make \x60Reader\x60 into iterator of some sort. */",
  "  export interface Reader \x7b",
  "    /** Reads up to \x60p.byteLength\x60 bytes into \x60p\x60. It resolves to the number of",
  "     * bytes read (\x600\x60 < \x60n\x60 <= \x60p.byteLength\x60) and rejects if any error",
  "     * encountered. Even if \x60read()\x60 resolves to \x60n\x60 < \x60p.byteLength\x60, it may",
  "     * use all of \x60p\x60 as scratch space during the call. If some data is",
  "     * available but not \x60p.byteLength\x60 bytes, \x60read()\x60 conventionally resolves",
  "     * to what is available instead of waiting for more.",
  "     * @i18n 最多读取 \x60p.byteLength\x60 个字节到p中，然后返回读取的字节数（\x600 < n <= p.byteLength\x60），并在遇到任何错误时返回拒绝状态的回调函数。",
  "     * 即使 \x60read()\x60 返回值为 \x60n < p.byteLength\x60，p也可能在调用期间被用作临时空间。",
  "     * 如果有数据可用，但不存在 \x60p.byteLength\x60，\x60read()\x60 通常会返回可用值，而不是等待更多。",
  "     *",
  "     * When \x60read()\x60 encounters end-of-file condition, it resolves to",
  "     * \x60Deno.EOF\x60 symbol.",
  "     * @i18n 当 \x60read()\x60 遇到文件结束条件时，将返回 \x60Deno.EOF\x60 符号。",
  "     *",
  "     * When \x60read()\x60 encounters an error, it rejects with an error.",
  "     * @i18n 当 \x60read()\x60 遇到错误时，它会返回拒绝状态的回调函数，参数值为错误信息。",
  "     *",
  "     * Callers should always process the \x60n\x60 > \x600\x60 bytes returned before",
  "     * considering the \x60EOF\x60. Doing so correctly handles I/O errors that happen",
  "     * after reading some bytes and also both of the allowed EOF behaviors.",
  "     * @i18n 调用者应始终处理返回值为 \x60n > 0\x60 的情况，然后再考虑 \x60EOF\x60。",
  "     * 应正确处理在读取一些字节以及两种被允许的EOF行为之后可能发生的 I/O 错误。",
  "     *",
  "     * Implementations should not retain a reference to \x60p\x60.",
  "     * @i18n 实现不应保留对 \x60p\x60 的引用。",
  "     */",
  "    read(p: Uint8Array): Promise<number | EOF>;",
  "  \x7d",
  "",
  "  export interface ReaderSync \x7b",
  "    /** Reads up to \x60p.byteLength\x60 bytes into \x60p\x60. It resolves to the number",
  "     * of bytes read (\x600\x60 < \x60n\x60 <= \x60p.byteLength\x60) and rejects if any error",
  "     * encountered. Even if \x60read()\x60 returns \x60n\x60 < \x60p.byteLength\x60, it may use",
  "     * all of \x60p\x60 as scratch space during the call. If some data is available",
  "     * but not \x60p.byteLength\x60 bytes, \x60read()\x60 conventionally returns what is",
  "     * available instead of waiting for more.",
  "     * @i18n 最多读取 \x60p.byteLength\x60 个字节到p中，然后返回读取的字节数（\x600 < n <= p.byteLength\x60），并在遇到任何错误时返回拒绝状态的回调函数。",
  "     * 即使 \x60readSync()\x60 返回值为 \x60n < p.byteLength\x60，p也可能在调用期间被用作临时空间。",
  "     * 如果有数据可用，但不存在 \x60p.byteLength\x60，\x60readSync()\x60 通常会返回可用值，而不是等待更多。",
  "     *",
  "     * When \x60readSync()\x60 encounters end-of-file condition, it returns \x60Deno.EOF\x60",
  "     * symbol.",
  "     * @i18n 当 \x60readSync()\x60 遇到文件结束条件时，将返回 \x60Deno.EOF\x60 符号。",
  "     *",
  "     * When \x60readSync()\x60 encounters an error, it throws with an error.",
  "     * @i18n 当 \x60readSync()\x60 遇到错误时，它会返回拒绝状态的回调函数，参数值为错误信息。",
  "     *",
  "     * Callers should always process the \x60n\x60 > \x600\x60 bytes returned before",
  "     * considering the \x60EOF\x60. Doing so correctly handles I/O errors that happen",
  "     * after reading some bytes and also both of the allowed EOF behaviors.",
  "     * @i18n 调用者应始终处理返回值为 \x60n > 0\x60 的情况，然后再考虑 \x60EOF\x60。",
  "     * 应正确处理在读取一些字节以及两种被允许的EOF行为之后可能发生的 I/O 错误。",
  "     *",
  "     * Implementations should not retain a reference to \x60p\x60.",
  "     * @i18n 实现不应保留对 \x60p\x60 的引用。",
  "     */",
  "    readSync(p: Uint8Array): number | EOF;",
  "  \x7d",
  "",
  "  export interface Writer \x7b",
  "    /** Writes \x60p.byteLength\x60 bytes from \x60p\x60 to the underlying data stream. It",
  "     * resolves to the number of bytes written from \x60p\x60 (\x600\x60 <= \x60n\x60 <=",
  "     * \x60p.byteLength\x60) or reject with the error encountered that caused the",
  "     * write to stop early. \x60write()\x60 must reject with a non-null error if",
  "     * would resolve to \x60n\x60 < \x60p.byteLength\x60. \x60write()\x60 must not modify the",
  "     * slice data, even temporarily.",
  "     * @i18n 将 \x60p\x60 中的 \x60p.byteLength\x60 字节写入底层数据流。 它 resolve 时返回值为从 \x60p\x60 写入的",
  "     * 字节数(\x600\x60 <= \x60n\x60 <= \x60p.byteLength\x60），reject 时返回值为导致写入提前停止的错误。",
  "     * 如果将要 resolve 一个 \x60n\x60 < \x60p.byteLength\x60 的值时， \x60write()\x60 必须 reject，并且返回",
  "     * 一个非空错误。\x60write()\x60 禁止修改分片数据，即使是临时修改。",
  "     *",
  "     * Implementations should not retain a reference to \x60p\x60.",
  "     * @i18n 实现不应保留对 \x60p\x60 的引用。",
  "     */",
  "    write(p: Uint8Array): Promise<number>;",
  "  \x7d",
  "",
  "  export interface WriterSync \x7b",
  "    /** Writes \x60p.byteLength\x60 bytes from \x60p\x60 to the underlying data",
  "     * stream. It returns the number of bytes written from \x60p\x60 (\x600\x60 <= \x60n\x60",
  "     * <= \x60p.byteLength\x60) and any error encountered that caused the write to",
  "     * stop early. \x60writeSync()\x60 must throw a non-null error if it returns \x60n\x60 <",
  "     * \x60p.byteLength\x60. \x60writeSync()\x60 must not modify the slice data, even",
  "     * temporarily.",
  "     * @i18n 将 \x60p\x60 中的 \x60p.byteLength\x60 字节写入底层数据流。它的返回值为从 \x60p\x60 写入的",
  "     * 字节数(\x600\x60 <= \x60n\x60 <= \x60p.byteLength\x60）或者导致写入提前停止的错误。",
  "     * \x60writeSync()\x60 会抛出一个非空错误当返回值 \x60n\x60 < \x60p.byteLength\x60。\x60writeSync()\x60",
  "     * 禁止修改分片数据，即使是临时修改。",
  "     *",
  "     * Implementations should not retain a reference to \x60p\x60.",
  "     * @i18n 实现不应保留对 \x60p\x60 的引用。",
  "     */",
  "    writeSync(p: Uint8Array): number;",
  "  \x7d",
  "",
  "  export interface Closer \x7b",
  "    close(): void;",
  "  \x7d",
  "",
  "  export interface Seeker \x7b",
  "    /** Seek sets the offset for the next \x60read()\x60 or \x60write()\x60 to offset,",
  "     * interpreted according to \x60whence\x60: \x60SEEK_START\x60 means relative to the",
  "     * start of the file, \x60SEEK_CURRENT\x60 means relative to the current offset,",
  "     * and \x60SEEK_END\x60 means relative to the end. Seek resolves to the new offset",
  "     * relative to the start of the file.",
  "     * @i18n 设置下一个 \x60read()\x60 或 \x60write()\x60 的偏移量，根据 \x60whence\x60 进行决定从哪个位置开始偏移：",
  "     * \x60SEEK_START\x60 表示相对于文件开头，\x60SEEK_CURRENT\x60 表示相对于当前位置，\x60SEEK_END\x60 表示相对于文件末尾。",
  "     * Seek 解析（resolve）的值为相对于文件开头的新偏移量。",
  "     *",
  "     * Seeking to an offset before the start of the file is an error. Seeking to",
  "     * any positive offset is legal, but the behavior of subsequent I/O",
  "     * operations on the underlying object is implementation-dependent.",
  "     * It returns the number of cursor position.",
  "     * @i18n 把偏移量设置到文件开始之前是错误的。",
  "     * 设置任何正偏移都是合法的，但是对于之后的 I/O 操作的行为则取决于实现。",
  "     * 它返回设置之后的偏移位置。",
  "     */",
  "    seek(offset: number, whence: SeekMode): Promise<number>;",
  "  \x7d"
]

def bilingualLinesC3 : List String := [
  "",
  "  export interface ReadCloser extends Reader, Closer \x7b\x7d",
  "  export interface WriteCloser extends Writer, Closer \x7b\x7d",
  "  export interface ReadSeeker extends Reader, Seeker \x7b\x7d",
  "  export interface WriteSeeker extends Writer, Seeker \x7b\x7d",
  "  export interface ReadWriteCloser extends Reader, Writer, Closer \x7b\x7d",
  "  export interface ReadWriteSeeker extends Reader, Writer, Seeker \x7b\x7d",
  "",
  "  /** Copies from \x60src\x60 to \x60dst\x60 until either \x60EOF\x60 is reached on \x60src\x60 or an",
  "   * error occurs. It resolves to the number of bytes copied or rejects with",
  "   * the first error encountered while copying.",
  "   * @i18n 从 \x60src\x60 拷贝文件至 \x60dst\x60，拷贝至 \x60src\x60 的 \x60EOF\x60 或有异常出现时结束。",
  "   * \x60copy()\x60 函数返回一个 \x60Promise\x60, 成功时 resolve 并返回拷贝的字节数，失败时 reject 并返回拷贝过程中的首个异常。",
  "   *",
  "   *       const source = await Deno.open(\"my_file.txt\");",
  "   *       const buffer = new Deno.Buffer()",
  "   *       const bytesCopied1 = await Deno.copy(Deno.stdout, source);",
  "   *       const bytesCopied2 = await Deno.copy(buffer, source);",
  "   *",
  "   * Because \x60copy()\x60 is defined to read from \x60src\x60 until \x60EOF\x60, it does not",
  "   * treat an \x60EOF\x60 from \x60read()\x60 as an error to be reported.",
  "   * @i18n 因为 \x60copy()\x60 函数在读到 \x60EOF\x60 时停止，所以不会将 \x60EOF\x60 视为异常（区别于 \x60read()\x60 函数）。",
  "   *",
  "   * @param dst The destination to copy to",
  "   * @param_i18n dst 需要拷贝至的目标位置",
  "   * @param src The source to copy from",
  "   * @param_i18n src 拷贝的源位置",
  "   */",
  "  export function copy(dst: Writer, src: Reader): Promise<number>;",
  "",
  "  /** Turns a Reader, \x60r\x60, into an async iterator.",
  "   * @i18n 将 Reader 对象 (\x60r\x60) 转换为异步迭代器。",
  "   *",
  "   *      for await (const chunk of toAsyncIterator(reader)) \x7b",
  "   *        console.log(chunk);",
  "   *      \x7d",
  "   */",
  "  export function toAsyncIterator(r: Reader): AsyncIterableIterator<Uint8Array>;",
  "",
  "  /** Synchronously open a file and return an instance of \x60Deno.File\x60.  The",
  "   * file does not need to previously exist if using the \x60create\x60 or \x60createNew\x60",
  "   * open options.  It is the callers responsibility to close the file when finished",
  "   * with it.",
  "   * @i18n 用同步方式打开一个文件并返回一个 \x60Deno.File\x60 实例。如果使用了 \x60create\x60 或 \x60createNew\x60配置项",
  "   * 文件可以不需要预先存在。调用者应该在完成后关闭文件。",
  "   *",
  "   *       const file = Deno.openSync(\"/foo/bar.txt\", \x7b read: true, write: true \x7d);",
  "   *       // Do work with file",
  "   *       Deno.close(file.rid);",
  "   *",
  "   * Requires \x60allow-read\x60 and/or \x60allow-write\x60 permissions depending on options.",
  "   * @i18n 根据不同的配置需要相应的 \x60allow-read\x60 及 \x60allow-write\x60 权限。",
  "   */",
  "  export function openSync(path: string, options?: OpenOptions): File;",
  "",
  "  /** Synchronously open a file and return an instance of \x60Deno.File\x60.  The file",
  "   * may be created depending on the mode passed in.  It is the callers responsibility",
  "   * to close the file when finished with it.",
  "   * @i18n 用同步方式打开一个文件并返回一个 \x60Deno.File\x60 实例。根据传入的模式，可以创建文件。",
  "   * 调用者应该在完成后关闭文件。",
  "   *",
  "   *       const file = Deno.openSync(\"/foo/bar.txt\", \"r\");",
  "   *       // Do work with file",
  "   *       Deno.close(file.rid);",
  "   *",
  "   * Requires \x60allow-read\x60 and/or \x60allow-write\x60 permissions depending on openMode.",
  "   * @i18n 根据不同的打开模式需要相应的 \x60allow-read\x60 及 \x60allow-write\x60 权限。",
  "   */",
  "  export function openSync(path: string, openMode?: OpenMode): File;",
  "",
  "  /** Open a file and resolve to an instance of \x60Deno.File\x60.  The",
  "   * file does not need to previously exist if using the \x60create\x60 or \x60createNew\x60",
  "   * open options.  It is the callers responsibility to close the file when finished",
  "   * with it.",
  "   * @i18n 打开一个文件并异步返回一个 \x60Deno.File\x60 实例。如果使用了 \x60create\x60 或 \x60createNew\x60配置项",
  "   * 文件可以不需要预先存在。调用者应该在完成后关闭文件。",
  "   *",
  "   *       const file = await Deno.open(\"/foo/bar.txt\", \x7b read: true, write: true \x7d);",
  "   *       // Do work with file",
  "   *       Deno.close(file.rid);",
  "   *",
  "   * Requires \x60allow-read\x60 and/or \x60allow-write\x60 permissions depending on options.",
  "   * @i18n 根据不同的选项需要相应的 \x60allow-read\x60 及 \x60allow-write\x60 权限。",
  "   */",
  "  export function open(path: string, options?: OpenOptions): Promise<File>;",
  "",
  "  /** Open a file and resolve to an instance of \x60Deno.File\x60.  The file may be",
  "   * created depending on the mode passed in.  It is the callers responsibility",
  "   * to close the file when finished with it.",
  "   * @i18n 打开一个文件并异步返回一个 \x60Deno.File\x60 实例。根据传入的模式，可以创建文件。",
  "   * 调用者应该在完成后关闭文件。",
  "   *",
  "   *       const file = await Deno.open(\"/foo/bar.txt\", \"w+\");",
  "   *       // Do work with file",
  "   *       Deno.close(file.rid);",
  "   *",
  "   * Requires \x60allow-read\x60 and/or \x60allow-write\x60 permissions depending on openMode.",
  "   * @i18n 根据不同的打开模式需要相应的 \x60allow-read\x60 及 \x60allow-write\x60 权限。",
  "   */",
  "  export function open(path: string, openMode?: OpenMode): Promise<File>;",
  "",
  "  /** Creates a file if none exists or truncates an existing file and returns",
  "   *  an instance of \x60Deno.File\x60.",
  "   * @i18n 创建文件并返回一个 \x60Deno.File\x60 实例，如果文件已存在则进行覆盖。",
  "   *",
  "   *       const file = Deno.createSync(\"/foo/bar.txt\");",
  "   *",
  "   * Requires \x60allow-read\x60 and \x60allow-write\x60 permissions.",
  "   * @i18n 需要 \x60allow-read\x60 和 \x60allow-write\x60 权限。",
  "   */",
  "  export function createSync(path: string): File;",
  "",
  "  /** Creates a file if none exists or truncates an existing file and resolves to",
  "   *  an instance of \x60Deno.File\x60.",
  "   * @i18n 创建文件并异步返回一个 \x60Deno.File\x60 实例，如果文件已存在则进行覆盖。",
  "   *",
  "   *       const file = await Deno.create(\"/foo/bar.txt\");",
  "   *",
  "   * Requires \x60allow-read\x60 and \x60allow-write\x60 permissions.",
  "   * @i18n 需要 \x60allow-read\x60 和 \x60allow-write\x60 权限。",
  "   */",
  "  export function create(path: string): Promise<File>;",
  "",
  "  /** Synchronously read from a resource ID (\x60rid\x60) into an array buffer (\x60buffer\x60).",
  "   * @i18n 同步地从资源ID (\x60rid\x60) 读取内容，并写入到数组缓冲区 (\x60buffer\x60)。",
  "   *",
  "   * Returns either the number of bytes read during the operation or End Of File",
  "   * (\x60Symbol(EOF)\x60) if there was nothing to read.",
  "   * @i18n 如果没有要读取的内容，返回值为操作期间读取的字节数，或者文件结尾（\x60Symbol（EOF）\x60）。",
  "   *",
  "   *      // 如果 \"/foo/bar.txt\" 文件里面有 \"hello world\":",
  "   *      const file = Deno.openSync(\"/foo/bar.txt\");",
  "   *      const buf = new Uint8Array(100);",
  "   *      const numberOfBytesRead = Deno.readSync(file.rid, buf); // 11 bytes",
  "   *      const text = new TextDecoder().decode(buf);  // \"hello world\"",
  "   *      Deno.close(file.rid);",
  "   */",
  "  export function readSync(rid: number, buffer: Uint8Array): number | EOF;",
  "",
  "  /** Read from a resource ID (\x60rid\x60) into an array buffer (\x60buffer\x60).",
  "   * @i18n 从资源ID (\x60rid\x60) 读取内容，并写入到数组缓冲区 (\x60buffer\x60)。",
  "   *",
  "   * Resolves to either the number of bytes read during the operation or End Of",
  "   * File (\x60Symbol(EOF)\x60) if there was nothing to read.",
  "   * @i18n 如果没有要读取的内容，返回值为操作期间读取的字节数，或者文件结尾（\x60Symbol（EOF）\x60）。",
  "   *",
  "   *      // 如果 \"/foo/bar.txt\" 文件里面有 \"hello world\":",
  "   *      const file = await Deno.open(\"/foo/bar.txt\");",
  "   *      const buf = new Uint8Array(100);",
  "   *      const numberOfBytesRead = await Deno.read(file.rid, buf); // 11 bytes",
  "   *      const text = new TextDecoder().decode(buf);  // \"hello world\"",
  "   *      Deno.close(file.rid);",
  "   */",
  "  export function read(rid: number, buffer: Uint8Array): Promise<number | EOF>;",
  "",
  "  /** Synchronously write to the resource ID (\x60rid\x60) the contents of the array",
  "   * buffer (\x60data\x60).",
  "   * @i18n 同步地将数组缓冲区 (\x60data\x60) 的内容写入资源ID的所属文件 (\x60rid\x60) 。",
  "   *",
  "   * Returns the number of bytes written.",
  "   * @i18n 返回写入的字节数。",
  "   *",
  "   *       const encoder = new TextEncoder();",
  "   *       const data = encoder.encode(\"Hello world\");",
  "   *       const file = Deno.openSync(\"/foo/bar.txt\");",
  "   *       const bytesWritten = Deno.writeSync(file.rid, data); // 11",
  "   *       Deno.close(file.rid);",
  "   */",
  "  export function writeSync(rid: number, data: Uint8Array): number;",
  "",
  "  /** Write to the resource ID (\x60rid\x60) the contents of the array buffer (\x60data\x60).",
  "   * @i18n 将数组缓冲区 (\x60data\x60) 的内容写入资源ID的所属文件 (\x60rid\x60) 。",
  "   *",
  "   * Resolves to the number of bytes written.",
  "   * @i18n 解析为写入的字节数。",
  "   *",
  "   *      const encoder = new TextEncoder();",
  "   *      const data = encoder.encode(\"Hello world\");",
  "   *      const file = await Deno.open(\"/foo/bar.txt\");",
  "   *      const bytesWritten = await Deno.write(file.rid, data); // 11",
  "   *      Deno.close(file.rid);",
  "   */",
  "  export function write(rid: number, data: Uint8Array): Promise<number>;",
  "",
  "  /** Synchronously seek a resource ID (\x60rid\x60) to the given \x60offset\x60 under mode",
  "   * given by \x60whence\x60.  The new position within the resource (bytes from the",
  "   * start) is returned.",
  "   * @i18n 同步方式，在给定查询模式 \x60whence\x60 和偏移量 \x60offset\x60 的情况下，查找指定的资源 ID（\x60rid\x60）。",
  "   * 函数将解析并返回光标在资源中的新位置（从头开始的字节数）。",
  "   *",
  "   *        const file = Deno.openSync(\x27hello.txt\x27, \x7bread: true, write: true, truncate: true, create: true\x7d);",
  "   *        Deno.writeSync(file.rid, new TextEncoder().encode(\"Hello world\"));",
  "   *        //advance cursor 6 bytes",
  "   *        const cursorPosition = Deno.seekSync(file.rid, 6, Deno.SeekMode.SEEK_START);",
  "   *        console.log(cursorPosition);  // 6",
  "   *        const buf = new Uint8Array(100);",
  "   *        file.readSync(buf);",
  "   *        console.log(new TextDecoder().decode(buf)); // \"world\"",
  "   *",
  "   * The seek modes work as follows:",
  "   * @i18n seek modes 的工作方式如下:",
  "   *",
  "   *        // 给定内容为 \"Hello world\" 的 file.rid 文件，该文件长度为 11 个字节。",
  "   *        // 从文件开头移动 6 个字节",
  "   *        console.log(Deno.seekSync(file.rid, 6, Deno.SeekMode.SEEK_START)); //\"6\"",
  "   *        // 从当前位置再移动 2 个字节",
  "   *        console.log(Deno.seekSync(file.rid, 2, Deno.SeekMode.SEEK_CURRENT)); //\"8\"",
  "   *        // 从文件末尾向后移动 2 个字节",
  "   *        console.log(Deno.seekSync(file.rid, -2, Deno.SeekMode.SEEK_END)); //\"9\" (e.g. 11-2)",
  "   */"
]

def bilingualLinesC4 : List String := [
  "  export function seekSync(",
  "    rid: number,",
  "    offset: number,",
  "    whence: SeekMode",
  "  ): number;",
  "",
  "  /** Seek a resource ID (\x60rid\x60) to the given \x60offset\x60 under mode given by \x60whence\x60.",
  "   * The call resolves to the new position within the resource (bytes from the start).",
  "   * @i18n 在给定查询模式 \x60whence\x60 和偏移量 \x60offset\x60 的情况下，查找指定的资源 ID（\x60rid\x60）。",
  "   * 函数将解析并返回光标在资源中的新位置（从头开始的字节数）。",
  "   *",
  "   *        const file = await Deno.open(\x27hello.txt\x27, \x7bread: true, write: true, truncate: true, create: true\x7d);",
  "   *        await Deno.write(file.rid, new TextEncoder().encode(\"Hello world\"));",
  "   *        // 光标前进 6 个字节",
  "   *        const cursorPosition = await Deno.seek(file.rid, 6, Deno.SeekMode.SEEK_START);",
  "   *        console.log(cursorPosition);  // 6",
  "   *        const buf = new Uint8Array(100);",
  "   *        await file.read(buf);",
  "   *        console.log(new TextDecoder().decode(buf)); // \"world\"",
  "   *",
  "   * The seek modes work as follows:",
  "   * @i18n seek modes 的工作方式如下:",
  "   *",
  "   *        // 给定内容为 \"Hello world\" 的 file.rid 文件，该文件长度为 11 个字节。",
  "   *        // 从文件开头移动 6 个字节",
  "   *        console.log(await Deno.seek(file.rid, 6, Deno.SeekMode.SEEK_START)); //\"6\"",
  "   *        // 从当前位置再移动 2 个字节",
  "   *        console.log(await Deno.seek(file.rid, 2, Deno.SeekMode.SEEK_CURRENT)); //\"8\"",
  "   *        // 从文件末尾向后移动 2 个字节",
  "   *        console.log(await Deno.seek(file.rid, -2, Deno.SeekMode.SEEK_END)); //\"9\" (e.g. 11-2)",
  "   */",
  "  export function seek(",
  "    rid: number,",
  "    offset: number,",
  "    whence: SeekMode",
  "  ): Promise<number>;",
  "",
  "  /** Close the given resource ID (rid) which has been previously opened, such",
  "   * as via opening or creating a file.  Closing a file when you are finished",
  "   * with it is important to avoid leaking resources.",
  "   * @i18n 使用给定的资源 ID (rid) 来关闭先前创建或打开的文件。",
  "   * 为避免资源泄露，事关重大，文件应当用完即关。",
  "   *",
  "   *      const file = await Deno.open(\"my_file.txt\");",
  "   *      // 与 \"file\" 对象一起使用",
  "   *      Deno.close(file.rid);",
  "   */",
  "  export function close(rid: number): void;",
  "",
  "  /** The Deno abstraction for reading and writing files.",
  "   * @i18n 用于读取和写入文件的 Deno 抽象类。*/",
  "  export class File",
  "    implements",
  "      Reader,",
  "      ReaderSync,",
  "      Writer,",
  "      WriterSync,",
  "      Seeker,",
  "      Closer \x7b",
  "    readonly rid: number;",
  "    constructor(rid: number);",
  "    write(p: Uint8Array): Promise<number>;",
  "    writeSync(p: Uint8Array): number;",
  "    read(p: Uint8Array): Promise<number | EOF>;",
  "    readSync(p: Uint8Array): number | EOF;",
  "    seek(offset: number, whence: SeekMode): Promise<number>;",
  "    seekSync(offset: number, whence: SeekMode): number;",
  "    close(): void;",
  "  \x7d",
  "",
  "  /** An instance of \x60Deno.File\x60 for \x60stdin\x60.",
  "   * @i18n 用于 \x60stdin\x60 的 \x60Deno.File\x60 实例。*/",
  "  export const stdin: File;",
  "  /** An instance of \x60Deno.File\x60 for \x60stdout\x60.",
  "   * @i18n 用于 \x60stdout\x60 的 \x60Deno.File\x60 实例。*/",
  "  export const stdout: File;",
  "  /** An instance of \x60Deno.File\x60 for \x60stderr\x60.",
  "   * @i18n 用于 \x60stderr\x60 的 \x60Deno.File\x60 实例。*/",
  "  export const stderr: File;",
  "",
  "  export interface OpenOptions \x7b",
  "    /** Sets the option for read access. This option, when \x60true\x60, means that the",
  "     * file should be read-able if opened.",
  "     * @i18n 设置读取访问权限的选项。",
  "     * 当为 \x60true\x60 时，表示该文件在打开后即处于可读状态。*/",
  "    read?: boolean;",
  "    /** Sets the option for write access. This option, when \x60true\x60, means that",
  "     * the file should be write-able if opened. If the file already exists,",
  "     * any write calls on it will overwrite its contents, by default without",
  "     * truncating it.",
  "     * @i18n 设置写访问权限的选项。",
  "     * 当为 \x60true\x60 时，表示该文件在打开时即处于可写状态。",
  "     * 如果该文件已存在，则默认情况下，对该文件的任何写调用都将覆盖其内容，而不会截断该文件。*/",
  "    write?: boolean;",
  "    /**Sets the option for the append mode. This option, when \x60true\x60, means that",
  "     * writes will append to a file instead of overwriting previous contents.",
  "     * Note that setting \x60\x7b write: true, append: true \x7d\x60 has the same effect as",
  "     * setting only \x60\x7b append: true \x7d\x60.",
  "     * @i18n 设置追加模式的选项。",
  "     * 当为 \x60true\x60 时，表示写入将追加到文件中，而不是覆盖先前的内容。",
  "     * 请注意，设置 \x60\x7b write: true, append: true \x7d\x60 与仅设置 \x60\x7b append: true \x7d\x60 具有相同的效果。*/",
  "    append?: boolean;",
  "    /** Sets the option for truncating a previous file. If a file is",
  "     * successfully opened with this option set it will truncate the file to \x600\x60",
  "     * size if it already exists. The file must be opened with write access",
  "     * for truncate to work.",
  "     * @i18n 设置截断上一个文件的选项。",
  "     * 如果使用此选项后成功打开了文件，则文件的长度将被截断为 \x600\x60（如果已存在）。",
  "     * 该文件必须具有写访问权限才能打开，才能进行截断。*/",
  "    truncate?: boolean;",
  "    /** Sets the option to allow creating a new file, if one doesn\x27t already",
  "     * exist at the specified path. Requires write or append access to be",
  "     * used.",
  "     * @i18n 设置选项以允许创建新文件（如果指定路径尚不存在）。",
  "     * 需要使用写权限或追加权限。*/",
  "    create?: boolean;",
  "    /** Defaults to \x60false\x60. If set to \x60true\x60, no file, directory, or symlink is",
  "     * allowed to exist at the target location. Requires write or append",
  "     * access to be used. When createNew is set to \x60true\x60, create and truncate",
  "     * are ignored.",
  "     * @i18n 默认为 \x60false\x60。",
  "     * 如果设置为 \x60true\x60，则在目标位置不允许存在文件、目录或符号链接。",
  "     * 需要使用写权限或追加权限。",
  "     * 当 createNew 设置为 \x60true\x60 时，create 和 truncate 被忽略。*/",
  "    createNew?: boolean;",
  "    /** Permissions to use if creating the file (defaults to \x600o666\x60, before",
  "     * the process\x27s umask).",
  "     * Ignored on Windows.",
  "     * @i18n 创建文件时使用的权限（在进程调用 \x60umask\x60 之前默认为 \x600o666\x60）。",
  "     * 在 Windows 上此选项被忽略。*/",
  "    mode?: number;",
  "  \x7d",
  "",
  "  /** A set of string literals which specify how to open a file.",
  "   * @i18n 一组字符串文本，用于指定如何打开文件。",
  "   *",
  "   * |Value |Description                                                                                       |",
  "   * |------|--------------------------------------------------------------------------------------------------|",
  "   * |\x60\"r\"\x60 |Read-only. Default. Starts at beginning of file.                                                  |",
  "   * |\x60\"r+\"\x60|Read-write. Start at beginning of file.                                                           |",
  "   * |\x60\"w\"\x60 |Write-only. Opens and truncates existing file or creates new one for writing only.                |",
  "   * |\x60\"w+\"\x60|Read-write. Opens and truncates existing file or creates new one for writing and reading.         |",
  "   * |\x60\"a\"\x60 |Write-only. Opens existing file or creates new one. Each write appends content to the end of file.|",
  "   * |\x60\"a+\"\x60|Read-write. Behaves like \x60\"a\"\x60 and allows to read from file.                                      |",
  "   * |\x60\"x\"\x60 |Write-only. Exclusive create - creates new file only if one doesn\x27t exist already.                |",
  "   * |\x60\"x+\"\x60|Read-write. Behaves like \x60x\x60 and allows reading from file.                                        |",
  "   *",
  "   * @i18n",
  "   * |值    |描述                                                                                               |",
  "   * |------|--------------------------------------------------------------------------------------------------|",
  "   * |\x60\"r\"\x60 |只读。默认值。从文件开头开始。                                                                         |",
  "   * |\x60\"r+\"\x60|可读写。从文件开头开始。                                                                              |",
  "   * |\x60\"w\"\x60 |仅写入。打开并截取现有文件或者创建一个仅写入权限的新文件。                                                  |",
  "   * |\x60\"w+\"\x60|可读写。打开并截取现有文件或者创建一个可读写权限的新文件。                                                  |",
  "   * |\x60\"a\"\x60 |仅写入。打开现有文件或者创建新文件。每次写入都会将内容追加到文件末尾。                                        |",
  "   * |\x60\"a+\"\x60|可读写。行为类似于 \x60\"a\"\x60 并且允许从文件中读取。                                                          |",
  "   * |\x60\"x\"\x60 |仅写入。专属创建 - 仅在文件不存在时创建新文件。                                                           |",
  "   * |\x60\"x+\"\x60|可读写。行为类似于 \x60\"x\"\x60 并且允许从文件中读取。                                                         |",
  "   */",
  "  export type OpenMode = \"r\" | \"r+\" | \"w\" | \"w+\" | \"a\" | \"a+\" | \"x\" | \"x+\";",
  "",
  "  /** **UNSTABLE**: new API, yet to be vetted",
  "   * @i18n **不稳定**: 新 API，没有经过审查。",
  "   *",
  "   *  Check if a given resource id (\x60rid\x60) is a TTY.",
  "   * @i18n 检查指定的资源 id (\x60rid\x60) 是否为 TTY（终端）。",
  "   *",
  "   *       // 这个例子依赖于特定的操作系统和环境",
  "   *       const nonTTYRid = Deno.openSync(\"my_file.txt\").rid;",
  "   *       const ttyRid = Deno.openSync(\"/dev/tty6\").rid;",
  "   *       console.log(Deno.isatty(nonTTYRid)); // false",
  "   *       console.log(Deno.isatty(ttyRid)); // true",
  "   *       Deno.close(nonTTYRid);",
  "   *       Deno.close(ttyRid);",
  "   */",
  "  export function isatty(rid: number): boolean;",
  "",
  "  /** **UNSTABLE**: new API, yet to be vetted",
  "   * @i18n **不稳定**: 新 API，没有经过审查。",
  "   *",
  "   * Set TTY to be under raw mode or not. In raw mode, characters are read and",
  "   * returned as is, without being processed. All special processing of",
  "   * characters by the terminal is disabled, including echoing input characters.",
  "   * Reading from a TTY device in raw mode is faster than reading from a TTY",
  "   * device in canonical mode.",
  "   * @i18n 设置终端是否为 raw 模式。",
  "   * 在 raw 模式下，无需处理即可直接读取和返回字符。",
  "   * 终端将禁止所有特殊的字符处理，包括回显输入字符。",
  "   * 在 raw 模式下从终端设备读取的速度比在标准模式下更快。",
  "   *",
  "   *       Deno.setRaw(myTTY.rid, true);",
  "   */",
  "  export function setRaw(rid: number, mode: boolean): void;",
  "",
  "  /** A variable-sized buffer of bytes with \x60read()\x60 and \x60write()\x60 methods.",
  "   * @i18n 一个具有 \x60read()\x60 和 \x60write()\x60 方法大小可变的字节缓冲区。",
  "   *",
  "   * Based on [Go Buffer](https://golang.org/pkg/bytes/#Buffer).",
  "   * @i18n 基于 [Go Buffer](https://golang.org/pkg/bytes/#Buffer)。*/",
  "  export class Buffer implements Reader, ReaderSync, Writer, WriterSync \x7b",
  "    constructor(ab?: ArrayBuffer);",
  "    /** Returns a slice holding the unread portion of the buffer.",
  "     * @i18n 返回一个缓冲区未读部分的片段。",
  "     *",
  "     * The slice is valid for use only until the next buffer modification (that",
  "     * is, only until the next call to a method like \x60read()\x60, \x60write()\x60,",
  "     * \x60reset()\x60, or \x60truncate()\x60). The slice aliases the buffer content at",
  "     * least until the next buffer modification, so immediate changes to the",
  "     * slice will affect the result of future reads.",
  "     * @i18n 该片段只在下一次缓冲区修改之前有效 (即, 只有在下一次调用像 \x60read()\x60, \x60write()\x60,",
  "     * \x60reset()\x60, 或者 \x60truncate()\x60 这样的方法)。",
  "     * 该片段会在下一次修改缓冲区内容之前将缓冲区内容进行别名处理 ,  所以立刻改变片段会影响未来读取的结果。*/",
  "    bytes(): Uint8Array;",
  "    /** Returns the contents of the unread portion of the buffer as a \x60string\x60.",
  "     * @i18n 将缓冲区中未读部分的内容以 \x60string\x60 的形式返回。",
  "     *",
  "     * **Warning**: if multibyte characters are present when data is flowing",
  "     * through the buffer, this method may result in incorrect strings due to a",
  "     * character being split.",
  "     * @i18n **警告**: 当数据流经缓冲区时存在多个字节, 这种方法可能会因为字符被拆分而导致字符串的结果错误。*/",
  "    toString(): string;",
  "    /** Returns whether the unread portion of the buffer is empty.",
  "     * @i18n 返回缓冲区的未读部分是否为空。*/",
  "    empty(): boolean;",
  "    /** A read only number of bytes of the unread portion of the buffer.",
  "     * @i18n 只读缓冲区未读部分的字节数。*/",
  "    readonly length: number;",
  "    /** The read only capacity of the buffer\x27s underlying byte slice, that is,",
  "     * the total space allocated for the buffer\x27s data.",
  "     * @i18n 缓冲区底层字节片段的只读容量，即为缓冲区数据分配的总空间。*/",
  "    readonly capacity: number;",
  "    /** Discards all but the first \x60n\x60 unread bytes from the buffer but",
  "     * continues to use the same allocated storage. It throws if \x60n\x60 is",
  "     * negative or greater than the length of the buffer.",
  "     * @i18n 除了缓冲器中开头 \x60n\x60 个未读字节之外，其他的所有字节都丢弃，但是继续使用相同分配的存储空间。",
  "     * 当 \x60n\x60 为负数或者大于缓冲区的长度, 则会抛出异常。*/",
  "    truncate(n: number): void;",
  "    /** Resets the buffer to be empty, but it retains the underlying storage for",
  "     * use by future writes. \x60.reset()\x60 is the same as \x60.truncate(0)\x60.",
  "     * @i18n 将缓冲区重置为空，但它保留了底层存储供未来写入时使用，\x60.reset()\x60 与 \x60.truncate(0)\x60 相同。*/",
  "    reset(): void;",
  "    /** Reads the next \x60p.length\x60 bytes from the buffer or until the buffer is",
  "     * drained. Returns the number of bytes read. If the buffer has no data to",
  "     * return, the return is \x60Deno.EOF\x60.",
  "     * @i18n 在缓冲区中读取下一个 \x60p.length\x60 字节，或直到缓冲区用完为止。",
  "     * 返回只读的字节数。当缓冲区没有数据返回，则返回值为 \x60Deno.EOF\x60。*/",
  "    readSync(p: Uint8Array): number | EOF;",
  "    /** Reads the next \x60p.length\x60 bytes from the buffer or until the buffer is",
  "     * drained. Resolves to the number of bytes read. If the buffer has no",
  "     * data to return, resolves to \x60Deno.EOF\x60.",
  "     * @i18n 在缓冲区中读取下一个 \x60p.length\x60 字节，或直到缓冲区用完为止。",
  "     * 解析读取的字节数。当缓冲区没有数据返回，则解析为 \x60Deno.EOF\x60。*/",
  "    read(p: Uint8Array): Promise<number | EOF>;",
  "    writeSync(p: Uint8Array): number;",
  "    write(p: Uint8Array): Promise<number>;",
  "    /** Grows the buffer\x27s capacity, if necessary, to guarantee space for",
  "     * another \x60n\x60 bytes. After \x60.grow(n)\x60, at least \x60n\x60 bytes can be written to",
  "     * the buffer without another allocation. If \x60n\x60 is negative, \x60.grow()\x60 will",
  "     * throw. If the buffer can\x27t grow it will throw an error.",
  "     * @i18n 增加缓冲区的容量，必要时保证另一个 \x60n\x60 字节的空间。",
  "     * 在 \x60.grow(n)\x60 之后，至少可以将 \x60n\x60 个字节写到缓冲区中而不需要另外分配。",
  "     * 若 \x60n\x60 为负数，\x60.grow()\x60 将抛出异常。",
  "     * 当缓冲区不能增加的时候会抛出错误。",
  "     *",
  "     * Based on Go Lang\x27s",
  "     * [Buffer.Grow](https://golang.org/pkg/bytes/#Buffer.Grow).",
  "     * @i18n 基于 Go Lang 的",
  "     * [Buffer.Grow](https://golang.org/pkg/bytes/#Buffer.Grow)。*/",
  "    grow(n: number): void;",
  "    /** Reads data from \x60r\x60 until \x60Deno.EOF\x60 and appends it to the buffer,",
  "     * growing the buffer as needed. It resolves to the number of bytes read.",
  "     * If the buffer becomes too large, \x60.readFrom()\x60 will reject with an error.",
  "     * @i18n 从 \x60r\x60 读取数据直到 \x60Deno.EOF\x60，并将其附加到缓冲区，根据需要扩展缓冲区。",
  "     * 解析读取的字节数。 如果缓冲区过大，\x60.readFrom()\x60 将会 reject 一个错误。",
  "     *",
  "     * Based on Go Lang\x27s",
  "     * [Buffer.ReadFrom](https://golang.org/pkg/bytes/#Buffer.ReadFrom).",
  "     * @i18n 基于 Go Lang 的",
  "     * [Buffer.ReadFrom](https://golang.org/pkg/bytes/#Buffer.ReadFrom)。*/",
  "    readFrom(r: Reader): Promise<number>;",
  "    /** Reads data from \x60r\x60 until \x60Deno.EOF\x60 and appends it to the buffer,",
  "     * growing the buffer as needed. It returns the number of bytes read. If the",
  "     * buffer becomes too large, \x60.readFromSync()\x60 will throw an error.",
  "     * @i18n 从 \x60r\x60 读取数据直到 \x60Deno.EOF\x60，并将其附加到缓冲区，根据需要扩展缓冲区。",
  "     * 返回读取的字节数，如果缓冲区过大，\x60.readFromSync()\x60 将会抛出错误。",
  "     *",
  "     * Based on Go Lang\x27s",
  "     * [Buffer.ReadFrom](https://golang.org/pkg/bytes/#Buffer.ReadFrom).",
  "     * @i18n 基于 Go Lang 的",
  "     * [Buffer.ReadFrom](https://golang.org/pkg/bytes/#Buffer.ReadFrom)。*/",
  "    readFromSync(r: ReaderSync): number;",
  "  \x7d"
]

def bilingualLinesC5 : List String := [
  "",
  "  /** Read Reader \x60r\x60 until end of file (\x60Deno.EOF\x60) and resolve to the content",
  "   * as \x60Uint8Array\x60.",
  "   * @i18n 读取 Reader \x60r\x60 直到文件的末尾 (\x60Deno.EOF\x60)，返回文件的内容，以 \x60Uint8Array\x60 表示。",
  "   *",
  "   *       // Example：从 stdin 读取",
  "   *       const stdinContent = await Deno.readAll(Deno.stdin);",
  "   *",
  "   *       // Example：从文件读取",
  "   *       const file = await Deno.open(\"my_file.txt\", \x7bread: true\x7d);",
  "   *       const myFileContent = await Deno.readAll(file);",
  "   *       Deno.close(file.rid);",
  "   *",
  "   *       // Example：从 buffer 读取",
  "   *       const myData = new Uint8Array(100);",
  "   *       // ... 此处省略了填充 myData 数组的代码",
  "   *       const reader = new Deno.Buffer(myData.buffer as ArrayBuffer);",
  "   *       const bufferContent = await Deno.readAll(reader);",
  "   */",
  "  export function readAll(r: Reader): Promise<Uint8Array>;",
  "",
  "  /** Synchronously reads Reader \x60r\x60 until end of file (\x60Deno.EOF\x60) and returns",
  "   * the content as \x60Uint8Array\x60.",
  "   * @i18n 同步地读取 Reader \x60r\x60 直到文件的末尾 (\x60Deno.EOF\x60)，返回文件的内容，以 \x60Uint8Array\x60 表示。",
  "   *",
  "   *       // Example：从 stdin 读取",
  "   *       const stdinContent = Deno.readAllSync(Deno.stdin);",
  "   *",
  "   *       // Example：从文件读取",
  "   *       const file = Deno.openSync(\"my_file.txt\", \x7bread: true\x7d);",
  "   *       const myFileContent = Deno.readAllSync(file);",
  "   *       Deno.close(file.rid);",
  "   *",
  "   *       // Example：从 buffer 读取",
  "   *       const myData = new Uint8Array(100);",
  "   *       //... 此处省略了填充 myData 数组的代码",
  "   *       const reader = new Deno.Buffer(myData.buffer as ArrayBuffer);",
  "   *       const bufferContent = Deno.readAllSync(reader);",
  "   */",
  "  export function readAllSync(r: ReaderSync): Uint8Array;",
  "",
  "  /** Write all the content of the array buffer (\x60arr\x60) to the writer (\x60w\x60).",
  "   * @i18n 将所有 Array Buffer （\x60arr\x60）中的的内容写入到对象 （\x60w\x60） 中。",
  "   *",
  "   *       // 举例：写入到 stdout",
  "   *       const contentBytes = new TextEncoder().encode(\"Hello World\");",
  "   *       await Deno.writeAll(Deno.stdout, contentBytes);",
  "   *",
  "   *       // 举例：写入到文件",
  "   *       const contentBytes = new TextEncoder().encode(\"Hello World\");",
  "   *       const file = await Deno.open(\x27test.file\x27, \x7bwrite: true\x7d);",
  "   *       await Deno.writeAll(file, contentBytes);",
  "   *       Deno.close(file.rid);",
  "   *",
  "   *       // 举例：写入到 Buffer 对象",
  "   *       const contentBytes = new TextEncoder().encode(\"Hello World\");",
  "   *       const writer = new Deno.Buffer();",
  "   *       await Deno.writeAll(writer, contentBytes);",
  "   *       console.log(writer.bytes().length);  // 11",
  "   */",
  "  export function writeAll(w: Writer, arr: Uint8Array): Promise<void>;",
  "",
  "  /** Synchronously write all the content of the array buffer (\x60arr\x60) to the",
  "   * writer (\x60w\x60).",
  "   * @i18n 将所有 Array Buffer （\x60arr\x60）中的的内容同步写入到对象 （\x60w\x60） 中。",
  "   *",
  "   *       // 举例：写入到 stdout",
  "   *       const contentBytes = new TextEncoder().encode(\"Hello World\");",
  "   *       Deno.writeAllSync(Deno.stdout, contentBytes);",
  "   *",
  "   *       // 举例：写入到文件",
  "   *       const contentBytes = new TextEncoder().encode(\"Hello World\");",
  "   *       const file = Deno.openSync(\x27test.file\x27, \x7bwrite: true\x7d);",
  "   *       Deno.writeAllSync(file, contentBytes);",
  "   *       Deno.close(file.rid);",
  "   *",
  "   *       // 举例：写入到 Buffer 对象",
  "   *       const contentBytes = new TextEncoder().encode(\"Hello World\");",
  "   *       const writer = new Deno.Buffer();",
  "   *       Deno.writeAllSync(writer, contentBytes);",
  "   *       console.log(writer.bytes().length);  // 11",
  "   */",
  "  export function writeAllSync(w: WriterSync, arr: Uint8Array): void;",
  "",
  "  export interface MkdirOptions \x7b",
  "    /** Defaults to \x60false\x60. If set to \x60true\x60, means that any intermediate",
  "     * directories will also be created (as with the shell command \x60mkdir -p\x60).",
  "     * Intermediate directories are created with the same permissions.",
  "     * When recursive is set to \x60true\x60, succeeds silently (without changing any",
  "     * permissions) if a directory already exists at the path, or if the path",
  "     * is a symlink to an existing directory.",
  "     * @i18n 默认为 \x60false\x60。",
  "     * 如果设置为 \x60true\x60，则意味着还将创建所有中间目录（如 shell 命令 \x60mkdir -p\x60 那样）。",
  "     * 使用相同的权限创建中间目录。",
  "     * 当设置为 \x60true\x60 时，如果路径中已经存在目录，或者该路径是到现有目录的符号链接，则会静默地操作成功（不更改任何权限）。*/",
  "    recursive?: boolean;",
  "    /** Permissions to use when creating the directory (defaults to \x600o777\x60,",
  "     * before the process\x27s umask).",
  "     * Ignored on Windows.",
  "     * @i18n 创建目录时使用的权限（在调用 \x60umask\x60 之前，默认值为 \x600o777\x60）。在 Windows 上被忽略。*/",
  "    mode?: number;",
  "  \x7d",
  "",
  "  /** Synchronously creates a new directory with the specified path.",
  "   * @i18n 同步地在指定路径下创建一个新的目录。",
  "   *",
  "   *       Deno.mkdirSync(\"new_dir\");",
  "   *       Deno.mkdirSync(\"nested/directories\", \x7b recursive: true \x7d);",
  "   *       Deno.mkdirSync(\"restricted_access_dir\", \x7b mode: 0o700 \x7d);",
  "   *",
  "   * Defaults to throwing error if the directory already exists.",
  "   * @i18n 目录存在的情况下，默认抛出错误。",
  "   *",
  "   * Requires \x60allow-write\x60 permission.",
  "   * @i18n 需要 \x60allow-write\x60 权限。*/",
  "  export function mkdirSync(path: string, options?: MkdirOptions): void;",
  "",
  "  /** Creates a new directory with the specified path.",
  "   * @i18n 在指定路径下创建一个新的目录。",
  "   *",
  "   *       await Deno.mkdir(\"new_dir\");",
  "   *       await Deno.mkdir(\"nested/directories\", \x7b recursive: true \x7d);",
  "   *       await Deno.mkdir(\"restricted_access_dir\", \x7b mode: 0o700 \x7d);",
  "   *",
  "   * Defaults to throwing error if the directory already exists.",
  "   * @i18n 目录存在的情况下，默认抛出错误。",
  "   *",
  "   * Requires \x60allow-write\x60 permission.",
  "   * @i18n 需要 \x60allow-write\x60 权限。*/",
  "  export function mkdir(path: string, options?: MkdirOptions): Promise<void>;",
  "",
  "  export interface MakeTempOptions \x7b",
  "    /** Directory where the temporary directory should be created (defaults to",
  "     * the env variable TMPDIR, or the system\x27s default, usually /tmp).",
  "     * @i18n 指定在哪里创建临时文件夹（默认为环境变量 TMPDIR 或者是系统默认目录，ps：通常是 /tmp）。*/",
  "    dir?: string;",
  "    /** String that should precede the random portion of the temporary",
  "     * directory\x27s name.",
  "     * @i18n 临时文件夹名前缀。*/",
  "    prefix?: string;",
  "    /** String that should follow the random portion of the temporary",
  "     * directory\x27s name.",
  "     * @i18n 临时文件夹名后缀。*/",
  "    suffix?: string;",
  "  \x7d",
  "",
  "  /** Synchronously creates a new temporary directory in the default directory",
  "   * for temporary files (see also \x60Deno.dir(\"temp\")\x60), unless \x60dir\x60 is specified.",
  "   * Other optional options include prefixing and suffixing the directory name",
  "   * with \x60prefix\x60 and \x60suffix\x60 respectively.",
  "   * @i18n 以同步的方式在默认文件夹（另见 \x60Deno.dir(\"temp\")\x60）中创建一个临时文件夹,",
  "   * 如果指定了 \x60dir\x60 ， 则在指定的 \x60dir\x60 中创建。",
  "   * 其他可选的参数包括分别给文件夹名添加前缀的 \x60prefix\x60 和给文件夹名添加后缀的 \x60sufix\x60。",
  "   *",
  "   * The full path to the newly created directory is returned.",
  "   * @i18n 返回新建文件夹的完整路径。",
  "   *",
  "   * Multiple programs calling this function simultaneously will create different",
  "   * directories. It is the caller\x27s responsibility to remove the directory when",
  "   * no longer needed.",
  "   * @i18n 多个程序同时调用该函数将会创建不同的文件夹。当不再需要该临时文件夹时，调用者应该主动删除该文件夹。",
  "   *",
  "   *       const tempDirName0 = Deno.makeTempDirSync();  // e.g. /tmp/2894ea76",
  "   *       const tempDirName1 = Deno.makeTempDirSync(\x7b prefix: \x27my_temp\x27 \x7d);  // e.g. /tmp/my_temp339c944d",
  "   *",
  "   * Requires \x60allow-write\x60 permission.",
  "   * @i18n 需要 \x60allow-write\x60 权限。*/",
  "  // TODO(ry) Doesn\x27t check permissions.",
  "  export function makeTempDirSync(options?: MakeTempOptions): string;",
  "",
  "  /** Creates a new temporary directory in the default directory for temporary",
  "   * files (see also \x60Deno.dir(\"temp\")\x60), unless \x60dir\x60 is specified.  Other",
  "   * optional options include prefixing and suffixing the directory name with",
  "   * \x60prefix\x60 and \x60suffix\x60 respectively.",
  "   * @i18n 在默认文件夹（另见 \x60Deno.dir(\"temp\")\x60）中创建一个临时文件夹,",
  "   * 如果指定了 \x60dir\x60 ， 则在指定的 \x60dir\x60 中创建。",
  "   * 其他可选的参数包括分别给文件夹名添加前缀的 \x60prefix\x60 和给文件夹名添加后缀的 \x60sufix\x60。",
  "   *",
  "   * This call resolves to the full path to the newly created directory.",
  "   * @i18n 返回新建文件夹的完整路径。",
  "   *",
  "   * Multiple programs calling this function simultaneously will create different",
  "   * directories. It is the caller\x27s responsibility to remove the directory when",
  "   * no longer needed.",
  "   * @i18n 多个程序同时调用该函数将会创建不同的文件夹。当不再需要该临时文件夹时，调用者应该主动删除该文件夹。",
  "   *",
  "   *       const tempDirName0 = await Deno.makeTempDir();  // e.g. /tmp/2894ea76",
  "   *       const tempDirName1 = await Deno.makeTempDir(\x7b prefix: \x27my_temp\x27 \x7d); // e.g. /tmp/my_temp339c944d",
  "   *",
  "   * Requires \x60allow-write\x60 permission.",
  "   * @i18n 需要 \x60allow-write\x60 权限。*/",
  "  // TODO(ry) Doesn\x27t check permissions.",
  "  export function makeTempDir(options?: MakeTempOptions): Promise<string>;",
  "",
  "  /** Synchronously creates a new temporary file in the default directory for",
  "   * temporary files (see also \x60Deno.dir(\"temp\")\x60), unless \x60dir\x60 is specified.",
  "   * Other optional options include prefixing and suffixing the directory name",
  "   * with \x60prefix\x60 and \x60suffix\x60 respectively.",
  "   * @i18n 以同步的方式在默认文件夹（另见 \x60Deno.dir(\"temp\")\x60）中创建一个临时文件,",
  "   * 如果指定了 \x60dir\x60 ， 则在指定的 \x60dir\x60 中创建。",
  "   * 其他可选的参数包括分别给文件名添加前缀的 \x60prefix\x60 和给文件名添加后缀的 \x60sufix\x60。",
  "   *",
  "   * The full path to the newly created file is returned.",
  "   * @i18n 返回新建文件的完整路径。",
  "   *",
  "   * Multiple programs calling this function simultaneously will create different",
  "   * files. It is the caller\x27s responsibility to remove the file when no longer",
  "   * needed.",
  "   * @i18n 多个程序同时调用该函数将会创建不同的文件。当不再需要该临时文件时，调用者应该主动删除该文件。",
  "   *",
  "   *       const tempFileName0 = Deno.makeTempFileSync(); // e.g. /tmp/419e0bf2",
  "   *       const tempFileName1 = Deno.makeTempFileSync(\x7b prefix: \x27my_temp\x27 \x7d);  //e.g. /tmp/my_temp754d3098",
  "   *",
  "   * Requires \x60allow-write\x60 permission.",
  "   * @i18n 需要 \x60allow-write\x60 权限。*/"
]

def bilingualLinesC6 : List String := [
  "  export function makeTempFileSync(options?: MakeTempOptions): string;",
  "",
  "  /** Creates a new temporary file in the default directory for temporary",
  "   * files (see also \x60Deno.dir(\"temp\")\x60), unless \x60dir\x60 is specified.  Other",
  "   * optional options include prefixing and suffixing the directory name with",
  "   * \x60prefix\x60 and \x60suffix\x60 respectively.",
  "   * @i18n 在默认文件夹（另见 \x60Deno.dir(\"temp\")\x60）中创建一个临时文件,",
  "   * 如果指定了 \x60dir\x60 ， 则在指定的 \x60dir\x60 中创建。",
  "   * 其他可选的参数包括分别给文件名添加前缀的 \x60prefix\x60 和给文件名添加后缀的 \x60sufix\x60。",
  "   *",
  "   * This call resolves to the full path to the newly created file.",
  "   * @i18n 返回新建文件的完整路径。",
  "   *",
  "   * Multiple programs calling this function simultaneously will create different",
  "   * files. It is the caller\x27s responsibility to remove the file when no longer",
  "   * needed.",
  "   * @i18n 多个程序同时调用该函数将会创建不同的文件。当不再需要该临时文件时，调用者应该主动删除该文件。",
  "   *",
  "   *       const tmpFileName0 = await Deno.makeTempFile();  // e.g. /tmp/419e0bf2",
  "   *       const tmpFileName1 = await Deno.makeTempFile(\x7b prefix: \x27my_temp\x27 \x7d);  //e.g. /tmp/my_temp754d3098",
  "   *",
  "   * Requires \x60allow-write\x60 permission.",
  "   * @i18n 需要 \x60allow-write\x60 权限。*/",
  "  export function makeTempFile(options?: MakeTempOptions): Promise<string>;",
  "",
  "  /** Synchronously changes the permission of a specific file/directory of",
  "   * specified path.  Ignores the process\x27s umask.",
  "   * @i18n 同步地更改指定路径下特定的文件/目录的权限。忽略进程的 umask。",
  "   *",
  "   *       Deno.chmodSync(\"/path/to/file\", 0o666);",
  "   *",
  "   * For a full description, see [chmod](#chmod)",
  "   * @i18n 相关完整说明，参考 [chmod](#chmod)",
  "   *",
  "   * NOTE: This API currently throws on Windows",
  "   * @i18n 注意：该 API 当前在 Windows 上使用会抛出异常。",
  "   *",
  "   * Requires \x60allow-write\x60 permission.",
  "   * @i18n 需要 \x60allow-write\x60 权限。*/",
  "  export function chmodSync(path: string, mode: number): void;",
  "",
  "  /** Changes the permission of a specific file/directory of specified path.",
  "   * Ignores the process\x27s umask.",
  "   * @i18n 更改指定路径下特定的文件/目录的权限。忽略进程的 umask。",
  "   *",
  "   *       await Deno.chmod(\"/path/to/file\", 0o666);",
  "   *",
  "   * The mode is a sequence of 3 octal numbers.  The first/left-most number",
  "   * specifies the permissions for the owner.  The second number specifies the",
  "   * permissions for the group. The last/right-most number specifies the",
  "   * permissions for others.  For example, with a mode of 0o764, the owner (7) can",
  "   * read/write/execute, the group (6) can read/write and everyone else (4) can",
  "   * read only.",
  "   * @i18n 该模式是3个八进制数字的序列。",
  "   * 第一个/最左边的数字指定所有者（owner）的权限。",
  "   * 第二个数字指定组（group）的权限。",
  "   * 最后/最右边的数字指定其他用户的权限。",
  "   * 例如，在 0o764 模式下，所有者（owner）有读/写/执行权限（7），组（group）有读/写权限（6），",
  "   * 其他用户（4）只有读的权限。",
  "   *",
  "   * | 值     | 说明         |",
  "   * | ------ | ----------- |",
  "   * | 7      | read, write, and execute |",
  "   * | 6      | read and write |",
  "   * | 5      | read and execute |",
  "   * | 4      | read only |",
  "   * | 3      | write and execute |",
  "   * | 2      | write only |",
  "   * | 1      | execute only |",
  "   * | 0      | no permission |",
  "   *",
  "   * NOTE: This API currently throws on Windows",
  "   * @i18n 注意：该 API 当前在 Windows 上使用会抛出异常。",
  "   *",
  "   * Requires \x60allow-write\x60 permission.",
  "   * @i18n 需要 \x60allow-write\x60 权限。*/",
  "  export function chmod(path: string, mode: number): Promise<void>;",
  "",
  "  /** Synchronously change owner of a regular file or directory. This functionality",
  "   * is not available on Windows.",
  "   * @i18n 同步地更改常规文件或目录的所有者。该功能在 Windows 上不可用。",
  "   *",
  "   *      Deno.chownSync(\"myFile.txt\", 1000, 1002);",
  "   *",
  "   * Requires \x60allow-write\x60 permission.",
  "   * @i18n 需要 \x60allow-write\x60 权限。",
  "   *",
  "   * Throws Error (not implemented) if executed on Windows",
  "   * @i18n 如果在 Windows 上执行，将抛出错误（未实现）。",
  "   *",
  "   * @param path path to the file",
  "   * @param_i18n path 文件路径",
  "   * @param uid 文件新的所有者的用户 ID (UID)",
  "   * @param_i18n uid user id (UID) of the new owner",
  "   * @param gid group id (GID) of the new owner",
  "   * @param_i18n gid 文件新的所有者的用户组 ID (GID)",
  "   */",
  "  export function chownSync(path: string, uid: number, gid: number): void;",
  "",
  "  /** Change owner of a regular file or directory. This functionality",
  "   * is not available on Windows.",
  "   * @i18n 更改常规文件或目录的所有者。该功能在 Windows 上不可用。",
  "   *",
  "   *      await Deno.chown(\"myFile.txt\", 1000, 1002);",
  "   *",
  "   * Requires \x60allow-write\x60 permission.",
  "   * @i18n 需要 \x60allow-write\x60 权限。",
  "   *",
  "   * Throws Error (not implemented) if executed on Windows",
  "   * @i18n 如果在 Windows 上执行，将抛出错误（未实现）。",
  "   *",
  "   * @param path path to the file",
  "   * @param_i18n path 文件路径",
  "   * @param uid 文件新的所有者的用户 ID (UID)",
  "   * @param_i18n uid user id (UID) of the new owner",
  "   * @param gid group id (GID) of the new owner",
  "   * @param_i18n gid 文件新的所有者的用户组 ID (GID)",
  "   */",
  "  export function chown(path: string, uid: number, gid: number): Promise<void>;",
  "",
  "  /** **UNSTABLE**: needs investigation into high precision time.",
  "   * @i18n **不稳定**：需要对高精度时间（hrtime）进行调查。",
  "   *",
  "   * Synchronously changes the access (\x60atime\x60) and modification (\x60mtime\x60) times",
  "   * of a file system object referenced by \x60path\x60. Given times are either in",
  "   * seconds (UNIX epoch time) or as \x60Date\x60 objects.",
  "   * @i18n 同步地更改路径（\x60path\x60）引用的文件系统对象的访问时间（\x60atime\x60）和修改时间（\x60mtime\x60）。",
  "   * 给定的时间参数可以是秒（UNIX 纪元时间）或者日期对象。",
  "   *",
  "   *       Deno.utimeSync(\"myfile.txt\", 1556495550, new Date());",
  "   *",
  "   * Requires \x60allow-write\x60 permission.",
  "   * @i18n 需要 \x60allow-write\x60 权限。*/",
  "  export function utimeSync(",
  "    path: string,",
  "    atime: number | Date,",
  "    mtime: number | Date",
  "  ): void;",
  "",
  "  /** **UNSTABLE**: needs investigation into high precision time.",
  "   * @i18n **UNSTABLE**: 需要调研高精度的 time。",
  "   *",
  "   * Changes the access (\x60atime\x60) and modification (\x60mtime\x60) times of a file",
  "   * system object referenced by \x60path\x60. Given times are either in seconds",
  "   * (UNIX epoch time) or as \x60Date\x60 objects.",
  "   * @i18n 基于文件系统的 \x60path\x60 改变访问 (\x60atime\x60) 和修改 (\x60mtime\x60) 的时间。",
  "   * 给定的时间以秒 （UNIX epoch time） 为单位或着是 \x60Date\x60 对象。",
  "   *",
  "   *       await Deno.utime(\"myfile.txt\", 1556495550, new Date());",
  "   *",
  "   * Requires \x60allow-write\x60 permission.",
  "   * @i18n 需要 \x60allow-write\x60 权限。*/",
  "  export function utime(",
  "    path: string,",
  "    atime: number | Date,",
  "    mtime: number | Date",
  "  ): Promise<void>;",
  "",
  "  export interface RemoveOptions \x7b",
  "    /** Defaults to \x60false\x60. If set to \x60true\x60, path will be removed even if",
  "     * it\x27s a non-empty directory.",
  "     * @i18n 默认为 \x60false\x60。如果设置为 \x60true\x60，则即使路径为非空目录也会被删除。*/",
  "    recursive?: boolean;",
  "  \x7d",
  "",
  "  /** Synchronously removes the named file or directory.",
  "   * @i18n 同步删除指定的文件或目录。",
  "   *",
  "   *       Deno.removeSync(\"/path/to/empty_dir/or/file\");",
  "   *       Deno.removeSync(\"/path/to/populated_dir/or/file\", \x7b recursive: true \x7d);",
  "   *",
  "   * Throws error if permission denied, path not found, or path is a non-empty",
  "   * directory and the \x60recursive\x60 option isn\x27t set to \x60true\x60.",
  "   * @i18n 当权限被拒绝、路径找不到或者为非空目录且 \x60recursive\x60 未设置为 \x60true\x60，则抛出异常。",
  "   *",
  "   * Requires \x60allow-write\x60 permission.",
  "   * @i18n 需要 \x60allow-write\x60 权限。*/",
  "  export function removeSync(path: string, options?: RemoveOptions): void;",
  "",
  "  /** Removes the named file or directory.",
  "   * @i18n 删除指定的文件或目录。",
  "   *",
  "   *       await Deno.remove(\"/path/to/empty_dir/or/file\");",
  "   *       await Deno.remove(\"/path/to/populated_dir/or/file\", \x7b recursive: true \x7d);",
  "   *",
  "   * Throws error if permission denied, path not found, or path is a non-empty",
  "   * directory and the \x60recursive\x60 option isn\x27t set to \x60true\x60.",
  "   * @i18n 当权限被拒绝、路径找不到或者为非空目录且 \x60recursive\x60 未设置为 \x60true\x60，则抛出异常。",
  "   *",
  "   * Requires \x60allow-write\x60 permission.",
  "   * @i18n 需要 \x60allow-write\x60 权限。*/",
  "  export function remove(path: string, options?: RemoveOptions): Promise<void>;",
  "",
  "  /** Synchronously renames (moves) \x60oldpath\x60 to \x60newpath\x60. Paths may be files or",
  "   * directories.  If \x60newpath\x60 already exists and is not a directory,",
  "   * \x60renameSync()\x60 replaces it. OS-specific restrictions may apply when",
  "   * \x60oldpath\x60 and \x60newpath\x60 are in different directories.",
  "   * @i18n 同步方式将 \x60oldpath\x60 重命名（或移动）为 \x60newpath\x60。路径可以是文件或目录。",
  "   * 如果 \x60newpath\x60 已经存在且不是目录，那么 \x60rename()\x60 将替换它。",
  "   * 当 \x60oldpath\x60 和 \x60newpath\x60 位于不同的目录中时，可能会受到操作系统的限制。",
  "   *",
  "   *       Deno.renameSync(\"old/path\", \"new/path\");",
  "   *",
  "   * On Unix, this operation does not follow symlinks at either path.",
  "   * @i18n 在 Unix 系统上，此操作不会修改符号链接所指向的内容。",
  "   *",
  "   * It varies between platforms when the operation throws errors, and if so what",
  "   * they are. It\x27s always an error to rename anything to a non-empty directory.",
  "   * @i18n 当操作引发错误时，平台之间会有所不同。",
  "   * 如果 \x60newpath\x60 是非空目录则始终会报错。",
  "   *",
  "   * Requires \x60allow-read\x60 and \x60allow-write\x60 permissions.",
  "   * @i18n 需要 \x60allow-read\x60 和 \x60allow-write\x60 权限。*/"
]

def bilingualLinesC7 : List String := [
  "  export function renameSync(oldpath: string, newpath: string): void;",
  "",
  "  /** Renames (moves) \x60oldpath\x60 to \x60newpath\x60.  Paths may be files or directories.",
  "   * If \x60newpath\x60 already exists and is not a directory, \x60rename()\x60 replaces it.",
  "   * OS-specific restrictions may apply when \x60oldpath\x60 and \x60newpath\x60 are in",
  "   * different directories.",
  "   * @i18n 将 \x60oldpath\x60 重命名（或移动）为 \x60newpath\x60。路径可以是文件或目录。",
  "   * 如果 \x60newpath\x60 已经存在且不是目录，那么 \x60rename()\x60 将替换它。",
  "   * 当 \x60oldpath\x60 和 \x60newpath\x60 位于不同的目录中时，可能会受到操作系统的限制。",
  "   *",
  "   *       await Deno.rename(\"old/path\", \"new/path\");",
  "   *",
  "   * On Unix, this operation does not follow symlinks at either path.",
  "   * @i18n 在 Unix 系统上，此操作不会修改符号链接所指向的内容。",
  "   *",
  "   * It varies between platforms when the operation throws errors, and if so what",
  "   * they are. It\x27s always an error to rename anything to a non-empty directory.",
  "   * @i18n 当操作引发错误时，平台之间会有所不同。",
  "   * 如果 \x60newpath\x60 是非空目录则始终会报错。",
  "   *",
  "   * Requires \x60allow-read\x60 and \x60allow-write\x60 permission.",
  "   * @i18n 需要 \x60allow-read\x60 和 \x60allow-write\x60 权限。*/",
  "  export function rename(oldpath: string, newpath: string): Promise<void>;",
  "",
  "  /** Synchronously reads and returns the entire contents of a file as an array",
  "   * of bytes. \x60TextDecoder\x60 can be used to transform the bytes to string if",
  "   * required.  Reading a directory returns an empty data array.",
  "   * @i18n 同步地读取并将文件的全部内容解析为字节数组。",
  "   * \x60TextDecoder\x60 可以在需要的情况下可以将字节转换成字符串。",
  "   * 读取目录返回一个空的数据数组。",
  "   *",
  "   *       const decoder = new TextDecoder(\"utf-8\");",
  "   *       const data = Deno.readFileSync(\"hello.txt\");",
  "   *       console.log(decoder.decode(data));",
  "   *",
  "   * Requires \x60allow-read\x60 permission.",
  "   * @i18n 需要 \x60allow-read\x60 权限。*/",
  "  export function readFileSync(path: string): Uint8Array;",
  "",
  "  /** Reads and resolves to the entire contents of a file as an array of bytes.",
  "   * \x60TextDecoder\x60 can be used to transform the bytes to string if required.",
  "   * Reading a directory returns an empty data array.",
  "   * @i18n 读取并将文件的全部内容解析为字节数组。",
  "   * \x60TextDecoder\x60 可以在需要的情况下可以将字节转换成字符串。",
  "   * 读取目录返回一个空的数据数组。",
  "   *",
  "   *       const decoder = new TextDecoder(\"utf-8\");",
  "   *       const data = await Deno.readFile(\"hello.txt\");",
  "   *       console.log(decoder.decode(data));",
  "   *",
  "   * Requires \x60allow-read\x60 permission.",
  "   * @i18n 需要 \x60allow-read\x60 权限。*/",
  "  export function readFile(path: string): Promise<Uint8Array>;",
  "",
  "  /** A FileInfo describes a file and is returned by \x60stat\x60, \x60lstat\x60,",
  "   * \x60statSync\x60, \x60lstatSync\x60.",
  "   * @i18n FileInfo 用于描述 \x60stat\x60, \x60lstat\x60,",
  "   * \x60statSync\x60, \x60lstatSync\x60 函数返回的文件信息。而 \x60readdir\x60,",
  "   * \x60readdirSync\x60 返回的信息则用 FileInfo 列表来描述。*/",
  "  export interface FileInfo \x7b",
  "    /** True if this is info for a regular file. Mutually exclusive to",
  "     * \x60FileInfo.isDirectory\x60 and \x60FileInfo.isSymlink\x60.",
  "     * @i18n 判断文件是否为一个常规文件。该结果与 \x60FileInfo.isDirectory\x60 和 \x60FileInfo.isSymlink\x60 互斥。*/",
  "    isFile: boolean;",
  "    /** True if this is info for a regular directory. Mutually exclusive to",
  "     * \x60FileInfo.isFile\x60 and \x60FileInfo.isSymlink\x60.",
  "     * @i18n 判断文件是否为一个常规目录。该结果与 \x60FileInfo.isFile\x60 和 \x60FileInfo.isSymlink\x60 互斥。*/",
  "    isDirectory: boolean;",
  "    /** True if this is info for a symlink. Mutually exclusive to",
  "     * \x60FileInfo.isFile\x60 and \x60FileInfo.isDirectory\x60.",
  "     * @i18n 判断文件是否为一个符号链接。该结果与 \x60FileInfo.isDirectory\x60 和 \x60FileInfo.isDirectory\x60 互斥。*/",
  "    isSymlink: boolean;",
  "    /** The size of the file, in bytes.",
  "     * @i18n 文件的大小，单位 byte。*/",
  "    size: number;",
  "    /** The last modification time of the file. This corresponds to the \x60mtime\x60",
  "     * field from \x60stat\x60 on Linux/Mac OS and \x60ftLastWriteTime\x60 on Windows. This",
  "     * may not be available on all platforms.",
  "     * @i18n 文件最后修改时间。",
  "     * 在 Linux/Mac 系统这个值是 \x60mtime\x60，在 Windows 系统这个值是 \x60ftLastWriteTime\x60。",
  "     * 在某些系统中这个属性可能不存在。*/",
  "    modified: number | null;",
  "    /** The last access time of the file. This corresponds to the \x60atime\x60",
  "     * field from \x60stat\x60 on Unix and \x60ftLastAccessTime\x60 on Windows. This may not",
  "     * be available on all platforms.",
  "     * @i18n 文件最后访问时间。",
  "     * 在 Linux/Mac 系统这个值是 \x60atime\x60，在 Windows 系统这个值是 \x60ftLastAccessTime\x60。",
  "     * 在某些系统中这个属性可能不存在。*/",
  "    accessed: number | null;",
  "    /** The last access time of the file. This corresponds to the \x60birthtime\x60",
  "     * field from \x60stat\x60 on Mac/BSD and \x60ftCreationTime\x60 on Windows. This may not",
  "     * be available on all platforms.",
  "     * @i18n 文件的创建时间。",
  "     * 在 Linux/Mac 系统这个值是 \x60birthtime\x60，在 Windows 系统这个值是 \x60ftCreationTime\x60。",
  "     * 在某些系统中这个属性可能不存在。*/",
  "    created: number | null;",
  "    /** ID of the device containing the file.",
  "     * @i18n 包含此文件的设备的 ID。",
  "     *",
  "     * _Linux/Mac OS only._",
  "     * @i18n _只在 Linux/Mac OS 有效。_*/",
  "    dev: number | null;",
  "    /** Inode number.",
  "     * @i18n Inode 值。",
  "     *",
  "     * _Linux/Mac OS only._",
  "     * @i18n _只在 Linux/Mac OS 有效。_*/",
  "    ino: number | null;",
  "    /** **UNSTABLE**: Match behavior with Go on Windows for \x60mode\x60.",
  "     * @i18n **不稳定**: 将此属性的行为与 Windows 上的 Go 相匹配。",
  "     *",
  "     * The underlying raw \x60st_mode\x60 bits that contain the standard Unix",
  "     * permissions for this file/directory.",
  "     * @i18n 该文件或目录的权限位，返回标准的 Unix 底层 \x60st_mode\x60 位。*/",
  "    mode: number | null;",
  "    /** Number of hard links pointing to this file.",
  "     * @i18n 文件的硬链接数。",
  "     *",
  "     * _Linux/Mac OS only._",
  "     * @i18n _只在 Linux/Mac OS 有效。_*/",
  "    nlink: number | null;",
  "    /** User ID of the owner of this file.",
  "     * @i18n 拥有该文件的用户的 uid。",
  "     *",
  "     * _Linux/Mac OS only._",
  "     * @i18n _只在 Linux/Mac OS 有效。_*/",
  "    uid: number | null;",
  "    /** User ID of the owner of this file.",
  "     * @i18n 拥有该文件的用户组的 gid。",
  "     *",
  "     * _Linux/Mac OS only._",
  "     * @i18n _只在 Linux/Mac OS 有效。_*/",
  "    gid: number | null;",
  "    /** Device ID of this file.",
  "     * @i18n 文件设备标识符 ID。",
  "     *",
  "     * _Linux/Mac OS only._",
  "     * @i18n _只在 Linux/Mac OS 有效。_*/",
  "    rdev: number | null;",
  "    /** Blocksize for filesystem I/O.",
  "     * @i18n 用于 I/O 操作的文件系统块的大小。",
  "     *",
  "     * _Linux/Mac OS only._",
  "     * @i18n _只在 Linux/Mac OS 有效。_*/",
  "    blksize: number | null;",
  "    /** Number of blocks allocated to the file, in 512-byte units.",
  "     * @i18n 为此文件分配的块数，此值是一个 512 字节单位。",
  "     *",
  "     * _Linux/Mac OS only._",
  "     * @i18n _只在 Linux/Mac OS 有效。_*/",
  "    blocks: number | null;",
  "  \x7d",
  "",
  "  /** Returns absolute normalized path, with symbolic links resolved.",
  "   * @i18n 返回被解析后的符号链接绝对路径。",
  "   *",
  "   *       // e.g. given /home/alice/file.txt and current directory /home/alice",
  "   *       Deno.symlinkSync(\"file.txt\", \"symlink_file.txt\");",
  "   *       const realPath = Deno.realpathSync(\"./file.txt\");",
  "   *       const realSymLinkPath = Deno.realpathSync(\"./symlink_file.txt\");",
  "   *       console.log(realPath);  // outputs \"/home/alice/file.txt\"",
  "   *       console.log(realSymLinkPath);  //outputs \"/home/alice/file.txt\"",
  "   *",
  "   * Requires \x60allow-read\x60 permission.",
  "   * @i18n 需要 \x60allow-read\x60 权限。*/",
  "  export function realpathSync(path: string): string;",
  "",
  "  /** Resolves to the absolute normalized path, with symbolic links resolved.",
  "   * @i18n 返回被解析后的符号链接绝对路径。",
  "   *",
  "   *       // e.g. given /home/alice/file.txt and current directory /home/alice",
  "   *       await Deno.symlink(\"file.txt\", \"symlink_file.txt\");",
  "   *       const realPath = await Deno.realpath(\"./file.txt\");",
  "   *       const realSymLinkPath = await Deno.realpath(\"./symlink_file.txt\");",
  "   *       console.log(realPath);  // outputs \"/home/alice/file.txt\"",
  "   *       console.log(realSymLinkPath);  //outputs \"/home/alice/file.txt\"",
  "   *",
  "   * Requires \x60allow-read\x60 permission.",
  "   * @i18n 需要 \x60allow-read\x60 权限*/",
  "  export function realpath(path: string): Promise<string>;",
  "",
  "  export interface DirEntry extends FileInfo \x7b",
  "    name: string;",
  "  \x7d",
  "",
  "  /** Synchronously reads the directory given by \x60path\x60 and returns an iterable",
  "   * of \x60Deno.DirEntry\x60.",
  "   * @i18n 同步读取 \x60path\x60 文件目录，并返回 \x60Deno.DirEntry\x60 迭代器。",
  "   *",
  "   *       for (const dirEntry of Deno.readdirSync(\"/\")) \x7b",
  "   *         console.log(dirEntry.name);",
  "   *       \x7d",
  "   *",
  "   * Throws error if \x60path\x60 is not a directory.",
  "   * @i18n 如果 \x60path\x60 不是目录则抛出错误。",
  "   *",
  "   * Requires \x60allow-read\x60 permission.",
  "   * @i18n 需要 \x60allow-read\x60 权限。*/",
  "  export function readdirSync(path: string): Iterable<DirEntry>;",
  ""
]

def bilingualLinesC8 : List String := [
  "  /** Reads the directory given by \x60path\x60 and returns an async iterable of",
  "   * \x60Deno.DirEntry\x60.",
  "   * @i18n 读取 \x60path\x60 文件目录，并返回 \x60Deno.DirEntry\x60 迭代器。",
  "   *",
  "   *       for await (const dirEntry of Deno.readdir(\"/\")) \x7b",
  "   *         console.log(dirEntry.name);",
  "   *       \x7d",
  "   *",
  "   * Throws error if \x60path\x60 is not a directory.",
  "   * @i18n 如果 \x60path\x60 不是目录则抛出错误。",
  "   *",
  "   * Requires \x60allow-read\x60 permission. */",
  "  export function readdir(path: string): AsyncIterable<DirEntry>;",
  "",
  "  /** Synchronously copies the contents and permissions of one file to another",
  "   * specified path, by default creating a new file if needed, else overwriting.",
  "   * Fails if target path is a directory or is unwritable.",
  "   * @i18n 采用同步方式将一个文件的内容和权限复制到另一个指定的路径，默认情况下根据需要",
  "   * 创建新文件或者覆盖原文件。 如果目标路径是目录或不可写，则失败。",
  "   *",
  "   *       Deno.copyFileSync(\"from.txt\", \"to.txt\");",
  "   *",
  "   * Requires \x60allow-read\x60 permission on fromPath.",
  "   * Requires \x60allow-write\x60 permission on toPath.",
  "   * @i18n \x60fromPath\x60 需要 \x60allow-read\x60 权限。",
  "   * \x60toPath\x60 需要 \x60allow-write\x60 权限。*/",
  "  export function copyFileSync(fromPath: string, toPath: string): void;",
  "",
  "  /** Copies the contents and permissions of one file to another specified path,",
  "   * by default creating a new file if needed, else overwriting. Fails if target",
  "   * path is a directory or is unwritable.",
  "   * @i18n 将一个文件的内容和权限复制到另一个指定的路径，默认情况下根据需要",
  "   * 创建新文件或者覆盖原文件。 如果目标路径是目录或不可写，则失败。",
  "   *",
  "   *       await Deno.copyFile(\"from.txt\", \"to.txt\");",
  "   *",
  "   * Requires \x60allow-read\x60 permission on fromPath.",
  "   * Requires \x60allow-write\x60 permission on toPath.",
  "   * @i18n \x60fromPath\x60 需要 \x60allow-read\x60 权限。",
  "   * \x60toPath\x60 需要 \x60allow-write\x60 权限。*/",
  "  export function copyFile(fromPath: string, toPath: string): Promise<void>;",
  "",
  "  /** Returns the full path destination of the named symbolic link.",
  "   * @i18n 同步方式解析并返回符号链接对目标文件的绝对路径。",
  "   *",
  "   *       Deno.symlinkSync(\"./test.txt\", \"./test_link.txt\");",
  "   *       const target = Deno.readlinkSync(\"./test_link.txt\"); // ./test.txt 的绝对路径",
  "   *",
  "   * Throws TypeError if called with a hard link",
  "   * @i18n 如果使用硬链接调用，则会抛出 \x60TypeError\x60。",
  "   *",
  "   * Requires \x60allow-read\x60 permission.",
  "   * @i18n 需要 \x60allow-read\x60 权限。*/",
  "  export function readlinkSync(path: string): string;",
  "",
  "  /** Resolves to the full path destination of the named symbolic link.",
  "   * @i18n 解析并返回符号链接对目标文件的绝对路径。",
  "   *",
  "   *       await Deno.symlink(\"./test.txt\", \"./test_link.txt\");",
  "   *       const target = await Deno.readlink(\"./test_link.txt\"); // ./test.txt 的绝对路径",
  "   *",
  "   * Throws TypeError if called with a hard link",
  "   * @i18n 如果使用硬链接调用，则会抛出 \x60TypeError\x60。",
  "   *",
  "   * Requires \x60allow-read\x60 permission.",
  "   * @i18n 需要 \x60allow-read\x60 权限。*/",
  "  export function readlink(path: string): Promise<string>;",
  "",
  "  /** Resolves to a \x60Deno.FileInfo\x60 for the specified \x60path\x60. If \x60path\x60 is a",
  "   * symlink, information for the symlink will be returned instead of what it",
  "   * points to.",
  "   * @i18n 解析给定的 \x60path\x60，并返回 \x60Deno.FileInfo\x60。如果 \x60path\x60 是一个",
  "   * 符号链接，则将返回符号链接的信息，而不是该符号链接引用的文件信息。",
  "   *",
  "   *       const fileInfo = await Deno.lstat(\"hello.txt\");",
  "   *       assert(fileInfo.isFile);",
  "   *",
  "   * Requires \x60allow-read\x60 permission.",
  "   * @i18n 需要 \x60allow-read\x60 权限。*/",
  "  export function lstat(path: string): Promise<FileInfo>;",
  "",
  "  /** Synchronously returns a \x60Deno.FileInfo\x60 for the specified \x60path\x60. If",
  "   * \x60path\x60 is a symlink, information for the symlink will be returned instead of",
  "   * what it points to..",
  "   * @i18n 同步方式解析给定的 \x60path\x60，并返回 \x60Deno.FileInfo\x60。如果 \x60path\x60 是一个",
  "   * 符号链接，则将返回符号链接的信息，而不是该符号链接引用的文件信息。",
  "   *",
  "   *       const fileInfo = Deno.lstatSync(\"hello.txt\");",
  "   *       assert(fileInfo.isFile);",
  "   *",
  "   * Requires \x60allow-read\x60 permission.",
  "   * @i18n 需要 \x60allow-read\x60 权限。*/",
  "  export function lstatSync(path: string): FileInfo;",
  "",
  "  /** Resolves to a \x60Deno.FileInfo\x60 for the specified \x60path\x60. Will always",
  "   * follow symlinks.",
  "   * @i18n 解析给定 \x60path\x60，返回 \x60Deno.FileInfo\x60。如果 \x60path\x60 为符号链接，则返回符号链接指向的文件。",
  "   *",
  "   *       const fileInfo = await Deno.stat(\"hello.txt\");",
  "   *       assert(fileInfo.isFile);",
  "   *",
  "   * Requires \x60allow-read\x60 permission.",
  "   * @i18n 需要 \x60allow-read\x60 权限。*/",
  "  export function stat(path: string): Promise<FileInfo>;",
  "",
  "  /** Synchronously returns a \x60Deno.FileInfo\x60 for the specified \x60path\x60. Will",
  "   * always follow symlinks.",
  "   * @i18n 同步方式解析给定 \x60path\x60，返回 \x60Deno.FileInfo\x60。",
  "   * 如果 \x60path\x60 为符号链接，则返回符号链接指向的文件。",
  "   *",
  "   *       const fileInfo = Deno.statSync(\"hello.txt\");",
  "   *       assert(fileInfo.isFile);",
  "   *",
  "   * Requires \x60allow-read\x60 permission.",
  "   * @i18n 需要 \x60allow-read\x60 权限。*/",
  "  export function statSync(path: string): FileInfo;",
  "",
  "  /** Synchronously creates \x60newpath\x60 as a hard link to \x60oldpath\x60.",
  "   * @i18n 同步方式创建 \x60newpath\x60 作为 \x60oldpath\x60 的硬链接。",
  "   *",
  "   *       Deno.linkSync(\"old/name\", \"new/name\");",
  "   *",
  "   * Requires \x60allow-read\x60 and \x60allow-write\x60 permissions.",
  "   * @i18n 需要 \x60allow-read\x60 和 \x60allow-write\x60 权限。*/",
  "  export function linkSync(oldpath: string, newpath: string): void;",
  "",
  "  /** Creates \x60newpath\x60 as a hard link to \x60oldpath\x60.",
  "   * @i18n 创建 \x60newpath\x60 作为 \x60oldpath\x60 的硬链接。",
  "   *",
  "   *       await Deno.link(\"old/name\", \"new/name\");",
  "   *",
  "   * Requires \x60allow-read\x60 and \x60allow-write\x60 permissions.",
  "   * @i18n 需要 \x60allow-read\x60 和 \x60allow-write\x60 权限。*/",
  "  export function link(oldpath: string, newpath: string): Promise<void>;",
  "",
  "  /** **UNSTABLE**: \x60type\x60 argument type may be changed to \x60\"dir\" | \"file\"\x60.",
  "   * @i18n **不稳定**：\x60type\x60 参数可能更改为 \x60\"dir\" | \"file\"\x60 的联合类型。",
  "   *",
  "   * Creates \x60newpath\x60 as a symbolic link to \x60oldpath\x60.",
  "   * @i18n 同步方式创建 \x60newpath\x60 作为指向 \x60oldpath\x60 的符号链接。",
  "   *",
  "   * The type argument can be set to \x60dir\x60 or \x60file\x60. This argument is only",
  "   * available on Windows and ignored on other platforms.",
  "   * @i18n \x60type\x60 参数可以设置为 \x60dir\x60 或 \x60file\x60。此参数仅在 Windows 上可用，其他平台会被忽略。",
  "   *",
  "   * NOTE: This function is not yet implemented on Windows.",
  "   * @i18n 注意：此函数尚未在 Windows 上实现。",
  "   *",
  "   *       Deno.symlinkSync(\"old/name\", \"new/name\");",
  "   *",
  "   * Requires \x60allow-read\x60 and \x60allow-write\x60 permissions.",
  "   * @i18n 需要 \x60allow-read\x60 和 \x60allow-write\x60 权限。*/",
  "  export function symlinkSync(",
  "    oldpath: string,",
  "    newpath: string,",
  "    type?: string",
  "  ): void;",
  "",
  "  /** **UNSTABLE**: \x60type\x60 argument may be changed to \x60\"dir\" | \"file\"\x60",
  "   * @i18n **不稳定**：\x60type\x60 参数可能更改为 \x60\"dir\" | \"file\"\x60 的联合类型。",
  "   *",
  "   * Creates \x60newpath\x60 as a symbolic link to \x60oldpath\x60.",
  "   * @i18n 创建 \x60newpath\x60 作为指向 \x60oldpath\x60 的符号链接。",
  "   *",
  "   * The type argument can be set to \x60dir\x60 or \x60file\x60. This argument is only",
  "   * available on Windows and ignored on other platforms.",
  "   * @i18n \x60type\x60 参数可以设置为 \x60dir\x60 或 \x60file\x60。此参数仅在 Windows 上可用，其他平台会被忽略。",
  "   *",
  "   * NOTE: This function is not yet implemented on Windows.",
  "   * @i18n 注意：此函数尚未在 Windows 上实现。",
  "   *",
  "   *       await Deno.symlink(\"old/name\", \"new/name\");",
  "   *",
  "   * Requires \x60allow-read\x60 and \x60allow-write\x60 permissions.",
  "   * @i18n 需要 \x60allow-read\x60 和 \x60allow-write\x60 权限。*/",
  "  export function symlink(",
  "    oldpath: string,",
  "    newpath: string,",
  "    type?: string",
  "  ): Promise<void>;",
  "",
  "  /** Options for writing to a file.",
  "   * @i18n \x60Deno.writeFileSync\x60 和 \x60Deno.writeFile\x60 的选项。*/",
  "  export interface WriteFileOptions \x7b",
  "    /** Defaults to \x60false\x60. If set to \x60true\x60, will append to a file instead of",
  "     * overwriting previous contents.",
  "     * @i18n 默认为 \x60false\x60。如果设置为 \x60true\x60，则将追加到文件中，而不是覆盖之前的内容。*/",
  "    append?: boolean;",
  "    /** Sets the option to allow creating a new file, if one doesn\x27t already",
  "     * exist at the specified path (defaults to \x60true\x60).",
  "     * @i18n 默认为 \x60true\x60。如果指定路径不存在文件，是否允许创建新文件的选项。*/",
  "    create?: boolean;",
  "    /** Permissions always applied to file.",
  "     * @i18n 文件的权限。*/",
  "    mode?: number;",
  "  \x7d",
  "",
  "  /** Synchronously write \x60data\x60 to the given \x60path\x60, by default creating a new",
  "   * file if needed, else overwriting.",
  "   * @i18n 同步方式将 \x60data\x60 写入给定的 \x60path\x60，并且根据需要创建新文件或者覆盖原文件。",
  "   *",
  "   *       const encoder = new TextEncoder();",
  "   *       const data = encoder.encode(\"Hello world\\n\");",
  "   *       Deno.writeFileSync(\"hello1.txt\", data);  // 覆盖或者创建 \"hello1.txt\"",
  "   *       Deno.writeFileSync(\"hello2.txt\", data, \x7bcreate: false\x7d);  // 仅当 \"hello2.txt\" 存在的情况下才有效",
  "   *       Deno.writeFileSync(\"hello3.txt\", data, \x7bmode: 0o777\x7d);  // 设置新文件的权限",
  "   *       Deno.writeFileSync(\"hello4.txt\", data, \x7bappend: true\x7d);  // 在文件末尾添加数据",
  "   *",
  "   * Requires \x60allow-write\x60 permission, and \x60allow-read\x60 if \x60options.create\x60 is",
  "   * \x60false\x60.",
  "   * @i18n 需要 \x60allow-write\x60 权限。如果 \x60options.create\x60 为 \x60false\x60 且需要 \x60allow-read\x60 权限。",
  "   */"
]

def bilingualLinesC9 : List String := [
  "  export function writeFileSync(",
  "    path: string,",
  "    data: Uint8Array,",
  "    options?: WriteFileOptions",
  "  ): void;",
  "",
  "  /** Write \x60data\x60 to the given \x60path\x60, by default creating a new file if needed,",
  "   * else overwriting.",
  "   * @i18n 将 \x60data\x60 写入给定的 \x60path\x60，并且根据需要创建新文件或者覆盖原文件。",
  "   *",
  "   *       const encoder = new TextEncoder();",
  "   *       const data = encoder.encode(\"Hello world\\n\");",
  "   *       await Deno.writeFile(\"hello1.txt\", data);  // 覆盖或者创建 \"hello1.txt\"",
  "   *       await Deno.writeFile(\"hello2.txt\", data, \x7bcreate: false\x7d);  // 仅当 \"hello2.txt\" 存在的情况下才有效",
  "   *       await Deno.writeFile(\"hello3.txt\", data, \x7bmode: 0o777\x7d);  // 设置新文件的权限",
  "   *       await Deno.writeFile(\"hello4.txt\", data, \x7bappend: true\x7d);  // 在文件末尾添加数据",
  "   *",
  "   * Requires \x60allow-write\x60 permission, and \x60allow-read\x60 if \x60options.create\x60 is \x60false\x60.",
  "   * @i18n 需要 \x60allow-write\x60 权限。如果 \x60options.create\x60 为 \x60false\x60 且需要 \x60allow-read\x60 权限。",
  "   */",
  "  export function writeFile(",
  "    path: string,",
  "    data: Uint8Array,",
  "    options?: WriteFileOptions",
  "  ): Promise<void>;",
  "",
  "  /** **UNSTABLE**: Should not have same name as \x60window.location\x60 type.",
  "   * @i18n **不稳定**: 不应该和 \x60window.location\x60 具有相同的类型名。*/",
  "  interface Location \x7b",
  "    /** The full url for the module, e.g. \x60file://some/file.ts\x60 or",
  "     * \x60https://some/file.ts\x60.",
  "     * @i18n 模块的完整 url，例如：\x60file://some/file.ts\x60 抑或是 \x60https://some/file.ts\x60。*/",
  "    fileName: string;",
  "    /** The line number in the file. It is assumed to be 1-indexed.",
  "     * @i18n 在文件中的行号，从 1 开始索引。*/",
  "    lineNumber: number;",
  "    /** The column number in the file. It is assumed to be 1-indexed.",
  "     * @i18n 在文件中的列号，从 1 开始索引。*/",
  "    columnNumber: number;",
  "  \x7d",
  "",
  "  /** UNSTABLE: new API, yet to be vetted.",
  "   * @i18n 不稳定: 新 API，尚待审查。",
  "   *",
  "   * Given a current location in a module, lookup the source location and return",
  "   * it.",
  "   * @i18n 给定模块中的当前位置，返回查找到的源文件中位置。",
  "   *",
  "   * When Deno transpiles code, it keep source maps of the transpiled code. This",
  "   * function can be used to lookup the original location. This is",
  "   * automatically done when accessing the \x60.stack\x60 of an error, or when an",
  "   * uncaught error is logged. This function can be used to perform the lookup",
  "   * for creating better error handling.",
  "   * @i18n 当 Deno 编译代码时，它将保留已编译代码的 source maps。",
  "   * 此功能可用于查找原始位置。",
  "   * 当访问 error 的 \x60.stack\x60 属性或出现未捕获的错误时，会自动执行此操作。",
  "   * 此功能可用于查找源文件以创建更好的错误处理。",
  "   *",
  "   * **Note:** \x60line\x60 and \x60column\x60 are 1 indexed, which matches display",
  "   * expectations, but is not typical of most index numbers in Deno.",
  "   * @i18n **注意:** \x60line\x60 和 \x60column\x60 的下标从 1 开始，与代码的显示值匹配，但这种以 1 开始的索引方式并不代表 Deno 中大多数文件都是如此。",
  "   *",
  "   * An example:",
  "   * @i18n 示例:",
  "   *",
  "   *       const orig = Deno.applySourceMap(\x7b",
  "   *         fileName: \"file://my/module.ts\",",
  "   *         lineNumber: 5,",
  "   *         columnNumber: 15",
  "   *       \x7d);",
  "   *       console.log(\x60$\x7borig.filename\x7d:$\x7borig.line\x7d:$\x7borig.column\x7d\x60);",
  "   */",
  "  export function applySourceMap(location: Location): Location;",
  "",
  "  /** A set of error constructors that are raised by Deno APIs.",
  "   * @i18n 一些 Error 构造函数的集合，当 Deno API 抛出错误时会用到这些异常。*/",
  "  export const errors: \x7b",
  "    NotFound: ErrorConstructor;",
  "    PermissionDenied: ErrorConstructor;",
  "    ConnectionRefused: ErrorConstructor;",
  "    ConnectionReset: ErrorConstructor;",
  "    ConnectionAborted: ErrorConstructor;",
  "    NotConnected: ErrorConstructor;",
  "    AddrInUse: ErrorConstructor;",
  "    AddrNotAvailable: ErrorConstructor;",
  "    BrokenPipe: ErrorConstructor;",
  "    AlreadyExists: ErrorConstructor;",
  "    InvalidData: ErrorConstructor;",
  "    TimedOut: ErrorConstructor;",
  "    Interrupted: ErrorConstructor;",
  "    WriteZero: ErrorConstructor;",
  "    UnexpectedEof: ErrorConstructor;",
  "    BadResource: ErrorConstructor;",
  "    Http: ErrorConstructor;",
  "    Busy: ErrorConstructor;",
  "  \x7d;",
  "",
  "  /** **UNSTABLE**: potentially want names to overlap more with browser.",
  "   * @i18n **不稳定**：希望与浏览器在名称上有更多的相同。",
  "   *",
  "   * The permissions as granted by the caller.",
  "   * @i18n 调用方授予的权限。",
  "   *",
  "   * See: https://w3c.github.io/permissions/#permission-registry",
  "   * @i18n 具体查看：https://w3c.github.io/permissions/#permission-registry */",
  "  export type PermissionName =",
  "    | \"run\"",
  "    | \"read\"",
  "    | \"write\"",
  "    | \"net\"",
  "    | \"env\"",
  "    | \"plugin\"",
  "    | \"hrtime\";",
  "",
  "  /** The current status of the permission.",
  "   * @i18n 权限的状态。",
  "   *",
  "   * See: https://w3c.github.io/permissions/#status-of-a-permission",
  "   * @i18n 具体查看：https://w3c.github.io/permissions/#status-of-a-permission */",
  "  export type PermissionState = \"granted\" | \"denied\" | \"prompt\";",
  "",
  "  interface RunPermissionDescriptor \x7b",
  "    name: \"run\";",
  "  \x7d",
  "",
  "  interface ReadWritePermissionDescriptor \x7b",
  "    name: \"read\" | \"write\";",
  "    path?: string;",
  "  \x7d",
  "",
  "  interface NetPermissionDescriptor \x7b",
  "    name: \"net\";",
  "    url?: string;",
  "  \x7d",
  "",
  "  interface EnvPermissionDescriptor \x7b",
  "    name: \"env\";",
  "  \x7d",
  "",
  "  interface PluginPermissionDescriptor \x7b",
  "    name: \"plugin\";",
  "  \x7d",
  "",
  "  interface HrtimePermissionDescriptor \x7b",
  "    name: \"hrtime\";",
  "  \x7d",
  "",
  "  /** Permission descriptors which define a permission which can be queried,",
  "   * requested, or revoked.",
  "   * @i18n 权限描述符，定义一个可以查询、请求或撤销的权限。",
  "   *",
  "   * See: https://w3c.github.io/permissions/#permission-descriptor",
  "   * @i18n 具体查看：https://w3c.github.io/permissions/#permission-descriptor */",
  "  type PermissionDescriptor =",
  "    | RunPermissionDescriptor",
  "    | ReadWritePermissionDescriptor",
  "    | NetPermissionDescriptor",
  "    | EnvPermissionDescriptor",
  "    | PluginPermissionDescriptor",
  "    | HrtimePermissionDescriptor;",
  "",
  "  export class Permissions \x7b",
  "    /** Resolves to the current status of a permission.",
  "     * @i18n 查询给定权限的状态。",
  "     *",
  "     *       const status = await Deno.permissions.query(\x7b name: \"read\", path: \"/etc\" \x7d);",
  "     *       if (status.state === \"granted\") \x7b",
  "     *         data = await Deno.readFile(\"/etc/passwd\");",
  "     *       \x7d",
  "     */",
  "    query(desc: PermissionDescriptor): Promise<PermissionStatus>;",
  "",
  "    /** Revokes a permission, and resolves to the state of the permission.",
  "     * @i18n 撤销给定的权限，并且返回该权限的状态。",
  "     *",
  "     *       const status = await Deno.permissions.revoke(\x7b name: \"run\" \x7d);",
  "     *       assert(status.state !== \"granted\")",
  "     */",
  "    revoke(desc: PermissionDescriptor): Promise<PermissionStatus>;",
  "",
  "    /** Requests the permission, and resolves to the state of the permission.",
  "     * @i18n 请求权限，并且返回该权限请求结果的状态。",
  "     *",
  "     *       const status = await Deno.permissions.request(\x7b name: \"env\" \x7d);",
  "     *       if (status.state === \"granted\") \x7b",
  "     *         console.log(Deno.homeDir());",
  "     *       \x7d else \x7b",
  "     *         console.log(\"\x27env\x27 permission is denied.\");",
  "     *       \x7d",
  "     */",
  "    request(desc: PermissionDescriptor): Promise<PermissionStatus>;",
  "  \x7d",
  "",
  "  /** **UNSTABLE**: maybe move to \x60navigator.permissions\x60 to match web API.",
  "   * @i18n **不稳定**：可能移动到 \x60navigator.permissions\x60 以匹配 web API。*/",
  "  export const permissions: Permissions;",
  "",
  "  /** see: https://w3c.github.io/permissions/#permissionstatus",
  "   * @i18n 具体查看：https://w3c.github.io/permissions/#permissionstatus */",
  "  export class PermissionStatus \x7b",
  "    state: PermissionState;",
  "    constructor(state: PermissionState);",
  "  \x7d"
]

def bilingualLinesC10 : List String := [
  "",
  "  /** Synchronously truncates or extends the specified file, to reach the",
  "   * specified \x60len\x60.  If \x60len\x60 is not specified then the entire file contents",
  "   * are truncated.",
  "   * @i18n 同步地通过指定的 \x60len\x60 ，截取或者扩展指定的文件内容。如果未指定 \x60len\x60 ，则整个文件内容将被截取。",
  "   *",
  "   *       //truncate the entire file",
  "   *       Deno.truncateSync(\"my_file.txt\");",
  "   *",
  "   *       //truncate part of the file",
  "   *       const file = Deno.makeTempFileSync();",
  "   *       Deno.writeFileSync(file, new TextEncoder().encode(\"Hello World\"));",
  "   *       Deno.truncateSync(file, 7);",
  "   *       const data = Deno.readFileSync(file);",
  "   *       console.log(new TextDecoder().decode(data));",
  "   *",
  "   * Requires \x60allow-write\x60 permission.",
  "   * @i18n 需要 \x60allow-write\x60 权限。*/",
  "  export function truncateSync(name: string, len?: number): void;",
  "",
  "  /** Truncates or extends the specified file, to reach the specified \x60len\x60. If",
  "   * \x60len\x60 is not specified then the entire file contents are truncated.",
  "   * @i18n 通过指定的 \x60len\x60 ，截取或者扩展指定的文件内容。如果未指定 \x60len\x60 ，则整个文件内容将被截取。",
  "   *",
  "   *       //truncate the entire file",
  "   *       await Deno.truncate(\"my_file.txt\");",
  "   *",
  "   *       //truncate part of the file",
  "   *       const file = await Deno.makeTempFile();",
  "   *       await Deno.writeFile(file, new TextEncoder().encode(\"Hello World\"));",
  "   *       await Deno.truncate(file, 7);",
  "   *       const data = await Deno.readFile(file);",
  "   *       console.log(new TextDecoder().decode(data));  //\"Hello W\"",
  "   *",
  "   * Requires \x60allow-write\x60 permission.",
  "   * @i18n 需要 \x60allow-write\x60 权限。*/",
  "  export function truncate(name: string, len?: number): Promise<void>;",
  "",
  "  export interface AsyncHandler \x7b",
  "    (msg: Uint8Array): void;",
  "  \x7d",
  "",
  "  export interface PluginOp \x7b",
  "    dispatch(",
  "      control: Uint8Array,",
  "      zeroCopy?: ArrayBufferView | null",
  "    ): Uint8Array | null;",
  "    setAsyncHandler(handler: AsyncHandler): void;",
  "  \x7d",
  "",
  "  export interface Plugin \x7b",
  "    ops: \x7b",
  "      [name: string]: PluginOp;",
  "    \x7d;",
  "  \x7d",
  "",
  "  /** **UNSTABLE**: new API, yet to be vetted.",
  "   * @i18n **不稳定**: 新 API，没有经过审查。",
  "   *",
  "   * Open and initalize a plugin.",
  "   * @i18n 打开并初始化插件。",
  "   *",
  "   *        const plugin = Deno.openPlugin(\"./path/to/some/plugin.so\");",
  "   *        const some_op = plugin.ops.some_op;",
  "   *        const response = some_op.dispatch(new Uint8Array([1,2,3,4]));",
  "   *        console.log(\x60Response from plugin $\x7bresponse\x7d\x60);",
  "   *",
  "   * Requires \x60allow-plugin\x60 permission.",
  "   * @i18n 需要 \x60allow-plugin\x60 权限。*/",
  "  export function openPlugin(filename: string): Plugin;",
  "  export interface NetAddr \x7b",
  "    transport: \"tcp\" | \"udp\";",
  "    hostname: string;",
  "    port: number;",
  "  \x7d",
  "",
  "  export interface UnixAddr \x7b",
  "    transport: \"unix\" | \"unixpacket\";",
  "    address: string;",
  "  \x7d",
  "",
  "  export type Addr = NetAddr | UnixAddr;",
  "  /** **UNSTABLE**: Maybe remove \x60ShutdownMode\x60 entirely.",
  "   * @i18n **不稳定**：可能会完全删除 \x60ShutdownMode\x60。",
  "   *",
  "   * Corresponds to \x60SHUT_RD\x60, \x60SHUT_WR\x60, \x60SHUT_RDWR\x60 on POSIX-like systems.",
  "   * @i18n 对应类 POSIX 系统上的 \x60SHUT_RD\x60，\x60SHUT_WR\x60，\x60SHUT_RDWR\x60。",
  "   *",
  "   * See: http://man7.org/linux/man-pages/man2/shutdown.2.html",
  "   * @i18n 参阅：http://man7.org/linux/man-pages/man2/shutdown.2.html */",
  "  export enum ShutdownMode \x7b",
  "    Read = 0,",
  "    Write,",
  "    ReadWrite, // TODO(ry) panics on ReadWrite.",
  "  \x7d",
  "",
  "  /** **UNSTABLE**: Both the \x60how\x60 parameter and \x60ShutdownMode\x60 enum are under",
  "   * consideration for removal.",
  "   * @i18n **不稳定**：参数 \x60how\x60 和枚举 \x60ShutdownMode\x60 都在考虑移除。",
  "   *",
  "   * Shutdown socket send and receive operations.",
  "   * @i18n Shutdown 套接字的发送和接收操作。",
  "   *",
  "   * Matches behavior of POSIX shutdown(3).",
  "   * @i18n 与 POSIX 的 shutdown(3) 行为一致。",
  "   *",
  "   *       const listener = Deno.listen(\x7b port: 80 \x7d);",
  "   *       const conn = await listener.accept();",
  "   *       Deno.shutdown(conn.rid, Deno.ShutdownMode.Write);",
  "   */",
  "  export function shutdown(rid: number, how: ShutdownMode): void;",
  "",
  "  /** **UNSTABLE**: new API, yet to be vetted.",
  "   * @i18n **不稳定**：新的 API，尚待审查。",
  "   *",
  "   * A generic transport listener for message-oriented protocols.",
  "   * @i18n 面向消息协议的通用传输监听器。*/",
  "  export interface DatagramConn extends AsyncIterable<[Uint8Array, Addr]> \x7b",
  "    /** **UNSTABLE**: new API, yet to be vetted.",
  "     * @i18n **不稳定**：新的 API，尚待审查。",
  "     *",
  "     * Waits for and resolves to the next message to the \x60UDPConn\x60.",
  "     * @i18n 等待并解析 (resolve) 为下一条消息传递给 \x60UDPConn\x60。*/",
  "    receive(p?: Uint8Array): Promise<[Uint8Array, Addr]>;",
  "    /** UNSTABLE: new API, yet to be vetted.",
  "     * @i18n **不稳定**：新的 API，尚待审查。",
  "     *",
  "     * Sends a message to the target.",
  "     * @i18n 向目标发送消息。*/",
  "    send(p: Uint8Array, addr: Addr): Promise<void>;",
  "    /** UNSTABLE: new API, yet to be vetted.",
  "     * @i18n **不稳定**：新的 API，尚待审查。",
  "     *",
  "     * Close closes the socket. Any pending message promises will be rejected",
  "     * with errors.",
  "     * @i18n 关闭套接字。任何待处理的消息应答都将被拒绝 (rejected)，并返回错误。*/",
  "    close(): void;",
  "    /** Return the address of the \x60UDPConn\x60. */",
  "    readonly addr: Addr;",
  "    [Symbol.asyncIterator](): AsyncIterableIterator<[Uint8Array, Addr]>;",
  "  \x7d",
  "",
  "  /** A generic network listener for stream-oriented protocols.",
  "   * @i18n 面向流协议的通用网络监听器。*/",
  "  export interface Listener extends AsyncIterable<Conn> \x7b",
  "    /** Waits for and resolves to the next connection to the \x60Listener\x60.",
  "     * @i18n 等待并解析 (resolve) 到与 \x60Listener\x60 的下一个连接。*/",
  "    accept(): Promise<Conn>;",
  "    /** Close closes the listener. Any pending accept promises will be rejected",
  "     * with errors.",
  "     * @i18n 关闭监听器。任何待处理的接收应答都将被拒绝 (rejected)，并返回错误。*/",
  "    close(): void;",
  "    /** Return the address of the \x60Listener\x60.",
  "     * @i18n 返回 \x60Listener\x60 的地址。*/",
  "    readonly addr: Addr;",
  "",
  "    [Symbol.asyncIterator](): AsyncIterableIterator<Conn>;",
  "  \x7d",
  "",
  "  export interface Conn extends Reader, Writer, Closer \x7b",
  "    /** The local address of the connection.",
  "     * @i18n 连接的本地地址。*/",
  "    readonly localAddr: Addr;",
  "    /** The remote address of the connection.",
  "     * @i18n 连接的远程地址。*/",
  "    readonly remoteAddr: Addr;",
  "    /** The resource ID of the connection.",
  "     * @i18n 连接的资源 ID。*/",
  "    readonly rid: number;",
  "    /** Shuts down (\x60shutdown(2)\x60) the reading side of the TCP connection. Most",
  "     * callers should just use \x60close()\x60.",
  "     * @i18n 关闭 (\x60shutdown(2)\x60) TCP 连接的读取端。大多数调用者应该只使用 \x60close()\x60。*/",
  "    closeRead(): void;",
  "    /** Shuts down (\x60shutdown(2)\x60) the writing side of the TCP connection. Most",
  "     * callers should just use \x60close()\x60.",
  "     * @i18n 关闭 (\x60shutdown(2)\x60) TCP 连接的写入端。大多数调用者应该只使用 \x60close()\x60。*/",
  "    closeWrite(): void;",
  "  \x7d",
  "",
  "  export interface ListenOptions \x7b",
  "    /** The port to listen on.",
  "     * @i18n 要监听的端口号。*/",
  "    port: number;",
  "    /** A literal IP address or host name that can be resolved to an IP address.",
  "     * If not specified, defaults to \x600.0.0.0\x60.",
  "     * @i18n 一个 IP 地址或者可以被解析为 IP 地址的主机名。",
  "     * 如果没有指定，默认值为 \x600.0.0.0\x60。*/",
  "    hostname?: string;",
  "  \x7d",
  "",
  "  export interface UnixListenOptions \x7b",
  "    /** A Path to the Unix Socket.",
  "     * @i18n 一个 Unix 套接字路径。*/",
  "    address: string;",
  "  \x7d",
  "  /** **UNSTABLE**: new API, yet to be vetted.",
  "   * @i18n **不稳定**: 新 API，没有经过审查。",
  "   *",
  "   * Listen announces on the local transport address.",
  "   * @i18n 在本地监听网络连接。",
  "   *",
  "   *      const listener1 = Deno.listen(\x7b port: 80 \x7d)",
  "   *      const listener2 = Deno.listen(\x7b hostname: \"192.0.2.1\", port: 80 \x7d)",
  "   *      const listener3 = Deno.listen(\x7b hostname: \"[2001:db8::1]\", port: 80 \x7d);",
  "   *      const listener4 = Deno.listen(\x7b hostname: \"golang.org\", port: 80, transport: \"tcp\" \x7d);",
  "   *",
  "   * Requires \x60allow-net\x60 permission.",
  "   * @i18n 需要 \x60allow-net\x60 权限。*/"
]

def bilingualLinesC11 : List String := [
  "  export function listen(",
  "    options: ListenOptions & \x7b transport?: \"tcp\" \x7d",
  "  ): Listener;",
  "  /** **UNSTABLE**: new API, yet to be vetted.",
  "   * @i18n **不稳定**: 新 API，没有经过审查。",
  "   *",
  "   * Listen announces on the local transport address.",
  "   * @i18n 在本地监听网络连接。",
  "   *",
  "   *     const listener = Deno.listen(\x7b address: \"/foo/bar.sock\", transport: \"unix\" \x7d)",
  "   *",
  "   * Requires \x60allow-read\x60 permission.",
  "   * @i18n 需要 \x60allow-read\x60 权限。*/",
  "  export function listen(",
  "    options: UnixListenOptions & \x7b transport: \"unix\" \x7d",
  "  ): Listener;",
  "  /** **UNSTABLE**: new API, yet to be vetted.",
  "   * @i18n **不稳定**: 新 API，没有经过审查。",
  "   *",
  "   * Listen announces on the local transport address.",
  "   * @i18n 在本地监听网络连接。",
  "   *",
  "   *      const listener1 = Deno.listen(\x7b port: 80, transport: \"udp\" \x7d)",
  "   *      const listener2 = Deno.listen(\x7b hostname: \"golang.org\", port: 80, transport: \"udp\" \x7d);",
  "   *",
  "   * Requires \x60allow-net\x60 permission.",
  "   * @i18n 需要 \x60allow-net\x60 权限。*/",
  "  export function listen(",
  "    options: ListenOptions & \x7b transport: \"udp\" \x7d",
  "  ): DatagramConn;",
  "  /** **UNSTABLE**: new API, yet to be vetted.",
  "   * @i18n **不稳定**: 新 API，没有经过审查。",
  "   *",
  "   * Listen announces on the local transport address.",
  "   * @i18n 在本地监听网络连接。",
  "   *",
  "   *     const listener = Deno.listen(\x7b address: \"/foo/bar.sock\", transport: \"unixpacket\" \x7d)",
  "   *",
  "   * Requires \x60allow-read\x60 permission.",
  "   * @i18n 需要 \x60allow-read\x60 权限。*/",
  "  export function listen(",
  "    options: UnixListenOptions & \x7b transport: \"unixpacket\" \x7d",
  "  ): DatagramConn;",
  "",
  "  export interface ListenTLSOptions extends ListenOptions \x7b",
  "    /** Server certificate file.",
  "     * @i18n 服务器证书文件。*/",
  "    certFile: string;",
  "    /** Server public key file.",
  "     * @i18n 服务器公钥文件。*/",
  "    keyFile: string;",
  "",
  "    transport?: \"tcp\";",
  "  \x7d",
  "",
  "  /** Listen announces on the local transport address over TLS (transport layer",
  "   * security).",
  "   * @i18n 在本地监听来自 TLS （传输层安全性协议）的网络连接。",
  "   *",
  "   *      const lstnr = Deno.listenTLS(\x7b port: 443, certFile: \"./server.crt\", keyFile: \"./server.key\" \x7d);",
  "   *",
  "   * Requires \x60allow-net\x60 permission.",
  "   * @i18n 需要 \x60allow-net\x60 权限。*/",
  "  export function listenTLS(options: ListenTLSOptions): Listener;",
  "",
  "  export interface ConnectOptions \x7b",
  "    /** The port to connect to.",
  "     * @i18n 要连接的端口号。*/",
  "    port: number;",
  "    /** A literal IP address or host name that can be resolved to an IP address.",
  "     * If not specified, defaults to \x60127.0.0.1\x60.",
  "     * @i18n 一个 IP 地址或者可以被解析为 IP 地址的主机名。",
  "     * 如果没有指定，默认值为 \x60127.0.0.1\x60。*/",
  "    hostname?: string;",
  "    transport?: \"tcp\";",
  "  \x7d",
  "",
  "  export interface UnixConnectOptions \x7b",
  "    transport: \"unix\";",
  "    address: string;",
  "  \x7d",
  "",
  "  /**",
  "   * Connects to the hostname (default is \"127.0.0.1\") and port on the named",
  "   * transport (default is \"tcp\"), and resolves to the connection (\x60Conn\x60).",
  "   * @i18n 通过指定传输协议（默认 \"tcp\"）连接主机名（默认 \"127.0.0.1\"）和端口号，并异步返回这个连接（\x60Conn\x60）。",
  "   *",
  "   *     const conn1 = await Deno.connect(\x7b port: 80 \x7d);",
  "   *     const conn2 = await Deno.connect(\x7b hostname: \"192.0.2.1\", port: 80 \x7d);",
  "   *     const conn3 = await Deno.connect(\x7b hostname: \"[2001:db8::1]\", port: 80 \x7d);",
  "   *     const conn4 = await Deno.connect(\x7b hostname: \"golang.org\", port: 80, transport: \"tcp\" \x7d);",
  "   *     const conn5 = await Deno.connect(\x7b address: \"/foo/bar.sock\", transport: \"unix\" \x7d);",
  "   *",
  "   * Requires \x60allow-net\x60 permission for \"tcp\" and \x60allow-read\x60 for unix.",
  "   * @i18n \"tcp\" 需要 \x60allow-net\x60 权限，unix 需要 \x60allow-read\x60 权限。*/",
  "  export function connect(",
  "    options: ConnectOptions | UnixConnectOptions",
  "  ): Promise<Conn>;",
  "",
  "  export interface ConnectTLSOptions \x7b",
  "    /** The port to connect to.",
  "     * @i18n 要连接的端口。*/",
  "    port: number;",
  "    /** A literal IP address or host name that can be resolved to an IP address.",
  "     * If not specified, defaults to \x60127.0.0.1\x60.",
  "     * @i18n 可以解析为 IP 地址的文本 IP 地址或主机名。如果没有指定，默认值为 \x60127.0.0.1\x60。*/",
  "    hostname?: string;",
  "    /** Server certificate file.",
  "     * @i18n 服务器证书文件。*/",
  "    certFile?: string;",
  "  \x7d",
  "",
  "  /** Establishes a secure connection over TLS (transport layer security) using",
  "   * an optional cert file, hostname (default is \"127.0.0.1\") and port.  The",
  "   * cert file is optional and if not included Mozilla\x27s root certificates will",
  "   * be used (see also https://github.com/ctz/webpki-roots for specifics)",
  "   * @i18n 使用可选的证书文件、主机名（默认值为 \"127.0.0.1\"）",
  "   * 和端口在 TLS（安全传输层协议）建立安全连接。",
  "   * 证书文件是可选的，如果不包含，则使用 Mozilla 的根证书",
  "   *（具体参见 https://github.com/ctz/webpki-roots）。",
  "   *",
  "   *     const conn1 = await Deno.connectTLS(\x7b port: 80 \x7d);",
  "   *     const conn2 = await Deno.connectTLS(\x7b certFile: \"./certs/my_custom_root_CA.pem\", hostname: \"192.0.2.1\", port: 80 \x7d);",
  "   *     const conn3 = await Deno.connectTLS(\x7b hostname: \"[2001:db8::1]\", port: 80 \x7d);",
  "   *     const conn4 = await Deno.connectTLS(\x7b certFile: \"./certs/my_custom_root_CA.pem\", hostname: \"golang.org\", port: 80\x7d);",
  "   *",
  "   * Requires \x60allow-net\x60 permission.",
  "   * @i18n 需要 \x60allow-net\x60 权限。",
  "   */",
  "  export function connectTLS(options: ConnectTLSOptions): Promise<Conn>;",
  "",
  "  /** **UNSTABLE**: not sure if broken or not */",
  "  export interface Metrics \x7b",
  "    opsDispatched: number;",
  "    opsDispatchedSync: number;",
  "    opsDispatchedAsync: number;",
  "    opsDispatchedAsyncUnref: number;",
  "    opsCompleted: number;",
  "    opsCompletedSync: number;",
  "    opsCompletedAsync: number;",
  "    opsCompletedAsyncUnref: number;",
  "    bytesSentControl: number;",
  "    bytesSentData: number;",
  "    bytesReceived: number;",
  "  \x7d",
  "",
  "  /** Receive metrics from the privileged side of Deno.  This is primarily used",
  "   * in the development of Deno. \x27Ops\x27, also called \x27bindings\x27, are the go-between",
  "   * between Deno Javascript and Deno Rust.",
  "   * @i18n 从 Deno 的特权方接收指标。这主要用于 Deno 的开发中。",
  "   * \x27Ops\x27（也称为 \x27bindings\x27）是 Deno Javascript 和 Deno Rust 之间的沟通桥梁。",
  "   *",
  "   *      > console.table(Deno.metrics())",
  "   *      ┌─────────────────────────┬────────┐",
  "   *      │         (index)         │ Values │",
  "   *      ├─────────────────────────┼────────┤",
  "   *      │      opsDispatched      │   3    │",
  "   *      │    opsDispatchedSync    │   2    │",
  "   *      │   opsDispatchedAsync    │   1    │",
  "   *      │ opsDispatchedAsyncUnref │   0    │",
  "   *      │      opsCompleted       │   3    │",
  "   *      │    opsCompletedSync     │   2    │",
  "   *      │    opsCompletedAsync    │   1    │",
  "   *      │ opsCompletedAsyncUnref  │   0    │",
  "   *      │    bytesSentControl     │   73   │",
  "   *      │      bytesSentData      │   0    │",
  "   *      │      bytesReceived      │  375   │",
  "   *      └─────────────────────────┴────────┘",
  "   */",
  "  export function metrics(): Metrics;",
  "",
  "  /** **UNSTABLE**: reconsider representation.",
  "   * @i18n **不稳定**: 重新考虑表示方法。*/",
  "  interface ResourceMap \x7b",
  "    [rid: number]: string;",
  "  \x7d",
  "",
  "  /** **UNSTABLE**: The return type is under consideration and may change.",
  "   * @i18n **不稳定**: 返回类型正在考虑中，并且可能会更改。",
  "   *",
  "   * Returns a map of open _file like_ resource ids (rid) along with their string",
  "   * representations.",
  "   * @i18n 返回打开的_文件_资源 ID（rid）及其字符串表示形式的 Map。",
  "   *",
  "   *       console.log(Deno.resources()); //e.g. \x7b 0: \"stdin\", 1: \"stdout\", 2: \"stderr\" \x7d",
  "   *       Deno.openSync(\x27../test.file\x27);",
  "   *       console.log(Deno.resources()); //e.g. \x7b 0: \"stdin\", 1: \"stdout\", 2: \"stderr\", 3: \"fsFile\" \x7d",
  "   */",
  "  export function resources(): ResourceMap;",
  "",
  "  /** **UNSTABLE**: new API. Needs docs.",
  "   * @i18n **不稳定**: 新 API。需要补充文档。*/",
  "  export interface FsEvent \x7b",
  "    kind: \"any\" | \"access\" | \"create\" | \"modify\" | \"remove\";",
  "    paths: string[];",
  "  \x7d",
  "",
  "  /** **UNSTABLE**: new API, yet to be vetted.",
  "   * @i18n **不稳定**: 新 API，没有经过审查。",
  "   *",
  "   * Watch for file system events against one or more \x60paths\x60, which can be files",
  "   * or directories.  These paths must exist already.  One user action (e.g.",
  "   * \x60touch test.file\x60) can  generate multiple file system events.  Likewise,",
  "   * one user action can result in multiple file paths in one event (e.g. \x60mv",
  "   * old_name.txt new_name.txt\x60).  Recursive option is \x60true\x60 by default and,",
  "   * for directories, will watch the specified directory and all sub directories.",
  "   * Note that the exact ordering of the events can vary between operating systems.",
  "   * @i18n 监听一个或多个路径的文件系统事件，这个路径可以是文件或者目录，但是必须存在。",
  "   * 一个用户操作（例如 \x60touch test.file\x60）可以产生多个文件系统事件。同样，一个",
  "   * 用户操作也可能在一次事件中影响多个路径（例如 \x60mv old_name.txt new_name.txt\x60）。",
  "   * 递归选项默认为 \x60true\x60，对于目录，将监听指定目录及其所有子目录。",
  "   * 值得注意的是，不同操作系统的事件顺序可能会有所不同。",
  "   *",
  "   *       const iter = Deno.fsEvents(\"/\");",
  "   *       for await (const event of iter) \x7b",
  "   *          console.log(\">>>> event\", event);  //e.g. \x7b kind: \"create\", paths: [ \"/foo.txt\" ] \x7d",
  "   *       \x7d",
  "   *",
  "   * Requires \x60allow-read\x60 permission.",
  "   * @i18n 需要 \x60allow-read\x60 权限。",
  "   */"
]

def bilingualLinesC12 : List String := [
  "  export function fsEvents(",
  "    paths: string | string[],",
  "    options?: \x7b recursive: boolean \x7d",
  "  ): AsyncIterableIterator<FsEvent>;",
  "",
  "  /** How to handle subprocess stdio.",
  "   * @i18n 如何处理子进程的 stdio。",
  "   *",
  "   * \x60\"inherit\"\x60 The default if unspecified. The child inherits from the",
  "   * corresponding parent descriptor.",
  "   * @i18n \x60\"inherit\"\x60 如果未指定，则为默认值。子进程继承父进程的 stdio。",
  "   *",
  "   * \x60\"piped\"\x60 A new pipe should be arranged to connect the parent and child",
  "   * sub-processes.",
  "   * @i18n \x60\"piped\"\x60 使用一个新管道来连接父子进程。",
  "   *",
  "   * \x60\"null\"\x60 This stream will be ignored. This is the equivalent of attaching",
  "   * the stream to \x60/dev/null\x60.",
  "   * @i18n \x60\"null\"\x60 输入输出流将被忽略。这相当于将流附加到了 \x60/dev/null\x60。*/",
  "  type ProcessStdio = \"inherit\" | \"piped\" | \"null\";",
  "",
  "  /** **UNSTABLE**: The \x60signo\x60 argument may change to require the Deno.Signal",
  "   * enum.",
  "   * @i18n **UNSTABLE**: \x60signo\x60 参数可能需要改成 Deno.Signal 枚举。",
  "   *",
  "   * Send a signal to process under given \x60pid\x60. This functionality currently",
  "   * only works on Linux and Mac OS.",
  "   * @i18n 给指定的 \x60pid\x60 进程发送信号。这个功能目前只在 Linux 和 Mac OS 上运行。",
  "   *",
  "   * If \x60pid\x60 is negative, the signal will be sent to the process group",
  "   * identified by \x60pid\x60.",
  "   * @i18n 当 \x60pid\x60 是负的，信号将会发送到带有 \x60pid\x60 标识的进程组。",
  "   *",
  "   *      const p = Deno.run(\x7b",
  "   *        cmd: [\"python\", \"-c\", \"from time import sleep; sleep(10000)\"]",
  "   *      \x7d);",
  "   *",
  "   *      Deno.kill(p.pid, Deno.Signal.SIGINT);",
  "   *",
  "   * Throws Error (not yet implemented) on Windows",
  "   * @i18n 在 Windows 上抛出错误（尚未实现）。",
  "   *",
  "   * Requires \x60allow-run\x60 permission.",
  "   * @i18n 需要 \x60allow-run\x60 权限。*/",
  "  export function kill(pid: number, signo: number): void;",
  "",
  "  /** **UNSTABLE**: There are some issues to work out with respect to when and",
  "   * how the process should be closed.",
  "   * @i18n **UNSTABLE**: 这里有一些关于如何结束进程的问题需要解决。*/",
  "  export class Process \x7b",
  "    readonly rid: number;",
  "    readonly pid: number;",
  "    readonly stdin?: WriteCloser;",
  "    readonly stdout?: ReadCloser;",
  "    readonly stderr?: ReadCloser;",
  "    /** Resolves to the current status of the process.",
  "     * @i18n 解析进程当前的状态。*/",
  "    status(): Promise<ProcessStatus>;",
  "    /** Buffer the stdout and return it as \x60Uint8Array\x60 after \x60Deno.EOF\x60.",
  "     * @i18n 缓冲区中的 stdout，会在 \x60Deno.EOF\x60 之后以 \x60Uint8Array\x60 的形式返回。",
  "     *",
  "     * You must set stdout to \x60\"piped\"\x60 when creating the process.",
  "     * @i18n 在创建进程时，你必须将 stdout 设置为 \x60\"piped\"\x60。",
  "     *",
  "     * This calls \x60close()\x60 on stdout after its done.",
  "     * @i18n 会在 stdout 完成后调用 \x60close()\x60。*/",
  "    output(): Promise<Uint8Array>;",
  "    /** Buffer the stderr and return it as \x60Uint8Array\x60 after \x60Deno.EOF\x60.",
  "     * @i18n 缓冲区中的 stderr， 会在 \x60Deno.EOF\x60 之后以 \x60Uint8Array\x60 的形式返回。",
  "     *",
  "     * You must set stderr to \x60\"piped\"\x60 when creating the process.",
  "     * @i18n 在创建进程时，你必须将 stderr 设置为 \x60\"piped\"\x60。",
  "     *",
  "     * This calls \x60close()\x60 on stderr after its done.",
  "     * @i18n 会在 stderr 完成后调用 \x60close()\x60。*/",
  "    stderrOutput(): Promise<Uint8Array>;",
  "    close(): void;",
  "    kill(signo: number): void;",
  "  \x7d",
  "",
  "  export type ProcessStatus =",
  "    | \x7b",
  "        success: true;",
  "        code: 0;",
  "        signal?: undefined;",
  "      \x7d",
  "    | \x7b",
  "        success: false;",
  "        code: number;",
  "        signal?: number;",
  "      \x7d;",
  "",
  "  /** **UNSTABLE**: \x60args\x60 has been recently renamed to \x60cmd\x60 to differentiate from",
  "   * \x60Deno.args\x60.",
  "   * @i18n **不稳定**: \x60args\x60 最近被重命名为 \x60cmd\x60，以区别于 \x60Deno.args\x60。*/",
  "  export interface RunOptions \x7b",
  "    /** Arguments to pass. Note, the first element needs to be a path to the",
  "     * binary",
  "     * @i18n 需要传递的参数。注意，第一个元素必须是二进制文件的路径。*/",
  "    cmd: string[];",
  "    cwd?: string;",
  "    env?: \x7b",
  "      [key: string]: string;",
  "    \x7d;",
  "    stdout?: ProcessStdio | number;",
  "    stderr?: ProcessStdio | number;",
  "    stdin?: ProcessStdio | number;",
  "  \x7d",
  "",
  "  /** Spawns new subprocess.  RunOptions must contain at a minimum the \x60opt.cmd\x60,",
  "   * an array of program arguments, the first of which is the binary.",
  "   * @i18n 派生新的子进程。 RunOptions 必须包含 \x60opt.cmd\x60，即程序参数数组，其中第一个参数是二进制文件路径。",
  "   *",
  "   * Subprocess uses same working directory as parent process unless \x60opt.cwd\x60",
  "   * is specified.",
  "   * @i18n 子进程使用与父进程相同的工作目录，除非指定了 \x60opt.cwd\x60。",
  "   *",
  "   * Environmental variables for subprocess can be specified using \x60opt.env\x60",
  "   * mapping.",
  "   * @i18n 子进程的环境变量可以使用 \x60opt.env\x60 来设置。",
  "   *",
  "   * By default subprocess inherits stdio of parent process. To change that",
  "   * \x60opt.stdout\x60, \x60opt.stderr\x60 and \x60opt.stdin\x60 can be specified independently -",
  "   * they can be set to either \x60ProcessStdio\x60 or \x60rid\x60 of open file.",
  "   * @i18n 默认情况下，子进程继承父进程的 stdio。要更改这些值，可以分别指定\x60opt.stdout\x60、\x60opt.stderr\x60、\x60opt.stdin\x60",
  "   * - 可以将其设置为 \x60ProcessStdio\x60 或打开文件的 \x60rid\x60。",
  "   *",
  "   * Details of the spawned process are returned.",
  "   * @i18n 返回派生子进程的详细信息。",
  "   *",
  "   *       const p = Deno.run(\x7b",
  "   *         cmd: [\"echo\", \"hello\"],",
  "   *       \x7d);",
  "   *",
  "   * Requires \x60allow-run\x60 permission.",
  "   * @i18n 需要 \x60allow-run\x60 权限。*/",
  "  export function run(opt: RunOptions): Process;",
  "",
  "  enum LinuxSignal \x7b",
  "    SIGHUP = 1,",
  "    SIGINT = 2,",
  "    SIGQUIT = 3,",
  "    SIGILL = 4,",
  "    SIGTRAP = 5,",
  "    SIGABRT = 6,",
  "    SIGBUS = 7,",
  "    SIGFPE = 8,",
  "    SIGKILL = 9,",
  "    SIGUSR1 = 10,",
  "    SIGSEGV = 11,",
  "    SIGUSR2 = 12,",
  "    SIGPIPE = 13,",
  "    SIGALRM = 14,",
  "    SIGTERM = 15,",
  "    SIGSTKFLT = 16,",
  "    SIGCHLD = 17,",
  "    SIGCONT = 18,",
  "    SIGSTOP = 19,",
  "    SIGTSTP = 20,",
  "    SIGTTIN = 21,",
  "    SIGTTOU = 22,",
  "    SIGURG = 23,",
  "    SIGXCPU = 24,",
  "    SIGXFSZ = 25,",
  "    SIGVTALRM = 26,",
  "    SIGPROF = 27,",
  "    SIGWINCH = 28,",
  "    SIGIO = 29,",
  "    SIGPWR = 30,",
  "    SIGSYS = 31,",
  "  \x7d",
  "  enum MacOSSignal \x7b",
  "    SIGHUP = 1,",
  "    SIGINT = 2,",
  "    SIGQUIT = 3,",
  "    SIGILL = 4,",
  "    SIGTRAP = 5,",
  "    SIGABRT = 6,",
  "    SIGEMT = 7,",
  "    SIGFPE = 8,",
  "    SIGKILL = 9,",
  "    SIGBUS = 10,",
  "    SIGSEGV = 11,",
  "    SIGSYS = 12,",
  "    SIGPIPE = 13,",
  "    SIGALRM = 14,",
  "    SIGTERM = 15,",
  "    SIGURG = 16,",
  "    SIGSTOP = 17,",
  "    SIGTSTP = 18,",
  "    SIGCONT = 19,",
  "    SIGCHLD = 20,",
  "    SIGTTIN = 21,",
  "    SIGTTOU = 22,",
  "    SIGIO = 23,",
  "    SIGXCPU = 24,",
  "    SIGXFSZ = 25,",
  "    SIGVTALRM = 26,",
  "    SIGPROF = 27,",
  "    SIGWINCH = 28,",
  "    SIGINFO = 29,",
  "    SIGUSR1 = 30,",
  "    SIGUSR2 = 31,",
  "  \x7d"
]

def bilingualLinesC13 : List String := [
  "",
  "  /** **UNSTABLE**: make platform independent.",
  "   * @i18n **不稳定**: make platform independent.",
  "   *",
  "   * Signals numbers. This is platform dependent.",
  "   * @i18n 信号数字。此值是独立于平台的。*/",
  "  export const Signal: typeof MacOSSignal | typeof LinuxSignal;",
  "",
  "  interface InspectOptions \x7b",
  "    showHidden?: boolean;",
  "    depth?: number;",
  "    colors?: boolean;",
  "    indentLevel?: number;",
  "  \x7d",
  "",
  "  /** **UNSTABLE**: The exact form of the string output is under consideration",
  "   * and may change.",
  "   * @i18n **不稳定**：字符串输出的确切形式仍在考虑，可能会更改。",
  "   *",
  "   * Converts the input into a string that has the same format as printed by",
  "   * \x60console.log()\x60.",
  "   * @i18n 将输入转换为与 \x60console.log()\x60 打印格式相同的字符串。",
  "   *",
  "   *      const obj = \x7b\x7d;",
  "   *      obj.propA = 10;",
  "   *      obj.propB = \"hello\"",
  "   *      const objAsString = Deno.inspect(obj); //\x7b propA: 10, propB: \"hello\" \x7d",
  "   *      console.log(obj);  // 输出与 objAsString 相同的值，例如: \x7b propA: 10, propB: \"hello\" \x7d",
  "   *",
  "   * You can also register custom inspect functions, via the \x60customInspect\x60 Deno",
  "   * symbol on objects, to control and customize the output.",
  "   * @i18n 你还可以通过对象上的 \x60Deno.symbols.customInspect\x60 函数",
  "   * 注册自定义的 inspect function，以控制和自定义输出。",
  "   *",
  "   *      class A \x7b",
  "   *        x = 10;",
  "   *        y = \"hello\";",
  "   *        [Deno.symbols.customInspect](): string \x7b",
  "   *          return \"x=\" + this.x + \", y=\" + this.y;",
  "   *        \x7d",
  "   *      \x7d",
  "   *",
  "   *      const inStringFormat = Deno.inspect(new A()); //\"x=10, y=hello\"",
  "   *      console.log(inStringFormat);  // 输出 \"x=10, y=hello\"",
  "   *",
  "   * Finally, a number of output options are also available.",
  "   * @i18n 同时还提供了一些输出选项。",
  "   *",
  "   *      const out = Deno.inspect(obj, \x7bshowHidden: true, depth: 4, colors: true, indentLevel: 2\x7d);",
  "   *",
  "   */",
  "  export function inspect(value: unknown, options?: InspectOptions): string;",
  "",
  "  export type OperatingSystem = \"mac\" | \"win\" | \"linux\";",
  "",
  "  export type Arch = \"x64\" | \"arm64\";",
  "",
  "  interface BuildInfo \x7b",
  "    /** The CPU architecture.",
  "     * @i18n CPU 架构。*/",
  "    arch: Arch;",
  "    /** The operating system.",
  "     * @i18n 操作系统。*/",
  "    os: OperatingSystem;",
  "  \x7d",
  "",
  "  /** Build related information.",
  "   * @i18n 构建的相关信息。*/",
  "  export const build: BuildInfo;",
  "",
  "  interface Version \x7b",
  "    deno: string;",
  "    v8: string;",
  "    typescript: string;",
  "  \x7d",
  "  /** Version related information.",
  "   * @i18n Deno 的详细版本信息。包括了 deno、v8、typescript。*/",
  "  export const version: Version;",
  "",
  "  /** The log category for a diagnostic message.",
  "   * @i18n 诊断消息的日志类别。*/",
  "  export enum DiagnosticCategory \x7b",
  "    Log = 0,",
  "    Debug = 1,",
  "    Info = 2,",
  "    Error = 3,",
  "    Warning = 4,",
  "    Suggestion = 5,",
  "  \x7d",
  "",
  "  export interface DiagnosticMessageChain \x7b",
  "    message: string;",
  "    category: DiagnosticCategory;",
  "    code: number;",
  "    next?: DiagnosticMessageChain[];",
  "  \x7d",
  "",
  "  export interface DiagnosticItem \x7b",
  "    /** A string message summarizing the diagnostic.",
  "     * @i18n 诊断信息。*/",
  "    message: string;",
  "    /** An ordered array of further diagnostics.",
  "     * @i18n 进一步诊断的有序数组。*/",
  "    messageChain?: DiagnosticMessageChain;",
  "    /** Information related to the diagnostic. This is present when there is a",
  "     * suggestion or other additional diagnostic information",
  "     * @i18n 与诊断相关的信息。当有建议或其他附加诊断信息时会出现。*/",
  "    relatedInformation?: DiagnosticItem[];",
  "    /** The text of the source line related to the diagnostic.",
  "     * @i18n 与诊断相关的所在行的源代码。*/",
  "    sourceLine?: string;",
  "    /** The line number that is related to the diagnostic.",
  "     * @i18n 与诊断相关的行号。*/",
  "    lineNumber?: number;",
  "    /** The name of the script resource related to the diagnostic.",
  "     * @i18n 与诊断相关的文件名称。*/",
  "    scriptResourceName?: string;",
  "    /** The start position related to the diagnostic.",
  "     * @i18n 与诊断相关的位于整个文件的开始位置。*/",
  "    startPosition?: number;",
  "    /** The end position related to the diagnostic.",
  "     * @i18n 与诊断相关的位于整个文件的结束位置。*/",
  "    endPosition?: number;",
  "    /** The category of the diagnostic.",
  "     * @i18n 诊断消息的日志类别。*/",
  "    category: DiagnosticCategory;",
  "    /** A number identifier.",
  "     * @i18n 数字标识符。*/",
  "    code: number;",
  "    /** The the start column of the sourceLine related to the diagnostic.",
  "     * @i18n 与诊断相关的所在行的开始列。*/",
  "    startColumn?: number;",
  "    /** The end column of the sourceLine related to the diagnostic.",
  "     * @i18n 与诊断相关的所在行的结束列。*/",
  "    endColumn?: number;",
  "  \x7d",
  "",
  "  export interface Diagnostic \x7b",
  "    /** An array of diagnostic items.",
  "     * @i18n 诊断信息数组。*/",
  "    items: DiagnosticItem[];",
  "  \x7d",
  "",
  "  /** **UNSTABLE**: new API, yet to be vetted.",
  "   * @i18n **不稳定**: 新 API，没有经过审查。",
  "   *",
  "   * Format an array of diagnostic items and return them as a single string in a",
  "   * user friendly format.",
  "   * @i18n 格式化诊断信息数组，并以用户友好的格式将其作为单个字符串返回。",
  "   *",
  "   *       const [diagnostics, result] = Deno.compile(\"file_with_compile_issues.ts\");",
  "   *       console.table(diagnostics);  // 输出原始诊断信息",
  "   *       console.log(Deno.formatDiagnostics(diagnostics));  // 用户友好方式的输出诊断信息",
  "   *",
  "   * @param items An array of diagnostic items to format",
  "   * @param_i18n items 要格式化的诊断信息数组",
  "   */",
  "  export function formatDiagnostics(items: DiagnosticItem[]): string;",
  "",
  "  /** **UNSTABLE**: new API, yet to be vetted.",
  "   * @i18n **不稳定**: 新 API，没有经过审查。",
  "   *",
  "   * A specific subset TypeScript compiler options that can be supported by the",
  "   * Deno TypeScript compiler.",
  "   * @i18n TypeScript 编译选项的特定子集，这些选项能够被 Deno 内置的 TypeScript 编译器支持。*/",
  "  export interface CompilerOptions \x7b",
  "    /** Allow JavaScript files to be compiled. Defaults to \x60true\x60.",
  "     * @i18n 允许编译 JavaScript 文件。默认为 \x60true\x60。*/",
  "    allowJs?: boolean;",
  "    /** Allow default imports from modules with no default export. This does not",
  "     * affect code emit, just typechecking. Defaults to \x60false\x60.",
  "     * @i18n 允许从没有设置默认导出的模块中默认导入。这并不影响代码的输出，仅为了类型检查。默认为 \x60false\x60。*/",
  "    allowSyntheticDefaultImports?: boolean;",
  "    /** Allow accessing UMD globals from modules. Defaults to \x60false\x60.",
  "     * @i18n 允许从模块中访问 UMD 全局变量。默认为 \x60false\x60。*/",
  "    allowUmdGlobalAccess?: boolean;",
  "    /** Do not report errors on unreachable code. Defaults to \x60false\x60.",
  "     * @i18n 不报告执行不到的代码错误。默认为 \x60false\x60。*/",
  "    allowUnreachableCode?: boolean;",
  "    /** Do not report errors on unused labels. Defaults to \x60false\x60",
  "     * @i18n 不报告未使用的标签错误。默认为 \x60false\x60。*/",
  "    allowUnusedLabels?: boolean;",
  "    /** Parse in strict mode and emit \x60\"use strict\"\x60 for each source file.",
  "     * Defaults to \x60true\x60.",
  "     * @i18n 以严格模式解析源文件并为每个源文件生成 \x60\"use strict\"\x60 语句。",
  "     * 默认为 \x60true\x60。*/",
  "    alwaysStrict?: boolean;",
  "    /** Base directory to resolve non-relative module names. Defaults to",
  "     * \x60undefined\x60.",
  "     * @i18n 解析非相对模块名的基准目录。默认为 \x60undefined\x60。*/",
  "    baseUrl?: string;",
  "    /** Report errors in \x60.js\x60 files. Use in conjunction with \x60allowJs\x60. Defaults",
  "     * to \x60false\x60.",
  "     * @i18n 报告 \x60.js\x60 文件中存在的错误。与 \x60allowJs\x60 配合使用。默认为 \x60false\x60。*/",
  "    checkJs?: boolean;",
  "    /** Generates corresponding \x60.d.ts\x60 file. Defaults to \x60false\x60.",
  "     * @i18n 生成相应的 \x60.d.ts\x60 文件。默认为 \x60false\x60。*/",
  "    declaration?: boolean;",
  "    /** Output directory for generated declaration files.",
  "     * @i18n 生成声明文件的输出路径。*/",
  "    declarationDir?: string;",
  "    /** Generates a source map for each corresponding \x60.d.ts\x60 file. Defaults to",
  "     * \x60false\x60.",
  "     * @i18n 为每个 \x60.d.ts\x60 文件生成 ource map。默认为 \x60false\x60。*/",
  "    declarationMap?: boolean;",
  "    /** Provide full support for iterables in \x60for..of\x60, spread and",
  "     * destructuring when targeting ES5 or ES3. Defaults to \x60false\x60.",
  "     * @i18n 当编译目标设置为 ES5 或 ES3 时，为 \x60for..of\x60、数组解构、数组展开提供完整的迭代支持。默认为 \x60false\x60。*/",
  "    downlevelIteration?: boolean;",
  "    /** Emit a UTF-8 Byte Order Mark (BOM) in the beginning of output files.",
  "     * Defaults to \x60false\x60.",
  "     * @i18n 在输出文件的开头加入 BOM 头（UTF-8 Byte Order Mark）。默认为 \x60false\x60。*/",
  "    emitBOM?: boolean;",
  "    /** Only emit \x60.d.ts\x60 declaration files. Defaults to \x60false\x60.",
  "     * @i18n 只输出 \x60.d.ts\x60 文件。默认为 \x60false\x60。*/",
  "    emitDeclarationOnly?: boolean;",
  "    /** Emit design-type metadata for decorated declarations in source. See issue",
  "     * [microsoft/TypeScript#2577](https://github.com/Microsoft/TypeScript/issues/2577)",
  "     * for details. Defaults to \x60false\x60.",
  "     * @i18n 给源码里的装饰器声明加上设计类型元数据。查看",
  "     * [microsoft/TypeScript#2577](https://github.com/Microsoft/TypeScript/issues/2577)",
  "     * 了解更多信息。默认为 \x60false\x60。*/",
  "    emitDecoratorMetadata?: boolean;",
  "    /** Emit \x60__importStar\x60 and \x60__importDefault\x60 helpers for runtime babel",
  "     * ecosystem compatibility and enable \x60allowSyntheticDefaultImports\x60 for type",
  "     * system compatibility. Defaults to \x60true\x60.",
  "     * @i18n 为了兼容 babel 运行时生态，输出 \x60__importStar\x60 和 \x60__importDefault\x60 辅助函数并且开启 \x60allowSyntheticDefaultImports\x60 选项。默认为 \x60true\x60。*/",
  "    esModuleInterop?: boolean;",
  "    /** Enables experimental support for ES decorators. Defaults to \x60false\x60.",
  "     * @i18n 启用实验性的 ES 装饰器。默认为 \x60false\x60*/",
  "    experimentalDecorators?: boolean;",
  "    /** Emit a single file with source maps instead of having a separate file.",
  "     * Defaults to \x60false\x60.",
  "     * @i18n 生成单个 source maps 文件，而不是将每 source maps 生成不同的文件。",
  "     * 默认为 \x60false\x60。*/",
  "    inlineSourceMap?: boolean;",
  "    /** Emit the source alongside the source maps within a single file; requires",
  "     * \x60inlineSourceMap\x60 or \x60sourceMap\x60 to be set. Defaults to \x60false\x60.",
  "     * @i18n 将代码与 source maps 生成到一个文件中，要求同时设置了 \x60inlineSourceMap\x60 or \x60sourceMap\x60 选项。默认为 \x60false\x60。*/",
  "    inlineSources?: boolean;",
  "    /** Perform additional checks to ensure that transpile only would be safe.",
  "     * Defaults to \x60false\x60.",
  "     * @i18n 执行额外的检查，确保我的程序代码可以被不进行任何类型检查的编译器正确地编译。",
  "     * 默认为 \x60false\x60。*/",
  "    isolatedModules?: boolean;",
  "    /** Support JSX in \x60.tsx\x60 files: \x60\"react\"\x60, \x60\"preserve\"\x60, \x60\"react-native\"\x60.",
  "     * Defaults to \x60\"react\"\x60.",
  "     * @i18n 为 \x60.tsx\x60 文件提供 JSX 支持：\x60\"react\"\x60, \x60\"preserve\"\x60, \x60\"react-native\"\x60。",
  "     * 默认为 \x60\"react\"\x60。*/",
  "    jsx?: \"react\" | \"preserve\" | \"react-native\";",
  "    /** Specify the JSX factory function to use when targeting react JSX emit,",
  "     * e.g. \x60React.createElement\x60 or \x60h\x60. Defaults to \x60React.createElement\x60.",
  "     * @i18n 指定生成目标为 JSX 时，使用的 JSX 工厂函数，比如 \x60React.createElement\x60 或 \x60h\x60。默认为 \x60React.createElement\x60。*/",
  "    jsxFactory?: string;",
  "    /** Resolve keyof to string valued property names only (no numbers or",
  "     * symbols). Defaults to \x60false\x60.",
  "     * @i18n 只解析字符串属性的 keyof (忽略 numbers 和 symbols)。默认为 \x60false\x60。*/",
  "    keyofStringsOnly?: string;",
  "    /** Emit class fields with ECMAScript-standard semantics. Defaults to \x60false\x60.",
  "     * Does not apply to \x60\"esnext\"\x60 target.",
  "     * @i18n 使用 ECMAScript 标准语义声明类字段。 默认为 \x60false\x60。",
  "     * 不适用于生成目标为 \x60\"esnext\"\x60。*/",
  "    useDefineForClassFields?: boolean;",
  "    /** List of library files to be included in the compilation. If omitted,",
  "     * then the Deno main runtime libs are used.",
  "     * @i18n 编译过程中需要引入的库文件的列表。当输出时，Deno 的核心运行库也会使用。*/",
  "    lib?: string[];",
  "    /** The locale to use to show error messages.",
  "     * @i18n 显示错误信息时使用的语言。",
  "     */",
  "    locale?: string;",
  "    /** Specifies the location where debugger should locate map files instead of",
  "     * generated locations. Use this flag if the \x60.map\x60 files will be located at",
  "     * run-time in a different location than the \x60.js\x60 files. The location",
  "     * specified will be embedded in the source map to direct the debugger where",
  "     * the map files will be located. Defaults to \x60undefined\x60.",
  "     * @i18n 为调试器指定指定 source map 文件的路径，而不是使用生成时的路径。",
  "     * 当 \x60.map\x60 文件是在运行时指定的，并不同于 \x60.js\x60 文件的地址时使用这个标记。",
  "     * 指定的路径会嵌入到 source map 里告诉调试器到哪里去找它们。默认为 \x60undefined\x60。*/",
  "    mapRoot?: string;",
  "    /** Specify the module format for the emitted code. Defaults to",
  "     * \x60\"esnext\"\x60.",
  "     * @i18n 指定生成哪个模块系统代码。默认为 \x60\"esnext\"\x60。*/",
  "    module?:",
  "      | \"none\"",
  "      | \"commonjs\"",
  "      | \"amd\"",
  "      | \"system\"",
  "      | \"umd\"",
  "      | \"es6\"",
  "      | \"es2015\"",
  "      | \"esnext\";",
  "    /** Do not generate custom helper functions like \x60__extends\x60 in compiled",
  "     * output. Defaults to \x60false\x60.",
  "     * @i18n 不在输出文件中生成用户自定义的帮助函数代码，如 \x60__extends\x60。默认为 \x60false\x60。*/",
  "    noEmitHelpers?: boolean;",
  "    /** Report errors for fallthrough cases in switch statement. Defaults to",
  "     * \x60false\x60.",
  "     * @i18n 报告 \x60switch\x60 语句的 fallthrough 错误。默认为 \x60false\x60。*/",
  "    noFallthroughCasesInSwitch?: boolean;",
  "    /** Raise error on expressions and declarations with an implied any type.",
  "     * Defaults to \x60true\x60.",
  "     * @i18n 在表达式和声明上有隐含的 \x60any\x60 类型时报错。",
  "     * 默认为 \x60true\x60*/",
  "    noImplicitAny?: boolean;",
  "    /** Report an error when not all code paths in function return a value.",
  "     * Defaults to \x60false\x60.",
  "     * @i18n 当函数的所有返回路径存在没有 \x60return\x60 的情况时报错。",
  "     * 默认为 \x60false\x60。*/",
  "    noImplicitReturns?: boolean;",
  "    /** Raise error on \x60this\x60 expressions with an implied \x60any\x60 type. Defaults to",
  "     * \x60true\x60.",
  "     * @i18n 当 \x60this\x60 表达式的值为 \x60any\x60 类型的时候报错。默认为 \x60true\x60。*/",
  "    noImplicitThis?: boolean;",
  "    /** Do not emit \x60\"use strict\"\x60 directives in module output. Defaults to",
  "     * \x60false\x60.",
  "     * @i18n 不要在模块输出中包含 \x60\"use strict\"\x60 指令。默认为 \x60false\x60。*/",
  "    noImplicitUseStrict?: boolean;",
  "    /** Do not add triple-slash references or module import targets to the list of",
  "     * compiled files. Defaults to \x60false\x60.",
  "     * @i18n 不把 \x60/// <reference>\x60 或模块导入的文件加到编译文件列表。默认为 \x60false\x60。*/",
  "    noResolve?: boolean;",
  "    /** Disable strict checking of generic signatures in function types. Defaults",
  "     * to \x60false\x60.",
  "     * @i18n 禁用在函数类型里对泛型签名进行严格检查。默认为 \x60false\x60。*/",
  "    noStrictGenericChecks?: boolean;",
  "    /** Report errors on unused locals. Defaults to \x60false\x60.",
  "     * @i18n 当存在未使用的局部变量时报错。默认为 \x60false\x60。*/",
  "    noUnusedLocals?: boolean;",
  "    /** Report errors on unused parameters. Defaults to \x60false\x60.",
  "     * @i18n 当存在未使用的参数时报错。默认为 \x60false\x60。*/",
  "    noUnusedParameters?: boolean;",
  "    /** Redirect output structure to the directory. This only impacts",
  "     * \x60Deno.compile\x60 and only changes the emitted file names. Defaults to",
  "     * \x60undefined\x60.",
  "     * @i18n 重定向输出目录。这个只影响 \x60Deno.compile\x60 并且只改变输出文件的名字。默认为 \x60undefined\x60。*/",
  "    outDir?: string;",
  "    /** List of path mapping entries for module names to locations relative to the",
  "     * \x60baseUrl\x60. Defaults to \x60undefined\x60.",
  "     * @i18n 模块名到基于 \x60baseUrl\x60 的路径映射的列表。默认为 \x60undefined\x60。*/",
  "    paths?: Record<string, string[]>;",
  "    /** Do not erase const enum declarations in generated code. Defaults to",
  "     * \x60false\x60.",
  "     * @i18n 保留 const 和 enum 声明。默认为 \x60false\x60。*/",
  "    preserveConstEnums?: boolean;",
  "    /** Remove all comments except copy-right header comments beginning with",
  "     * \x60/*!\x60. Defaults to \x60true\x60.",
  "     * @i18n 删除所有注释，除了以 \x60/*!\x60 开头的版权信息。默认为 \x60true\x60。*/",
  "    removeComments?: boolean;",
  "    /** Include modules imported with \x60.json\x60 extension. Defaults to \x60true\x60.",
  "     * @i18n 包含以 \x60.json\x60 扩展名引入模块。默认为 \x60true\x60。*/",
  "    resolveJsonModule?: boolean;",
  "    /** Specifies the root directory of input files. Only use to control the",
  "     * output directory structure with \x60outDir\x60. Defaults to \x60undefined\x60.",
  "     * @i18n 指定输出文件的根目录。仅用来控制 \x60outDir\x60 输出的目录结构。默认为 \x60undefined\x60。*/",
  "    rootDir?: string;",
  "    /** List of _root_ folders whose combined content represent the structure of",
  "     * the project at runtime. Defaults to \x60undefined\x60.",
  "     * @i18n 根文件夹列表，表示运行时组合工程结构的内容。默认为 \x60undefined\x60。*/",
  "    rootDirs?: string[];",
  "    /** Generates corresponding \x60.map\x60 file. Defaults to \x60false\x60.",
  "     * @i18n 生成对应的 \x60.map\x60 文件。默认为 \x60false\x60。*/",
  "    sourceMap?: boolean;",
  "    /** Specifies the location where debugger should locate TypeScript files",
  "     * instead of source locations. Use this flag if the sources will be located",
  "     * at run-time in a different location than that at design-time. The location",
  "     * specified will be embedded in the sourceMap to direct the debugger where",
  "     * the source files will be located. Defaults to \x60undefined\x60.",
  "     * @i18n 指定 TypeScript 源文件的路径，以便调试器定位。",
  "     * 当 TypeScript 文件的位置是在运行时指定时使用此标记。",
  "     * 路径信息会被加到 sourceMap 里。",
  "     * 默认为 \x60undefined\x60。*/",
  "    sourceRoot?: string;",
  "    /** Enable all strict type checking options. Enabling \x60strict\x60 enables",
  "     * \x60noImplicitAny\x60, \x60noImplicitThis\x60, \x60alwaysStrict\x60, \x60strictBindCallApply\x60,",
  "     * \x60strictNullChecks\x60, \x60strictFunctionTypes\x60 and",
  "     * \x60strictPropertyInitialization\x60. Defaults to \x60true\x60.",
  "     * @i18n 启用所有严格类型检查选项。 启用 \x60strict\x60 相当于启用",
  "     * \x60noImplicitAny\x60, \x60noImplicitThis\x60, \x60alwaysStrict\x60, \x60strictBindCallApply\x60,",
  "     * \x60strictNullChecks\x60, \x60strictFunctionTypes\x60 and",
  "     * \x60strictPropertyInitialization\x60。默认为 \x60true\x60。*/",
  "    strict?: boolean;",
  "    /** Enable stricter checking of the \x60bind\x60, \x60call\x60, and \x60apply\x60 methods on",
  "     * functions. Defaults to \x60true\x60.",
  "     * @i18n 对函数中的 \x60bind\x60, \x60call\x60, \x60apply\x60 方法启用更严格的检查。默认为 \x60true\x60。*/",
  "    strictBindCallApply?: boolean;",
  "    /** Disable bivariant parameter checking for function types. Defaults to",
  "     * \x60true\x60.",
  "     * @i18n 禁用函数参数双向协变检查。默认为 \x60true\x60。*/",
  "    strictFunctionTypes?: boolean;",
  "    /** Ensure non-undefined class properties are initialized in the constructor.",
  "     * This option requires \x60strictNullChecks\x60 be enabled in order to take effect.",
  "     * Defaults to \x60true\x60.",
  "     * @i18n 确保类的非 undefined 属性已经在构造函数里初始化。",
  "     * 若要令此选项生效，需要同时启用 \x60strictNullChecks\x60。",
  "     * 默认为 \x60true\x60。*/",
  "    strictPropertyInitialization?: boolean;",
  "    /** In strict null checking mode, the \x60null\x60 and \x60undefined\x60 values are not in",
  "     * the domain of every type and are only assignable to themselves and \x60any\x60",
  "     * (the one exception being that \x60undefined\x60 is also assignable to \x60void\x60).",
  "     * @i18n 在严格的 null 检查模式下， \x60null\x60 和 \x60undefined\x60 值不包含在任何类型里。",
  "     * 只允许用它们自己和 \x60any\x60 来赋值。",
  "     * (例外的是 \x60undefined\x60 可以赋值到 \x60void\x60 )。 */",
  "    strictNullChecks?: boolean;",
  "    /** Suppress excess property checks for object literals. Defaults to",
  "     * \x60false\x60.",
  "     * @i18n 阻止对对象字面量的额外属性检查。默认为 \x60false\x60。*/",
  "    suppressExcessPropertyErrors?: boolean;",
  "    /** Suppress \x60noImplicitAny\x60 errors for indexing objects lacking index",
  "     * signatures.",
  "     * @i18n 阻止 \x60noImplicitAny\x60 对缺少索引签名的索引对象报错。*/",
  "    suppressImplicitAnyIndexErrors?: boolean;",
  "    /** Specify ECMAScript target version. Defaults to \x60esnext\x60.",
  "     * @i18n 指定 ECMAScript 目标版本。默认为 \x60esnext\x60。*/",
  "    target?:",
  "      | \"es3\"",
  "      | \"es5\"",
  "      | \"es6\"",
  "      | \"es2015\"",
  "      | \"es2016\"",
  "      | \"es2017\"",
  "      | \"es2018\"",
  "      | \"es2019\"",
  "      | \"es2020\"",
  "      | \"esnext\";",
  "    /** List of names of type definitions to include. Defaults to \x60undefined\x60.",
  "     *",
  "     * The type definitions are resolved according to the normal Deno resolution",
  "     * irrespective of if sources are provided on the call. Like other Deno",
  "     * modules, there is no \"magical\" resolution. For example:",
  "     * @i18n 需要包含的类型声明文件名称列表。默认为 \x60undefined\x60。",
  "     *  该类型定义是解决了符合普通的 Deno 类型解析。",
  "     *  无论资源是否提供来源。",
  "     *  就像其他的 Deno 模块, 没有“神奇”的解决方法。例如：",
  "     *",
  "     *      Deno.compile(",
  "     *        \"./foo.js\",",
  "     *        undefined,",
  "     *        \x7b",
  "     *          types: [ \"./foo.d.ts\", \"https://deno.land/x/example/types.d.ts\" ]",
  "     *        \x7d",
  "     *      );",
  "     */",
  "    types?: string[];",
  "  \x7d"
]

def bilingualLinesC14 : List String := [
  "",
  "  /** **UNSTABLE**: new API, yet to be vetted.",
  "   * @i18n **不稳定**：新的 API，尚待审核。",
  "   *",
  "   * The results of a transpile only command, where the \x60source\x60 contains the",
  "   * emitted source, and \x60map\x60 optionally contains the source map.",
  "   * @i18n transpile only 命令的结果，其中 \x60source\x60",
  "   * 为转化后的源码，而 \x60map\x60 则为源码的 source map。*/",
  "  export interface TranspileOnlyResult \x7b",
  "    source: string;",
  "    map?: string;",
  "  \x7d",
  "",
  "  /** **UNSTABLE**: new API, yet to be vetted.",
  "   * @i18n **不稳定**：新的 API，尚待审核。",
  "   *",
  "   * Takes a set of TypeScript sources and resolves to a map where the key was",
  "   * the original file name provided in sources and the result contains the",
  "   * \x60source\x60 and optionally the \x60map\x60 from the transpile operation. This does no",
  "   * type checking and validation, it effectively \"strips\" the types from the",
  "   * file.",
  "   * @i18n 给定一组 TypeScript 类型的源码 (sources)，返回解析后的映射，",
  "   * 其中的 key 是 sources 的 key，结果则包含转化过的源码及源码的 source map。",
  "   * 此函数并不进行类型校检，它可以有效地从文件中 “删除” 类型。",
  "   *",
  "   *      const results =  await Deno.transpileOnly(\x7b",
  "   *        \"foo.ts\": \x60const foo: string = \"foo\";\x60",
  "   *      \x7d);",
  "   *",
  "   * @param sources A map where the key is the filename and the value is the text",
  "   *                to transpile. The filename is only used in the transpile and",
  "   *                not resolved, for example to fill in the source name in the",
  "   *                source map.",
  "   * @param_i18n sources key 是文件名，value 是要转换的源码。",
  "   *                     文件扩展名并不会被解析，仅用作解析结果的 key。",
  "   * @param options An option object of options to send to the compiler. This is",
  "   *                a subset of ts.CompilerOptions which can be supported by Deno.",
  "   *                Many of the options related to type checking and emitting",
  "   *                type declaration files will have no impact on the output.",
  "   * @param_i18n options 编译选项。这是可以被 Deno 支持的 ts.CompilerOptions 选项的一个子集。",
  "   */",
  "  export function transpileOnly(",
  "    sources: Record<string, string>,",
  "    options?: CompilerOptions",
  "  ): Promise<Record<string, TranspileOnlyResult>>;",
  "",
  "  /** **UNSTABLE**: new API, yet to be vetted.",
  "   * @i18n **不稳定**：新的 API，尚待审核。",
  "   *",
  "   * Takes a root module name, and optionally a record set of sources. Resolves",
  "   * with a compiled set of modules and possibly diagnostics if the compiler",
  "   * encountered any issues. If just a root name is provided, the modules",
  "   * will be resolved as if the root module had been passed on the command line.",
  "   * @i18n 它接受根模块名 rootName，及 Record<string, string> 类型的可选参数",
  "   * sources 做为模块源。返回编译后的模块集合及编译过程中遇到的问题的诊断信息。",
  "   * 如果仅传了 rootName，那么模块解析结果同命令行一致。",
  "   *",
  "   * If sources are passed, all modules will be resolved out of this object, where",
  "   * the key is the module name and the value is the content. The extension of",
  "   * the module name will be used to determine the media type of the module.",
  "   * @i18n 如果传递了 sources，则所有模块都将从该 sources 对象中解析出来，",
  "   * 其中键是模块名称，值是内容。模块名称的扩展名将用于确定模块的类型。",
  "   *",
  "   *      const [ maybeDiagnostics1, output1 ] = await Deno.compile(\"foo.ts\");",
  "   *",
  "   *      const [ maybeDiagnostics2, output2 ] = await Deno.compile(\"/foo.ts\", \x7b",
  "   *        \"/foo.ts\": \x60export * from \"./bar.ts\";\x60,",
  "   *        \"/bar.ts\": \x60export const bar = \"bar\";\x60",
  "   *      \x7d);",
  "   *",
  "   * @param rootName The root name of the module which will be used as the",
  "   *                 \"starting point\". If no \x60sources\x60 is specified, Deno will",
  "   *                 resolve the module externally as if the \x60rootName\x60 had been",
  "   *                 specified on the command line.",
  "   * @param_i18n rootName 作为 “起点” 的模块名。如果没有传递 \x60sources\x60 参数,",
  "   *                      Deno 将从外部解析模块，就像在命令行中指定了 \x60rootName\x60 一样。",
  "   * @param sources An optional key/value map of sources to be used when resolving",
  "   *                modules, where the key is the module name, and the value is",
  "   *                the source content. The extension of the key will determine",
  "   *                the media type of the file when processing. If supplied,",
  "   *                Deno will not attempt to resolve any modules externally.",
  "   * @param_i18n sources 可选参数，解析模块时使用的 key/value 对象，其中 key 是模块名，value 是源内容。",
  "   *                     key 的扩展名决定了解析模块的类型。如果提供此参数，Deno 将不会尝试从外部解析任何模块。",
  "   * @param options An optional object of options to send to the compiler. This is",
  "   *                a subset of ts.CompilerOptions which can be supported by Deno.",
  "   * @param_i18n options 编译选项。这是可以被 Deno 支持的 ts.CompilerOptions 选项的一个子集。",
  "   */",
  "  export function compile(",
  "    rootName: string,",
  "    sources?: Record<string, string>,",
  "    options?: CompilerOptions",
  "  ): Promise<[DiagnosticItem[] | undefined, Record<string, string>]>;",
  "",
  "  /** **UNSTABLE**: new API, yet to be vetted.",
  "   * @i18n **不稳定**：新的 API，尚待审核。",
  "   *",
  "   * \x60bundle()\x60 is part the compiler API.  A full description of this functionality",
  "   * can be found in the [manual](https://deno.land/std/manual.md#denobundle).",
  "   * @i18n \x60bundle()\x60 是编译器 API 的一部分。有关此功能的完整说明，",
  "   * 请参见 [手册](https://deno.land/std/manual.md#denobundle)。",
  "   *",
  "   * Takes a root module name, and optionally a record set of sources. Resolves",
  "   * with a single JavaScript string (and bundle diagnostics if issues arise with",
  "   * the bundling) that is like the output of a \x60deno bundle\x60 command. If just",
  "   * a root name is provided, the modules will be resolved as if the root module",
  "   * had been passed on the command line.",
  "   * @i18n 它接受根模块名 rootName，及可选参数 sources 做为模块源。",
  "   * 就像使用 \x60deno bundle\x60 命令输出的结果一样，其返回值是一个",
  "   * JavaScript 字符串（如果在打包过程中出现错误, 则会返回错误诊断信息）。",
  "   * 如果仅传了 rootName，那么模块解析结果同命令行一致。",
  "   *",
  "   * If sources are passed, all modules will be resolved out of this object, where",
  "   * the key is the module name and the value is the content. The extension of the",
  "   * module name will be used to determine the media type of the module.",
  "   * @i18n 如果传递了 sources，则所有模块都将从该 sources 对象中解析出来，",
  "   * 其中键是模块名称，值是内容。模块名称的扩展名将用于确定模块的类型。",
  "   *",
  "   *      // 相当于执行 \"deno bundle foo.ts\" 命令",
  "   *      const [ maybeDiagnostics1, output1 ] = await Deno.bundle(\"foo.ts\");",
  "   *",
  "   *      const [ maybeDiagnostics2, output2 ] = await Deno.bundle(\"/foo.ts\", \x7b",
  "   *        \"/foo.ts\": \x60export * from \"./bar.ts\";\x60,",
  "   *        \"/bar.ts\": \x60export const bar = \"bar\";\x60",
  "   *      \x7d);",
  "   *",
  "   * @param rootName The root name of the module which will be used as the",
  "   *                 \"starting point\". If no \x60sources\x60 is specified, Deno will",
  "   *                 resolve the module externally as if the \x60rootName\x60 had been",
  "   *                 specified on the command line.",
  "   * @param_i18n rootName 作为 “起点” 的模块名。如果没有传递 \x60sources\x60 参数,",
  "   *                      Deno 将从外部解析模块，就像在命令行中指定了 \x60rootName\x60 一样。",
  "   * @param sources An optional key/value map of sources to be used when resolving",
  "   *                modules, where the key is the module name, and the value is",
  "   *                the source content. The extension of the key will determine",
  "   *                the media type of the file when processing. If supplied,",
  "   *                Deno will not attempt to resolve any modules externally.",
  "   * @param_i18n sources 可选参数，解析模块时使用的 key/value 对象，其中 key 是模块名，value 是源内容。",
  "   *                     key 的扩展名决定了解析模块的类型。如果提供此参数，Deno 将不会尝试从外部解析任何模块。",
  "   * @param options An optional object of options to send to the compiler. This is",
  "   *                a subset of ts.CompilerOptions which can be supported by Deno.",
  "   * @param_i18n options 编译选项。这是可以被 Deno 支持的 ts.CompilerOptions 选项的一个子集。",
  "   */",
  "  export function bundle(",
  "    rootName: string,",
  "    sources?: Record<string, string>,",
  "    options?: CompilerOptions",
  "  ): Promise<[DiagnosticItem[] | undefined, string]>;",
  "",
  "  /** Returns the script arguments to the program. If for example we run a",
  "   * program:",
  "   * @i18n 将脚本参数返回给程序。例如我们运行下方的程序",
  "   *",
  "   *      deno --allow-read https://deno.land/std/examples/cat.ts /etc/passwd",
  "   *",
  "   * Then \x60Deno.args\x60 will contain:",
  "   * @i18n 此时 \x60Deno.args\x60 将包含:",
  "   *",
  "   *      [ \"/etc/passwd\" ]",
  "   */",
  "  export const args: string[];",
  "",
  "  /** **UNSTABLE**: new API, yet to be vetted.",
  "   * @i18n **不稳定**: 新 API，没有经过审查。",
  "   *",
  "   * Represents the stream of signals, implements both \x60AsyncIterator\x60 and",
  "   * \x60PromiseLike\x60.",
  "   * @i18n 信号流，实现了 \x60AsyncIterator\x60 和 \x60PromiseLike\x60 接口。*/",
  "  export class SignalStream",
  "    implements AsyncIterableIterator<void>, PromiseLike<void> \x7b",
  "    constructor(signal: typeof Deno.Signal);",
  "    then<T, S>(",
  "      f: (v: void) => T | Promise<T>,",
  "      g?: (v: void) => S | Promise<S>",
  "    ): Promise<T | S>;",
  "    next(): Promise<IteratorResult<void>>;",
  "    [Symbol.asyncIterator](): AsyncIterableIterator<void>;",
  "    dispose(): void;",
  "  \x7d",
  "",
  "  /** **UNSTABLE**: new API, yet to be vetted.",
  "   * @i18n **不稳定**: 新 API，没有经过审查。",
  "   *",
  "   * Returns the stream of the given signal number. You can use it as an async",
  "   * iterator.",
  "   * @i18n 返回指定信号编码的流。返回值可用于异步迭代。",
  "   *",
  "   *      for await (const _ of Deno.signal(Deno.Signal.SIGTERM)) \x7b",
  "   *        console.log(\"got SIGTERM!\");",
  "   *      \x7d",
  "   *",
  "   * You can also use it as a promise. In this case you can only receive the",
  "   * first one.",
  "   * @i18n 也可以把它作为 Promise 来使用。在这种情况下，只能收到第一个值。",
  "   *",
  "   *      await Deno.signal(Deno.Signal.SIGTERM);",
  "   *      console.log(\"SIGTERM received!\")",
  "   *",
  "   * If you want to stop receiving the signals, you can use \x60.dispose()\x60 method",
  "   * of the signal stream object.",
  "   * @i18n 如果要停止接收信号，可以使用信号流对象(\x60SignalStream\x60)的 \x60.dispose()\x60 方法。",
  "   *",
  "   *      const sig = Deno.signal(Deno.Signal.SIGTERM);",
  "   *      setTimeout(() => \x7b sig.dispose(); \x7d, 5000);",
  "   *      for await (const _ of sig) \x7b",
  "   *        console.log(\"SIGTERM!\")",
  "   *      \x7d",
  "   *",
  "   * The above for-await loop exits after 5 seconds when \x60sig.dispose()\x60 is",
  "   * called.",
  "   * @i18n 当调用 \x60sig.dispose()\x60 5 秒后，上述 for-await 循环退出。",
  "   *",
  "   * NOTE: This functionality is not yet implemented on Windows.",
  "   * @i18n 注意: 这个功能还没有在 Windows 上实现。",
  "   */"
]

def bilingualLinesC15 : List String := [
  "  export function signal(signo: number): SignalStream;",
  "",
  "  /** **UNSTABLE**: new API, yet to be vetted.",
  "   * @i18n **不稳定**: 新 API，没有经过审查。*/",
  "  export const signals: \x7b",
  "    /** Returns the stream of SIGALRM signals.",
  "     * @i18n 返回 SIGALRM 信号流。",
  "     *",
  "     * This method is the shorthand for \x60Deno.signal(Deno.Signal.SIGALRM)\x60.",
  "     * @i18n 此方法是 \x60Deno.signal(Deno.Signal.SIGALRM)\x60 的简写形式。*/",
  "    alarm: () => SignalStream;",
  "    /** Returns the stream of SIGCHLD signals.",
  "     * @i18n 返回 SIGCHLD 信号流。",
  "     *",
  "     * This method is the shorthand for \x60Deno.signal(Deno.Signal.SIGCHLD)\x60.",
  "     * @i18n 此方法是 \x60Deno.signal(Deno.Signal.SIGCHLD)\x60 的简写形式。*/",
  "    child: () => SignalStream;",
  "    /** Returns the stream of SIGHUP signals.",
  "     * @i18n 返回 SIGHUP 信号流。",
  "     *",
  "     * This method is the shorthand for \x60Deno.signal(Deno.Signal.SIGHUP)\x60.",
  "     * @i18n 此方法是 \x60Deno.signal(Deno.Signal.SIGHUP)\x60 的简写形式。*/",
  "    hungup: () => SignalStream;",
  "    /** Returns the stream of SIGINT signals.",
  "     * @i18n 返回 SIGINT 信号流。",
  "     *",
  "     * This method is the shorthand for \x60Deno.signal(Deno.Signal.SIGINT)\x60.",
  "     * @i18n 此方法是 \x60Deno.signal(Deno.Signal.SIGINT)\x60 的简写形式。*/",
  "    interrupt: () => SignalStream;",
  "    /** Returns the stream of SIGIO signals.",
  "     * @i18n 返回 SIGIO 信号流。",
  "     *",
  "     * This method is the shorthand for \x60Deno.signal(Deno.Signal.SIGIO)\x60.",
  "     * @i18n 此方法是 \x60Deno.signal(Deno.Signal.SIGIO)\x60 的简写形式。*/",
  "    io: () => SignalStream;",
  "    /** Returns the stream of SIGPIPE signals.",
  "     * @i18n 返回 SIGPIPE 信号流。",
  "     *",
  "     * This method is the shorthand for \x60Deno.signal(Deno.Signal.SIGPIPE)\x60.",
  "     * @i18n 此方法是 \x60Deno.signal(Deno.Signal.SIGPIPE)\x60 的简写形式。*/",
  "    pipe: () => SignalStream;",
  "    /** Returns the stream of SIGQUIT signals.",
  "     * @i18n 返回 SIGQUIT 信号流。",
  "     *",
  "     * This method is the shorthand for \x60Deno.signal(Deno.Signal.SIGQUIT)\x60.",
  "     * @i18n 此方法是 \x60Deno.signal(Deno.Signal.SIGQUIT)\x60 的简写形式。*/",
  "    quit: () => SignalStream;",
  "    /** Returns the stream of SIGTERM signals.",
  "     * @i18n 返回 SIGTERM 信号流。",
  "     *",
  "     * This method is the shorthand for \x60Deno.signal(Deno.Signal.SIGTERM)\x60.",
  "     * @i18n 此方法是 \x60Deno.signal(Deno.Signal.SIGTERM)\x60 的简写形式。*/",
  "    terminate: () => SignalStream;",
  "    /** Returns the stream of SIGUSR1 signals.",
  "     * @i18n 返回 SIGUSR1 信号流。",
  "     *",
  "     * This method is the shorthand for \x60Deno.signal(Deno.Signal.SIGUSR1)\x60.",
  "     * @i18n 此方法是 \x60Deno.signal(Deno.Signal.SIGUSR1)\x60 的简写形式。*/",
  "    userDefined1: () => SignalStream;",
  "    /** Returns the stream of SIGUSR2 signals.",
  "     * @i18n 返回 SIGUSR2 信号流。",
  "     *",
  "     * This method is the shorthand for \x60Deno.signal(Deno.Signal.SIGUSR2)\x60.",
  "     * @i18n 此方法是 \x60Deno.signal(Deno.Signal.SIGUSR2)\x60 的简写形式。*/",
  "    userDefined2: () => SignalStream;",
  "    /** Returns the stream of SIGWINCH signals.",
  "     * @i18n 返回 SIGWINCH 信号流。",
  "     *",
  "     * This method is the shorthand for \x60Deno.signal(Deno.Signal.SIGWINCH)\x60.",
  "     * @i18n 此方法是 \x60Deno.signal(Deno.Signal.SIGWINCH)\x60 的简写形式。*/",
  "    windowChange: () => SignalStream;",
  "  \x7d;",
  "",
  "  /** **UNSTABLE**: new API. Maybe move \x60Deno.EOF\x60 here.",
  "   * @i18n **不稳定**: 新 API。可能会把 \x60Deno.EOF\x60 移动到这里。",
  "   *",
  "   * Special Deno related symbols.",
  "   * @i18n 与 Deno 相关的 \x60Symbol\x60。*/",
  "  export const symbols: \x7b",
  "    /** Symbol to access exposed internal Deno API",
  "     * @i18n 用于将 Deno 内部 API 暴露出来的 Symbol */",
  "    readonly internal: unique symbol;",
  "    /** A symbol which can be used as a key for a custom method which will be",
  "     * called when \x60Deno.inspect()\x60 is called, or when the object is logged to",
  "     * the console.",
  "     * @i18n 这个 Symbol 可以作为 key 来定义一个方法，当 \x60Deno.inspect()\x60 被调用或者调用了",
  "     * console 的日志方法时，这个自定义函数被调用。*/",
  "    readonly customInspect: unique symbol;",
  "    // TODO(ry) move EOF here?",
  "  \x7d;",
  "\x7d"
]

def bilingualLines : List String :=
  bilingualLinesC0 ++ (bilingualLinesC1 ++ (bilingualLinesC2 ++ (bilingualLinesC3 ++ (bilingualLinesC4 ++ (bilingualLinesC5 ++ (bilingualLinesC6 ++ (bilingualLinesC7 ++ (bilingualLinesC8 ++ (bilingualLinesC9 ++ (bilingualLinesC10 ++ (bilingualLinesC11 ++ (bilingualLinesC12 ++ (bilingualLinesC13 ++ (bilingualLinesC14 ++ (bilingualLinesC15)))))))))))))))

def publishedLinesC0 : List String := [
  "// Copyright 2018-2020 the Deno authors. All rights reserved. MIT license.",
  "",
  "/// <reference no-default-lib=\"true\" />",
  "/// <reference lib=\"esnext\" />",
  "",
  "declare namespace Deno \x7b",
  "  /** 当前正在运行的进程 ID。 */",
  "  export let pid: number;",
  "",
  "  /** 显示环境变量 \x60NO_COLOR\x60 的值。",
  "   *",
  "   * See: https://no-color.org/ */",
  "  export let noColor: boolean;",
  "",
  "  export interface TestDefinition \x7b",
  "    fn: () => void | Promise<void>;",
  "    name: string;",
  "    ignore?: boolean;",
  "    disableOpSanitizer?: boolean;",
  "    disableResourceSanitizer?: boolean;",
  "  \x7d",
  "",
  "  /** 注册一个测试，它将在命令行执行 \x60deno test\x60 操作并且包含的模块看起来像一个测试模块时运行，",
  "   * 或者在使用 \x60Deno.runTests\x60 时显式运行。如果需要， \x60fn\x60 可以是异步的。",
  "   *",
  "   *          import \x7bassert, fail, assertEquals\x7d from \"https://deno.land/std/testing/asserts.ts\";",
  "   *",
  "   *          Deno.test(\x7b",
  "   *            name: \"example test\",",
  "   *            fn(): void \x7b",
  "   *              assertEquals(\"world\", \"world\");",
  "   *            \x7d,",
  "   *          \x7d);",
  "   *",
  "   *          Deno.test(\x7b",
  "   *            name: \"example ignored test\",",
  "   *            ignore: Deno.build.os === \"win\"",
  "   *            fn(): void \x7b",
  "   *              // 仅在 Windows 机器上忽略这个测试。",
  "   *            \x7d,",
  "   *          \x7d);",
  "   *",
  "   *          Deno.test(\x7b",
  "   *            name: \"example async test\",",
  "   *            async fn() \x7b",
  "   *              const decoder = new TextDecoder(\"utf-8\");",
  "   *              const data = await Deno.readFile(\"hello_world.txt\");",
  "   *              assertEquals(decoder.decode(data), \"Hello world\")",
  "   *            \x7d",
  "   *          \x7d);",
  "   */",
  "  export function test(t: TestDefinition): void;",
  "",
  "  /** 注册一个测试，它将在命令行执行 \x60deno test\x60 操作并且包含的模块看起来像一个测试模块时运行，",
  "   * 或者在使用 \x60Deno.runTests\x60 时显式运行。",
  "   *",
  "   *        import \x7bassert, fail, assertEquals\x7d from \"https://deno.land/std/testing/asserts.ts\";",
  "   *",
  "   *        Deno.test(function myTestFunction():void \x7b",
  "   *          assertEquals(\"hello\", \"hello\");",
  "   *        \x7d);",
  "   *",
  "   *        Deno.test(async function myAsyncTestFunction():Promise<void> \x7b",
  "   *          const decoder = new TextDecoder(\"utf-8\");",
  "   *          const data = await Deno.readFile(\"hello_world.txt\");",
  "   *          assertEquals(decoder.decode(data), \"Hello world\")",
  "   *        \x7d);",
  "   **/",
  "  export function test(fn: () => void | Promise<void>): void;",
  "",
  "  /** 注册一个测试，它将在命令行执行 \x60deno test\x60 操作并且包含的模块看起来像一个测试模块时运行，",
  "   * 或者在使用 \x60Deno.runTests\x60 时显式运行。",
  "   *",
  "   *        import \x7bassert, fail, assertEquals\x7d from \"https://deno.land/std/testing/asserts.ts\";",
  "   *",
  "   *        Deno.test(\"My test description\", ():void => \x7b",
  "   *          assertEquals(\"hello\", \"hello\");",
  "   *        \x7d);",
  "   *",
  "   *        Deno.test(\"My async test description\", async ():Promise<void> => \x7b",
  "   *          const decoder = new TextDecoder(\"utf-8\");",
  "   *          const data = await Deno.readFile(\"hello_world.txt\");",
  "   *          assertEquals(decoder.decode(data), \"Hello world\")",
  "   *        \x7d);",
  "   * */",
  "  export function test(name: string, fn: () => void | Promise<void>): void;",
  "",
  "  export interface TestMessage \x7b",
  "    start?: \x7b",
  "      tests: TestDefinition[];",
  "    \x7d;",
  "    testStart?: \x7b",
  "      [P in keyof TestDefinition]: TestDefinition[P];",
  "    \x7d;",
  "    testEnd?: \x7b",
  "      name: string;",
  "      status: \"passed\" | \"failed\" | \"ignored\";",
  "      duration: number;",
  "      error?: Error;",
  "    \x7d;",
  "    end?: \x7b",
  "      filtered: number;",
  "      ignored: number;",
  "      measured: number;",
  "      passed: number;",
  "      failed: number;",
  "      duration: number;",
  "      results: Array<TestMessage[\"testEnd\"] & \x7b\x7d>;",
  "    \x7d;",
  "  \x7d",
  "",
  "  export interface RunTestsOptions \x7b",
  "    /**",
  "     * 如果为 \x60true\x60，当测试失败时 Deno 将以状态码 1 退出。",
  "     *",
  "     * 默认为 \x60true\x60。",
  "     */",
  "    exitOnFail?: boolean;",
  "    /** 如果为 \x60true\x60，Deno 将在第一次测试失败后退出。默认值为 \x60false\x60 */",
  "    failFast?: boolean;",
  "    /** 用于筛选要运行的测试的字符串或正则表达式。只有当测试名称与提供的 \x60String\x60 或 \x60RegExp\x60 相匹配时才会运行。*/",
  "    filter?: string | RegExp;",
  "    /** 用于跳过要运行的测试的字符串或正则表达式。当测试名称与提供的 \x60String\x60 或 \x60RegExp\x60 相匹配时将不会运行。 */",
  "    skip?: string | RegExp;",
  "    /** 禁用记录结果. 默认值为 \x60false\x60。 */",
  "    disableLog?: boolean;",
  "    /** 如果为 \x60true\x60，将 \x60deno test\x60 完成的结果输出到控制台。默认值为 \x60true\x60. */",
  "    reportToConsole?: boolean;",
  "    /** 回调从测试运行收到的每个消息。 */",
  "    onMessage?: (message: TestMessage) => void | Promise<void>;",
  "  \x7d",
  "",
  "  /** 运行所有通过 \x60Deno.test()\x60 注册的测试。始终异步 resolve。",
  "   *",
  "   *        // 注册一个测试。",
  "   *        Deno.test(\x7b",
  "   *          name: \"example test\",",
  "   *          fn(): void \x7b",
  "   *            assertEquals(\"world\", \"world\");",
  "   *            assertEquals(\x7b hello: \"world\" \x7d, \x7b hello: \"world\" \x7d);",
  "   *          \x7d,",
  "   *        \x7d);",
  "   *",
  "   *        // 运行所有已经注册过的测试。",
  "   *        const runInfo = await Deno.runTests();",
  "   *        console.log(runInfo.duration);  // all tests duration, e.g. \"5\" (in ms)",
  "   *        console.log(runInfo.stats.passed);  //e.g. 1",
  "   *        console.log(runInfo.results[0].name);  //e.g. \"example test\"",
  "   */",
  "  export function runTests(",
  "    opts?: RunTestsOptions",
  "  ): Promise<TestMessage[\"end\"]> & \x7b\x7d;",
  "",
  "  /** 返回 1 分钟、5 分钟和 15 分钟平均负载的数组。",
  "   * 平均负载是对最后 1 分钟、5 分钟和 15 分钟的 CPU 以及 IO 利用率的度量，以分数表示。",
  "   * \x600\x60 表示没有负载。",
  "   * 在 Windows 上，这 3 个值始终相同，代表当前负载，而不是 1 分钟、5 分钟和 15 分钟的平均负载。",
  "   *",
  "   *       console.log(Deno.loadavg());  //e.g. [ 0.71, 0.44, 0.44 ]",
  "   *",
  "   * 需要 \x60allow-env\x60 权限。",
  "   */",
  "  export function loadavg(): number[];",
  "",
  "  /** 获取 Deno 进程所在的计算机主机名(\x60hostname\x60)。",
  "   *",
  "   *       console.log(Deno.hostname());",
  "   *",
  "   *  需要 \x60allow-env\x60 权限。",
  "   */",
  "  export function hostname(): string;",
  "",
  "  /** 返回操作系统的发行版本。",
  "   *",
  "   *       console.log(Deno.osRelease());",
  "   *",
  "   * 需要 \x60allow-env\x60 权限。",
  "   */",
  "  export function osRelease(): string;",
  "",
  "  /** 退出 Deno 进程，可以指定退出码，若无则为 0。",
  "   *",
  "   *       Deno.exit(5);",
  "   */",
  "  export function exit(code?: number): never;",
  "",
  "  /** 返回调用时环境变量的快照。如果更改环境变量对象的属性，则会在进程的环境中设置该属性。",
  "   * 环境变量对象只接受 \x60string\x60 类型的值。",
  "   *",
  "   *       const myEnv = Deno.env();",
  "   *       console.log(myEnv.SHELL);",
  "   *       myEnv.TEST_VAR = \"HELLO\";",
  "   *       const newEnv = Deno.env();",
  "   *       console.log(myEnv.TEST_VAR === newEnv.TEST_VAR);  //outputs \"true\"",
  "   *",
  "   * 需要 \x60allow-env\x60 权限 */",
  "  export function env(): \x7b",
  "    [index: string]: string;",
  "  \x7d;",
  ""
]

def publishedLinesC1 : List String := [
  "  /** 获取环境变量的值。如果 \x60key\x60 不存在，则返回 \x60undefined\x60。",
  "   *",
  "   *       console.log(Deno.env(\"HOME\"));  //e.g. outputs \"/home/alice\"",
  "   *       console.log(Deno.env(\"MADE_UP_VAR\"));  //outputs \"Undefined\"",
  "   *",
  "   * 需要 \x60allow-env\x60 权限 */",
  "  export function env(key: string): string | undefined;",
  "",
  "  /** **UNSTABLE** */",
  "  export type DirKind =",
  "    | \"home\"",
  "    | \"cache\"",
  "    | \"config\"",
  "    | \"executable\"",
  "    | \"data\"",
  "    | \"data_local\"",
  "    | \"audio\"",
  "    | \"desktop\"",
  "    | \"document\"",
  "    | \"download\"",
  "    | \"font\"",
  "    | \"picture\"",
  "    | \"public\"",
  "    | \"template\"",
  "    | \"tmp\"",
  "    | \"video\";",
  "",
  "  /**",
  "   * **不稳定**: 当前正在评估中，以确定是否应重命名方法名 \x60dir\x60 和参数类型 \x60DirKind\x60。",
  "   *",
  "   * 返回特定于用户和平台的目录。",
  "   *",
  "   *       const homeDirectory = Deno.dir(\"home\");",
  "   *",
  "   * 需要 \x60allow-env\x60 权限。",
  "   *",
  "   * 如果没有适用的目录或发生任何其他错误，则返回 \x60null\x60。",
  "   *",
  "   * 参数值包含：\x60\"home\"\x60, \x60\"cache\"\x60, \x60\"config\"\x60, \x60\"executable\"\x60, \x60\"data\"\x60,",
  "   * \x60\"data_local\"\x60, \x60\"audio\"\x60, \x60\"desktop\"\x60, \x60\"document\"\x60, \x60\"download\"\x60,",
  "   * \x60\"font\"\x60, \x60\"picture\"\x60, \x60\"public\"\x60, \x60\"template\"\x60, \x60\"tmp\"\x60, \x60\"video\"\x60",
  "   *",
  "   * \x60\"home\"\x60",
  "   *",
  "   * |平台      | 值                                       | 示例                    |",
  "   * | ------- | -----------------------------------------| -----------------------|",
  "   * | Linux   | \x60$HOME\x60                                  | /home/alice            |",
  "   * | macOS   | \x60$HOME\x60                                  | /Users/alice           |",
  "   * | Windows | \x60\x7bFOLDERID_Profile\x7d\x60                     | C:\\Users\\Alice         |",
  "   *",
  "   * \x60\"cache\"\x60",
  "   *",
  "   * |平台      | 值                                  | 示例                          |",
  "   * | ------- | ----------------------------------- | ---------------------------- |",
  "   * | Linux   | \x60$XDG_CACHE_HOME\x60 or \x60$HOME\x60/.cache | /home/alice/.cache           |",
  "   * | macOS   | \x60$HOME\x60/Library/Caches              | /Users/Alice/Library/Caches  |",
  "   * | Windows | \x60\x7bFOLDERID_LocalAppData\x7d\x60           | C:\\Users\\Alice\\AppData\\Local |",
  "   *",
  "   * \x60\"config\"\x60",
  "   *",
  "   * |平台      | 值                                    | 示例                              |",
  "   * | ------- | ------------------------------------- | -------------------------------- |",
  "   * | Linux   | \x60$XDG_CONFIG_HOME\x60 or \x60$HOME\x60/.config | /home/alice/.config              |",
  "   * | macOS   | \x60$HOME\x60/Library/Preferences           | /Users/Alice/Library/Preferences |",
  "   * | Windows | \x60\x7bFOLDERID_RoamingAppData\x7d\x60           | C:\\Users\\Alice\\AppData\\Roaming   |",
  "   *",
  "   * \x60\"executable\"\x60",
  "   *",
  "   * |平台      | 值                                                              | 示例                    |",
  "   * | ------- | --------------------------------------------------------------- | -----------------------|",
  "   * | Linux   | \x60XDG_BIN_HOME\x60 or \x60$XDG_DATA_HOME\x60/../bin or \x60$HOME\x60/.local/bin | /home/alice/.local/bin |",
  "   * | macOS   | -                                                               | -                      |",
  "   * | Windows | -                                                               | -                      |",
  "   *",
  "   * \x60\"data\"\x60",
  "   *",
  "   * |平台      | 值                                       | 示例                                      |",
  "   * | ------- | ---------------------------------------- | ---------------------------------------- |",
  "   * | Linux   | \x60$XDG_DATA_HOME\x60 or \x60$HOME\x60/.local/share | /home/alice/.local/share                 |",
  "   * | macOS   | \x60$HOME\x60/Library/Application Support      | /Users/Alice/Library/Application Support |",
  "   * | Windows | \x60\x7bFOLDERID_RoamingAppData\x7d\x60              | C:\\Users\\Alice\\AppData\\Roaming           |",
  "   *",
  "   * \x60\"data_local\"\x60",
  "   *",
  "   * |平台      | 值                                       | 示例                                      |",
  "   * | ------- | ---------------------------------------- | ---------------------------------------- |",
  "   * | Linux   | \x60$XDG_DATA_HOME\x60 or \x60$HOME\x60/.local/share | /home/alice/.local/share                 |",
  "   * | macOS   | \x60$HOME\x60/Library/Application Support      | /Users/Alice/Library/Application Support |",
  "   * | Windows | \x60\x7bFOLDERID_LocalAppData\x7d\x60                | C:\\Users\\Alice\\AppData\\Local             |",
  "   *",
  "   * \x60\"audio\"\x60",
  "   *",
  "   * |平台      | 值                 | 示例                  |",
  "   * | ------- | ------------------ | -------------------- |",
  "   * | Linux   | \x60XDG_MUSIC_DIR\x60    | /home/alice/Music    |",
  "   * | macOS   | \x60$HOME\x60/Music      | /Users/Alice/Music   |",
  "   * | Windows | \x60\x7bFOLDERID_Music\x7d\x60 | C:\\Users\\Alice\\Music |",
  "   *",
  "   * \x60\"desktop\"\x60",
  "   *",
  "   * |平台      | 值                   | 示例                    |",
  "   * | ------- | -------------------- | ---------------------- |",
  "   * | Linux   | \x60XDG_DESKTOP_DIR\x60    | /home/alice/Desktop    |",
  "   * | macOS   | \x60$HOME\x60/Desktop      | /Users/Alice/Desktop   |",
  "   * | Windows | \x60\x7bFOLDERID_Desktop\x7d\x60 | C:\\Users\\Alice\\Desktop |",
  "   *",
  "   * \x60\"document\"\x60",
  "   *",
  "   * |平台      | 值                     | 示例                      |",
  "   * | ------- | ---------------------- | ------------------------ |",
  "   * | Linux   | \x60XDG_DOCUMENTS_DIR\x60    | /home/alice/Documents    |",
  "   * | macOS   | \x60$HOME\x60/Documents      | /Users/Alice/Documents   |",
  "   * | Windows | \x60\x7bFOLDERID_Documents\x7d\x60 | C:\\Users\\Alice\\Documents |",
  "   *",
  "   * \x60\"download\"\x60",
  "   *",
  "   * |平台      | 值                     | 示例                      |",
  "   * | ------- | ---------------------- | ------------------------ |",
  "   * | Linux   | \x60XDG_DOWNLOAD_DIR\x60     | /home/alice/Downloads    |",
  "   * | macOS   | \x60$HOME\x60/Downloads      | /Users/Alice/Downloads   |",
  "   * | Windows | \x60\x7bFOLDERID_Downloads\x7d\x60 | C:\\Users\\Alice\\Downloads |",
  "   *",
  "   * \x60\"font\"\x60",
  "   *",
  "   * |平台      | 值                                                   | 示例                           |",
  "   * | ------- | ---------------------------------------------------- | ------------------------------ |",
  "   * | Linux   | \x60$XDG_DATA_HOME\x60/fonts or \x60$HOME\x60/.local/share/fonts | /home/alice/.local/share/fonts |",
  "   * | macOS   | \x60$HOME/Library/Fonts\x60                                | /Users/Alice/Library/Fonts     |",
  "   * | Windows | –                                                    | –                              |",
  "   *",
  "   * \x60\"picture\"\x60",
  "   *",
  "   * |平台      | 值                    | 示例                     |",
  "   * | ------- | --------------------- | ----------------------- |",
  "   * | Linux   | \x60XDG_PICTURES_DIR\x60    | /home/alice/Pictures    |",
  "   * | macOS   | \x60$HOME\x60/Pictures      | /Users/Alice/Pictures   |",
  "   * | Windows | \x60\x7bFOLDERID_Pictures\x7d\x60 | C:\\Users\\Alice\\Pictures |",
  "   *",
  "   * \x60\"public\"\x60",
  "   *",
  "   * |平台      | 值                    | 示例                 |",
  "   * | ------- | --------------------- | ------------------- |",
  "   * | Linux   | \x60XDG_PUBLICSHARE_DIR\x60 | /home/alice/Public  |",
  "   * | macOS   | \x60$HOME\x60/Public        | /Users/Alice/Public |",
  "   * | Windows | \x60\x7bFOLDERID_Public\x7d\x60   | C:\\Users\\Public     |",
  "   *",
  "   * \x60\"template\"\x60",
  "   *",
  "   * |平台      | 值                     | 示例                                                       |",
  "   * | ------- | ---------------------- | ---------------------------------------------------------- |",
  "   * | Linux   | \x60XDG_TEMPLATES_DIR\x60    | /home/alice/Templates                                      |",
  "   * | macOS   | –                      | –                                                          |",
  "   * | Windows | \x60\x7bFOLDERID_Templates\x7d\x60 | C:\\Users\\Alice\\AppData\\Roaming\\Microsoft\\Windows\\Templates |",
  "   *",
  "   * \x60\"tmp\"\x60",
  "   *",
  "   * |平台      | 值                     | 示例                                                        |",
  "   * | ------- | ---------------------- | ---------------------------------------------------------- |",
  "   * | Linux   | \x60TMPDIR\x60               | /tmp                                                       |",
  "   * | macOS   | \x60TMPDIR\x60               | /tmp                                                       |",
  "   * | Windows | \x60\x7bTMP\x7d\x60                | C:\\Users\\Alice\\AppData\\Local\\Temp                          |",
  "   *",
  "   * \x60\"video\"\x60",
  "   *",
  "   * |平台      | 值                  | 示例                   |",
  "   * | ------- | ------------------- | --------------------- |",
  "   * | Linux   | \x60XDG_VIDEOS_DIR\x60    | /home/alice/Videos    |",
  "   * | macOS   | \x60$HOME\x60/Movies      | /Users/Alice/Movies   |",
  "   * | Windows | \x60\x7bFOLDERID_Videos\x7d\x60 | C:\\Users\\Alice\\Videos |",
  "   *",
  "   */",
  "  export function dir(kind: DirKind): string | null;",
  "",
  "  /**",
  "   * 返回当前 deno 可执行文件的路径。",
  "   *",
  "   *       console.log(Deno.execPath());  //e.g. \"/home/alice/.local/bin/deno\"",
  "   *",
  "   * 需要 \x60allow-env\x60 权限。",
  "   */",
  "  export function execPath(): string;",
  "",
  "  /**",
  "   * **不稳定**: 获取当前工作目录是否需要明确的权限，目前正在评估中。",
  "   *",
  "   * 返回当前工作目录的字符串。",
  "   *",
  "   * 如果当前目录可以通过多个路径访问（由于符号链接导致），可能会返回其中任意一个。",
  "   *",
  "   *       const currentWorkingDirectory = Deno.cwd();",
  "   *",
  "   * 如果目录不存在，则抛出 \x60Deno.errors.NotFound\x60。",
  "   */",
  "  export function cwd(): string;",
  "",
  "  /**",
  "   * **不稳定**: 更改当前工作目录是否需要明确的权限，目前正在评估中。",
  "   *",
  "   * 将当前工作目录更改为指定路径。",
  "   *",
  "   *       Deno.chdir(\"/home/userA\");",
  "   *       Deno.chdir(\"../userB\");",
  "   *       Deno.chdir(\"C:\\\\Program Files (x86)\\\\Java\");",
  "   *",
  "   * 如果目录未被找到，则抛出 \x60Deno.errors.NotFound\x60 。",
  "   * 如果用户没有访问权限，则抛出 \x60Deno.errors.PermissionDenied\x60 。",
  "   */"
]

def publishedLinesC2 : List String := [
  "  export function chdir(directory: string): void;",
  "",
  "  /**",
  "   * **不稳定**: 新 API，没有经过审查。正在考虑调用此 API 时，是否需要申请权限。",
  "   *",
  "   * 获取进程权限掩码。如果提供 \x60mask\x60，则设置进程权限掩码。",
  "   * 此函数始终返回调用前的权限掩码。",
  "   *",
  "   *        console.log(Deno.umask());  //e.g. 18 (0o022)",
  "   *        const prevUmaskValue = Deno.umask(0o077);  //e.g. 18 (0o022)",
  "   *        console.log(Deno.umask());  //e.g. 63 (0o077)",
  "   *",
  "   * 注意: 此 API 未在 Windows 平台实现。",
  "   */",
  "  export function umask(mask?: number): number;",
  "",
  "  /** **不稳定**: 可能会移动到 \x60Deno.symbols\x60。 */",
  "  export const EOF: unique symbol;",
  "  export type EOF = typeof EOF;",
  "",
  "  /** **不稳定**: 可能会移除 \x60\"SEEK_\"\x60 前缀。可能不使用全大写。 */",
  "  export enum SeekMode \x7b",
  "    SEEK_START = 0,",
  "    SEEK_CURRENT = 1,",
  "    SEEK_END = 2,",
  "  \x7d",
  "",
  "  /** **UNSTABLE**: might make \x60Reader\x60 into iterator of some sort. */",
  "  export interface Reader \x7b",
  "    /** Reads up to \x60p.byteLength\x60 bytes into \x60p\x60. It resolves to the number of",
  "     * bytes read (\x600\x60 < \x60n\x60 <= \x60p.byteLength\x60) and rejects if any error",
  "     * encountered. Even if \x60read()\x60 resolves to \x60n\x60 < \x60p.byteLength\x60, it may",
  "     * use all of \x60p\x60 as scratch space during the call. If some data is",
  "     * available but not \x60p.byteLength\x60 bytes, \x60read()\x60 conventionally resolves",
  "     * to what is available instead of waiting for more.",
  "     *",
  "     * When \x60read()\x60 encounters end-of-file condition, it resolves to",
  "     * \x60Deno.EOF\x60 symbol.",
  "     *",
  "     * When \x60read()\x60 encounters an error, it rejects with an error.",
  "     *",
  "     * Callers should always process the \x60n\x60 > \x600\x60 bytes returned before",
  "     * considering the \x60EOF\x60. Doing so correctly handles I/O errors that happen",
  "     * after reading some bytes and also both of the allowed EOF behaviors.",
  "     *",
  "     * Implementations should not retain a reference to \x60p\x60.",
  "     */",
  "    /** 最多读取 \x60p.byteLength\x60 个字节到p中，然后返回读取的字节数（\x600 < n <= p.byteLength\x60），并在遇到任何错误时返回拒绝状态的回调函数。",
  "     * 即使 \x60read()\x60 返回值为 \x60n < p.byteLength\x60，p也可能在调用期间被用作临时空间。",
  "     * 如果有数据可用，但不存在 \x60p.byteLength\x60，\x60read()\x60 通常会返回可用值，而不是等待更多。",
  "     *",
  "     * 当 \x60read()\x60 遇到文件结束条件时，将返回 \x60Deno.EOF\x60 符号。",
  "     *",
  "     * 当 \x60read()\x60 遇到错误时，它会返回拒绝状态的回调函数，参数值为错误信息。",
  "     *",
  "     * 调用者应始终处理返回值为 \x60n > 0\x60 的情况，然后再考虑 \x60EOF\x60。",
  "     * 应正确处理在读取一些字节以及两种被允许的EOF行为之后可能发生的 I/O 错误。",
  "     *",
  "     * 实现不应保留对 \x60p\x60 的引用。",
  "     */",
  "    read(p: Uint8Array): Promise<number | EOF>;",
  "  \x7d",
  "",
  "  export interface SyncReader \x7b",
  "    /** 最多读取 \x60p.byteLength\x60 个字节到p中，然后返回读取的字节数（\x600 < n <= p.byteLength\x60），并在遇到任何错误时返回拒绝状态的回调函数。",
  "     * 即使 \x60readSync()\x60 返回值为 \x60n < p.byteLength\x60，p也可能在调用期间被用作临时空间。",
  "     * 如果有数据可用，但不存在 \x60p.byteLength\x60，\x60readSync()\x60 通常会返回可用值，而不是等待更多。",
  "     *",
  "     * 当 \x60readSync()\x60 遇到文件结束条件时，将返回 \x60Deno.EOF\x60 符号。",
  "     *",
  "     * 当 \x60readSync()\x60 遇到错误时，它会返回拒绝状态的回调函数，参数值为错误信息。",
  "     *",
  "     * 调用者应始终处理返回值为 \x60n > 0\x60 的情况，然后再考虑 \x60EOF\x60。",
  "     * 应正确处理在读取一些字节以及两种被允许的EOF行为之后可能发生的 I/O 错误。",
  "     *",
  "     * 实现不应保留对 \x60p\x60 的引用。",
  "     */",
  "    readSync(p: Uint8Array): number | EOF;",
  "  \x7d",
  "",
  "  export interface Writer \x7b",
  "    /**",
  "     * 将 \x60p\x60 中的 \x60p.byteLength\x60 字节写入底层数据流。 它 resolve 时返回值为从 \x60p\x60 写入的",
  "     * 字节数(\x600\x60 <= \x60n\x60 <= \x60p.byteLength\x60），reject 时返回值为导致写入提前停止的错误。",
  "     * 如果将要 resolve 一个 \x60n\x60 < \x60p.byteLength\x60 的值时， \x60write()\x60 必须 reject，并且返回",
  "     * 一个非空错误。\x60write()\x60 禁止修改分片数据，即使是临时修改。",
  "     *",
  "     * 实现不应保留对 \x60p\x60 的引用。",
  "     */",
  "    write(p: Uint8Array): Promise<number>;",
  "  \x7d",
  "",
  "  export interface SyncWriter \x7b",
  "    /**",
  "     * 将 \x60p\x60 中的 \x60p.byteLength\x60 字节写入底层数据流。它的返回值为从 \x60p\x60 写入的",
  "     * 字节数(\x600\x60 <= \x60n\x60 <= \x60p.byteLength\x60）或者导致写入提前停止的错误。",
  "     * \x60writeSync()\x60 会抛出一个非空错误当返回值 \x60n\x60 < \x60p.byteLength\x60。\x60writeSync()\x60",
  "     * 禁止修改分片数据，即使是临时修改。",
  "     *",
  "     * 实现不应保留对 \x60p\x60 的引用。",
  "     */",
  "    writeSync(p: Uint8Array): number;",
  "  \x7d",
  "",
  "  export interface Closer \x7b",
  "    close(): void;",
  "  \x7d",
  "",
  "  export interface Seeker \x7b",
  "    /** Seek sets the offset for the next \x60read()\x60 or \x60write()\x60 to offset,",
  "     * interpreted according to \x60whence\x60: \x60SEEK_START\x60 means relative to the",
  "     * start of the file, \x60SEEK_CURRENT\x60 means relative to the current offset,",
  "     * and \x60SEEK_END\x60 means relative to the end. Seek resolves to the new offset",
  "     * relative to the start of the file.",
  "     *",
  "     * Seeking to an offset before the start of the file is an error. Seeking to",
  "     * any positive offset is legal, but the behavior of subsequent I/O",
  "     * operations on the underlying object is implementation-dependent.",
  "     * It returns the number of cursor position.",
  "     */",
  "    seek(offset: number, whence: SeekMode): Promise<number>;",
  "  \x7d",
  "",
  "  export interface SyncSeeker \x7b",
  "    /** Seek sets the offset for the next \x60readSync()\x60 or \x60writeSync()\x60 to",
  "     * offset, interpreted according to \x60whence\x60: \x60SEEK_START\x60 means relative",
  "     * to the start of the file, \x60SEEK_CURRENT\x60 means relative to the current",
  "     * offset, and \x60SEEK_END\x60 means relative to the end.",
  "     *",
  "     * Seeking to an offset before the start of the file is an error. Seeking to",
  "     * any positive offset is legal, but the behavior of subsequent I/O",
  "     * operations on the underlying object is implementation-dependent.",
  "     */",
  "    seekSync(offset: number, whence: SeekMode): number;",
  "  \x7d",
  "",
  "  export interface ReadCloser extends Reader, Closer \x7b\x7d",
  "  export interface WriteCloser extends Writer, Closer \x7b\x7d",
  "  export interface ReadSeeker extends Reader, Seeker \x7b\x7d",
  "  export interface WriteSeeker extends Writer, Seeker \x7b\x7d",
  "  export interface ReadWriteCloser extends Reader, Writer, Closer \x7b\x7d",
  "  export interface ReadWriteSeeker extends Reader, Writer, Seeker \x7b\x7d",
  "",
  "  /** 从 \x60src\x60 拷贝文件至 \x60dst\x60，拷贝至 \x60src\x60 的 \x60EOF\x60 或有异常出现时结束。",
  "   * \x60copy()\x60 函数返回一个 \x60Promise\x60, 成功时 resolve 并返回拷贝的字节数，失败时 reject 并返回拷贝过程中的首个异常",
  "   *",
  "   *       const source = await Deno.open(\"my_file.txt\");",
  "   *       const buffer = new Deno.Buffer()",
  "   *       const bytesCopied1 = await Deno.copy(Deno.stdout, source);",
  "   *       const bytesCopied2 = await Deno.copy(buffer, source);",
  "   *",
  "   * 因为 \x60copy()\x60 函数在读到 \x60EOF\x60 时停止，所以不会将 \x60EOF\x60 视为异常（区别于 \x60read()\x60 函数）。",
  "   *",
  "   * @param dst 需要拷贝至的目标位置",
  "   * @param src 拷贝的源位置",
  "   */",
  "  export function copy(dst: Writer, src: Reader): Promise<number>;",
  "",
  "  /** 将 Reader 对象 (\x60r\x60) 转换为异步迭代器。",
  "   *",
  "   *      for await (const chunk of toAsyncIterator(reader)) \x7b",
  "   *        console.log(chunk);",
  "   *      \x7d",
  "   */",
  "  export function toAsyncIterator(r: Reader): AsyncIterableIterator<Uint8Array>;",
  "",
  "  /** 用同步方式打开一个文件并返回一个 \x60Deno.File\x60 实例。如果使用了 \x60create\x60 或 \x60createNew\x60配置项",
  "   * 文件可以不需要预先存在。调用者应该在完成后关闭文件。",
  "   *",
  "   *       const file = Deno.openSync(\"/foo/bar.txt\", \x7b read: true, write: true \x7d);",
  "   *       // Do work with file",
  "   *       Deno.close(file.rid);",
  "   *",
  "   * 根据不同的配置需要相应的 \x60allow-read\x60 及 \x60allow-write\x60 权限。",
  "   */",
  "  export function openSync(path: string, options?: OpenOptions): File;",
  "",
  "  /** 用同步方式打开一个文件并返回一个 \x60Deno.File\x60 实例。根据传入的模式，可以创建文件。",
  "   * 调用者应该在完成后关闭文件。",
  "   *",
  "   *       const file = Deno.openSync(\"/foo/bar.txt\", \"r\");",
  "   *       // Do work with file",
  "   *       Deno.close(file.rid);",
  "   *",
  "   * 根据不同的打开模式需要相应的 \x60allow-read\x60 及 \x60allow-write\x60 权限。",
  "   */",
  "  export function openSync(path: string, openMode?: OpenMode): File;",
  "",
  "  /** 打开一个文件并异步返回一个 \x60Deno.File\x60 实例。如果使用了 \x60create\x60 或 \x60createNew\x60配置项",
  "   * 文件可以不需要预先存在。调用者应该在完成后关闭文件。",
  "   *",
  "   *       const file = await Deno.open(\"/foo/bar.txt\", \x7b read: true, write: true \x7d);",
  "   *       // Do work with file",
  "   *       Deno.close(file.rid);",
  "   *",
  "   * 根据不同的配置需要相应的 \x60allow-read\x60 及 \x60allow-write\x60 权限。",
  "   */",
  "  export function open(path: string, options?: OpenOptions): Promise<File>;",
  "",
  "  /** 打开一个文件并异步返回一个 \x60Deno.File\x60 实例。根据传入的模式，可以创建文件。",
  "   * 调用者应该在完成后关闭文件。",
  "   *",
  "   *       const file = await Deno.open(\"/foo/bar.txt\", \"w+\");",
  "   *       // Do work with file",
  "   *       Deno.close(file.rid);",
  "   *",
  "   * 根据不同的打开模式需要相应的 \x60allow-read\x60 及 \x60allow-write\x60 权限。",
  "   */"
]

def publishedLinesC3 : List String := [
  "  export function open(path: string, openMode?: OpenMode): Promise<File>;",
  "",
  "  /** 创建文件并返回一个 \x60Deno.File\x60 实例，如果文件已存在则进行覆盖。",
  "   *",
  "   *       const file = Deno.createSync(\"/foo/bar.txt\");",
  "   *",
  "   * 需要 \x60allow-read\x60 和 \x60allow-write\x60 权限。",
  "   */",
  "  export function createSync(path: string): File;",
  "",
  "  /** 创建文件并异步返回一个 \x60Deno.File\x60 实例，如果文件已存在则进行覆盖。",
  "   *",
  "   *       const file = await Deno.create(\"/foo/bar.txt\");",
  "   *",
  "   * 需要 \x60allow-read\x60 和 \x60allow-write\x60 权限。",
  "   */",
  "  export function create(path: string): Promise<File>;",
  "",
  "  /** 同步地从资源ID (\x60rid\x60) 读取内容，并写入到数组缓冲区 (\x60buffer\x60)。",
  "   *",
  "   * 如果没有要读取的内容，返回值为操作期间读取的字节数，或者文件结尾（\x60Symbol（EOF）\x60）。",
  "   *",
  "   *      // 如果 \"/foo/bar.txt\" 文件里面有 \"hello world\":",
  "   *      const file = Deno.openSync(\"/foo/bar.txt\");",
  "   *      const buf = new Uint8Array(100);",
  "   *      const numberOfBytesRead = Deno.readSync(file.rid, buf); // 11 bytes",
  "   *      const text = new TextDecoder().decode(buf);  // \"hello world\"",
  "   *      Deno.close(file.rid);",
  "   */",
  "  export function readSync(rid: number, buffer: Uint8Array): number | EOF;",
  "",
  "  /** 从资源ID (\x60rid\x60) 读取内容，并写入到数组缓冲区 (\x60buffer\x60)。",
  "   *",
  "   * 如果没有要读取的内容，返回值为操作期间读取的字节数，或者文件结尾（\x60Symbol（EOF）\x60）。",
  "   *",
  "   *      // 如果 \"/foo/bar.txt\" 文件里面有 \"hello world\":",
  "   *      const file = await Deno.open(\"/foo/bar.txt\");",
  "   *      const buf = new Uint8Array(100);",
  "   *      const numberOfBytesRead = await Deno.read(file.rid, buf); // 11 bytes",
  "   *      const text = new TextDecoder().decode(buf);  // \"hello world\"",
  "   *      Deno.close(file.rid);",
  "   */",
  "  export function read(rid: number, buffer: Uint8Array): Promise<number | EOF>;",
  "",
  "  /** 同步地将数组缓冲区 (\x60data\x60) 的内容写入资源ID的所属文件 (\x60rid\x60) 。",
  "   *",
  "   * 返回写入的字节数。",
  "   *",
  "   *       const encoder = new TextEncoder();",
  "   *       const data = encoder.encode(\"Hello world\");",
  "   *       const file = Deno.openSync(\"/foo/bar.txt\");",
  "   *       const bytesWritten = Deno.writeSync(file.rid, data); // 11",
  "   *       Deno.close(file.rid);",
  "   */",
  "  export function writeSync(rid: number, data: Uint8Array): number;",
  "",
  "  /** 将数组缓冲区 (\x60data\x60) 的内容写入资源ID的所属文件 (\x60rid\x60) 。",
  "   *",
  "   * 解析为写入的字节数。",
  "   *",
  "   *      const encoder = new TextEncoder();",
  "   *      const data = encoder.encode(\"Hello world\");",
  "   *      const file = await Deno.open(\"/foo/bar.txt\");",
  "   *      const bytesWritten = await Deno.write(file.rid, data); // 11",
  "   *      Deno.close(file.rid);",
  "   */",
  "  export function write(rid: number, data: Uint8Array): Promise<number>;",
  "",
  "  /** Synchronously seek a resource ID (\x60rid\x60) to the given \x60offset\x60 under mode",
  "   * given by \x60whence\x60.  The new position within the resource (bytes from the",
  "   * start) is returned.",
  "   *",
  "   *        const file = Deno.openSync(\x27hello.txt\x27, \x7bread: true, write: true, truncate: true, create: true\x7d);",
  "   *        Deno.writeSync(file.rid, new TextEncoder().encode(\"Hello world\"));",
  "   *        //advance cursor 6 bytes",
  "   *        const cursorPosition = Deno.seekSync(file.rid, 6, Deno.SeekMode.SEEK_START);",
  "   *        console.log(cursorPosition);  // 6",
  "   *        const buf = new Uint8Array(100);",
  "   *        file.readSync(buf);",
  "   *        console.log(new TextDecoder().decode(buf)); // \"world\"",
  "   *",
  "   * The seek modes work as follows:",
  "   *",
  "   *        //Given file.rid pointing to file with \"Hello world\", which is 11 bytes long:",
  "   *        //Seek 6 bytes from the start of the file",
  "   *        console.log(Deno.seekSync(file.rid, 6, Deno.SeekMode.SEEK_START)); //\"6\"",
  "   *        //Seek 2 more bytes from the current position",
  "   *        console.log(Deno.seekSync(file.rid, 2, Deno.SeekMode.SEEK_CURRENT)); //\"8\"",
  "   *        //Seek backwards 2 bytes from the end of the file",
  "   *        console.log(Deno.seekSync(file.rid, -2, Deno.SeekMode.SEEK_END)); //\"9\" (e.g. 11-2)",
  "   */",
  "  export function seekSync(",
  "    rid: number,",
  "    offset: number,",
  "    whence: SeekMode",
  "  ): number;",
  "",
  "  /** Seek a resource ID (\x60rid\x60) to the given \x60offset\x60 under mode given by \x60whence\x60.",
  "   * The call resolves to the new position within the resource (bytes from the start).",
  "   *",
  "   *        const file = await Deno.open(\x27hello.txt\x27, \x7bread: true, write: true, truncate: true, create: true\x7d);",
  "   *        await Deno.write(file.rid, new TextEncoder().encode(\"Hello world\"));",
  "   *        //advance cursor 6 bytes",
  "   *        const cursorPosition = await Deno.seek(file.rid, 6, Deno.SeekMode.SEEK_START);",
  "   *        console.log(cursorPosition);  // 6",
  "   *        const buf = new Uint8Array(100);",
  "   *        await file.read(buf);",
  "   *        console.log(new TextDecoder().decode(buf)); // \"world\"",
  "   *",
  "   * The seek modes work as follows:",
  "   *",
  "   *        //Given file.rid pointing to file with \"Hello world\", which is 11 bytes long:",
  "   *        //Seek 6 bytes from the start of the file",
  "   *        console.log(await Deno.seek(file.rid, 6, Deno.SeekMode.SEEK_START)); //\"6\"",
  "   *        //Seek 2 more bytes from the current position",
  "   *        console.log(await Deno.seek(file.rid, 2, Deno.SeekMode.SEEK_CURRENT)); //\"8\"",
  "   *        //Seek backwards 2 bytes from the end of the file",
  "   *        console.log(await Deno.seek(file.rid, -2, Deno.SeekMode.SEEK_END)); //\"9\" (e.g. 11-2)",
  "   */",
  "  export function seek(",
  "    rid: number,",
  "    offset: number,",
  "    whence: SeekMode",
  "  ): Promise<number>;",
  "",
  "  /** 使用给定的资源 ID (rid) 来关闭先前创建或打开的文件。",
  "   * 为避免资源泄露，事关重大，文件应当用完即关。",
  "   *",
  "   *      const file = await Deno.open(\"my_file.txt\");",
  "   *      // 与 \"file\" 对象一起使用",
  "   *      Deno.close(file.rid);",
  "   */",
  "  export function close(rid: number): void;",
  "",
  "  /** 用于读取和写入文件的 Deno 抽象类。 */",
  "  export class File",
  "    implements",
  "      Reader,",
  "      SyncReader,",
  "      Writer,",
  "      SyncWriter,",
  "      Seeker,",
  "      SyncSeeker,",
  "      Closer \x7b",
  "    readonly rid: number;",
  "    constructor(rid: number);",
  "    write(p: Uint8Array): Promise<number>;",
  "    writeSync(p: Uint8Array): number;",
  "    read(p: Uint8Array): Promise<number | EOF>;",
  "    readSync(p: Uint8Array): number | EOF;",
  "    seek(offset: number, whence: SeekMode): Promise<number>;",
  "    seekSync(offset: number, whence: SeekMode): number;",
  "    close(): void;",
  "  \x7d",
  "",
  "  /** 用于 \x60stdin\x60 的 \x60Deno.File\x60 实例。 */",
  "  export const stdin: File;",
  "  /** 用于 \x60stdout\x60 的 \x60Deno.File\x60 实例。 */",
  "  export const stdout: File;",
  "  /** 用于 \x60stderr\x60 的 \x60Deno.File\x60 实例。 */",
  "  export const stderr: File;",
  "",
  "  export interface OpenOptions \x7b",
  "    /** 设置读取访问权限的选项。",
  "     * 当为 \x60true\x60 时，表示该文件在打开后即处于可读状态。 */",
  "    read?: boolean;",
  "    /** 设置写访问权限的选项。",
  "     * 当为 \x60true\x60 时，表示该文件在打开时即处于可写状态。",
  "     * 如果该文件已存在，则默认情况下，对该文件的任何写调用都将覆盖其内容，而不会截断该文件。 */",
  "    write?: boolean;",
  "    /** 设置追加模式的选项。",
  "     * 当为 \x60true\x60 时，表示写入将追加到文件中，而不是覆盖先前的内容。",
  "     * 请注意，设置 \x60\x7b write: true, append: true \x7d\x60 与仅设置 \x60\x7b append: true \x7d\x60 具有相同的效果。 */",
  "    append?: boolean;",
  "    /** 设置截断上一个文件的选项。",
  "     * 如果使用此选项后成功打开了文件，则文件的长度将被截断为 \x600\x60（如果已存在）。",
  "     * 该文件必须具有写访问权限才能打开，才能进行截断。 */",
  "    truncate?: boolean;",
  "    /** 设置选项以允许创建新文件（如果指定路径尚不存在）。",
  "     * 需要使用写权限或追加权限。*/",
  "    create?: boolean;",
  "    /** 默认为 \x60false\x60。",
  "     * 如果设置为 \x60true\x60，则在目标位置不允许存在文件、目录或符号链接。",
  "     * 需要使用写权限或追加权限。",
  "     * 当 createNew 设置为 \x60true\x60 时，create 和 truncate 被忽略。 */",
  "    createNew?: boolean;",
  "    /** 创建文件时使用的权限（在进程调用 \x60umask\x60 之前默认为 \x600o666\x60）。",
  "     * 在 Windows 上此选项被忽略。 */",
  "    mode?: number;",
  "  \x7d",
  "",
  "  /** 一组字符串文本，用于指定如何打开文件。",
  "   *",
  "   * |值    |描述                                                                                               |",
  "   * |------|--------------------------------------------------------------------------------------------------|",
  "   * |\x60\"r\"\x60 |只读。默认值。从文件开头开始。                                                                         |",
  "   * |\x60\"r+\"\x60|可读写。从文件开头开始。                                                                              |",
  "   * |\x60\"w\"\x60 |仅写入。打开并截取现有文件或者创建一个仅写入权限的新文件。                                                  |",
  "   * |\x60\"w+\"\x60|可读写。打开并截取现有文件或者创建一个可读写权限的新文件。                                                  |",
  "   * |\x60\"a\"\x60 |仅写入。打开现有文件或者创建新文件。每次写入都会将内容追加到文件末尾。                                        |",
  "   * |\x60\"a+\"\x60|可读写。行为类似于 \x60\"a\"\x60 并且允许从文件中读取。                                                          |",
  "   * |\x60\"x\"\x60 |仅写入。专属创建 - 仅在文件不存在时创建新文件。                                                           |",
  "   * |\x60\"x+\"\x60|可读写。行为类似于 \x60\"x\"\x60 并且允许从文件中读取。                                                         |",
  "   */"
]

def publishedLinesC4 : List String := [
  "  export type OpenMode = \"r\" | \"r+\" | \"w\" | \"w+\" | \"a\" | \"a+\" | \"x\" | \"x+\";",
  "",
  "  /** **不稳定**: 新 API，没有经过审查。",
  "   *",
  "   *  检查指定的资源 id (\x60rid\x60) 是否为 TTY（终端）。",
  "   *",
  "   *       // 这个例子依赖于特定的操作系统和环境",
  "   *       const nonTTYRid = Deno.openSync(\"my_file.txt\").rid;",
  "   *       const ttyRid = Deno.openSync(\"/dev/tty6\").rid;",
  "   *       console.log(Deno.isatty(nonTTYRid)); // false",
  "   *       console.log(Deno.isatty(ttyRid)); // true",
  "   *       Deno.close(nonTTYRid);",
  "   *       Deno.close(ttyRid);",
  "   */",
  "  export function isatty(rid: number): boolean;",
  "",
  "  /** **不稳定**: 新 API，没有经过审查。",
  "   *",
  "   * 设置终端是否为 raw 模式。",
  "   * 在 raw 模式下，无需处理即可直接读取和返回字符。",
  "   * 终端将禁止所有特殊的字符处理，包括回显输入字符。",
  "   * 在 raw 模式下从终端设备读取的速度比在标准模式下更快。",
  "   *",
  "   *       Deno.setRaw(myTTY.rid, true);",
  "   */",
  "  export function setRaw(rid: number, mode: boolean): void;",
  "",
  "  /** 一个具有 \x60read()\x60 和 \x60write()\x60 方法大小可变的字节缓冲区。",
  "   *",
  "   * 基于 [Go Buffer](https://golang.org/pkg/bytes/#Buffer)。 */",
  "  export class Buffer implements Reader, SyncReader, Writer, SyncWriter \x7b",
  "    constructor(ab?: ArrayBuffer);",
  "    /** 返回一个缓冲区未读部分的片段。",
  "     *",
  "     * 该片段只在下一次缓冲区修改之前有效 (即, 只有在下一次调用像 \x60read()\x60, \x60write()\x60,",
  "     * \x60reset()\x60, 或者 \x60truncate()\x60 这样的方法)。",
  "     * 该片段会在下一次修改缓冲区内容之前将缓冲区内容进行别名处理 ,  所以立刻改变片段会影响未来读取的结果。 */",
  "    bytes(): Uint8Array;",
  "    /** 将缓冲区中未读部分的内容以 \x60string\x60 的形式返回。",
  "     *",
  "     * **警告**: 当数据流经缓冲区时存在多个字节, 这种方法可能会因为字符被拆分而导致字符串的结果错误。 */",
  "    toString(): string;",
  "    /** 返回缓冲区的未读部分是否为空。 */",
  "    empty(): boolean;",
  "    /** 只读缓冲区未读部分的字节数。 */",
  "    readonly length: number;",
  "    /** 缓冲区底层字节片段的只读容量，即为缓冲区数据分配的总空间。 */",
  "    readonly capacity: number;",
  "    /** 除了缓冲器中开头 \x60n\x60 个未读字节之外，其他的所有字节都丢弃，但是继续使用相同分配的存储空间。",
  "     * 当 \x60n\x60 为负数或者大于缓冲区的长度, 则会抛出异常。 */",
  "    truncate(n: number): void;",
  "    /** 将缓冲区重置为空，但它保留了底层存储供未来写入时使用，\x60.reset()\x60 与 \x60.truncate(0)\x60 相同。 */",
  "    reset(): void;",
  "    /** 在缓冲区中读取下一个 \x60p.length\x60 字节，或直到缓冲区用完为止。",
  "     * 返回只读的字节数。当缓冲区没有数据返回，则返回值为 \x60Deno.EOF\x60。 */",
  "    readSync(p: Uint8Array): number | EOF;",
  "    /** 在缓冲区中读取下一个 \x60p.length\x60 字节，或直到缓冲区用完为止。",
  "     * 解析读取的字节数。当缓冲区没有数据返回，则解析为 \x60Deno.EOF\x60。 */",
  "    read(p: Uint8Array): Promise<number | EOF>;",
  "    writeSync(p: Uint8Array): number;",
  "    write(p: Uint8Array): Promise<number>;",
  "    /** 增加缓冲区的容量，必要时保证另一个 \x60n\x60 字节的空间。",
  "     * 在 \x60.grow(n)\x60 之后，至少可以将 \x60n\x60 个字节写到缓冲区中而不需要另外分配。",
  "     * 若 \x60n\x60 为负数，\x60.grow()\x60 将抛出异常。",
  "     * 当缓冲区不能增加的时候会抛出错误。",
  "     * 基于 Go Lang 的",
  "     * [Buffer.Grow](https://golang.org/pkg/bytes/#Buffer.Grow). */",
  "    grow(n: number): void;",
  "    /** 从 \x60r\x60 读取数据直到 \x60Deno.EOF\x60，并将其附加到缓冲区，根据需要扩展缓冲区。",
  "     * 解析读取的字节数。 如果缓冲区过大，\x60.readFrom()\x60 将会 reject 一个错误。",
  "     * 基于 Go Lang 的",
  "     * [Buffer.ReadFrom](https://golang.org/pkg/bytes/#Buffer.ReadFrom). */",
  "    readFrom(r: Reader): Promise<number>;",
  "    /** 从 \x60r\x60 读取数据直到 \x60Deno.EOF\x60，并将其附加到缓冲区，根据需要扩展缓冲区。",
  "     * 返回读取的字节数，如果缓冲区过大，\x60.readFromSync()\x60 将会抛出错误。",
  "     * 基于 Go Lang 的",
  "     * [Buffer.ReadFrom](https://golang.org/pkg/bytes/#Buffer.ReadFrom). */",
  "    readFromSync(r: SyncReader): number;",
  "  \x7d",
  "",
  "  /** 读取 Reader \x60r\x60 直到文件的末尾 (\x60Deno.EOF\x60)，返回文件的内容，以 \x60Uint8Array\x60 表示。",
  "   *",
  "   *       // Example：从 stdin 读取",
  "   *       const stdinContent = await Deno.readAll(Deno.stdin);",
  "   *",
  "   *       // Example：从文件读取",
  "   *       const file = await Deno.open(\"my_file.txt\", \x7bread: true\x7d);",
  "   *       const myFileContent = await Deno.readAll(file);",
  "   *       Deno.close(file.rid);",
  "   *",
  "   *       // Example：从 buffer 读取",
  "   *       const myData = new Uint8Array(100);",
  "   *       // ... 此处省略了填充 myData 数组的代码",
  "   *       const reader = new Deno.Buffer(myData.buffer as ArrayBuffer);",
  "   *       const bufferContent = await Deno.readAll(reader);",
  "   */",
  "  export function readAll(r: Reader): Promise<Uint8Array>;",
  "",
  "  /** 同步地读取 Reader \x60r\x60 直到文件的末尾 (\x60Deno.EOF\x60)，返回文件的内容，以 \x60Uint8Array\x60 表示。",
  "   *",
  "   *       // Example：从 stdin 读取",
  "   *       const stdinContent = Deno.readAllSync(Deno.stdin);",
  "   *",
  "   *       // Example：从文件读取",
  "   *       const file = Deno.openSync(\"my_file.txt\", \x7bread: true\x7d);",
  "   *       const myFileContent = Deno.readAllSync(file);",
  "   *       Deno.close(file.rid);",
  "   *",
  "   *       // Example：从 buffer 读取",
  "   *       const myData = new Uint8Array(100);",
  "   *       // ... 此处省略了填充 myData 数组的代码",
  "   *       const reader = new Deno.Buffer(myData.buffer as ArrayBuffer);",
  "   *       const bufferContent = Deno.readAllSync(reader);",
  "   */",
  "  export function readAllSync(r: SyncReader): Uint8Array;",
  "",
  "  /** Write all the content of the array buffer (\x60arr\x60) to the writer (\x60w\x60).",
  "   *",
  "   *       //Example writing to stdout",
  "   *       const contentBytes = new TextEncoder().encode(\"Hello World\");",
  "   *       await Deno.writeAll(Deno.stdout, contentBytes);",
  "   *",
  "   *       //Example writing to file",
  "   *       const contentBytes = new TextEncoder().encode(\"Hello World\");",
  "   *       const file = await Deno.open(\x27test.file\x27, \x7bwrite: true\x7d);",
  "   *       await Deno.writeAll(file, contentBytes);",
  "   *       Deno.close(file.rid);",
  "   *",
  "   *       //Example writing to buffer",
  "   *       const contentBytes = new TextEncoder().encode(\"Hello World\");",
  "   *       const writer = new Deno.Buffer();",
  "   *       await Deno.writeAll(writer, contentBytes);",
  "   *       console.log(writer.bytes().length);  // 11",
  "   */",
  "  export function writeAll(w: Writer, arr: Uint8Array): Promise<void>;",
  "",
  "  /** Synchronously write all the content of the array buffer (\x60arr\x60) to the",
  "   * writer (\x60w\x60).",
  "   *",
  "   *       //Example writing to stdout",
  "   *       const contentBytes = new TextEncoder().encode(\"Hello World\");",
  "   *       Deno.writeAllSync(Deno.stdout, contentBytes);",
  "   *",
  "   *       //Example writing to file",
  "   *       const contentBytes = new TextEncoder().encode(\"Hello World\");",
  "   *       const file = Deno.openSync(\x27test.file\x27, \x7bwrite: true\x7d);",
  "   *       Deno.writeAllSync(file, contentBytes);",
  "   *       Deno.close(file.rid);",
  "   *",
  "   *       //Example writing to buffer",
  "   *       const contentBytes = new TextEncoder().encode(\"Hello World\");",
  "   *       const writer = new Deno.Buffer();",
  "   *       Deno.writeAllSync(writer, contentBytes);",
  "   *       console.log(writer.bytes().length);  // 11",
  "   */",
  "  export function writeAllSync(w: SyncWriter, arr: Uint8Array): void;",
  "",
  "  export interface MkdirOptions \x7b",
  "    /** 默认为 \x60false\x60。",
  "     * 如果设置为 \x60true\x60，则意味着还将创建所有中间目录（如 shell 命令 \x60mkdir -p\x60 那样）。",
  "     * 使用相同的权限创建中间目录。",
  "     * 当设置为 \x60true\x60 时，如果路径中已经存在目录，或者该路径是到现有目录的符号链接，则会静默地操作成功（不更改任何权限）。*/",
  "    recursive?: boolean;",
  "    /** 创建目录时使用的权限（在调用 \x60umask\x60 之前，默认值为 \x600o777\x60）。在 Windows 上被忽略。*/",
  "    mode?: number;",
  "  \x7d",
  "",
  "  /** 同步地在指定路径下创建一个新的目录。",
  "   *",
  "   *       Deno.mkdirSync(\"new_dir\");",
  "   *       Deno.mkdirSync(\"nested/directories\", \x7b recursive: true \x7d);",
  "   *       Deno.mkdirSync(\"restricted_access_dir\", \x7b mode: 0o700 \x7d);",
  "   *",
  "   * 目录存在的情况下，默认抛出错误。",
  "   *",
  "   * 需要 \x60allow-write\x60 权限。 */",
  "  export function mkdirSync(path: string, options?: MkdirOptions): void;",
  "",
  "  /** 在指定路径下创建一个新的目录。",
  "   *",
  "   *       await Deno.mkdir(\"new_dir\");",
  "   *       await Deno.mkdir(\"nested/directories\", \x7b recursive: true \x7d);",
  "   *       await Deno.mkdir(\"restricted_access_dir\", \x7b mode: 0o700 \x7d);",
  "   *",
  "   * 目录存在的情况下，默认抛出错误。",
  "   *",
  "   * 需要 \x60allow-write\x60 权限。 */",
  "  export function mkdir(path: string, options?: MkdirOptions): Promise<void>;",
  "",
  "  export interface MakeTempOptions \x7b",
  "    /** 指定在哪里创建临时文件夹（默认为环境变量 TMPDIR 或者是系统默认目录，ps：通常是 /tmp）。 */",
  "    dir?: string;",
  "    /** 临时文件夹名前缀 */",
  "    prefix?: string;",
  "    /** 临时文件夹名后缀 */",
  "    suffix?: string;",
  "  \x7d",
  "",
  "  /** Synchronously creates a new temporary directory in the default directory",
  "   * for temporary files (see also \x60Deno.dir(\"temp\")\x60), unless \x60dir\x60 is specified.",
  "   * Other optional options include prefixing and suffixing the directory name",
  "   * with \x60prefix\x60 and \x60suffix\x60 respectively.",
  "   *",
  "   * The full path to the newly created directory is returned.",
  "   *",
  "   * Multiple programs calling this function simultaneously will create different",
  "   * directories. It is the caller\x27s responsibility to remove the directory when",
  "   * no longer needed.",
  "   *",
  "   *       const tempDirName0 = Deno.makeTempDirSync();  // e.g. /tmp/2894ea76",
  "   *       const tempDirName1 = Deno.makeTempDirSync(\x7b prefix: \x27my_temp\x27 \x7d);  // e.g. /tmp/my_temp339c944d",
  "   *",
  "   * Requires \x60allow-write\x60 permission. */"
]

def publishedLinesC5 : List String := [
  "  // TODO(ry) Doesn\x27t check permissions.",
  "  export function makeTempDirSync(options?: MakeTempOptions): string;",
  "",
  "  /** Creates a new temporary directory in the default directory for temporary",
  "   * files (see also \x60Deno.dir(\"temp\")\x60), unless \x60dir\x60 is specified.  Other",
  "   * optional options include prefixing and suffixing the directory name with",
  "   * \x60prefix\x60 and \x60suffix\x60 respectively.",
  "   *",
  "   * This call resolves to the full path to the newly created directory.",
  "   *",
  "   * Multiple programs calling this function simultaneously will create different",
  "   * directories. It is the caller\x27s responsibility to remove the directory when",
  "   * no longer needed.",
  "   *",
  "   *       const tempDirName0 = await Deno.makeTempDir();  // e.g. /tmp/2894ea76",
  "   *       const tempDirName1 = await Deno.makeTempDir(\x7b prefix: \x27my_temp\x27 \x7d); // e.g. /tmp/my_temp339c944d",
  "   *",
  "   * Requires \x60allow-write\x60 permission. */",
  "  // TODO(ry) Doesn\x27t check permissions.",
  "  export function makeTempDir(options?: MakeTempOptions): Promise<string>;",
  "",
  "  /** 以同步的方式在默认文件夹（另见 \x60Deno.dir(\"temp\")\x60）中创建一个临时文件,",
  "   * 如果指定了 \x60dir\x60 ， 则在指定的 \x60dir\x60 中创建。",
  "   * 如果没有指定 \x60dir\x60 ，那么 \x60prefix\x60 和 \x60suffx\x60 将分别是文件名前缀和后缀。",
  "   *",
  "   * 返回新建文件的完整路径。",
  "   *",
  "   * 多个程序同时调用该函数将会创建不同的文件。当不再需要该临时文件时，调用者应该主动删除该文件。",
  "   *",
  "   *       const tempFileName0 = Deno.makeTempFileSync(); // e.g. /tmp/419e0bf2",
  "   *       const tempFileName1 = Deno.makeTempFileSync(\x7b prefix: \x27my_temp\x27 \x7d);  //e.g. /tmp/my_temp754d3098",
  "   *",
  "   * 需要 \x60allow-write\x60 权限. */",
  "  export function makeTempFileSync(options?: MakeTempOptions): string;",
  "",
  "  /** 在默认文件夹（另见 \x60Deno.dir(\"temp\")\x60）中创建一个临时文件,",
  "   * 如果指定了 \x60dir\x60 ， 则在指定的 \x60dir\x60 中创建。",
  "   * 如果没有指定 \x60dir\x60 ，那么 \x60prefix\x60 和 \x60suffx\x60 将分别是文件名前缀和后缀。",
  "   *",
  "   * 返回新建文件的完整路径。",
  "   *",
  "   * 多个程序同时调用该函数将会创建不同的文件。当不再需要该临时文件时，调用者应该主动删除该文件。",
  "   *",
  "   *       const tmpFileName0 = await Deno.makeTempFile();  // e.g. /tmp/419e0bf2",
  "   *       const tmpFileName1 = await Deno.makeTempFile(\x7b prefix: \x27my_temp\x27 \x7d);  //e.g. /tmp/my_temp754d3098",
  "   *",
  "   * 需要 \x60allow-write\x60 权限. */",
  "  export function makeTempFile(options?: MakeTempOptions): Promise<string>;",
  "",
  "  /** Synchronously changes the permission of a specific file/directory of",
  "   * specified path.  Ignores the process\x27s umask.",
  "   *",
  "   *       Deno.chmodSync(\"/path/to/file\", 0o666);",
  "   *",
  "   * For a full description, see [chmod](#chmod)",
  "   *",
  "   * NOTE: This API currently throws on Windows",
  "   *",
  "   * Requires \x60allow-write\x60 permission. */",
  "  export function chmodSync(path: string, mode: number): void;",
  "",
  "  /** Changes the permission of a specific file/directory of specified path.",
  "   * Ignores the process\x27s umask.",
  "   *",
  "   *       await Deno.chmod(\"/path/to/file\", 0o666);",
  "   *",
  "   * The mode is a sequence of 3 octal numbers.  The first/left-most number",
  "   * specifies the permissions for the owner.  The second number specifies the",
  "   * permissions for the group. The last/right-most number specifies the",
  "   * permissions for others.  For example, with a mode of 0o764, the owner (7) can",
  "   * read/write/execute, the group (6) can read/write and everyone else (4) can",
  "   * read only.",
  "   *",
  "   * | Number | Description |",
  "   * | ------ | ----------- |",
  "   * | 7      | read, write, and execute |",
  "   * | 6      | read and write |",
  "   * | 5      | read and execute |",
  "   * | 4      | read only |",
  "   * | 3      | write and execute |",
  "   * | 2      | write only |",
  "   * | 1      | execute only |",
  "   * | 0      | no permission |",
  "   *",
  "   * NOTE: This API currently throws on Windows",
  "   *",
  "   * Requires \x60allow-write\x60 permission. */",
  "  export function chmod(path: string, mode: number): Promise<void>;",
  "",
  "  /** Synchronously change owner of a regular file or directory. This functionality",
  "   * is not available on Windows.",
  "   *",
  "   *      Deno.chownSync(\"myFile.txt\", 1000, 1002);",
  "   *",
  "   * Requires \x60allow-write\x60 permission.",
  "   *",
  "   * Throws Error (not implemented) if executed on Windows",
  "   *",
  "   * @param path path to the file",
  "   * @param uid user id (UID) of the new owner",
  "   * @param gid group id (GID) of the new owner",
  "   */",
  "  export function chownSync(path: string, uid: number, gid: number): void;",
  "",
  "  /** Change owner of a regular file or directory. This functionality",
  "   * is not available on Windows.",
  "   *",
  "   *      await Deno.chown(\"myFile.txt\", 1000, 1002);",
  "   *",
  "   * Requires \x60allow-write\x60 permission.",
  "   *",
  "   * Throws Error (not implemented) if executed on Windows",
  "   *",
  "   * @param path path to the file",
  "   * @param uid user id (UID) of the new owner",
  "   * @param gid group id (GID) of the new owner",
  "   */",
  "  export function chown(path: string, uid: number, gid: number): Promise<void>;",
  "",
  "  /** **UNSTABLE**: needs investigation into high precision time.",
  "   *",
  "   * Synchronously changes the access (\x60atime\x60) and modification (\x60mtime\x60) times",
  "   * of a file system object referenced by \x60path\x60. Given times are either in",
  "   * seconds (UNIX epoch time) or as \x60Date\x60 objects.",
  "   *",
  "   *       Deno.utimeSync(\"myfile.txt\", 1556495550, new Date());",
  "   *",
  "   * Requires \x60allow-write\x60 permission. */",
  "  export function utimeSync(",
  "    path: string,",
  "    atime: number | Date,",
  "    mtime: number | Date",
  "  ): void;",
  "",
  "  /** **UNSTABLE**: needs investigation into high precision time.",
  "   *",
  "   * Changes the access (\x60atime\x60) and modification (\x60mtime\x60) times of a file",
  "   * system object referenced by \x60path\x60. Given times are either in seconds",
  "   * (UNIX epoch time) or as \x60Date\x60 objects.",
  "   *",
  "   *       await Deno.utime(\"myfile.txt\", 1556495550, new Date());",
  "   *",
  "   * Requires \x60allow-write\x60 permission. */",
  "  export function utime(",
  "    path: string,",
  "    atime: number | Date,",
  "    mtime: number | Date",
  "  ): Promise<void>;",
  "",
  "  export interface RemoveOptions \x7b",
  "    /** 默认为 \x60false\x60。如果设置为 \x60true\x60，则即使路径为非空目录也会被删除。 */",
  "    recursive?: boolean;",
  "  \x7d",
  "",
  "  /** 同步删除指定的文件或目录。",
  "   *",
  "   *       Deno.removeSync(\"/path/to/empty_dir/or/file\");",
  "   *       Deno.removeSync(\"/path/to/populated_dir/or/file\", \x7b recursive: true \x7d);",
  "   *",
  "   * 当权限被拒绝、路径找不到或者为非空目录且 \x60recursive\x60 未设置为 \x60true\x60，则抛出异常。",
  "   *",
  "   * 需要 \x60allow-write\x60 权限 */",
  "  export function removeSync(path: string, options?: RemoveOptions): void;",
  "",
  "  /** 删除指定的文件或目录。",
  "   *",
  "   *       await Deno.remove(\"/path/to/empty_dir/or/file\");",
  "   *       await Deno.remove(\"/path/to/populated_dir/or/file\", \x7b recursive: true \x7d);",
  "   *",
  "   * 当权限被拒绝、路径找不到或者为非空目录且 \x60recursive\x60 未设置为 \x60true\x60，则抛出异常。",
  "   *",
  "   * 需要 \x60allow-write\x60 权限 */",
  "  export function remove(path: string, options?: RemoveOptions): Promise<void>;",
  "",
  "  /** Synchronously renames (moves) \x60oldpath\x60 to \x60newpath\x60. Paths may be files or",
  "   * directories.  If \x60newpath\x60 already exists and is not a directory,",
  "   * \x60renameSync()\x60 replaces it. OS-specific restrictions may apply when",
  "   * \x60oldpath\x60 and \x60newpath\x60 are in different directories.",
  "   *",
  "   *       Deno.renameSync(\"old/path\", \"new/path\");",
  "   *",
  "   * On Unix, this operation does not follow symlinks at either path.",
  "   *",
  "   * It varies between platforms when the operation throws errors, and if so what",
  "   * they are. It\x27s always an error to rename anything to a non-empty directory.",
  "   *",
  "   * Requires \x60allow-read\x60 and \x60allow-write\x60 permissions. */",
  "  export function renameSync(oldpath: string, newpath: string): void;",
  "",
  "  /** Renames (moves) \x60oldpath\x60 to \x60newpath\x60.  Paths may be files or directories.",
  "   * If \x60newpath\x60 already exists and is not a directory, \x60rename()\x60 replaces it.",
  "   * OS-specific restrictions may apply when \x60oldpath\x60 and \x60newpath\x60 are in",
  "   * different directories.",
  "   *",
  "   *       await Deno.rename(\"old/path\", \"new/path\");",
  "   *",
  "   * On Unix, this operation does not follow symlinks at either path.",
  "   *",
  "   * It varies between platforms when the operation throws errors, and if so what",
  "   * they are. It\x27s always an error to rename anything to a non-empty directory.",
  "   *",
  "   * Requires \x60allow-read\x60 and \x60allow-write\x60 permission. */"
]

def publishedLinesC6 : List String := [
  "  export function rename(oldpath: string, newpath: string): Promise<void>;",
  "",
  "  /** 同步地读取并将文件的全部内容解析为字节数组。",
  "   * \x60TextDecoder\x60 可以在需要的情况下可以将字节转换成字符串。",
  "   * 读取目录返回一个空的数据数组。",
  "   *",
  "   *       const decoder = new TextDecoder(\"utf-8\");",
  "   *       const data = Deno.readFileSync(\"hello.txt\");",
  "   *       console.log(decoder.decode(data));",
  "   *",
  "   * 需要 \x60allow-read\x60 权限。 */",
  "  export function readFileSync(path: string): Uint8Array;",
  "",
  "  /** 读取并将文件的全部内容解析为字节数组。",
  "   * \x60TextDecoder\x60 可以在需要的情况下可以将字节转换成字符串。",
  "   * 读取目录返回一个空的数据数组。",
  "   *",
  "   *       const decoder = new TextDecoder(\"utf-8\");",
  "   *       const data = await Deno.readFile(\"hello.txt\");",
  "   *       console.log(decoder.decode(data));",
  "   *",
  "   * 需要 \x60allow-read\x60 权限。 */",
  "  export function readFile(path: string): Promise<Uint8Array>;",
  "",
  "  /** A FileInfo describes a file and is returned by \x60stat\x60, \x60lstat\x60,",
  "   * \x60statSync\x60, \x60lstatSync\x60. A list of FileInfo is returned by \x60readdir\x60,",
  "   * \x60readdirSync\x60. */",
  "  export interface FileInfo \x7b",
  "    /** The size of the file, in bytes. */",
  "    size: number;",
  "    /** The last modification time of the file. This corresponds to the \x60mtime\x60",
  "     * field from \x60stat\x60 on Linux/Mac OS and \x60ftLastWriteTime\x60 on Windows. This",
  "     * may not be available on all platforms. */",
  "    modified: number | null;",
  "    /** The last access time of the file. This corresponds to the \x60atime\x60",
  "     * field from \x60stat\x60 on Unix and \x60ftLastAccessTime\x60 on Windows. This may not",
  "     * be available on all platforms. */",
  "    accessed: number | null;",
  "    /** The last access time of the file. This corresponds to the \x60birthtime\x60",
  "     * field from \x60stat\x60 on Mac/BSD and \x60ftCreationTime\x60 on Windows. This may not",
  "     * be available on all platforms. */",
  "    created: number | null;",
  "    /** The file or directory name. */",
  "    name: string | null;",
  "    /** ID of the device containing the file.",
  "     *",
  "     * _Linux/Mac OS only._ */",
  "    dev: number | null;",
  "    /** Inode number.",
  "     *",
  "     * _Linux/Mac OS only._ */",
  "    ino: number | null;",
  "    /** **UNSTABLE**: Match behavior with Go on Windows for \x60mode\x60.",
  "     *",
  "     * The underlying raw \x60st_mode\x60 bits that contain the standard Unix",
  "     * permissions for this file/directory. */",
  "    mode: number | null;",
  "    /** Number of hard links pointing to this file.",
  "     *",
  "     * _Linux/Mac OS only._ */",
  "    nlink: number | null;",
  "    /** User ID of the owner of this file.",
  "     *",
  "     * _Linux/Mac OS only._ */",
  "    uid: number | null;",
  "    /** User ID of the owner of this file.",
  "     *",
  "     * _Linux/Mac OS only._ */",
  "    gid: number | null;",
  "    /** Device ID of this file.",
  "     *",
  "     * _Linux/Mac OS only._ */",
  "    rdev: number | null;",
  "    /** Blocksize for filesystem I/O.",
  "     *",
  "     * _Linux/Mac OS only._ */",
  "    blksize: number | null;",
  "    /** Number of blocks allocated to the file, in 512-byte units.",
  "     *",
  "     * _Linux/Mac OS only._ */",
  "    blocks: number | null;",
  "    /** Returns whether this is info for a regular file. This result is mutually",
  "     * exclusive to \x60FileInfo.isDirectory\x60 and \x60FileInfo.isSymlink\x60. */",
  "    isFile(): boolean;",
  "    /** Returns whether this is info for a regular directory. This result is",
  "     * mutually exclusive to \x60FileInfo.isFile\x60 and \x60FileInfo.isSymlink\x60. */",
  "    isDirectory(): boolean;",
  "    /** Returns whether this is info for a symlink. This result is",
  "     * mutually exclusive to \x60FileInfo.isFile\x60 and \x60FileInfo.isDirectory\x60. */",
  "    isSymlink(): boolean;",
  "  \x7d",
  "",
  "  /** 返回被解析后的符号链接绝对路径。",
  "   *",
  "   *       // 例如: 给定文件 /home/alice/file.txt 和当前目录 /home/alice",
  "   *       Deno.symlinkSync(\"file.txt\", \"symlink_file.txt\");",
  "   *       const realPath = Deno.realpathSync(\"./file.txt\");",
  "   *       const realSymLinkPath = Deno.realpathSync(\"./symlink_file.txt\");",
  "   *       console.log(realPath);  //输出 \"/home/alice/file.txt\"",
  "   *       console.log(realSymLinkPath);  //输出 \"/home/alice/file.txt\"",
  "   *",
  "   * 需要 \x60allow-read\x60 权限 */",
  "  export function realpathSync(path: string): string;",
  "",
  "  /** 返回被解析后的符号链接绝对路径。",
  "   *",
  "   *       // 例如: 给定文件 /home/alice/file.txt 和当前目录 /home/alice",
  "   *       await Deno.symlink(\"file.txt\", \"symlink_file.txt\");",
  "   *       const realPath = await Deno.realpath(\"./file.txt\");",
  "   *       const realSymLinkPath = await Deno.realpath(\"./symlink_file.txt\");",
  "   *       console.log(realPath);  // outputs \"/home/alice/file.txt\"",
  "   *       console.log(realSymLinkPath);  //outputs \"/home/alice/file.txt\"",
  "   *",
  "   * 需要 \x60allow-read\x60 权限 */",
  "  export function realpath(path: string): Promise<string>;",
  "",
  "  /** 不稳定：此 API 可能会更改为返回一个可迭代对象",
  "   *",
  "   * 同步读取 \x60path\x60 文件目录，并返回 \x60Deno.FileInfo\x60 数组。",
  "   *",
  "   *       const files = Deno.readdirSync(\"/\");",
  "   *",
  "   * 如果 \x60path\x60 不是目录则抛出错误。",
  "   *",
  "   * 需要 \x60allow-read\x60 权限 */",
  "  export function readdirSync(path: string): FileInfo[];",
  "",
  "  /** 不稳定：此 API 返回值可能更改为 \x60AsyncIterable\x60。",
  "   *",
  "   * 读取 \x60path\x60 文件目录，并返回 \x60Deno.FileInfo\x60 数组。",
  "   *",
  "   *       const files = await Deno.readdir(\"/\");",
  "   *",
  "   * 如果 \x60path\x60 不是目录则抛出错误。",
  "   *",
  "   * 需要 \x60allow-read\x60 权限 */",
  "  export function readdir(path: string): Promise<FileInfo[]>;",
  "",
  "  /** 采用同步方式将一个文件的内容和权限复制到另一个指定的路径，默认情况下根据需要",
  "   * 创建新文件或者覆盖原文件。 如果目标路径是目录或不可写，则失败。",
  "   *",
  "   *       Deno.copyFileSync(\"from.txt\", \"to.txt\");",
  "   *",
  "   * Requires \x60allow-read\x60 permission on fromPath.",
  "   * Requires \x60allow-write\x60 permission on toPath. */",
  "  export function copyFileSync(fromPath: string, toPath: string): void;",
  "",
  "  /** 将一个文件的内容和权限复制到另一个指定的路径，默认情况下根据需要",
  "   * 创建新文件或者覆盖原文件。 如果目标路径是目录或不可写，则失败。",
  "   *",
  "   *       await Deno.copyFile(\"from.txt\", \"to.txt\");",
  "   *",
  "   * \x60fromPath\x60 需要 \x60allow-read\x60 权限。",
  "   * \x60toPath\x60 需要 \x60allow-write\x60 权限。 */",
  "  export function copyFile(fromPath: string, toPath: string): Promise<void>;",
  "",
  "  /** 同步方式解析并返回符号链接对目标文件的绝对路径。",
  "   *",
  "   *       Deno.symlinkSync(\"./test.txt\", \"./test_link.txt\");",
  "   *       const target = Deno.readlinkSync(\"./test_link.txt\"); // ./test.txt 的绝对路径",
  "   *",
  "   * 如果使用硬链接调用，则会抛出 \x60TypeError\x60。",
  "   *",
  "   * 需要 \x60allow-read\x60 权限 */",
  "  export function readlinkSync(path: string): string;",
  "",
  "  /** 解析并返回符号链接对目标文件的绝对路径。",
  "   *",
  "   *       await Deno.symlink(\"./test.txt\", \"./test_link.txt\");",
  "   *       const target = await Deno.readlink(\"./test_link.txt\"); // ./test.txt 的绝对路径",
  "   *",
  "   * 如果使用硬链接调用，则会抛出 \x60TypeError\x60。",
  "   *",
  "   * 需要 \x60allow-read\x60 权限 */",
  "  export function readlink(path: string): Promise<string>;",
  "",
  "  /** 解析给定的 \x60path\x60，并返回 \x60Deno.FileInfo\x60。如果 \x60path\x60 是一个",
  "   * 符号链接，则将返回符号链接的信息，而不是该符号链接引用的文件信息。",
  "   *",
  "   *       const fileInfo = await Deno.lstat(\"hello.txt\");",
  "   *       assert(fileInfo.isFile());",
  "   *",
  "   * 需要 \x60allow-read\x60 权限 */",
  "  export function lstat(path: string): Promise<FileInfo>;",
  "",
  "  /** 同步方式解析给定的 \x60path\x60，并返回 \x60Deno.FileInfo\x60。如果 \x60path\x60 是一个",
  "   * 符号链接，则将返回符号链接的信息，而不是该符号链接引用的文件信息。",
  "   *",
  "   *       const fileInfo = Deno.lstatSync(\"hello.txt\");",
  "   *       assert(fileInfo.isFile());",
  "   *",
  "   * 需要 \x60allow-read\x60 权限 */",
  "  export function lstatSync(path: string): FileInfo;",
  "",
  "  /** 解析给定 \x60path\x60，返回 \x60Deno.FileInfo\x60。如果 \x60path\x60 为符号链接，则返回符号链接指向的文件。",
  "   *",
  "   *       const fileInfo = await Deno.stat(\"hello.txt\");",
  "   *       assert(fileInfo.isFile());",
  "   *",
  "   * 需要 \x60allow-read\x60 权限 */"
]

def publishedLinesC7 : List String := [
  "  export function stat(path: string): Promise<FileInfo>;",
  "",
  "  /** 同步方式解析给定 \x60path\x60，返回 \x60Deno.FileInfo\x60。",
  "   * 如果 \x60path\x60 为符号链接，则返回符号链接指向的文件。",
  "   *",
  "   *       const fileInfo = Deno.statSync(\"hello.txt\");",
  "   *       assert(fileInfo.isFile());",
  "   *",
  "   * 需要 \x60allow-read\x60 权限 */",
  "  export function statSync(path: string): FileInfo;",
  "",
  "  /** 同步方式创建 \x60newpath\x60 作为 \x60oldpath\x60 的硬链接。",
  "   *",
  "   *       Deno.linkSync(\"old/name\", \"new/name\");",
  "   *",
  "   * 需要 \x60allow-read\x60 和 \x60allow-write\x60 权限 */",
  "  export function linkSync(oldpath: string, newpath: string): void;",
  "",
  "  /** 创建 \x60newpath\x60 作为 \x60oldpath\x60 的硬链接。",
  "   *",
  "   *       await Deno.link(\"old/name\", \"new/name\");",
  "   *",
  "   * 需要 \x60allow-read\x60 和 \x60allow-write\x60 权限 */",
  "  export function link(oldpath: string, newpath: string): Promise<void>;",
  "",
  "  /** **不稳定**：\x60type\x60 参数可能更改为 \x60\"dir\" | \"file\"\x60 的联合类型。",
  "   *",
  "   * 同步方式创建 \x60newpath\x60 作为指向 \x60oldpath\x60 的符号链接。",
  "   *",
  "   * \x60type\x60 参数可以设置为 \x60dir\x60 或 \x60file\x60。此参数仅在 Windows 上可用，其他平台会被忽略。",
  "   *",
  "   * 注意：此函数尚未在 Windows 上实现。",
  "   *",
  "   *       Deno.symlinkSync(\"old/name\", \"new/name\");",
  "   *",
  "   * 需要 \x60allow-read\x60 和 \x60allow-write\x60 权限 */",
  "  export function symlinkSync(",
  "    oldpath: string,",
  "    newpath: string,",
  "    type?: string",
  "  ): void;",
  "",
  "  /** **不稳定**：\x60type\x60 参数可能更改为 \x60\"dir\" | \"file\"\x60 的联合类型。",
  "   *",
  "   * 创建 \x60newpath\x60 作为指向 \x60oldpath\x60 的符号链接。",
  "   *",
  "   * \x60type\x60 参数可以设置为 \x60dir\x60 或 \x60file\x60。此参数仅在 Windows 上可用，其他平台会被忽略。",
  "   *",
  "   * 注意：此函数尚未在 Windows 上实现。",
  "   *",
  "   *       await Deno.symlink(\"old/name\", \"new/name\");",
  "   *",
  "   * 需要 \x60allow-read\x60 和 \x60allow-write\x60 权限 */",
  "  export function symlink(",
  "    oldpath: string,",
  "    newpath: string,",
  "    type?: string",
  "  ): Promise<void>;",
  "",
  "  /** \x60Deno.writeFileSync\x60 和 \x60Deno.writeFile\x60 的选项。*/",
  "  export interface WriteFileOptions \x7b",
  "    /** 默认为 \x60false\x60。如果设置为 \x60true\x60，",
  "     * 则将追加到文件中，而不是覆盖之前的内容。 */",
  "    append?: boolean;",
  "    /** 默认为 \x60true\x60。如果指定路径不存在",
  "     * 文件，是否允许创建新文件的选项。*/",
  "    create?: boolean;",
  "    /** 文件的权限。*/",
  "    mode?: number;",
  "  \x7d",
  "",
  "  /** 同步方式将 \x60data\x60 写入给定的 \x60path\x60，并且根据需要创建新文件或者覆盖原文件。",
  "   *",
  "   *       const encoder = new TextEncoder();",
  "   *       const data = encoder.encode(\"Hello world\\n\");",
  "   *       Deno.writeFileSync(\"hello1.txt\", data);  // 覆盖或者创建 \"hello1.txt\"",
  "   *       Deno.writeFileSync(\"hello2.txt\", data, \x7bcreate: false\x7d);  // 仅当 \"hello2.txt\" 存在的情况下才有效",
  "   *       Deno.writeFileSync(\"hello3.txt\", data, \x7bmode: 0o777\x7d);  // 设置新文件的权限",
  "   *       Deno.writeFileSync(\"hello4.txt\", data, \x7bappend: true\x7d);  // 在文件末尾添加数据",
  "   *",
  "   * 需要 \x60allow-write\x60 权限。如果 \x60options.create\x60 为 \x60false\x60 且需要 \x60allow-read\x60 权限。",
  "   */",
  "  export function writeFileSync(",
  "    path: string,",
  "    data: Uint8Array,",
  "    options?: WriteFileOptions",
  "  ): void;",
  "",
  "  /** 将 \x60data\x60 写入给定的 \x60path\x60，并且根据需要创建新文件或者覆盖原文件。",
  "   *",
  "   *       const encoder = new TextEncoder();",
  "   *       const data = encoder.encode(\"Hello world\\n\");",
  "   *       await Deno.writeFile(\"hello1.txt\", data);  // 覆盖或者创建 \"hello1.txt\"",
  "   *       await Deno.writeFile(\"hello2.txt\", data, \x7bcreate: false\x7d);  // 仅当 \"hello2.txt\" 存在的情况下才有效",
  "   *       await Deno.writeFile(\"hello3.txt\", data, \x7bmode: 0o777\x7d);  // 设置新文件的权限",
  "   *       await Deno.writeFile(\"hello4.txt\", data, \x7bappend: true\x7d);  // 在文件末尾添加数据",
  "   *",
  "   * 需要 \x60allow-write\x60 权限。如果 \x60options.create\x60 为 \x60false\x60 且需要 \x60allow-read\x60 权限。",
  "   */",
  "  export function writeFile(",
  "    path: string,",
  "    data: Uint8Array,",
  "    options?: WriteFileOptions",
  "  ): Promise<void>;",
  "",
  "  /** **UNSTABLE**: Should not have same name as \x60window.location\x60 type. */",
  "  interface Location \x7b",
  "    /** The full url for the module, e.g. \x60file://some/file.ts\x60 or",
  "     * \x60https://some/file.ts\x60. */",
  "    filename: string;",
  "    /** The line number in the file. It is assumed to be 1-indexed. */",
  "    line: number;",
  "    /** The column number in the file. It is assumed to be 1-indexed. */",
  "    column: number;",
  "  \x7d",
  "",
  "  /** UNSTABLE: new API, yet to be vetted.",
  "   *",
  "   * Given a current location in a module, lookup the source location and return",
  "   * it.",
  "   *",
  "   * When Deno transpiles code, it keep source maps of the transpiled code. This",
  "   * function can be used to lookup the original location. This is",
  "   * automatically done when accessing the \x60.stack\x60 of an error, or when an",
  "   * uncaught error is logged. This function can be used to perform the lookup",
  "   * for creating better error handling.",
  "   *",
  "   * **Note:** \x60line\x60 and \x60column\x60 are 1 indexed, which matches display",
  "   * expectations, but is not typical of most index numbers in Deno.",
  "   *",
  "   * An example:",
  "   *",
  "   *       const orig = Deno.applySourceMap(\x7b",
  "   *         location: \"file://my/module.ts\",",
  "   *         line: 5,",
  "   *         column: 15",
  "   *       \x7d);",
  "   *       console.log(\x60$\x7borig.filename\x7d:$\x7borig.line\x7d:$\x7borig.column\x7d\x60);",
  "   */",
  "  export function applySourceMap(location: Location): Location;",
  "",
  "  /** A set of error constructors that are raised by Deno APIs. */",
  "  export const errors: \x7b",
  "    NotFound: ErrorConstructor;",
  "    PermissionDenied: ErrorConstructor;",
  "    ConnectionRefused: ErrorConstructor;",
  "    ConnectionReset: ErrorConstructor;",
  "    ConnectionAborted: ErrorConstructor;",
  "    NotConnected: ErrorConstructor;",
  "    AddrInUse: ErrorConstructor;",
  "    AddrNotAvailable: ErrorConstructor;",
  "    BrokenPipe: ErrorConstructor;",
  "    AlreadyExists: ErrorConstructor;",
  "    InvalidData: ErrorConstructor;",
  "    TimedOut: ErrorConstructor;",
  "    Interrupted: ErrorConstructor;",
  "    WriteZero: ErrorConstructor;",
  "    UnexpectedEof: ErrorConstructor;",
  "    BadResource: ErrorConstructor;",
  "    Http: ErrorConstructor;",
  "  \x7d;",
  "",
  "  /** **不稳定**：希望与浏览器在名称上有更多的相同。",
  "   *",
  "   * 调用方授予的权限。",
  "   *",
  "   * 具体查看：https://w3c.github.io/permissions/#permission-registry */",
  "  export type PermissionName =",
  "    | \"run\"",
  "    | \"read\"",
  "    | \"write\"",
  "    | \"net\"",
  "    | \"env\"",
  "    | \"plugin\"",
  "    | \"hrtime\";",
  "",
  "  /** 权限的状态。",
  "   *",
  "   * 具体查看：https://w3c.github.io/permissions/#status-of-a-permission */",
  "  export type PermissionState = \"granted\" | \"denied\" | \"prompt\";",
  "",
  "  interface RunPermissionDescriptor \x7b",
  "    name: \"run\";",
  "  \x7d",
  "",
  "  interface ReadWritePermissionDescriptor \x7b",
  "    name: \"read\" | \"write\";",
  "    path?: string;",
  "  \x7d",
  "",
  "  interface NetPermissionDescriptor \x7b",
  "    name: \"net\";",
  "    url?: string;",
  "  \x7d",
  "",
  "  interface EnvPermissionDescriptor \x7b",
  "    name: \"env\";",
  "  \x7d",
  "",
  "  interface PluginPermissionDescriptor \x7b",
  "    name: \"plugin\";",
  "  \x7d"
]

def publishedLinesC8 : List String := [
  "",
  "  interface HrtimePermissionDescriptor \x7b",
  "    name: \"hrtime\";",
  "  \x7d",
  "",
  "  /** 权限描述符，定义一个可以查询、请求或撤销的权限。",
  "   *",
  "   * 具体查看：https://w3c.github.io/permissions/#permission-descriptor */",
  "  type PermissionDescriptor =",
  "    | RunPermissionDescriptor",
  "    | ReadWritePermissionDescriptor",
  "    | NetPermissionDescriptor",
  "    | EnvPermissionDescriptor",
  "    | PluginPermissionDescriptor",
  "    | HrtimePermissionDescriptor;",
  "",
  "  export class Permissions \x7b",
  "    /** 查询给定权限的状态。",
  "     *",
  "     *       const status = await Deno.permissions.query(\x7b name: \"read\", path: \"/etc\" \x7d);",
  "     *       if (status.state === \"granted\") \x7b",
  "     *         data = await Deno.readFile(\"/etc/passwd\");",
  "     *       \x7d",
  "     */",
  "    query(desc: PermissionDescriptor): Promise<PermissionStatus>;",
  "",
  "    /** 撤销给定的权限，并且返回该权限的状态。",
  "     *",
  "     *       const status = await Deno.permissions.revoke(\x7b name: \"run\" \x7d);",
  "     *       console.assert(status.state !== \"granted\")",
  "     */",
  "    revoke(desc: PermissionDescriptor): Promise<PermissionStatus>;",
  "",
  "    /** 请求权限，并且返回该权限请求结果的状态。",
  "     *",
  "     *       const status = await Deno.permissions.request(\x7b name: \"env\" \x7d);",
  "     *       if (status.state === \"granted\") \x7b",
  "     *         console.log(Deno.homeDir());",
  "     *       \x7d else \x7b",
  "     *         console.log(\"\x27env\x27 permission is denied.\");",
  "     *       \x7d",
  "     */",
  "    request(desc: PermissionDescriptor): Promise<PermissionStatus>;",
  "  \x7d",
  "",
  "  /** **不稳定**：可能移动到 \x60navigator.permissions\x60 以匹配 web API。 */",
  "  export const permissions: Permissions;",
  "",
  "  /** 具体查看：https://w3c.github.io/permissions/#permissionstatus */",
  "  export class PermissionStatus \x7b",
  "    state: PermissionState;",
  "    constructor(state: PermissionState);",
  "  \x7d",
  "",
  "  /** 同步地通过指定的 \x60len\x60 ，截取或者扩展指定的文件内容。如果未指定 \x60len\x60 ，则整个文件内容将被截取。",
  "   *",
  "   *       //truncate the entire file",
  "   *       Deno.truncateSync(\"my_file.txt\");",
  "   *",
  "   *       //truncate part of the file",
  "   *       const file = Deno.makeTempFileSync();",
  "   *       Deno.writeFileSync(file, new TextEncoder().encode(\"Hello World\"));",
  "   *       Deno.truncateSync(file, 7);",
  "   *       const data = Deno.readFileSync(file);",
  "   *       console.log(new TextDecoder().decode(data));",
  "   *",
  "   * 需要 \x60allow-write\x60 权限。 */",
  "",
  "  export function truncateSync(name: string, len?: number): void;",
  "",
  "  /** 通过指定的 \x60len\x60 ，截取或者扩展指定的文件内容。如果未指定 \x60len\x60 ，则整个文件内容将被截取。",
  "   *",
  "   *       //truncate the entire file",
  "   *       await Deno.truncate(\"my_file.txt\");",
  "   *",
  "   *       //truncate part of the file",
  "   *       const file = await Deno.makeTempFile();",
  "   *       await Deno.writeFile(file, new TextEncoder().encode(\"Hello World\"));",
  "   *       await Deno.truncate(file, 7);",
  "   *       const data = await Deno.readFile(file);",
  "   *       console.log(new TextDecoder().decode(data));  //\"Hello W\"",
  "   *",
  "   * 需要 \x60allow-write\x60 权限。 */",
  "",
  "  export function truncate(name: string, len?: number): Promise<void>;",
  "",
  "  export interface AsyncHandler \x7b",
  "    (msg: Uint8Array): void;",
  "  \x7d",
  "",
  "  export interface PluginOp \x7b",
  "    dispatch(",
  "      control: Uint8Array,",
  "      zeroCopy?: ArrayBufferView | null",
  "    ): Uint8Array | null;",
  "    setAsyncHandler(handler: AsyncHandler): void;",
  "  \x7d",
  "",
  "  export interface Plugin \x7b",
  "    ops: \x7b",
  "      [name: string]: PluginOp;",
  "    \x7d;",
  "  \x7d",
  "",
  "  /** **UNSTABLE**: new API, yet to be vetted.",
  "   *",
  "   * Open and initalize a plugin.",
  "   *",
  "   *        const plugin = Deno.openPlugin(\"./path/to/some/plugin.so\");",
  "   *        const some_op = plugin.ops.some_op;",
  "   *        const response = some_op.dispatch(new Uint8Array([1,2,3,4]));",
  "   *        console.log(\x60Response from plugin $\x7bresponse\x7d\x60);",
  "   *",
  "   * Requires \x60allow-plugin\x60 permission. */",
  "  export function openPlugin(filename: string): Plugin;",
  "  export interface NetAddr \x7b",
  "    transport: \"tcp\" | \"udp\";",
  "    hostname: string;",
  "    port: number;",
  "  \x7d",
  "",
  "  export interface UnixAddr \x7b",
  "    transport: \"unix\" | \"unixpacket\";",
  "    address: string;",
  "  \x7d",
  "",
  "  export type Addr = NetAddr | UnixAddr;",
  "  /** **UNSTABLE**: Maybe remove \x60ShutdownMode\x60 entirely.",
  "   *",
  "   * Corresponds to \x60SHUT_RD\x60, \x60SHUT_WR\x60, \x60SHUT_RDWR\x60 on POSIX-like systems.",
  "   *",
  "   * See: http://man7.org/linux/man-pages/man2/shutdown.2.html */",
  "  /** **不稳定的**：可能会完全删除 \x60ShutdownMode\x60。",
  "   *",
  "   * 对应类 POSIX 系统上的 \x60SHUT_RD\x60，\x60SHUT_WR\x60，\x60SHUT_RDWR\x60。",
  "   *",
  "   * 参阅：http://man7.org/linux/man-pages/man2/shutdown.2.html */",
  "  export enum ShutdownMode \x7b",
  "    Read = 0,",
  "    Write,",
  "    ReadWrite, // TODO(ry) panics on ReadWrite. // TODO(ry) \x60ReadWrite\x60 上的异常。",
  "  \x7d",
  "",
  "  /** **UNSTABLE**: Both the \x60how\x60 parameter and \x60ShutdownMode\x60 enum are under",
  "   * consideration for removal.",
  "   *",
  "   * Shutdown socket send and receive operations.",
  "   *",
  "   * Matches behavior of POSIX shutdown(3).",
  "   *",
  "   *       const listener = Deno.listen(\x7b port: 80 \x7d);",
  "   *       const conn = await listener.accept();",
  "   *       Deno.shutdown(conn.rid, Deno.ShutdownMode.Write);",
  "   */",
  "  /** **不稳定的**：参数 \x60how\x60 和 枚举 \x60ShutdownMode\x60 都在考虑移除。",
  "   *",
  "   * Shutdown 套接字的发送和接收操作。",
  "   *",
  "   * 与 POSIX 的 shutdown(3) 行为一致。",
  "   *",
  "   *       const listener = Deno.listen(\x7b port: 80 \x7d);",
  "   *       const conn = await listener.accept();",
  "   *       Deno.shutdown(conn.rid, Deno.ShutdownMode.Write);",
  "   */",
  "  export function shutdown(rid: number, how: ShutdownMode): void;",
  "",
  "  /** **UNSTABLE**: new API, yet to be vetted.",
  "   *",
  "   * A generic transport listener for message-oriented protocols. */",
  "  export interface DatagramConn extends AsyncIterable<[Uint8Array, Addr]> \x7b",
  "    /** **UNSTABLE**: new API, yet to be vetted.",
  "     *",
  "     * Waits for and resolves to the next message to the \x60UDPConn\x60. */",
  "    receive(p?: Uint8Array): Promise<[Uint8Array, Addr]>;",
  "    /** UNSTABLE: new API, yet to be vetted.",
  "     *",
  "     * Sends a message to the target. */",
  "    send(p: Uint8Array, addr: Addr): Promise<void>;",
  "    /** UNSTABLE: new API, yet to be vetted.",
  "     *",
  "     * Close closes the socket. Any pending message promises will be rejected",
  "     * with errors. */",
  "    close(): void;",
  "    /** Return the address of the \x60UDPConn\x60. */",
  "    readonly addr: Addr;",
  "    [Symbol.asyncIterator](): AsyncIterator<[Uint8Array, Addr]>;",
  "  \x7d",
  "",
  "  /** A generic network listener for stream-oriented protocols. */",
  "  export interface Listener extends AsyncIterable<Conn> \x7b",
  "    /** Waits for and resolves to the next connection to the \x60Listener\x60. */",
  "    accept(): Promise<Conn>;",
  "    /** Close closes the listener. Any pending accept promises will be rejected",
  "     * with errors. */",
  "    close(): void;",
  "    /** Return the address of the \x60Listener\x60. */",
  "    readonly addr: Addr;",
  "",
  "    [Symbol.asyncIterator](): AsyncIterator<Conn>;",
  "  \x7d"
]

def publishedLinesC9 : List String := [
  "",
  "  export interface Conn extends Reader, Writer, Closer \x7b",
  "    /** The local address of the connection. */",
  "    readonly localAddr: Addr;",
  "    /** The remote address of the connection. */",
  "    readonly remoteAddr: Addr;",
  "    /** The resource ID of the connection. */",
  "    readonly rid: number;",
  "    /** Shuts down (\x60shutdown(2)\x60) the reading side of the TCP connection. Most",
  "     * callers should just use \x60close()\x60. */",
  "    closeRead(): void;",
  "    /** Shuts down (\x60shutdown(2)\x60) the writing side of the TCP connection. Most",
  "     * callers should just use \x60close()\x60. */",
  "    closeWrite(): void;",
  "  \x7d",
  "",
  "  export interface ListenOptions \x7b",
  "    /** 要监听的端口号 */",
  "    port: number;",
  "    /** 一个 IP 地址或者可以被解析为 IP 地址的主机名。",
  "     * 如果没有指定，默认值为 \x600.0.0.0\x60。 */",
  "    hostname?: string;",
  "  \x7d",
  "",
  "  export interface UnixListenOptions \x7b",
  "    /** 一个 Unix 套接字路径。 */",
  "    address: string;",
  "  \x7d",
  "  /** **不稳定**: 新 API，没有经过审查。",
  "   *",
  "   * 在本地监听网络连接。",
  "   *",
  "   *      const listener1 = Deno.listen(\x7b port: 80 \x7d)",
  "   *      const listener2 = Deno.listen(\x7b hostname: \"192.0.2.1\", port: 80 \x7d)",
  "   *      const listener3 = Deno.listen(\x7b hostname: \"[2001:db8::1]\", port: 80 \x7d);",
  "   *      const listener4 = Deno.listen(\x7b hostname: \"golang.org\", port: 80, transport: \"tcp\" \x7d);",
  "   *",
  "   * 需要 \x60allow-net\x60 权限。 */",
  "  export function listen(",
  "    options: ListenOptions & \x7b transport?: \"tcp\" \x7d",
  "  ): Listener;",
  "  /** **不稳定**: 新 API，没有经过审查。",
  "   *",
  "   * 在本地监听网络连接。",
  "   *",
  "   *     const listener = Deno.listen(\x7b address: \"/foo/bar.sock\", transport: \"unix\" \x7d)",
  "   *",
  "   * 需要 \x60allow-read\x60 权限。 */",
  "  export function listen(",
  "    options: UnixListenOptions & \x7b transport: \"unix\" \x7d",
  "  ): Listener;",
  "  /** **不稳定**: 新 API，没有经过审查。",
  "   *",
  "   * 在本地监听网络连接。",
  "   *",
  "   *      const listener1 = Deno.listen(\x7b port: 80, transport: \"udp\" \x7d)",
  "   *      const listener2 = Deno.listen(\x7b hostname: \"golang.org\", port: 80, transport: \"udp\" \x7d);",
  "   *",
  "   * 需要 \x60allow-net\x60 权限。 */",
  "  export function listen(",
  "    options: ListenOptions & \x7b transport: \"udp\" \x7d",
  "  ): DatagramConn;",
  "  /** **不稳定**: 新 API，没有经过审查。",
  "   *",
  "   * 在本地监听网络连接。",
  "   *",
  "   *     const listener = Deno.listen(\x7b address: \"/foo/bar.sock\", transport: \"unixpacket\" \x7d)",
  "   *",
  "   * 需要 \x60allow-read\x60 权限。 */",
  "  export function listen(",
  "    options: UnixListenOptions & \x7b transport: \"unixpacket\" \x7d",
  "  ): DatagramConn;",
  "",
  "  export interface ListenTLSOptions extends ListenOptions \x7b",
  "    /** Server certificate file. */",
  "    certFile: string;",
  "    /** Server public key file. */",
  "    keyFile: string;",
  "",
  "    transport?: \"tcp\";",
  "  \x7d",
  "",
  "  /** Listen announces on the local transport address over TLS (transport layer",
  "   * security).",
  "   *",
  "   *      const lstnr = Deno.listenTLS(\x7b port: 443, certFile: \"./server.crt\", keyFile: \"./server.key\" \x7d);",
  "   *",
  "   * Requires \x60allow-net\x60 permission. */",
  "  export function listenTLS(options: ListenTLSOptions): Listener;",
  "",
  "  export interface ConnectOptions \x7b",
  "    /** 要连接的端口号。 */",
  "    port: number;",
  "    /** 一个 IP 地址或者可以被解析为 IP 地址的主机名。",
  "     * 如果没有指定，默认值为 \x60127.0.0.1\x60。 */",
  "    hostname?: string;",
  "    transport?: \"tcp\";",
  "  \x7d",
  "",
  "  export interface UnixConnectOptions \x7b",
  "    transport: \"unix\";",
  "    address: string;",
  "  \x7d",
  "",
  "  /**",
  "   * 通过指定传输协议（默认 \"tcp\"）连接主机名（默认 \"127.0.0.1\"）和端口号，并异步返回这个连接（\x60Conn\x60）。",
  "   *",
  "   *     const conn1 = await Deno.connect(\x7b port: 80 \x7d);",
  "   *     const conn2 = await Deno.connect(\x7b hostname: \"192.0.2.1\", port: 80 \x7d);",
  "   *     const conn3 = await Deno.connect(\x7b hostname: \"[2001:db8::1]\", port: 80 \x7d);",
  "   *     const conn4 = await Deno.connect(\x7b hostname: \"golang.org\", port: 80, transport: \"tcp\" \x7d);",
  "   *     const conn5 = await Deno.connect(\x7b address: \"/foo/bar.sock\", transport: \"unix\" \x7d);",
  "   *",
  "   * \"tcp\" 需要 \x60allow-net\x60 权限，unix 需要 \x60allow-read\x60 权限。",
  "   * */",
  "  export function connect(",
  "    options: ConnectOptions | UnixConnectOptions",
  "  ): Promise<Conn>;",
  "",
  "  export interface ConnectTLSOptions \x7b",
  "    /** The port to connect to. */",
  "    port: number;",
  "    /** A literal IP address or host name that can be resolved to an IP address.",
  "     * If not specified, defaults to \x60127.0.0.1\x60. */",
  "    hostname?: string;",
  "    /** Server certificate file. */",
  "    certFile?: string;",
  "  \x7d",
  "",
  "  /** Establishes a secure connection over TLS (transport layer security) using",
  "   * an optional cert file, hostname (default is \"127.0.0.1\") and port.  The",
  "   * cert file is optional and if not included Mozilla\x27s root certificates will",
  "   * be used (see also https://github.com/ctz/webpki-roots for specifics)",
  "   *",
  "   *     const conn1 = await Deno.connectTLS(\x7b port: 80 \x7d);",
  "   *     const conn2 = await Deno.connectTLS(\x7b certFile: \"./certs/my_custom_root_CA.pem\", hostname: \"192.0.2.1\", port: 80 \x7d);",
  "   *     const conn3 = await Deno.connectTLS(\x7b hostname: \"[2001:db8::1]\", port: 80 \x7d);",
  "   *     const conn4 = await Deno.connectTLS(\x7b certFile: \"./certs/my_custom_root_CA.pem\", hostname: \"golang.org\", port: 80\x7d);",
  "   *",
  "   * Requires \x60allow-net\x60 permission.",
  "   */",
  "  export function connectTLS(options: ConnectTLSOptions): Promise<Conn>;",
  "",
  "  /** **不稳定**: not sure if broken or not */",
  "  export interface Metrics \x7b",
  "    opsDispatched: number;",
  "    opsDispatchedSync: number;",
  "    opsDispatchedAsync: number;",
  "    opsDispatchedAsyncUnref: number;",
  "    opsCompleted: number;",
  "    opsCompletedSync: number;",
  "    opsCompletedAsync: number;",
  "    opsCompletedAsyncUnref: number;",
  "    bytesSentControl: number;",
  "    bytesSentData: number;",
  "    bytesReceived: number;",
  "  \x7d",
  "",
  "  /** 从 Deno 的特权方接收指标。",
  "   * 这主要用于 Deno 的开发中。",
  "   * \x27Ops\x27（也称为 \x27bindings\x27）是 Deno Javascript 和 Deno Rust 之间的沟通桥梁。",
  "   *",
  "   *      > console.table(Deno.metrics())",
  "   *      ┌─────────────────────────┬────────┐",
  "   *      │         (index)         │ Values │",
  "   *      ├─────────────────────────┼────────┤",
  "   *      │      opsDispatched      │   3    │",
  "   *      │    opsDispatchedSync    │   2    │",
  "   *      │   opsDispatchedAsync    │   1    │",
  "   *      │ opsDispatchedAsyncUnref │   0    │",
  "   *      │      opsCompleted       │   3    │",
  "   *      │    opsCompletedSync     │   2    │",
  "   *      │    opsCompletedAsync    │   1    │",
  "   *      │ opsCompletedAsyncUnref  │   0    │",
  "   *      │    bytesSentControl     │   73   │",
  "   *      │      bytesSentData      │   0    │",
  "   *      │      bytesReceived      │  375   │",
  "   *      └─────────────────────────┴────────┘",
  "   */",
  "  export function metrics(): Metrics;",
  "",
  "  /** **不稳定**: 重新考虑表示方法。 */",
  "  interface ResourceMap \x7b",
  "    [rid: number]: string;",
  "  \x7d",
  "",
  "  /** **不稳定**: 返回类型正在考虑中，并且可能会更改。",
  "   *",
  "   * 返回打开的_文件_资源 ID（rid）及其字符串表示形式的 Map。",
  "   *",
  "   *       console.log(Deno.resources()); //e.g. \x7b 0: \"stdin\", 1: \"stdout\", 2: \"stderr\" \x7d",
  "   *       Deno.openSync(\x27../test.file\x27);",
  "   *       console.log(Deno.resources()); //e.g. \x7b 0: \"stdin\", 1: \"stdout\", 2: \"stderr\", 3: \"fsFile\" \x7d",
  "   */",
  "  export function resources(): ResourceMap;",
  "",
  "  /** **不稳定**: 新 API。需要补充文档。 */",
  "  export interface FsEvent \x7b",
  "    kind: \"any\" | \"access\" | \"create\" | \"modify\" | \"remove\";",
  "    paths: string[];",
  "  \x7d"
]

def publishedLinesC10 : List String := [
  "",
  "  /** **UNSTABLE**: new API, yet to be vetted.",
  "   *",
  "   * Watch for file system events against one or more \x60paths\x60, which can be files",
  "   * or directories.  These paths must exist already.  One user action (e.g.",
  "   * \x60touch test.file\x60) can  generate multiple file system events.  Likewise,",
  "   * one user action can result in multiple file paths in one event (e.g. \x60mv",
  "   * old_name.txt new_name.txt\x60).  Recursive option is \x60true\x60 by default and,",
  "   * for directories, will watch the specified directory and all sub directories.",
  "   * Note that the exact ordering of the events can vary between operating systems.",
  "   *",
  "   *       const iter = Deno.fsEvents(\"/\");",
  "   *       for await (const event of iter) \x7b",
  "   *          console.log(\">>>> event\", event);  //e.g. \x7b kind: \"create\", paths: [ \"/foo.txt\" ] \x7d",
  "   *       \x7d",
  "   *",
  "   * Requires \x60allow-read\x60 permission.",
  "   */",
  "  export function fsEvents(",
  "    paths: string | string[],",
  "    options?: \x7b recursive: boolean \x7d",
  "  ): AsyncIterableIterator<FsEvent>;",
  "",
  "  /** How to handle subprocess stdio.",
  "   *",
  "   * \x60\"inherit\"\x60 The default if unspecified. The child inherits from the",
  "   * corresponding parent descriptor.",
  "   *",
  "   * \x60\"piped\"\x60 A new pipe should be arranged to connect the parent and child",
  "   * sub-processes.",
  "   *",
  "   * \x60\"null\"\x60 This stream will be ignored. This is the equivalent of attaching",
  "   * the stream to \x60/dev/null\x60. */",
  "  type ProcessStdio = \"inherit\" | \"piped\" | \"null\";",
  "",
  "  /** **UNSTABLE**: The \x60signo\x60 argument may change to require the Deno.Signal",
  "   * enum.",
  "   *",
  "   * Send a signal to process under given \x60pid\x60. This functionality currently",
  "   * only works on Linux and Mac OS.",
  "   *",
  "   * If \x60pid\x60 is negative, the signal will be sent to the process group",
  "   * identified by \x60pid\x60.",
  "   *",
  "   *      const p = Deno.run(\x7b",
  "   *        cmd: [\"python\", \"-c\", \"from time import sleep; sleep(10000)\"]",
  "   *      \x7d);",
  "   *",
  "   *      Deno.kill(p.pid, Deno.Signal.SIGINT);",
  "   *",
  "   * Throws Error (not yet implemented) on Windows",
  "   *",
  "   * Requires \x60allow-run\x60 permission. */",
  "  export function kill(pid: number, signo: number): void;",
  "",
  "  /** **UNSTABLE**: 这里有一些关于如何结束进程的问题需要解决。 */",
  "  export class Process \x7b",
  "    readonly rid: number;",
  "    readonly pid: number;",
  "    readonly stdin?: WriteCloser;",
  "    readonly stdout?: ReadCloser;",
  "    readonly stderr?: ReadCloser;",
  "    /** 解析进程当前的状态。 */",
  "    status(): Promise<ProcessStatus>;",
  "    /** 缓冲区中的 stdout，会在 \x60Deno.EOF\x60 之后以 \x60Uint8Array\x60 的形式返回。",
  "     *",
  "     * 在创建进程时，你必须将 stdout 设置为 \x60\"piped\"\x60。",
  "     *",
  "     * 会在 stdout 完成后调用 \x60close()\x60。 */",
  "    output(): Promise<Uint8Array>;",
  "    /** 缓冲区中的 stderr， 会在 \x60Deno.EOF\x60 之后以 \x60Uint8Array\x60 的形式返回。",
  "     *",
  "     * 在创建进程时，你必须将 stderr 设置为 \x60\"piped\"\x60。",
  "     *",
  "     * 会在 stderr 完成后调用 \x60close()\x60。 */",
  "    stderrOutput(): Promise<Uint8Array>;",
  "    close(): void;",
  "    kill(signo: number): void;",
  "  \x7d",
  "",
  "  export interface ProcessStatus \x7b",
  "    success: boolean;",
  "    code?: number;",
  "    signal?: number;",
  "  \x7d",
  "",
  "  /** **不稳定**: \x60args\x60 最近被重命名为 \x60cmd\x60，以区别于 \x60Deno.args\x60。 */",
  "  export interface RunOptions \x7b",
  "    /** 需要传递的参数。注意，第一个元素必须是二进制文件的路径。 */",
  "    cmd: string[];",
  "    cwd?: string;",
  "    env?: \x7b",
  "      [key: string]: string;",
  "    \x7d;",
  "    stdout?: ProcessStdio | number;",
  "    stderr?: ProcessStdio | number;",
  "    stdin?: ProcessStdio | number;",
  "  \x7d",
  "",
  "  /** 派生新的子进程。 RunOptions 必须包含 \x60opt.cmd\x60，即程序参数数组，其中第一个参数是二进制文件路径。",
  "   *",
  "   * 子进程使用与父进程相同的工作目录，除非指定了 \x60opt.cwd\x60。",
  "   *",
  "   * 子进程的环境变量可以使用 \x60opt.env\x60 来设置",
  "   *",
  "   * 默认情况下，子进程继承父进程的 stdio。要更改这些值，可以分别指定\x60opt.stdout\x60、\x60opt.stderr\x60、\x60opt.stdin\x60",
  "   * - 可以将其设置为 \x60ProcessStdio\x60 或打开文件的 \x60rid\x60。",
  "   *",
  "   * 返回派生子进程的详细信息。",
  "   *",
  "   *       const p = Deno.run(\x7b",
  "   *         cmd: [\"echo\", \"hello\"],",
  "   *       \x7d);",
  "   *",
  "   * 需要 \x60allow-run\x60 权限。 */",
  "  export function run(opt: RunOptions): Process;",
  "",
  "  enum LinuxSignal \x7b",
  "    SIGHUP = 1,",
  "    SIGINT = 2,",
  "    SIGQUIT = 3,",
  "    SIGILL = 4,",
  "    SIGTRAP = 5,",
  "    SIGABRT = 6,",
  "    SIGBUS = 7,",
  "    SIGFPE = 8,",
  "    SIGKILL = 9,",
  "    SIGUSR1 = 10,",
  "    SIGSEGV = 11,",
  "    SIGUSR2 = 12,",
  "    SIGPIPE = 13,",
  "    SIGALRM = 14,",
  "    SIGTERM = 15,",
  "    SIGSTKFLT = 16,",
  "    SIGCHLD = 17,",
  "    SIGCONT = 18,",
  "    SIGSTOP = 19,",
  "    SIGTSTP = 20,",
  "    SIGTTIN = 21,",
  "    SIGTTOU = 22,",
  "    SIGURG = 23,",
  "    SIGXCPU = 24,",
  "    SIGXFSZ = 25,",
  "    SIGVTALRM = 26,",
  "    SIGPROF = 27,",
  "    SIGWINCH = 28,",
  "    SIGIO = 29,",
  "    SIGPWR = 30,",
  "    SIGSYS = 31,",
  "  \x7d",
  "  enum MacOSSignal \x7b",
  "    SIGHUP = 1,",
  "    SIGINT = 2,",
  "    SIGQUIT = 3,",
  "    SIGILL = 4,",
  "    SIGTRAP = 5,",
  "    SIGABRT = 6,",
  "    SIGEMT = 7,",
  "    SIGFPE = 8,",
  "    SIGKILL = 9,",
  "    SIGBUS = 10,",
  "    SIGSEGV = 11,",
  "    SIGSYS = 12,",
  "    SIGPIPE = 13,",
  "    SIGALRM = 14,",
  "    SIGTERM = 15,",
  "    SIGURG = 16,",
  "    SIGSTOP = 17,",
  "    SIGTSTP = 18,",
  "    SIGCONT = 19,",
  "    SIGCHLD = 20,",
  "    SIGTTIN = 21,",
  "    SIGTTOU = 22,",
  "    SIGIO = 23,",
  "    SIGXCPU = 24,",
  "    SIGXFSZ = 25,",
  "    SIGVTALRM = 26,",
  "    SIGPROF = 27,",
  "    SIGWINCH = 28,",
  "    SIGINFO = 29,",
  "    SIGUSR1 = 30,",
  "    SIGUSR2 = 31,",
  "  \x7d",
  "",
  "  /** **不稳定**: make platform independent.",
  "   *",
  "   * 信号数字。此值是独立于平台的。 */",
  "  export const Signal: typeof MacOSSignal | typeof LinuxSignal;",
  "",
  "  interface InspectOptions \x7b",
  "    showHidden?: boolean;",
  "    depth?: number;",
  "    colors?: boolean;",
  "    indentLevel?: number;",
  "  \x7d",
  "",
  "  /** **UNSTABLE**: The exact form of the string output is under consideration",
  "   * and may change.",
  "   *",
  "   * Converts the input into a string that has the same format as printed by",
  "   * \x60console.log()\x60.",
  "   *",
  "   *      const obj = \x7b\x7d;",
  "   *      obj.propA = 10;",
  "   *      obj.propB = \"hello\"",
  "   *      const objAsString = Deno.inspect(obj); //\x7b propA: 10, propB: \"hello\" \x7d",
  "   *      console.log(obj);  //prints same value as objAsString, e.g. \x7b propA: 10, propB: \"hello\" \x7d",
  "   *",
  "   * You can also register custom inspect functions, via the \x60customInspect\x60 Deno",
  "   * symbol on objects, to control and customize the output.",
  "   *",
  "   *      class A \x7b",
  "   *        x = 10;",
  "   *        y = \"hello\";",
  "   *        [Deno.symbols.customInspect](): string \x7b",
  "   *          return \"x=\" + this.x + \", y=\" + this.y;",
  "   *        \x7d",
  "   *      \x7d",
  "   *",
  "   *      const inStringFormat = Deno.inspect(new A()); //\"x=10, y=hello\"",
  "   *      console.log(inStringFormat);  //prints \"x=10, y=hello\"",
  "   *",
  "   * Finally, a number of output options are also available.",
  "   *",
  "   *      const out = Deno.inspect(obj, \x7bshowHidden: true, depth: 4, colors: true, indentLevel: 2\x7d);",
  "   *",
  "   */"
]

def publishedLinesC11 : List String := [
  "  export function inspect(value: unknown, options?: InspectOptions): string;",
  "",
  "  export type OperatingSystem = \"mac\" | \"win\" | \"linux\";",
  "",
  "  export type Arch = \"x64\" | \"arm64\";",
  "",
  "  interface BuildInfo \x7b",
  "    /** CPU 架构。 */",
  "    arch: Arch;",
  "    /** 操作系统。 */",
  "    os: OperatingSystem;",
  "  \x7d",
  "",
  "  /** 构建的相关信息。 */",
  "  export const build: BuildInfo;",
  "",
  "  interface Version \x7b",
  "    deno: string;",
  "    v8: string;",
  "    typescript: string;",
  "  \x7d",
  "  /** Deno 的详细版本信息。包括了 deno、v8、typescript。 */",
  "  export const version: Version;",
  "",
  "  /** The log category for a diagnostic message. */",
  "  export enum DiagnosticCategory \x7b",
  "    Log = 0,",
  "    Debug = 1,",
  "    Info = 2,",
  "    Error = 3,",
  "    Warning = 4,",
  "    Suggestion = 5,",
  "  \x7d",
  "",
  "  export interface DiagnosticMessageChain \x7b",
  "    message: string;",
  "    category: DiagnosticCategory;",
  "    code: number;",
  "    next?: DiagnosticMessageChain[];",
  "  \x7d",
  "",
  "  export interface DiagnosticItem \x7b",
  "    /** A string message summarizing the diagnostic. */",
  "    message: string;",
  "    /** An ordered array of further diagnostics. */",
  "    messageChain?: DiagnosticMessageChain;",
  "    /** Information related to the diagnostic. This is present when there is a",
  "     * suggestion or other additional diagnostic information */",
  "    relatedInformation?: DiagnosticItem[];",
  "    /** The text of the source line related to the diagnostic. */",
  "    sourceLine?: string;",
  "    /** The line number that is related to the diagnostic. */",
  "    lineNumber?: number;",
  "    /** The name of the script resource related to the diagnostic. */",
  "    scriptResourceName?: string;",
  "    /** The start position related to the diagnostic. */",
  "    startPosition?: number;",
  "    /** The end position related to the diagnostic. */",
  "    endPosition?: number;",
  "    /** The category of the diagnostic. */",
  "    category: DiagnosticCategory;",
  "    /** A number identifier. */",
  "    code: number;",
  "    /** The the start column of the sourceLine related to the diagnostic. */",
  "    startColumn?: number;",
  "    /** The end column of the sourceLine related to the diagnostic. */",
  "    endColumn?: number;",
  "  \x7d",
  "",
  "  export interface Diagnostic \x7b",
  "    /** An array of diagnostic items. */",
  "    items: DiagnosticItem[];",
  "  \x7d",
  "",
  "  /** **UNSTABLE**: new API, yet to be vetted.",
  "   *",
  "   * Format an array of diagnostic items and return them as a single string in a",
  "   * user friendly format.",
  "   *",
  "   *       const [diagnostics, result] = Deno.compile(\"file_with_compile_issues.ts\");",
  "   *       console.table(diagnostics);  //Prints raw diagnostic data",
  "   *       console.log(Deno.formatDiagnostics(diagnostics));  //User friendly output of diagnostics",
  "   *",
  "   * @param items An array of diagnostic items to format",
  "   */",
  "  export function formatDiagnostics(items: DiagnosticItem[]): string;",
  "",
  "  /** **UNSTABLE**: new API, yet to be vetted.",
  "   *",
  "   * A specific subset TypeScript compiler options that can be supported by the",
  "   * Deno TypeScript compiler. */",
  "  export interface CompilerOptions \x7b",
  "    /** Allow JavaScript files to be compiled. Defaults to \x60true\x60. */",
  "    allowJs?: boolean;",
  "    /** Allow default imports from modules with no default export. This does not",
  "     * affect code emit, just typechecking. Defaults to \x60false\x60. */",
  "    allowSyntheticDefaultImports?: boolean;",
  "    /** Allow accessing UMD globals from modules. Defaults to \x60false\x60. */",
  "    allowUmdGlobalAccess?: boolean;",
  "    /** Do not report errors on unreachable code. Defaults to \x60false\x60. */",
  "    allowUnreachableCode?: boolean;",
  "    /** Do not report errors on unused labels. Defaults to \x60false\x60 */",
  "    allowUnusedLabels?: boolean;",
  "    /** Parse in strict mode and emit \x60\"use strict\"\x60 for each source file.",
  "     * Defaults to \x60true\x60. */",
  "    alwaysStrict?: boolean;",
  "    /** Base directory to resolve non-relative module names. Defaults to",
  "     * \x60undefined\x60. */",
  "    baseUrl?: string;",
  "    /** Report errors in \x60.js\x60 files. Use in conjunction with \x60allowJs\x60. Defaults",
  "     * to \x60false\x60. */",
  "    checkJs?: boolean;",
  "    /** Generates corresponding \x60.d.ts\x60 file. Defaults to \x60false\x60. */",
  "    declaration?: boolean;",
  "    /** Output directory for generated declaration files. */",
  "    declarationDir?: string;",
  "    /** Generates a source map for each corresponding \x60.d.ts\x60 file. Defaults to",
  "     * \x60false\x60. */",
  "    declarationMap?: boolean;",
  "    /** Provide full support for iterables in \x60for..of\x60, spread and",
  "     * destructuring when targeting ES5 or ES3. Defaults to \x60false\x60. */",
  "    downlevelIteration?: boolean;",
  "    /** Emit a UTF-8 Byte Order Mark (BOM) in the beginning of output files.",
  "     * Defaults to \x60false\x60. */",
  "    emitBOM?: boolean;",
  "    /** Only emit \x60.d.ts\x60 declaration files. Defaults to \x60false\x60. */",
  "    emitDeclarationOnly?: boolean;",
  "    /** Emit design-type metadata for decorated declarations in source. See issue",
  "     * [microsoft/TypeScript#2577](https://github.com/Microsoft/TypeScript/issues/2577)",
  "     * for details. Defaults to \x60false\x60. */",
  "    emitDecoratorMetadata?: boolean;",
  "    /** Emit \x60__importStar\x60 and \x60__importDefault\x60 helpers for runtime babel",
  "     * ecosystem compatibility and enable \x60allowSyntheticDefaultImports\x60 for type",
  "     * system compatibility. Defaults to \x60true\x60. */",
  "    esModuleInterop?: boolean;",
  "    /** Enables experimental support for ES decorators. Defaults to \x60false\x60. */",
  "    experimentalDecorators?: boolean;",
  "    /** Emit a single file with source maps instead of having a separate file.",
  "     * Defaults to \x60false\x60. */",
  "    inlineSourceMap?: boolean;",
  "    /** Emit the source alongside the source maps within a single file; requires",
  "     * \x60inlineSourceMap\x60 or \x60sourceMap\x60 to be set. Defaults to \x60false\x60. */",
  "    inlineSources?: boolean;",
  "    /** Perform additional checks to ensure that transpile only would be safe.",
  "     * Defaults to \x60false\x60. */",
  "    isolatedModules?: boolean;",
  "    /** Support JSX in \x60.tsx\x60 files: \x60\"react\"\x60, \x60\"preserve\"\x60, \x60\"react-native\"\x60.",
  "     * Defaults to \x60\"react\"\x60. */",
  "    jsx?: \"react\" | \"preserve\" | \"react-native\";",
  "    /** Specify the JSX factory function to use when targeting react JSX emit,",
  "     * e.g. \x60React.createElement\x60 or \x60h\x60. Defaults to \x60React.createElement\x60. */",
  "    jsxFactory?: string;",
  "    /** Resolve keyof to string valued property names only (no numbers or",
  "     * symbols). Defaults to \x60false\x60. */",
  "    keyofStringsOnly?: string;",
  "    /** Emit class fields with ECMAScript-standard semantics. Defaults to \x60false\x60.",
  "     * Does not apply to \x60\"esnext\"\x60 target. */",
  "    useDefineForClassFields?: boolean;",
  "    /** List of library files to be included in the compilation. If omitted,",
  "     * then the Deno main runtime libs are used. */",
  "    lib?: string[];",
  "    /** The locale to use to show error messages. */",
  "    locale?: string;",
  "    /** Specifies the location where debugger should locate map files instead of",
  "     * generated locations. Use this flag if the \x60.map\x60 files will be located at",
  "     * run-time in a different location than the \x60.js\x60 files. The location",
  "     * specified will be embedded in the source map to direct the debugger where",
  "     * the map files will be located. Defaults to \x60undefined\x60. */",
  "    mapRoot?: string;",
  "    /** Specify the module format for the emitted code. Defaults to",
  "     * \x60\"esnext\"\x60. */",
  "    module?:",
  "      | \"none\"",
  "      | \"commonjs\"",
  "      | \"amd\"",
  "      | \"system\"",
  "      | \"umd\"",
  "      | \"es6\"",
  "      | \"es2015\"",
  "      | \"esnext\";",
  "    /** Do not generate custom helper functions like \x60__extends\x60 in compiled",
  "     * output. Defaults to \x60false\x60. */",
  "    noEmitHelpers?: boolean;",
  "    /** Report errors for fallthrough cases in switch statement. Defaults to",
  "     * \x60false\x60. */",
  "    noFallthroughCasesInSwitch?: boolean;",
  "    /** Raise error on expressions and declarations with an implied any type.",
  "     * Defaults to \x60true\x60. */",
  "    noImplicitAny?: boolean;",
  "    /** Report an error when not all code paths in function return a value.",
  "     * Defaults to \x60false\x60. */",
  "    noImplicitReturns?: boolean;",
  "    /** Raise error on \x60this\x60 expressions with an implied \x60any\x60 type. Defaults to",
  "     * \x60true\x60. */",
  "    noImplicitThis?: boolean;",
  "    /** Do not emit \x60\"use strict\"\x60 directives in module output. Defaults to",
  "     * \x60false\x60. */",
  "    noImplicitUseStrict?: boolean;",
  "    /** Do not add triple-slash references or module import targets to the list of",
  "     * compiled files. Defaults to \x60false\x60. */",
  "    noResolve?: boolean;",
  "    /** Disable strict checking of generic signatures in function types. Defaults",
  "     * to \x60false\x60. */",
  "    noStrictGenericChecks?: boolean;",
  "    /** Report errors on unused locals. Defaults to \x60false\x60. */",
  "    noUnusedLocals?: boolean;",
  "    /** Report errors on unused parameters. Defaults to \x60false\x60. */",
  "    noUnusedParameters?: boolean;",
  "    /** Redirect output structure to the directory. This only impacts",
  "     * \x60Deno.compile\x60 and only changes the emitted file names. Defaults to",
  "     * \x60undefined\x60. */",
  "    outDir?: string;",
  "    /** List of path mapping entries for module names to locations relative to the",
  "     * \x60baseUrl\x60. Defaults to \x60undefined\x60. */",
  "    paths?: Record<string, string[]>;",
  "    /** Do not erase const enum declarations in generated code. Defaults to",
  "     * \x60false\x60. */",
  "    preserveConstEnums?: boolean;",
  "    /** Remove all comments except copy-right header comments beginning with",
  "     * \x60/*!\x60. Defaults to \x60true\x60. */",
  "    removeComments?: boolean;",
  "    /** Include modules imported with \x60.json\x60 extension. Defaults to \x60true\x60. */",
  "    resolveJsonModule?: boolean;",
  "    /** Specifies the root directory of input files. Only use to control the",
  "     * output directory structure with \x60outDir\x60. Defaults to \x60undefined\x60. */",
  "    rootDir?: string;",
  "    /** List of _root_ folders whose combined content represent the structure of",
  "     * the project at runtime. Defaults to \x60undefined\x60. */",
  "    rootDirs?: string[];",
  "    /** Generates corresponding \x60.map\x60 file. Defaults to \x60false\x60. */",
  "    sourceMap?: boolean;",
  "    /** Specifies the location where debugger should locate TypeScript files",
  "     * instead of source locations. Use this flag if the sources will be located",
  "     * at run-time in a different location than that at design-time. The location",
  "     * specified will be embedded in the sourceMap to direct the debugger where",
  "     * the source files will be located. Defaults to \x60undefined\x60. */",
  "    sourceRoot?: string;",
  "    /** Enable all strict type checking options. Enabling \x60strict\x60 enables",
  "     * \x60noImplicitAny\x60, \x60noImplicitThis\x60, \x60alwaysStrict\x60, \x60strictBindCallApply\x60,",
  "     * \x60strictNullChecks\x60, \x60strictFunctionTypes\x60 and",
  "     * \x60strictPropertyInitialization\x60. Defaults to \x60true\x60. */",
  "    strict?: boolean;",
  "    /** Enable stricter checking of the \x60bind\x60, \x60call\x60, and \x60apply\x60 methods on",
  "     * functions. Defaults to \x60true\x60. */",
  "    strictBindCallApply?: boolean;",
  "    /** Disable bivariant parameter checking for function types. Defaults to",
  "     * \x60true\x60. */",
  "    strictFunctionTypes?: boolean;",
  "    /** Ensure non-undefined class properties are initialized in the constructor.",
  "     * This option requires \x60strictNullChecks\x60 be enabled in order to take effect.",
  "     * Defaults to \x60true\x60. */",
  "    strictPropertyInitialization?: boolean;",
  "    /** In strict null checking mode, the \x60null\x60 and \x60undefined\x60 values are not in",
  "     * the domain of every type and are only assignable to themselves and \x60any\x60",
  "     * (the one exception being that \x60undefined\x60 is also assignable to \x60void\x60). */",
  "    strictNullChecks?: boolean;",
  "    /** Suppress excess property checks for object literals. Defaults to",
  "     * \x60false\x60. */",
  "    suppressExcessPropertyErrors?: boolean;",
  "    /** Suppress \x60noImplicitAny\x60 errors for indexing objects lacking index",
  "     * signatures. */",
  "    suppressImplicitAnyIndexErrors?: boolean;",
  "    /** Specify ECMAScript target version. Defaults to \x60esnext\x60. */",
  "    target?:",
  "      | \"es3\"",
  "      | \"es5\"",
  "      | \"es6\"",
  "      | \"es2015\"",
  "      | \"es2016\"",
  "      | \"es2017\"",
  "      | \"es2018\"",
  "      | \"es2019\"",
  "      | \"es2020\"",
  "      | \"esnext\";",
  "    /** List of names of type definitions to include. Defaults to \x60undefined\x60.",
  "     *",
  "     * The type definitions are resolved according to the normal Deno resolution",
  "     * irrespective of if sources are provided on the call. Like other Deno",
  "     * modules, there is no \"magical\" resolution. For example:",
  "     *",
  "     *      Deno.compile(",
  "     *        \"./foo.js\",",
  "     *        undefined,",
  "     *        \x7b",
  "     *          types: [ \"./foo.d.ts\", \"https://deno.land/x/example/types.d.ts\" ]",
  "     *        \x7d",
  "     *      );",
  "     */",
  "    types?: string[];",
  "  \x7d"
]

def publishedLinesC12 : List String := [
  "",
  "  /** **UNSTABLE**: new API, yet to be vetted.",
  "   *",
  "   * The results of a transpile only command, where the \x60source\x60 contains the",
  "   * emitted source, and \x60map\x60 optionally contains the source map. */",
  "  export interface TranspileOnlyResult \x7b",
  "    source: string;",
  "    map?: string;",
  "  \x7d",
  "",
  "  /** **UNSTABLE**: new API, yet to be vetted.",
  "   *",
  "   * Takes a set of TypeScript sources and resolves to a map where the key was",
  "   * the original file name provided in sources and the result contains the",
  "   * \x60source\x60 and optionally the \x60map\x60 from the transpile operation. This does no",
  "   * type checking and validation, it effectively \"strips\" the types from the",
  "   * file.",
  "   *",
  "   *      const results =  await Deno.transpileOnly(\x7b",
  "   *        \"foo.ts\": \x60const foo: string = \"foo\";\x60",
  "   *      \x7d);",
  "   *",
  "   * @param sources A map where the key is the filename and the value is the text",
  "   *                to transpile. The filename is only used in the transpile and",
  "   *                not resolved, for example to fill in the source name in the",
  "   *                source map.",
  "   * @param options An option object of options to send to the compiler. This is",
  "   *                a subset of ts.CompilerOptions which can be supported by Deno.",
  "   *                Many of the options related to type checking and emitting",
  "   *                type declaration files will have no impact on the output.",
  "   */",
  "  export function transpileOnly(",
  "    sources: Record<string, string>,",
  "    options?: CompilerOptions",
  "  ): Promise<Record<string, TranspileOnlyResult>>;",
  "",
  "  /** **UNSTABLE**: new API, yet to be vetted.",
  "   *",
  "   * Takes a root module name, and optionally a record set of sources. Resolves",
  "   * with a compiled set of modules and possibly diagnostics if the compiler",
  "   * encountered any issues. If just a root name is provided, the modules",
  "   * will be resolved as if the root module had been passed on the command line.",
  "   *",
  "   * If sources are passed, all modules will be resolved out of this object, where",
  "   * the key is the module name and the value is the content. The extension of",
  "   * the module name will be used to determine the media type of the module.",
  "   *",
  "   *      const [ maybeDiagnostics1, output1 ] = await Deno.compile(\"foo.ts\");",
  "   *",
  "   *      const [ maybeDiagnostics2, output2 ] = await Deno.compile(\"/foo.ts\", \x7b",
  "   *        \"/foo.ts\": \x60export * from \"./bar.ts\";\x60,",
  "   *        \"/bar.ts\": \x60export const bar = \"bar\";\x60",
  "   *      \x7d);",
  "   *",
  "   * @param rootName The root name of the module which will be used as the",
  "   *                 \"starting point\". If no \x60sources\x60 is specified, Deno will",
  "   *                 resolve the module externally as if the \x60rootName\x60 had been",
  "   *                 specified on the command line.",
  "   * @param sources An optional key/value map of sources to be used when resolving",
  "   *                modules, where the key is the module name, and the value is",
  "   *                the source content. The extension of the key will determine",
  "   *                the media type of the file when processing. If supplied,",
  "   *                Deno will not attempt to resolve any modules externally.",
  "   * @param options An optional object of options to send to the compiler. This is",
  "   *                a subset of ts.CompilerOptions which can be supported by Deno.",
  "   */",
  "  export function compile(",
  "    rootName: string,",
  "    sources?: Record<string, string>,",
  "    options?: CompilerOptions",
  "  ): Promise<[DiagnosticItem[] | undefined, Record<string, string>]>;",
  "",
  "  /** **UNSTABLE**: new API, yet to be vetted.",
  "   *",
  "   * \x60bundle()\x60 is part the compiler API.  A full description of this functionality",
  "   * can be found in the [manual](https://deno.land/std/manual.md#denobundle).",
  "   *",
  "   * Takes a root module name, and optionally a record set of sources. Resolves",
  "   * with a single JavaScript string (and bundle diagnostics if issues arise with",
  "   * the bundling) that is like the output of a \x60deno bundle\x60 command. If just",
  "   * a root name is provided, the modules will be resolved as if the root module",
  "   * had been passed on the command line.",
  "   *",
  "   * If sources are passed, all modules will be resolved out of this object, where",
  "   * the key is the module name and the value is the content. The extension of the",
  "   * module name will be used to determine the media type of the module.",
  "   *",
  "   *      //equivalent to \"deno bundle foo.ts\" from the command line",
  "   *      const [ maybeDiagnostics1, output1 ] = await Deno.bundle(\"foo.ts\");",
  "   *",
  "   *      const [ maybeDiagnostics2, output2 ] = await Deno.bundle(\"/foo.ts\", \x7b",
  "   *        \"/foo.ts\": \x60export * from \"./bar.ts\";\x60,",
  "   *        \"/bar.ts\": \x60export const bar = \"bar\";\x60",
  "   *      \x7d);",
  "   *",
  "   * @param rootName The root name of the module which will be used as the",
  "   *                 \"starting point\". If no \x60sources\x60 is specified, Deno will",
  "   *                 resolve the module externally as if the \x60rootName\x60 had been",
  "   *                 specified on the command line.",
  "   * @param sources An optional key/value map of sources to be used when resolving",
  "   *                modules, where the key is the module name, and the value is",
  "   *                the source content. The extension of the key will determine",
  "   *                the media type of the file when processing. If supplied,",
  "   *                Deno will not attempt to resolve any modules externally.",
  "   * @param options An optional object of options to send to the compiler. This is",
  "   *                a subset of ts.CompilerOptions which can be supported by Deno.",
  "   */",
  "  export function bundle(",
  "    rootName: string,",
  "    sources?: Record<string, string>,",
  "    options?: CompilerOptions",
  "  ): Promise<[DiagnosticItem[] | undefined, string]>;",
  "",
  "  /** 将脚本参数返回给程序。例如我们运行下方的程序:",
  "   *",
  "   *      deno --allow-read https://deno.land/std/examples/cat.ts /etc/passwd",
  "   *",
  "   * 然后 \x60Deno.args\x60 将包含:",
  "   *",
  "   *      [ \"/etc/passwd\" ]",
  "   */",
  "  export const args: string[];",
  "",
  "  /** **不稳定**: 新 API，没有经过审查。",
  "   *",
  "   * 信号流，实现了 \x60AsyncIterator\x60 和 \x60PromiseLike\x60 接口。 */",
  "  export class SignalStream",
  "    implements AsyncIterableIterator<void>, PromiseLike<void> \x7b",
  "    constructor(signal: typeof Deno.Signal);",
  "    then<T, S>(",
  "      f: (v: void) => T | Promise<T>,",
  "      g?: (v: void) => S | Promise<S>",
  "    ): Promise<T | S>;",
  "    next(): Promise<IteratorResult<void>>;",
  "    [Symbol.asyncIterator](): AsyncIterableIterator<void>;",
  "    dispose(): void;",
  "  \x7d",
  "",
  "  /** **不稳定**: 新 API，没有经过审查。",
  "   *",
  "   * 返回指定信号编码的流。返回值可用于异步迭代。",
  "   *",
  "   *      for await (const _ of Deno.signal(Deno.Signal.SIGTERM)) \x7b",
  "   *        console.log(\"got SIGTERM!\");",
  "   *      \x7d",
  "   *",
  "   * 也可以把它作为 Promise 来使用。在这种情况下，只能收到第一个值。",
  "   *",
  "   *      await Deno.signal(Deno.Signal.SIGTERM);",
  "   *      console.log(\"SIGTERM received!\")",
  "   *",
  "   * 如果要停止接收信号，可以使用信号流对象(\x60SignalStream\x60)的 \x60.dispose()\x60 方法。",
  "   *",
  "   *      const sig = Deno.signal(Deno.Signal.SIGTERM);",
  "   *      setTimeout(() => \x7b sig.dispose(); \x7d, 5000);",
  "   *      for await (const _ of sig) \x7b",
  "   *        console.log(\"SIGTERM!\")",
  "   *      \x7d",
  "   *",
  "   * 当调用 \x60sig.dispose()\x60 5 秒后，上述 for-await 循环退出。",
  "   *",
  "   * 注意: 这个功能还没有在 Windows 上实现。",
  "   */",
  "  export function signal(signo: number): SignalStream;",
  "",
  "  /** **不稳定**: 新 API，没有经过审查。 */",
  "  export const signals: \x7b",
  "    /** 返回 SIGALRM 信号流。",
  "     *",
  "     * 此方法是 \x60Deno.signal(Deno.Signal.SIGALRM)\x60 的简写形式。 */",
  "    alarm: () => SignalStream;",
  "    /** 返回 SIGCHLD 信号流。",
  "     *",
  "     * 此方法是 \x60Deno.signal(Deno.Signal.SIGCHLD)\x60 的简写形式。 */",
  "    child: () => SignalStream;",
  "    /** 返回 SIGHUP 信号流。",
  "     *",
  "     * 此方法是 \x60Deno.signal(Deno.Signal.SIGHUP)\x60 的简写形式。 */",
  "    hungup: () => SignalStream;",
  "    /** 返回 SIGINT 信号流。",
  "     *",
  "     * 此方法是 \x60Deno.signal(Deno.Signal.SIGINT)\x60 的简写形式。 */",
  "    interrupt: () => SignalStream;",
  "    /** 返回 SIGIO 信号流。",
  "     *",
  "     * 此方法是 \x60Deno.signal(Deno.Signal.SIGIO)\x60 的简写形式。 */",
  "    io: () => SignalStream;",
  "    /** 返回 SIGPIPE 信号流。",
  "     *",
  "     * 此方法是 \x60Deno.signal(Deno.Signal.SIGPIPE)\x60 的简写形式。 */",
  "    pipe: () => SignalStream;",
  "    /** 返回 SIGQUIT 信号流。",
  "     *",
  "     * 此方法是 \x60Deno.signal(Deno.Signal.SIGQUIT)\x60 的简写形式。 */",
  "    quit: () => SignalStream;",
  "    /** 返回 SIGTERM 信号流。",
  "     *",
  "     * 此方法是 \x60Deno.signal(Deno.Signal.SIGTERM)\x60 的简写形式。 */",
  "    terminate: () => SignalStream;",
  "    /** 返回 SIGUSR1 信号流。",
  "     *",
  "     * 此方法是 \x60Deno.signal(Deno.Signal.SIGUSR1)\x60 的简写形式。 */",
  "    userDefined1: () => SignalStream;",
  "    /** 返回 SIGUSR2 信号流。",
  "     *",
  "     * 此方法是 \x60Deno.signal(Deno.Signal.SIGUSR2)\x60 的简写形式。 */",
  "    userDefined2: () => SignalStream;",
  "    /** 返回 SIGWINCH 信号流。",
  "     *",
  "     * 此方法是 \x60Deno.signal(Deno.Signal.SIGWINCH)\x60 的简写形式。 */",
  "    windowChange: () => SignalStream;",
  "  \x7d;"
]

def publishedLinesC13 : List String := [
  "",
  "  /** **不稳定**: 新 API。可能会把 \x60Deno.EOF\x60 移动到这里。",
  "   *",
  "   * 和 Deno 相关的 \x60Symbol\x60。 */",
  "  export const symbols: \x7b",
  "    /** 用于将 Deno 内部 API 暴露出来的 Symbol */",
  "    readonly internal: unique symbol;",
  "    /** 这个 Symbol 可以作为 key 来定义一个方法，当 \x60Deno.inspect()\x60 被调用或者调用了",
  "     * console 的日志方法时，这个自定义函数被调用。 */",
  "    readonly customInspect: unique symbol;",
  "    // TODO(ry) move EOF here?",
  "  \x7d;",
  "\x7d"
]

def publishedLines : List String :=
  publishedLinesC0 ++ (publishedLinesC1 ++ (publishedLinesC2 ++ (publishedLinesC3 ++ (publishedLinesC4 ++ (publishedLinesC5 ++ (publishedLinesC6 ++ (publishedLinesC7 ++ (publishedLinesC8 ++ (publishedLinesC9 ++ (publishedLinesC10 ++ (publishedLinesC11 ++ (publishedLinesC12 ++ (publishedLinesC13)))))))))))))

def readmeLinesC0 : List String := [
  "# Deno API 简体中文版",
  "",
  "[![Build Status](https://github.com/denodev/typedoc/workflows/ci/badge.svg?branch=master)](https://github.com/denodev/typedoc/actions)",
  "[![license](https://img.shields.io/github/license/denodev/typedoc)](https://github.com/denodev/typedoc/blob/master/LICENSE)",
  "[![](https://img.shields.io/badge/deno-v0.41.0-green.svg)](https://github.com/denoland/deno)",
  "",
  "Deno 简体中文 API 参考手册。本文档是非官方 Deno 简体中文文档，由中文开发者社区的志愿者们维护。",
  "",
  "本文档使用了 [typedoc-deno-theme](https://github.com/denodev/typedoc-deno-theme) 主题和 [typedoc-plugin-deno](https://github.com/denodev/typedoc-plugin-deno) 插件，为文档提供了中英文对照功能。",
  "",
  "## 实用命令",
  "",
  "- \x60yarn format\x60: 整理文件格式。所有文件格式均使用 prettier 的默认配置。如果没有特殊必要，你基本上不需要手动运行此命令。当 \x60git commit\x60 的时候此命令会自动运行。",
  "- \x60yarn build\x60: 生成 typedoc 文件。你可以通过在浏览器中打开 \x60./typedoc/index.html\x60 来预览最终的生成效果。",
  "",
  "## 参与翻译",
  "",
  "翻译规范请参阅[中文文案排版指北](https://github.com/sparanoid/chinese-copywriting-guidelines)",
  "",
  "- [参与翻译](https://github.com/denodev/typedoc/issues/4)",
  "- [翻译进度](https://github.com/denodev/typedoc/issues/6)",
  "",
  "## 版权许可",
  "",
  "本文档采用 [CC BY-NC 4.0](https://creativecommons.org/licenses/by-nc/4.0/deed.zh) 许可协议。"
]

def readmeLines : List String :=
  readmeLinesC0
/- Character and line utilities used to state structural properties of the
   embedded declaration files. -/

def chIsBlank (c : Char) : Bool := c == ' ' || c == '\t'

def chIsWs (c : Char) : Bool := c == ' ' || c == '\t' || c == '\n' || c == '\r'

def openBraceChar : Char := Char.ofNat 123

def closeBraceChar : Char := Char.ofNat 125

def trimL (l : List Char) : List Char := l.dropWhile chIsBlank

def trimBoth (l : List Char) : List Char := ((trimL l).reverse.dropWhile chIsBlank).reverse

/- leadsWith pat l : does l start with pat? -/
def leadsWith : List Char → List Char → Bool
  | [], _ => true
  | _ :: _, [] => false
  | p :: ps, c :: cs => p == c && leadsWith ps cs

/- afterLead pat l : the remainder of l after the leading pat, when l starts with pat. -/
def afterLead : List Char → List Char → Option (List Char)
  | [], l => some l
  | _ :: _, [] => none
  | p :: ps, c :: cs => if p == c then afterLead ps cs else none

/- containsSub pat l : does pat occur as a contiguous substring of l? -/
def containsSub (pat : List Char) : List Char → Bool
  | [] => leadsWith pat []
  | c :: rest => if leadsWith pat (c :: rest) then true else containsSub pat rest

def lineHas (pat l : String) : Bool := containsSub pat.data l.data

/- afterPat pat l : the remainder of l after the first occurrence of pat, if any. -/
def afterPat (pat : List Char) : List Char → Option (List Char)
  | [] => none
  | c :: rest =>
    match afterLead pat (c :: rest) with
    | some r => some r
    | none => afterPat pat rest

/- beforePat pat l : the prefix of l before the first occurrence of pat
   (the whole of l when pat does not occur). -/
def beforePat (pat : List Char) : List Char → List Char
  | [] => []
  | c :: rest =>
    if leadsWith pat (c :: rest) then []
    else c :: beforePat pat rest

/- Specialised substring tests for the three markers the comment layout uses;
   each is the substring test for its fixed pattern, written as a direct
   character-pattern scan. -/

/- Does the line contain the doc-comment opening marker (slash star star)? -/
def hasOpenDoc : List Char → Bool
  | '/' :: '*' :: '*' :: _ => true
  | _ :: r => hasOpenDoc r
  | [] => false

/- Does the line contain the comment closing marker (star slash)? -/
def hasCloseDoc : List Char → Bool
  | '*' :: '/' :: _ => true
  | _ :: r => hasCloseDoc r
  | [] => false

/- Does the line contain the i18n tag marker? -/
def hasTagI18n : List Char → Bool
  | '@' :: 'i' :: '1' :: '8' :: 'n' :: _ => true
  | _ :: r => hasTagI18n r
  | [] => false

/- The rest of the line after the first i18n tag marker, if any. -/
def afterTagI18n : List Char → Option (List Char)
  | '@' :: 'i' :: '1' :: '8' :: 'n' :: r => some r
  | _ :: r => afterTagI18n r
  | [] => none

/- The prefix of the line before the comment closing marker (the whole line
   when the marker does not occur). -/
def beforeCloseDoc : List Char → List Char
  | '*' :: '/' :: _ => []
  | c :: r => c :: beforeCloseDoc r
  | [] => []

def lineOpensDoc (l : String) : Bool := hasOpenDoc l.data

def lineClosesDoc (l : String) : Bool := hasCloseDoc l.data

/- Doc-comment blocks of a file, line-based: a block opens at a line containing
   an opening doc-comment marker and runs to the first line containing the
   closing marker (possibly the same line).  Mirrors the comment layout of the
   two declaration files, where doc comments never share a line with code. -/
def docBlocksAux : List String → Option (List String) → List (List String)
  | [], _ => []
  | l :: ls, none =>
    if lineOpensDoc l then
      if lineClosesDoc l then [l] :: docBlocksAux ls none
      else docBlocksAux ls (some [l])
    else docBlocksAux ls none
  | l :: ls, some acc =>
    if lineClosesDoc l then (l :: acc).reverse :: docBlocksAux ls none
    else docBlocksAux ls (some (l :: acc))

def docBlocks (lines : List String) : List (List String) := docBlocksAux lines none

/- The lines of a file that are not part of any doc-comment block. -/
def codeLinesAux : List String → Bool → List String
  | [], _ => []
  | l :: ls, false =>
    if lineOpensDoc l then
      if lineClosesDoc l then codeLinesAux ls false
      else codeLinesAux ls true
    else l :: codeLinesAux ls false
  | l :: ls, true =>
    if lineClosesDoc l then codeLinesAux ls false
    else codeLinesAux ls true

def codeLines (lines : List String) : List String := codeLinesAux lines false

/- The body text of one line of a doc comment: leading blanks and asterisks and
   the closing marker removed, then trimmed. -/
def commentBody (l : List Char) : List Char :=
  trimBoth (beforeCloseDoc ((trimL l).dropWhile (· == '*')))

/- Does every i18n tag of a doc-comment block carry non-empty text?  The text of
   a tag is the rest of its line after the tag; when that is blank the tag's
   text continues on the following line of the block. -/
def i18nAllNonEmpty : List String → Bool
  | [] => true
  | l :: ls =>
    if (match afterTagI18n l.data with
        | none => true
        | some rest =>
          if (trimBoth (beforeCloseDoc rest)).isEmpty then
            match ls with
            | [] => false
            | l2 :: _ => !(commentBody l2.data).isEmpty
          else true) then
      i18nAllNonEmpty ls
    else false

/- A doc-comment block counts as translated when it carries an i18n annotation
   and every such annotation has non-empty text. -/
def blockTranslated (b : List String) : Bool :=
  b.any (fun l => hasTagI18n l.data) && i18nAllNonEmpty b

/- Does a doc-comment block contain any CJK (Chinese) character? -/
def hasCJK (b : List String) : Bool :=
  b.any (fun l => l.data.any (fun c => 19968 ≤ c.toNat && c.toNat ≤ 40959))

/- scanLine st l : strip comments from one line of source text, st saying
   whether the line starts inside a block comment; returns the comment-free
   text of the line and whether the next line starts inside a block comment. -/
def scanLine : Bool → List Char → List Char × Bool
  | true, [] => ([], true)
  | true, '*' :: '/' :: r => scanLine false r
  | true, _ :: r => scanLine true r
  | false, [] => ([], false)
  | false, '/' :: '/' :: _ => ([], false)
  | false, '/' :: '*' :: r => scanLine true r
  | false, c :: r =>
    match scanLine false r with
    | (cs, st) => (c :: cs, st)


/- Within one line of comment-free code: some closing parenthesis is followed,
   up to blanks, by an opening brace. -/
def closeParenBrace : List Char → Bool
  | [] => false
  | c :: r =>
    if c == ')' then
      match r.dropWhile chIsBlank with
      | c2 :: _ => if c2 == openBraceChar then true else closeParenBrace r
      | [] => closeParenBrace r
    else closeParenBrace r

def endsCloseParen (l : List Char) : Bool :=
  match (trimBoth l).reverse with
  | c :: _ => c == ')'
  | [] => false

def beginsOpenBrace (l : List Char) : Bool :=
  match trimL l with
  | c :: _ => c == openBraceChar
  | [] => false

/- braceLineScan stk l : thread a unary brace-depth stack through one line of
   comment-free code; none when a closing brace arrives with an empty stack. -/
def braceLineScan : List Unit → List Char → Option (List Unit)
  | stk, [] => some stk
  | stk, c :: r =>
    if c == openBraceChar then braceLineScan (() :: stk) r
    else if c == closeBraceChar then
      match stk with
      | [] => none
      | _ :: stk2 => braceLineScan stk2 r
    else braceLineScan stk r

/- A variable declaration line of the comment-free code (let, const or var). -/
def isVarDeclLine (l : List Char) : Bool :=
  let t := trimL l
  leadsWith "export let ".data t || leadsWith "export const ".data t ||
  leadsWith "export var ".data t || leadsWith "let ".data t ||
  leadsWith "const ".data t || leadsWith "var ".data t

/- The phase of the single-ambient-namespace scan: before the namespace header,
   inside the namespace body with the current brace stack, after the closing
   brace, or failed. -/
inductive NsPhase
  | beforeNs
  | inNs (stk : List Unit)
  | closedNs
  | badNs
deriving DecidableEq

/- The namespace header line of both declaration files. -/
def nsHeader : List Char := "declare namespace Deno ".data ++ [openBraceChar]

/- One line of comment-free code advances the namespace scan: the first
   non-blank line must be the header; inside the body the brace stack is
   threaded, and it must empty exactly at a line reading the closing brace;
   after that only blank lines may follow. -/
def nsPhaseStep : NsPhase → List Char → NsPhase
  | .beforeNs, cs =>
    if (trimBoth cs).isEmpty then .beforeNs
    else if trimBoth cs == nsHeader then .inNs [()]
    else .badNs
  | .inNs stk, cs =>
    match braceLineScan stk cs with
    | none => .badNs
    | some [] =>
      if trimBoth cs == [closeBraceChar] then .closedNs else .badNs
    | some stk2 => .inNs stk2
  | .closedNs, cs => if (trimBoth cs).isEmpty then .closedNs else .badNs
  | .badNs, _ => .badNs

/- The combined purely-declarative scan over one line of the file: comments are
   stripped by scanLine, and the comment-free text advances three checks at
   once — no closing parenthesis followed by an opening brace (no declaration
   body), no let/const/var initializer, and the single-ambient-namespace
   phase.  The state is (in-block-comment, previous code line ended in a
   closing parenthesis, body-free so far, initializer-free so far, phase). -/
def declScanStep (s : Bool × Bool × Bool × Bool × NsPhase) (l : String) :
    Bool × Bool × Bool × Bool × NsPhase :=
  match s with
  | (st, pending, okBody, okInit, ph) =>
    match scanLine st l.data with
    | (cs, st2) =>
      (st2,
       if (trimBoth cs).isEmpty then pending else endsCloseParen cs,
       okBody && !(pending && beginsOpenBrace cs) && !(closeParenBrace cs),
       okInit && (!(isVarDeclLine cs) || !(cs.contains '=')),
       nsPhaseStep ph cs)

/- The initial state of the purely-declarative scan. -/
def declScanInit : Bool × Bool × Bool × Bool × NsPhase :=
  (false, false, true, true, .beforeNs)

/- The comment-free code of the file is a single ambient namespace block: its
   first non-blank line opens `declare namespace Deno`, and the block's braces
   close exactly at the final closing-brace line of the file. -/
def singleAmbientNs (ls : List String) : Bool :=
  (List.foldl declScanStep declScanInit ls).2.2.2.2 == NsPhase.closedNs

/- Does the given pattern occur on some line of the file? -/
def linesAnyHas (pat : String) : List String → Bool
  | [] => false
  | l :: ls => if lineHas pat l then true else linesAnyHas pat ls

/- Does some line of the file carry the i18n tag marker? -/
def linesAnyI18n : List String → Bool
  | [] => false
  | l :: ls => if hasTagI18n l.data then true else linesAnyI18n ls

def identChar (c : Char) : Bool := c.isAlpha || c.isDigit || c == '_'

/- The exported member declared by a code line of the namespace body, as a pair
   of its declaration-kind keyword and its name, when the line opens such a
   declaration at the namespace's indentation. -/
def exportDecl (l : String) : Option (String × String) :=
  match afterLead "  export ".data l.data with
  | none => none
  | some r =>
    let kind := r.takeWhile identChar
    let rest := (r.drop kind.length).dropWhile chIsBlank
    some (String.mk kind, String.mk (rest.takeWhile identChar))

/- All exported members of a declaration file, in declaration order. -/
def membersOf (ls : List String) : List (String × String) :=
  (codeLines ls).filterMap exportDecl

/- takeEnumBody: the trimmed lines of an enum body up to its closing brace. -/
def takeEnumBody : List String → List String
  | [] => []
  | l :: ls =>
    if trimBoth l.data == [closeBraceChar] then []
    else String.mk (trimBoth l.data) :: takeEnumBody ls

def enumHeaderOf (name : String) : List Char :=
  ("export enum " ++ name ++ " ").data ++ [openBraceChar]

def enumLinesOfAux (h : List Char) : List String → Option (List String)
  | [] => none
  | l :: ls =>
    if trimBoth l.data == h then some (takeEnumBody ls)
    else enumLinesOfAux h ls

/- The trimmed member lines of the named enum's body in a declaration file. -/
def enumLinesOf (name : String) (ls : List String) : Option (List String) :=
  enumLinesOfAux (enumHeaderOf name) ls
/- The four doc-comment blocks of the bilingual file that carry no i18n
   annotation at all (left untranslated in the source). -/
def untranslatedBlocks : List (List String) :=
  [["  /** **UNSTABLE** */"],
   ["  /** **UNSTABLE**: might make \x60Reader\x60 into iterator of some sort. */"],
   ["    /** Return the address of the \x60UDPConn\x60. */"],
   ["  /** **UNSTABLE**: not sure if broken or not */"]]

/- A doc-comment block passes the amended translation-completeness check when
   it is translated or is one of the four untranslated blocks. -/
def blockOk (b : List String) : Bool :=
  blockTranslated b || untranslatedBlocks.contains b

/- The declaration kinds the specification enumerates for namespace members. -/
def specMemberKinds : List String := ["interface", "enum", "function", "type"]

/- The declaration kinds the two files actually use for namespace members. -/
def actualMemberKinds : List String :=
  ["let", "const", "interface", "class", "enum", "type", "function"]

/- Is the member's declaration kind among the kinds the files actually use? -/
def kindOk (m : String × String) : Bool := actualMemberKinds.contains m.1

/- Is the member the bilingual file's `interface ReaderSync`? -/
def isRS (m : String × String) : Bool := m == ("interface", "ReaderSync")

/- Is the member the published file's `interface SyncReader`? -/
def isSR (m : String × String) : Bool := m == ("interface", "SyncReader")
/- Fold-based scanners: each threads the state of one of the extractors above
   through a left fold over the file's lines, together with lemmas identifying
   the fold's result with the corresponding composed form.  The composed forms
   state the properties; the folds let them be evaluated chunk by chunk. -/

def blocksStep (p : List String → Bool) :
    Option (List String) × Bool → String → Option (List String) × Bool
  | (none, ok), l =>
    if lineOpensDoc l then
      if lineClosesDoc l then (none, ok && p [l])
      else (some [l], ok)
    else (none, ok)
  | (some acc, ok), l =>
    if lineClosesDoc l then (none, ok && p ((l :: acc).reverse))
    else (some (l :: acc), ok)

theorem blocksStep_foldl (p : List String → Bool) :
    ∀ (ls : List String) (acc : Option (List String)) (ok : Bool),
      (List.foldl (blocksStep p) (acc, ok) ls).2 =
        (ok && (docBlocksAux ls acc).all p)
  | [], none, ok => by simp [docBlocksAux]
  | [], some _, ok => by simp [docBlocksAux]
  | l :: ls, none, ok => by
    by_cases h1 : lineOpensDoc l
    · by_cases h2 : lineClosesDoc l
      · simp [blocksStep, h1, h2, docBlocksAux, Bool.and_assoc,
          blocksStep_foldl p ls none (ok && p [l])]
      · simp [blocksStep, h1, h2, docBlocksAux,
          blocksStep_foldl p ls (some [l]) ok]
    · simp [blocksStep, h1, docBlocksAux, blocksStep_foldl p ls none ok]
  | l :: ls, some acc, ok => by
    by_cases h2 : lineClosesDoc l
    · simp [blocksStep, h2, docBlocksAux, Bool.and_assoc,
        blocksStep_foldl p ls none (ok && p (acc.reverse ++ [l]))]
    · simp [blocksStep, h2, docBlocksAux,
        blocksStep_foldl p ls (some (l :: acc)) ok]

/- The combined member scan: in one pass over the file's lines it tracks the
   doc-comment state and, at every exported member, whether all member kinds
   seen so far are allowed, how many members were seen, and whether the two
   version-marker interfaces were seen. -/
def memScanStep (s : Bool × Bool × Nat × Bool × Bool) (l : String) :
    Bool × Bool × Nat × Bool × Bool :=
  match s with
  | (true, ok, n, a, b) =>
    (if lineClosesDoc l then false else true, ok, n, a, b)
  | (false, ok, n, a, b) =>
    if lineOpensDoc l then
      (if lineClosesDoc l then false else true, ok, n, a, b)
    else
      match exportDecl l with
      | some m => (false, ok && kindOk m, n + 1, a || isRS m, b || isSR m)
      | none => (false, ok, n, a, b)

theorem memScan_all :
    ∀ (ls : List String) (st ok : Bool) (n : Nat) (a b : Bool),
      (List.foldl memScanStep (st, ok, n, a, b) ls).2.1 =
        (ok && ((codeLinesAux ls st).filterMap exportDecl).all kindOk)
  | [], false, ok, n, a, b => by simp [codeLinesAux]
  | [], true, ok, n, a, b => by simp [codeLinesAux]
  | l :: ls, true, ok, n, a, b => by
    by_cases h2 : lineClosesDoc l
    · simp [memScanStep, h2, codeLinesAux, memScan_all ls false ok n a b]
    · simp [memScanStep, h2, codeLinesAux, memScan_all ls true ok n a b]
  | l :: ls, false, ok, n, a, b => by
    by_cases h1 : lineOpensDoc l
    · by_cases h2 : lineClosesDoc l
      · simp [memScanStep, h1, h2, codeLinesAux, memScan_all ls false ok n a b]
      · simp [memScanStep, h1, h2, codeLinesAux, memScan_all ls true ok n a b]
    · cases hE : exportDecl l with
      | some m =>
        simp [memScanStep, h1, hE, codeLinesAux, List.filterMap_cons,
          Bool.and_assoc,
          memScan_all ls false (ok && kindOk m) (n + 1) (a || isRS m)
            (b || isSR m)]
      | none =>
        simp [memScanStep, h1, hE, codeLinesAux, List.filterMap_cons,
          memScan_all ls false ok n a b]

theorem memScan_count :
    ∀ (ls : List String) (st ok : Bool) (n : Nat) (a b : Bool),
      (List.foldl memScanStep (st, ok, n, a, b) ls).2.2.1 =
        n + ((codeLinesAux ls st).filterMap exportDecl).length
  | [], false, ok, n, a, b => by simp [codeLinesAux]
  | [], true, ok, n, a, b => by simp [codeLinesAux]
  | l :: ls, true, ok, n, a, b => by
    by_cases h2 : lineClosesDoc l
    · simp [memScanStep, h2, codeLinesAux, memScan_count ls false ok n a b]
    · simp [memScanStep, h2, codeLinesAux, memScan_count ls true ok n a b]
  | l :: ls, false, ok, n, a, b => by
    by_cases h1 : lineOpensDoc l
    · by_cases h2 : lineClosesDoc l
      · simp [memScanStep, h1, h2, codeLinesAux, memScan_count ls false ok n a b]
      · simp [memScanStep, h1, h2, codeLinesAux, memScan_count ls true ok n a b]
    · cases hE : exportDecl l with
      | some m =>
        simp [memScanStep, h1, hE, codeLinesAux, List.filterMap_cons,
          memScan_count ls false (ok && kindOk m) (n + 1) (a || isRS m)
            (b || isSR m)]
        omega
      | none =>
        simp [memScanStep, h1, hE, codeLinesAux, List.filterMap_cons,
          memScan_count ls false ok n a b]

theorem memScan_anyRS :
    ∀ (ls : List String) (st ok : Bool) (n : Nat) (a b : Bool),
      (List.foldl memScanStep (st, ok, n, a, b) ls).2.2.2.1 =
        (a || ((codeLinesAux ls st).filterMap exportDecl).any isRS)
  | [], false, ok, n, a, b => by simp [codeLinesAux]
  | [], true, ok, n, a, b => by simp [codeLinesAux]
  | l :: ls, true, ok, n, a, b => by
    by_cases h2 : lineClosesDoc l
    · simp [memScanStep, h2, codeLinesAux, memScan_anyRS ls false ok n a b]
    · simp [memScanStep, h2, codeLinesAux, memScan_anyRS ls true ok n a b]
  | l :: ls, false, ok, n, a, b => by
    by_cases h1 : lineOpensDoc l
    · by_cases h2 : lineClosesDoc l
      · simp [memScanStep, h1, h2, codeLinesAux, memScan_anyRS ls false ok n a b]
      · simp [memScanStep, h1, h2, codeLinesAux, memScan_anyRS ls true ok n a b]
    · cases hE : exportDecl l with
      | some m =>
        simp [memScanStep, h1, hE, codeLinesAux, List.filterMap_cons,
          Bool.or_assoc,
          memScan_anyRS ls false (ok && kindOk m) (n + 1) (a || isRS m)
            (b || isSR m)]
      | none =>
        simp [memScanStep, h1, hE, codeLinesAux, List.filterMap_cons,
          memScan_anyRS ls false ok n a b]

theorem memScan_anySR :
    ∀ (ls : List String) (st ok : Bool) (n : Nat) (a b : Bool),
      (List.foldl memScanStep (st, ok, n, a, b) ls).2.2.2.2 =
        (b || ((codeLinesAux ls st).filterMap exportDecl).any isSR)
  | [], false, ok, n, a, b => by simp [codeLinesAux]
  | [], true, ok, n, a, b => by simp [codeLinesAux]
  | l :: ls, true, ok, n, a, b => by
    by_cases h2 : lineClosesDoc l
    · simp [memScanStep, h2, codeLinesAux, memScan_anySR ls false ok n a b]
    · simp [memScanStep, h2, codeLinesAux, memScan_anySR ls true ok n a b]
  | l :: ls, false, ok, n, a, b => by
    by_cases h1 : lineOpensDoc l
    · by_cases h2 : lineClosesDoc l
      · simp [memScanStep, h1, h2, codeLinesAux, memScan_anySR ls false ok n a b]
      · simp [memScanStep, h1, h2, codeLinesAux, memScan_anySR ls true ok n a b]
    · cases hE : exportDecl l with
      | some m =>
        simp [memScanStep, h1, hE, codeLinesAux, List.filterMap_cons,
          Bool.or_assoc,
          memScan_anySR ls false (ok && kindOk m) (n + 1) (a || isRS m)
            (b || isSR m)]
      | none =>
        simp [memScanStep, h1, hE, codeLinesAux, List.filterMap_cons,
          memScan_anySR ls false ok n a b]

/- The i18n-marker scan: has any line so far carried the i18n tag marker? -/
def i18nSeenStep (f : Bool) (l : String) : Bool := f || hasTagI18n l.data

theorem i18nSeenStep_foldl :
    ∀ (ls : List String) (f : Bool),
      List.foldl i18nSeenStep f ls = (f || linesAnyI18n ls)
  | [], f => by simp [linesAnyI18n]
  | l :: ls, f => by
    by_cases h : hasTagI18n l.data
    · simp [i18nSeenStep, linesAnyI18n, h, i18nSeenStep_foldl ls true]
    · simp [i18nSeenStep, linesAnyI18n, h, i18nSeenStep_foldl ls f]
/- Chunk-by-chunk evaluations of the folds over the two embedded declaration
   files.  Each chunk lemma evaluates one fold over one chunk of lines by rfl
   (the chunk boundaries all fall outside doc-comment blocks and at namespace
   depth one, so every intermediate state is a small literal); the full-file
   lemmas then chain the chunk lemmas by rewriting, without re-evaluating
   anything. -/

theorem bilMemChunk0 :
    List.foldl memScanStep ((false : Bool), true, (0 : Nat), false, false) bilingualLinesC0 = ((false : Bool), true, (10 : Nat), false, false) := rfl

theorem bilMemChunk1 :
    List.foldl memScanStep ((false : Bool), true, (10 : Nat), false, false) bilingualLinesC1 = ((false : Bool), true, (16 : Nat), false, false) := rfl

theorem bilMemChunk2 :
    List.foldl memScanStep ((false : Bool), true, (16 : Nat), false, false) bilingualLinesC2 = ((false : Bool), true, (30 : Nat), true, false) := rfl

theorem bilMemChunk3 :
    List.foldl memScanStep ((false : Bool), true, (30 : Nat), true, false) bilingualLinesC3 = ((false : Bool), true, (48 : Nat), true, false) := rfl

theorem bilMemChunk4 :
    List.foldl memScanStep ((false : Bool), true, (48 : Nat), true, false) bilingualLinesC4 = ((false : Bool), true, (60 : Nat), true, false) := rfl

theorem bilMemChunk5 :
    List.foldl memScanStep ((false : Bool), true, (60 : Nat), true, false) bilingualLinesC5 = ((false : Bool), true, (70 : Nat), true, false) := rfl

theorem bilMemChunk6 :
    List.foldl memScanStep ((false : Bool), true, (70 : Nat), true, false) bilingualLinesC6 = ((false : Bool), true, (81 : Nat), true, false) := rfl

theorem bilMemChunk7 :
    List.foldl memScanStep ((false : Bool), true, (81 : Nat), true, false) bilingualLinesC7 = ((false : Bool), true, (90 : Nat), true, false) := rfl

theorem bilMemChunk8 :
    List.foldl memScanStep ((false : Bool), true, (90 : Nat), true, false) bilingualLinesC8 = ((false : Bool), true, (104 : Nat), true, false) := rfl

theorem bilMemChunk9 :
    List.foldl memScanStep ((false : Bool), true, (104 : Nat), true, false) bilingualLinesC9 = ((false : Bool), true, (113 : Nat), true, false) := rfl

theorem bilMemChunk10 :
    List.foldl memScanStep ((false : Bool), true, (113 : Nat), true, false) bilingualLinesC10 = ((false : Bool), true, (129 : Nat), true, false) := rfl

theorem bilMemChunk11 :
    List.foldl memScanStep ((false : Bool), true, (129 : Nat), true, false) bilingualLinesC11 = ((false : Bool), true, (144 : Nat), true, false) := rfl

theorem bilMemChunk12 :
    List.foldl memScanStep ((false : Bool), true, (144 : Nat), true, false) bilingualLinesC12 = ((false : Bool), true, (150 : Nat), true, false) := rfl

theorem bilMemChunk13 :
    List.foldl memScanStep ((false : Bool), true, (150 : Nat), true, false) bilingualLinesC13 = ((false : Bool), true, (162 : Nat), true, false) := rfl

theorem bilMemChunk14 :
    List.foldl memScanStep ((false : Bool), true, (162 : Nat), true, false) bilingualLinesC14 = ((false : Bool), true, (168 : Nat), true, false) := rfl

theorem bilMemChunk15 :
    List.foldl memScanStep ((false : Bool), true, (168 : Nat), true, false) bilingualLinesC15 = ((false : Bool), true, (171 : Nat), true, false) := rfl

/- Full member scan of the bilingual file. -/
theorem bilingualMemScan :
    List.foldl memScanStep ((false : Bool), true, (0 : Nat), false, false) bilingualLines = ((false : Bool), true, (171 : Nat), true, false) := by
  rw [show bilingualLines = bilingualLinesC0 ++ (bilingualLinesC1 ++ (bilingualLinesC2 ++ (bilingualLinesC3 ++ (bilingualLinesC4 ++ (bilingualLinesC5 ++ (bilingualLinesC6 ++ (bilingualLinesC7 ++ (bilingualLinesC8 ++ (bilingualLinesC9 ++ (bilingualLinesC10 ++ (bilingualLinesC11 ++ (bilingualLinesC12 ++ (bilingualLinesC13 ++ (bilingualLinesC14 ++ (bilingualLinesC15))))))))))))))) from rfl]
  rw [List.foldl_append, bilMemChunk0]
  rw [List.foldl_append, bilMemChunk1]
  rw [List.foldl_append, bilMemChunk2]
  rw [List.foldl_append, bilMemChunk3]
  rw [List.foldl_append, bilMemChunk4]
  rw [List.foldl_append, bilMemChunk5]
  rw [List.foldl_append, bilMemChunk6]
  rw [List.foldl_append, bilMemChunk7]
  rw [List.foldl_append, bilMemChunk8]
  rw [List.foldl_append, bilMemChunk9]
  rw [List.foldl_append, bilMemChunk10]
  rw [List.foldl_append, bilMemChunk11]
  rw [List.foldl_append, bilMemChunk12]
  rw [List.foldl_append, bilMemChunk13]
  rw [List.foldl_append, bilMemChunk14]
  exact bilMemChunk15

theorem pubMemChunk0 :
    List.foldl memScanStep ((false : Bool), true, (0 : Nat), false, false) publishedLinesC0 = ((false : Bool), true, (14 : Nat), false, false) := rfl

theorem pubMemChunk1 :
    List.foldl memScanStep ((false : Bool), true, (14 : Nat), false, false) publishedLinesC1 = ((false : Bool), true, (19 : Nat), false, false) := rfl

theorem pubMemChunk2 :
    List.foldl memScanStep ((false : Bool), true, (19 : Nat), false, false) publishedLinesC2 = ((false : Bool), true, (42 : Nat), false, true) := rfl

theorem pubMemChunk3 :
    List.foldl memScanStep ((false : Bool), true, (42 : Nat), false, true) publishedLinesC3 = ((false : Bool), true, (57 : Nat), false, true) := rfl

theorem pubMemChunk4 :
    List.foldl memScanStep ((false : Bool), true, (57 : Nat), false, true) publishedLinesC4 = ((false : Bool), true, (69 : Nat), false, true) := rfl

theorem pubMemChunk5 :
    List.foldl memScanStep ((false : Bool), true, (69 : Nat), false, true) publishedLinesC5 = ((false : Bool), true, (83 : Nat), false, true) := rfl

theorem pubMemChunk6 :
    List.foldl memScanStep ((false : Bool), true, (83 : Nat), false, true) publishedLinesC6 = ((false : Bool), true, (97 : Nat), false, true) := rfl

theorem pubMemChunk7 :
    List.foldl memScanStep ((false : Bool), true, (97 : Nat), false, true) publishedLinesC7 = ((false : Bool), true, (110 : Nat), false, true) := rfl

theorem pubMemChunk8 :
    List.foldl memScanStep ((false : Bool), true, (110 : Nat), false, true) publishedLinesC8 = ((false : Bool), true, (126 : Nat), false, true) := rfl

theorem pubMemChunk9 :
    List.foldl memScanStep ((false : Bool), true, (126 : Nat), false, true) publishedLinesC9 = ((false : Bool), true, (144 : Nat), false, true) := rfl

theorem pubMemChunk10 :
    List.foldl memScanStep ((false : Bool), true, (144 : Nat), false, true) publishedLinesC10 = ((false : Bool), true, (151 : Nat), false, true) := rfl

theorem pubMemChunk11 :
    List.foldl memScanStep ((false : Bool), true, (151 : Nat), false, true) publishedLinesC11 = ((false : Bool), true, (162 : Nat), false, true) := rfl

theorem pubMemChunk12 :
    List.foldl memScanStep ((false : Bool), true, (162 : Nat), false, true) publishedLinesC12 = ((false : Bool), true, (170 : Nat), false, true) := rfl

theorem pubMemChunk13 :
    List.foldl memScanStep ((false : Bool), true, (170 : Nat), false, true) publishedLinesC13 = ((false : Bool), true, (171 : Nat), false, true) := rfl

/- Full member scan of the published file. -/
theorem publishedMemScan :
    List.foldl memScanStep ((false : Bool), true, (0 : Nat), false, false) publishedLines = ((false : Bool), true, (171 : Nat), false, true) := by
  rw [show publishedLines = publishedLinesC0 ++ (publishedLinesC1 ++ (publishedLinesC2 ++ (publishedLinesC3 ++ (publishedLinesC4 ++ (publishedLinesC5 ++ (publishedLinesC6 ++ (publishedLinesC7 ++ (publishedLinesC8 ++ (publishedLinesC9 ++ (publishedLinesC10 ++ (publishedLinesC11 ++ (publishedLinesC12 ++ (publishedLinesC13))))))))))))) from rfl]
  rw [List.foldl_append, pubMemChunk0]
  rw [List.foldl_append, pubMemChunk1]
  rw [List.foldl_append, pubMemChunk2]
  rw [List.foldl_append, pubMemChunk3]
  rw [List.foldl_append, pubMemChunk4]
  rw [List.foldl_append, pubMemChunk5]
  rw [List.foldl_append, pubMemChunk6]
  rw [List.foldl_append, pubMemChunk7]
  rw [List.foldl_append, pubMemChunk8]
  rw [List.foldl_append, pubMemChunk9]
  rw [List.foldl_append, pubMemChunk10]
  rw [List.foldl_append, pubMemChunk11]
  rw [List.foldl_append, pubMemChunk12]
  exact pubMemChunk13

theorem bilDeclChunk0 :
    List.foldl declScanStep declScanInit bilingualLinesC0 = ((false : Bool), false, true, true, NsPhase.inNs [()]) := rfl

theorem bilDeclChunk1 :
    List.foldl declScanStep ((false : Bool), false, true, true, NsPhase.inNs [()]) bilingualLinesC1 = ((false : Bool), false, true, true, NsPhase.inNs [()]) := rfl

theorem bilDeclChunk2 :
    List.foldl declScanStep ((false : Bool), false, true, true, NsPhase.inNs [()]) bilingualLinesC2 = ((false : Bool), false, true, true, NsPhase.inNs [()]) := rfl

theorem bilDeclChunk3 :
    List.foldl declScanStep ((false : Bool), false, true, true, NsPhase.inNs [()]) bilingualLinesC3 = ((false : Bool), false, true, true, NsPhase.inNs [()]) := rfl

theorem bilDeclChunk4 :
    List.foldl declScanStep ((false : Bool), false, true, true, NsPhase.inNs [()]) bilingualLinesC4 = ((false : Bool), false, true, true, NsPhase.inNs [()]) := rfl

theorem bilDeclChunk5 :
    List.foldl declScanStep ((false : Bool), false, true, true, NsPhase.inNs [()]) bilingualLinesC5 = ((false : Bool), false, true, true, NsPhase.inNs [()]) := rfl

theorem bilDeclChunk6 :
    List.foldl declScanStep ((false : Bool), false, true, true, NsPhase.inNs [()]) bilingualLinesC6 = ((false : Bool), false, true, true, NsPhase.inNs [()]) := rfl

theorem bilDeclChunk7 :
    List.foldl declScanStep ((false : Bool), false, true, true, NsPhase.inNs [()]) bilingualLinesC7 = ((false : Bool), false, true, true, NsPhase.inNs [()]) := rfl

theorem bilDeclChunk8 :
    List.foldl declScanStep ((false : Bool), false, true, true, NsPhase.inNs [()]) bilingualLinesC8 = ((false : Bool), false, true, true, NsPhase.inNs [()]) := rfl

theorem bilDeclChunk9 :
    List.foldl declScanStep ((false : Bool), false, true, true, NsPhase.inNs [()]) bilingualLinesC9 = ((false : Bool), false, true, true, NsPhase.inNs [()]) := rfl

theorem bilDeclChunk10 :
    List.foldl declScanStep ((false : Bool), false, true, true, NsPhase.inNs [()]) bilingualLinesC10 = ((false : Bool), false, true, true, NsPhase.inNs [()]) := rfl

theorem bilDeclChunk11 :
    List.foldl declScanStep ((false : Bool), false, true, true, NsPhase.inNs [()]) bilingualLinesC11 = ((false : Bool), false, true, true, NsPhase.inNs [()]) := rfl

theorem bilDeclChunk12 :
    List.foldl declScanStep ((false : Bool), false, true, true, NsPhase.inNs [()]) bilingualLinesC12 = ((false : Bool), false, true, true, NsPhase.inNs [()]) := rfl

theorem bilDeclChunk13 :
    List.foldl declScanStep ((false : Bool), false, true, true, NsPhase.inNs [()]) bilingualLinesC13 = ((false : Bool), false, true, true, NsPhase.inNs [()]) := rfl

theorem bilDeclChunk14 :
    List.foldl declScanStep ((false : Bool), false, true, true, NsPhase.inNs [()]) bilingualLinesC14 = ((false : Bool), false, true, true, NsPhase.inNs [()]) := rfl

theorem bilDeclChunk15 :
    List.foldl declScanStep ((false : Bool), false, true, true, NsPhase.inNs [()]) bilingualLinesC15 = ((false : Bool), false, true, true, NsPhase.closedNs) := rfl

/- Full declaration-purity scan of the bilingual file. -/
theorem bilingualDeclScan :
    List.foldl declScanStep declScanInit bilingualLines = ((false : Bool), false, true, true, NsPhase.closedNs) := by
  rw [show bilingualLines = bilingualLinesC0 ++ (bilingualLinesC1 ++ (bilingualLinesC2 ++ (bilingualLinesC3 ++ (bilingualLinesC4 ++ (bilingualLinesC5 ++ (bilingualLinesC6 ++ (bilingualLinesC7 ++ (bilingualLinesC8 ++ (bilingualLinesC9 ++ (bilingualLinesC10 ++ (bilingualLinesC11 ++ (bilingualLinesC12 ++ (bilingualLinesC13 ++ (bilingualLinesC14 ++ (bilingualLinesC15))))))))))))))) from rfl]
  rw [List.foldl_append, bilDeclChunk0]
  rw [List.foldl_append, bilDeclChunk1]
  rw [List.foldl_append, bilDeclChunk2]
  rw [List.foldl_append, bilDeclChunk3]
  rw [List.foldl_append, bilDeclChunk4]
  rw [List.foldl_append, bilDeclChunk5]
  rw [List.foldl_append, bilDeclChunk6]
  rw [List.foldl_append, bilDeclChunk7]
  rw [List.foldl_append, bilDeclChunk8]
  rw [List.foldl_append, bilDeclChunk9]
  rw [List.foldl_append, bilDeclChunk10]
  rw [List.foldl_append, bilDeclChunk11]
  rw [List.foldl_append, bilDeclChunk12]
  rw [List.foldl_append, bilDeclChunk13]
  rw [List.foldl_append, bilDeclChunk14]
  exact bilDeclChunk15

theorem pubDeclChunk0 :
    List.foldl declScanStep declScanInit publishedLinesC0 = ((false : Bool), false, true, true, NsPhase.inNs [()]) := rfl

theorem pubDeclChunk1 :
    List.foldl declScanStep ((false : Bool), false, true, true, NsPhase.inNs [()]) publishedLinesC1 = ((false : Bool), false, true, true, NsPhase.inNs [()]) := rfl

theorem pubDeclChunk2 :
    List.foldl declScanStep ((false : Bool), false, true, true, NsPhase.inNs [()]) publishedLinesC2 = ((false : Bool), false, true, true, NsPhase.inNs [()]) := rfl

theorem pubDeclChunk3 :
    List.foldl declScanStep ((false : Bool), false, true, true, NsPhase.inNs [()]) publishedLinesC3 = ((false : Bool), false, true, true, NsPhase.inNs [()]) := rfl

theorem pubDeclChunk4 :
    List.foldl declScanStep ((false : Bool), false, true, true, NsPhase.inNs [()]) publishedLinesC4 = ((false : Bool), false, true, true, NsPhase.inNs [()]) := rfl

theorem pubDeclChunk5 :
    List.foldl declScanStep ((false : Bool), false, true, true, NsPhase.inNs [()]) publishedLinesC5 = ((false : Bool), false, true, true, NsPhase.inNs [()]) := rfl

theorem pubDeclChunk6 :
    List.foldl declScanStep ((false : Bool), false, true, true, NsPhase.inNs [()]) publishedLinesC6 = ((false : Bool), false, true, true, NsPhase.inNs [()]) := rfl

theorem pubDeclChunk7 :
    List.foldl declScanStep ((false : Bool), false, true, true, NsPhase.inNs [()]) publishedLinesC7 = ((false : Bool), false, true, true, NsPhase.inNs [()]) := rfl

theorem pubDeclChunk8 :
    List.foldl declScanStep ((false : Bool), false, true, true, NsPhase.inNs [()]) publishedLinesC8 = ((false : Bool), false, true, true, NsPhase.inNs [()]) := rfl

theorem pubDeclChunk9 :
    List.foldl declScanStep ((false : Bool), false, true, true, NsPhase.inNs [()]) publishedLinesC9 = ((false : Bool), false, true, true, NsPhase.inNs [()]) := rfl

theorem pubDeclChunk10 :
    List.foldl declScanStep ((false : Bool), false, true, true, NsPhase.inNs [()]) publishedLinesC10 = ((false : Bool), false, true, true, NsPhase.inNs [()]) := rfl

theorem pubDeclChunk11 :
    List.foldl declScanStep ((false : Bool), false, true, true, NsPhase.inNs [()]) publishedLinesC11 = ((false : Bool), false, true, true, NsPhase.inNs [()]) := rfl

theorem pubDeclChunk12 :
    List.foldl declScanStep ((false : Bool), false, true, true, NsPhase.inNs [()]) publishedLinesC12 = ((false : Bool), false, true, true, NsPhase.inNs [()]) := rfl

theorem pubDeclChunk13 :
    List.foldl declScanStep ((false : Bool), false, true, true, NsPhase.inNs [()]) publishedLinesC13 = ((false : Bool), false, true, true, NsPhase.closedNs) := rfl

/- Full declaration-purity scan of the published file. -/
theorem publishedDeclScan :
    List.foldl declScanStep declScanInit publishedLines = ((false : Bool), false, true, true, NsPhase.closedNs) := by
  rw [show publishedLines = publishedLinesC0 ++ (publishedLinesC1 ++ (publishedLinesC2 ++ (publishedLinesC3 ++ (publishedLinesC4 ++ (publishedLinesC5 ++ (publishedLinesC6 ++ (publishedLinesC7 ++ (publishedLinesC8 ++ (publishedLinesC9 ++ (publishedLinesC10 ++ (publishedLinesC11 ++ (publishedLinesC12 ++ (publishedLinesC13))))))))))))) from rfl]
  rw [List.foldl_append, pubDeclChunk0]
  rw [List.foldl_append, pubDeclChunk1]
  rw [List.foldl_append, pubDeclChunk2]
  rw [List.foldl_append, pubDeclChunk3]
  rw [List.foldl_append, pubDeclChunk4]
  rw [List.foldl_append, pubDeclChunk5]
  rw [List.foldl_append, pubDeclChunk6]
  rw [List.foldl_append, pubDeclChunk7]
  rw [List.foldl_append, pubDeclChunk8]
  rw [List.foldl_append, pubDeclChunk9]
  rw [List.foldl_append, pubDeclChunk10]
  rw [List.foldl_append, pubDeclChunk11]
  rw [List.foldl_append, pubDeclChunk12]
  exact pubDeclChunk13

theorem bilBlockChunk0 :
    List.foldl (blocksStep blockOk) ((none : Option (List String)), true) bilingualLinesC0 = ((none : Option (List String)), true) := rfl

theorem bilBlockChunk1 :
    List.foldl (blocksStep blockOk) ((none : Option (List String)), true) bilingualLinesC1 = ((none : Option (List String)), true) := rfl

theorem bilBlockChunk2 :
    List.foldl (blocksStep blockOk) ((none : Option (List String)), true) bilingualLinesC2 = ((none : Option (List String)), true) := rfl

theorem bilBlockChunk3 :
    List.foldl (blocksStep blockOk) ((none : Option (List String)), true) bilingualLinesC3 = ((none : Option (List String)), true) := rfl

theorem bilBlockChunk4 :
    List.foldl (blocksStep blockOk) ((none : Option (List String)), true) bilingualLinesC4 = ((none : Option (List String)), true) := rfl

theorem bilBlockChunk5 :
    List.foldl (blocksStep blockOk) ((none : Option (List String)), true) bilingualLinesC5 = ((none : Option (List String)), true) := rfl

theorem bilBlockChunk6 :
    List.foldl (blocksStep blockOk) ((none : Option (List String)), true) bilingualLinesC6 = ((none : Option (List String)), true) := rfl

theorem bilBlockChunk7 :
    List.foldl (blocksStep blockOk) ((none : Option (List String)), true) bilingualLinesC7 = ((none : Option (List String)), true) := rfl

theorem bilBlockChunk8 :
    List.foldl (blocksStep blockOk) ((none : Option (List String)), true) bilingualLinesC8 = ((none : Option (List String)), true) := rfl

theorem bilBlockChunk9 :
    List.foldl (blocksStep blockOk) ((none : Option (List String)), true) bilingualLinesC9 = ((none : Option (List String)), true) := rfl

theorem bilBlockChunk10 :
    List.foldl (blocksStep blockOk) ((none : Option (List String)), true) bilingualLinesC10 = ((none : Option (List String)), true) := rfl

theorem bilBlockChunk11 :
    List.foldl (blocksStep blockOk) ((none : Option (List String)), true) bilingualLinesC11 = ((none : Option (List String)), true) := rfl

theorem bilBlockChunk12 :
    List.foldl (blocksStep blockOk) ((none : Option (List String)), true) bilingualLinesC12 = ((none : Option (List String)), true) := rfl

theorem bilBlockChunk13 :
    List.foldl (blocksStep blockOk) ((none : Option (List String)), true) bilingualLinesC13 = ((none : Option (List String)), true) := rfl

theorem bilBlockChunk14 :
    List.foldl (blocksStep blockOk) ((none : Option (List String)), true) bilingualLinesC14 = ((none : Option (List String)), true) := rfl

theorem bilBlockChunk15 :
    List.foldl (blocksStep blockOk) ((none : Option (List String)), true) bilingualLinesC15 = ((none : Option (List String)), true) := rfl

/- Full doc-block translation scan of the bilingual file. -/
theorem bilingualBlockScan :
    List.foldl (blocksStep blockOk) ((none : Option (List String)), true) bilingualLines = ((none : Option (List String)), true) := by
  rw [show bilingualLines = bilingualLinesC0 ++ (bilingualLinesC1 ++ (bilingualLinesC2 ++ (bilingualLinesC3 ++ (bilingualLinesC4 ++ (bilingualLinesC5 ++ (bilingualLinesC6 ++ (bilingualLinesC7 ++ (bilingualLinesC8 ++ (bilingualLinesC9 ++ (bilingualLinesC10 ++ (bilingualLinesC11 ++ (bilingualLinesC12 ++ (bilingualLinesC13 ++ (bilingualLinesC14 ++ (bilingualLinesC15))))))))))))))) from rfl]
  rw [List.foldl_append, bilBlockChunk0]
  rw [List.foldl_append, bilBlockChunk1]
  rw [List.foldl_append, bilBlockChunk2]
  rw [List.foldl_append, bilBlockChunk3]
  rw [List.foldl_append, bilBlockChunk4]
  rw [List.foldl_append, bilBlockChunk5]
  rw [List.foldl_append, bilBlockChunk6]
  rw [List.foldl_append, bilBlockChunk7]
  rw [List.foldl_append, bilBlockChunk8]
  rw [List.foldl_append, bilBlockChunk9]
  rw [List.foldl_append, bilBlockChunk10]
  rw [List.foldl_append, bilBlockChunk11]
  rw [List.foldl_append, bilBlockChunk12]
  rw [List.foldl_append, bilBlockChunk13]
  rw [List.foldl_append, bilBlockChunk14]
  exact bilBlockChunk15

theorem pubI18nChunk0 :
    List.foldl i18nSeenStep false publishedLinesC0 = false := rfl

theorem pubI18nChunk1 :
    List.foldl i18nSeenStep false publishedLinesC1 = false := rfl

theorem pubI18nChunk2 :
    List.foldl i18nSeenStep false publishedLinesC2 = false := rfl

theorem pubI18nChunk3 :
    List.foldl i18nSeenStep false publishedLinesC3 = false := rfl

theorem pubI18nChunk4 :
    List.foldl i18nSeenStep false publishedLinesC4 = false := rfl

theorem pubI18nChunk5 :
    List.foldl i18nSeenStep false publishedLinesC5 = false := rfl

theorem pubI18nChunk6 :
    List.foldl i18nSeenStep false publishedLinesC6 = false := rfl

theorem pubI18nChunk7 :
    List.foldl i18nSeenStep false publishedLinesC7 = false := rfl

theorem pubI18nChunk8 :
    List.foldl i18nSeenStep false publishedLinesC8 = false := rfl

theorem pubI18nChunk9 :
    List.foldl i18nSeenStep false publishedLinesC9 = false := rfl

theorem pubI18nChunk10 :
    List.foldl i18nSeenStep false publishedLinesC10 = false := rfl

theorem pubI18nChunk11 :
    List.foldl i18nSeenStep false publishedLinesC11 = false := rfl

theorem pubI18nChunk12 :
    List.foldl i18nSeenStep false publishedLinesC12 = false := rfl

theorem pubI18nChunk13 :
    List.foldl i18nSeenStep false publishedLinesC13 = false := rfl

/- Full i18n-marker scan of the published file. -/
theorem publishedI18nScan :
    List.foldl i18nSeenStep false publishedLines = false := by
  rw [show publishedLines = publishedLinesC0 ++ (publishedLinesC1 ++ (publishedLinesC2 ++ (publishedLinesC3 ++ (publishedLinesC4 ++ (publishedLinesC5 ++ (publishedLinesC6 ++ (publishedLinesC7 ++ (publishedLinesC8 ++ (publishedLinesC9 ++ (publishedLinesC10 ++ (publishedLinesC11 ++ (publishedLinesC12 ++ (publishedLinesC13))))))))))))) from rfl]
  rw [List.foldl_append, pubI18nChunk0]
  rw [List.foldl_append, pubI18nChunk1]
  rw [List.foldl_append, pubI18nChunk2]
  rw [List.foldl_append, pubI18nChunk3]
  rw [List.foldl_append, pubI18nChunk4]
  rw [List.foldl_append, pubI18nChunk5]
  rw [List.foldl_append, pubI18nChunk6]
  rw [List.foldl_append, pubI18nChunk7]
  rw [List.foldl_append, pubI18nChunk8]
  rw [List.foldl_append, pubI18nChunk9]
  rw [List.foldl_append, pubI18nChunk10]
  rw [List.foldl_append, pubI18nChunk11]
  rw [List.foldl_append, pubI18nChunk12]
  exact pubI18nChunk13
/- README-level definitions. -/

/- The README's command bullet lines: list items that invoke a yarn command. -/
def yarnBullets : List String :=
  readmeLines.filter (fun l => leadsWith "- \x60yarn ".data l.data)

/- The format bullet: the formatter command, prettier default configuration,
   run automatically on git commit. -/
def fmtBulletOk (l : String) : Bool :=
  lineHas "\x60yarn format\x60" l && lineHas "prettier" l &&
  lineHas "git commit" l && lineHas "自动运行" l

/- The build bullet: the documentation-site command, previewed by opening the
   generated HTML entry point in a browser. -/
def buildBulletOk (l : String) : Bool :=
  lineHas "\x60yarn build\x60" l && lineHas "typedoc" l &&
  lineHas "./typedoc/index.html" l && lineHas "浏览器" l

/-- Claim C5: the README documents exactly two command-line invocations:
`yarn format`, which runs the prettier text formatter and is run automatically
on `git commit`, and `yarn build`, which generates the typedoc static site
whose result is viewed by opening `./typedoc/index.html` in a browser. -/
theorem C5_two_commands :
    yarnBullets.length = 2 ∧
    (yarnBullets.get? 0).map fmtBulletOk = some true ∧
    (yarnBullets.get? 1).map buildBulletOk = some true := by
  refine ⟨rfl, rfl, rfl⟩

/-- Modelled from the spec: the repository's own formatter configuration.
The formatting pass is delegated entirely to the external formatter with its
default configuration, so the repository defines no configuration override
(the package manifest and any dotfile configuration are not among the source
files; the spec states the delegation uses the default configuration). -/
def prettierConfigOverride : Option String := none

/-- Claim C6: the README states that all file formatting uses prettier's
default configuration, and the repository defines no custom formatter
configuration of its own. -/
theorem C6_prettier_default :
    readmeLines.any (lineHas "所有文件格式均使用 prettier 的默认配置") = true ∧
    prettierConfigOverride = none := by
  refine ⟨rfl, rfl⟩

/-- Claim C10: the enum `Deno.SeekMode` fixes SEEK_START = 0, SEEK_CURRENT = 1
and SEEK_END = 2, with the same numeric values in its declaration in the
bilingual annotated file and in the published Chinese-only file. -/
theorem C10_seek_mode_values :
    (enumLinesOf "SeekMode" bilingualLines ==
      some ["SEEK_START = 0,", "SEEK_CURRENT = 1,", "SEEK_END = 2,"]) = true ∧
    (enumLinesOf "SeekMode" publishedLines ==
      some ["SEEK_START = 0,", "SEEK_CURRENT = 1,", "SEEK_END = 2,"]) = true := by
  refine ⟨rfl, rfl⟩
/-- Claim C7: both declaration files supply only ambient declaration text: each
file opens with a copyright comment line, a blank line, and the two
triple-slash reference directives (`no-default-lib="true"` and `lib="esnext"`)
that govern how external tooling loads it, and the comment-free code of each
file is a single `declare namespace Deno` block. -/
theorem C7_ambient_namespace :
    bilingualLines.get? 0 =
      some "// Copyright 2018-2020 the Deno authors. All rights reserved. MIT license." ∧
    bilingualLines.get? 1 = some "" ∧
    bilingualLines.get? 2 = some "/// <reference no-default-lib=\"true\" />" ∧
    bilingualLines.get? 3 = some "/// <reference lib=\"esnext\" />" ∧
    publishedLines.get? 0 =
      some "// Copyright 2018-2020 the Deno authors. All rights reserved. MIT license." ∧
    publishedLines.get? 1 = some "" ∧
    publishedLines.get? 2 = some "/// <reference no-default-lib=\"true\" />" ∧
    publishedLines.get? 3 = some "/// <reference lib=\"esnext\" />" ∧
    singleAmbientNs bilingualLines = true ∧
    singleAmbientNs publishedLines = true := by
  refine ⟨rfl, rfl, rfl, rfl, rfl, rfl, rfl, rfl, ?_, ?_⟩
  · unfold singleAmbientNs
    rw [bilingualDeclScan]
    rfl
  · unfold singleAmbientNs
    rw [publishedDeclScan]
    rfl

/-- Claim C1 counterexample: the doc-comment block `/** **UNSTABLE** */` of the
bilingual annotated file carries no `@i18n` annotation, so not every doc-comment
block of that file passes the translation-completeness predicate. -/
theorem C1_counterexample :
    (docBlocks bilingualLines).contains ["  /** **UNSTABLE** */"] = true ∧
    blockTranslated ["  /** **UNSTABLE** */"] = false ∧
    (docBlocks bilingualLines).all blockTranslated = false := by
  refine ⟨rfl, rfl, rfl⟩

/-- Claim C1 (amended): every doc-comment block of the bilingual annotated file
either carries a Chinese `@i18n` annotation whose text is non-empty, or is one
of the four untranslated blocks (`/** **UNSTABLE** */`, the `Reader`-iterator
note, the `UDPConn` address note, and the `not sure if broken or not` note). -/
theorem C1_translation_completeness :
    (docBlocks bilingualLines).all blockOk = true := by
  have h := blocksStep_foldl blockOk bilingualLines none true
  rw [bilingualBlockScan] at h
  simpa [docBlocks] using h.symm

/-- Claim C4 counterexample: the bilingual file exports `class File` (and the
variable `let pid`), and `class` (and `let`) are not among the declaration
kinds the specification enumerates (interfaces, enums, function signatures,
union types), so not every exported member of the `Deno` namespace belongs to
the enumerated kinds. -/
theorem C4_counterexample :
    (membersOf bilingualLines).contains ("class", "File") = true ∧
    (membersOf bilingualLines).contains ("let", "pid") = true ∧
    specMemberKinds.contains "class" = false ∧
    specMemberKinds.contains "let" = false ∧
    (membersOf bilingualLines).all (fun m => specMemberKinds.contains m.1) =
      false := by
  refine ⟨rfl, rfl, rfl, rfl, rfl⟩

/-- Claim C4 (amended): every exported member of the `Deno` namespace, in both
declaration files, is declared as one of: a `let` or `const` variable, an
interface, a class, an enum, a type alias, or a function signature. -/
theorem C4_member_kinds :
    (membersOf bilingualLines).all kindOk = true ∧
    (membersOf publishedLines).all kindOk = true := by
  constructor
  · have h := memScan_all bilingualLines false true 0 false false
    rw [bilingualMemScan] at h
    simpa [membersOf, codeLines] using h.symm
  · have h := memScan_all publishedLines false true 0 false false
    rw [publishedMemScan] at h
    simpa [membersOf, codeLines] using h.symm

/-- Claim C8 counterexample: at position 25 of the exported-member lists the
bilingual file declares `interface ReaderSync` while the published file
declares `interface SyncReader`, so the two files do not declare the same
members in the same order. -/
theorem C8_counterexample :
    (membersOf bilingualLines).get? 25 = some ("interface", "ReaderSync") ∧
    (membersOf publishedLines).get? 25 = some ("interface", "SyncReader") := by
  refine ⟨rfl, rfl⟩

/-- Claim C8 (amended): both declaration files export 171 members of namespace
`Deno`, but the declared surfaces differ: the member lists are unequal (at
position 25 one has `interface ReaderSync`, the other `interface SyncReader`),
the bilingual file's `interface ReaderSync` does not occur among the published
file's members, and the published file's `interface SyncReader` does not occur
among the bilingual file's members (the files track different runtime
versions). -/
theorem C8_member_lists :
    (membersOf bilingualLines).length = 171 ∧
    (membersOf publishedLines).length = 171 ∧
    (membersOf bilingualLines == membersOf publishedLines) = false ∧
    (membersOf publishedLines).any isRS = false ∧
    (membersOf bilingualLines).any isSR = false := by
  refine ⟨?_, ?_, ?_, ?_, ?_⟩
  · have h := memScan_count bilingualLines false true 0 false false
    rw [bilingualMemScan] at h
    simpa [membersOf, codeLines] using h.symm
  · have h := memScan_count publishedLines false true 0 false false
    rw [publishedMemScan] at h
    simpa [membersOf, codeLines] using h.symm
  · rfl
  · have h := memScan_anyRS publishedLines false true 0 false false
    rw [publishedMemScan] at h
    simpa [membersOf, codeLines] using h.symm
  · have h := memScan_anySR bilingualLines false true 0 false false
    rw [bilingualMemScan] at h
    simpa [membersOf, codeLines] using h.symm

/-- Claim C9 counterexample: the published file's doc-comment block
`/** **UNSTABLE** */` contains no Chinese character at all — it is untranslated
English — so not every doc comment of the published file is the Chinese
translation with the English text removed. -/
theorem C9_counterexample :
    (docBlocks publishedLines).contains ["  /** **UNSTABLE** */"] = true ∧
    hasCJK ["  /** **UNSTABLE** */"] = false ∧
    (docBlocks publishedLines).all hasCJK = false := by
  refine ⟨rfl, rfl, rfl⟩

/-- Claim C9 (amended): the published Chinese-only declaration file contains no
`@i18n` marker on any line, while the bilingual annotated file does contain
`@i18n` markers, so the `@i18n` pairing convention exists only in the bilingual
source file; however, some doc comments of the published file remain in English
rather than being Chinese translations. -/
theorem C9_no_i18n_marker :
    linesAnyI18n publishedLines = false ∧
    linesAnyI18n bilingualLines = true := by
  constructor
  · have h := i18nSeenStep_foldl publishedLines false
    rw [publishedI18nScan] at h
    simpa using h.symm
  · rfl
